import Mathlib

/-!
# BHy sensor-hub driver: FIFO frame decoding and ring-buffer distribution

A shallow embedding of the frame decoder, the two frame queues, the
pedometer bookkeeping, the interrupt pump, the firmware load, the paged
parameter protocol and the configuration files of
drivers/misc/bhy/bhy_core.c, followed by theorems about them.  Bytes,
indices and counters are natural numbers; signed quantities are integers.
The constants of bhy_core.h and bhy_host_interface.h are not part of the
sources at hand and are taken as parameters; what the bus and the file
system answer is an argument of each function that asks them.
-/

namespace Bhy

/-! ## Constants of bhy_core.h -/

/-- The fields of struct pedometer_data that bhy_core.c reads; a pedometer frame carries one such
record. -/
structure pedometer_data where
  data_index : Nat
  walk_count : Nat
  run_count : Nat
  step_status : Nat
  start_time : Nat
  end_time : Nat
deriving DecidableEq, Repr, Inhabited

/-- Modelled from the spec: the constants and the record layout declared in bhy_core.h, which is
absent from the sources; every definition below takes them as the parameter H. -/
structure bhy_consts where
  BHY_SENSOR_HANDLE_ZERO : Nat
  BHY_SENSOR_HANDLE_ACCELEROMETER : Nat
  BHY_SENSOR_HANDLE_GEOMAGNETIC_FIELD : Nat
  BHY_SENSOR_HANDLE_ORIENTATION : Nat
  BHY_SENSOR_HANDLE_GYROSCOPE : Nat
  BHY_SENSOR_HANDLE_LIGHT : Nat
  BHY_SENSOR_HANDLE_PRESSURE : Nat
  BHY_SENSOR_HANDLE_TEMPERATURE : Nat
  BHY_SENSOR_HANDLE_PROXIMITY : Nat
  BHY_SENSOR_HANDLE_GRAVITY : Nat
  BHY_SENSOR_HANDLE_LINEAR_ACCELERATION : Nat
  BHY_SENSOR_HANDLE_ROTATION_VECTOR : Nat
  BHY_SENSOR_HANDLE_RELATIVE_HUMIDITY : Nat
  BHY_SENSOR_HANDLE_AMBIENT_TEMPERATURE : Nat
  BHY_SENSOR_HANDLE_MAGNETIC_FIELD_UNCALIBRATED : Nat
  BHY_SENSOR_HANDLE_GAME_ROTATION_VECTOR : Nat
  BHY_SENSOR_HANDLE_GYROSCOPE_UNCALIBRATED : Nat
  BHY_SENSOR_HANDLE_SIGNIFICANT_MOTION : Nat
  BHY_SENSOR_HANDLE_STEP_DETECTOR : Nat
  BHY_SENSOR_HANDLE_STEP_COUNTER : Nat
  BHY_SENSOR_HANDLE_GEOMAGNETIC_ROTATION_VECTOR : Nat
  BHY_SENSOR_HANDLE_HEART_RATE : Nat
  BHY_SENSOR_HANDLE_ACCELEROMETER_WU : Nat
  BHY_SENSOR_HANDLE_GEOMAGNETIC_FIELD_WU : Nat
  BHY_SENSOR_HANDLE_ORIENTATION_WU : Nat
  BHY_SENSOR_HANDLE_GYROSCOPE_WU : Nat
  BHY_SENSOR_HANDLE_LIGHT_WU : Nat
  BHY_SENSOR_HANDLE_PRESSURE_WU : Nat
  BHY_SENSOR_HANDLE_TEMPERATURE_WU : Nat
  BHY_SENSOR_HANDLE_PROXIMITY_WU : Nat
  BHY_SENSOR_HANDLE_GRAVITY_WU : Nat
  BHY_SENSOR_HANDLE_LINEAR_ACCELERATION_WU : Nat
  BHY_SENSOR_HANDLE_ROTATION_VECTOR_WU : Nat
  BHY_SENSOR_HANDLE_RELATIVE_HUMIDITY_WU : Nat
  BHY_SENSOR_HANDLE_AMBIENT_TEMPERATURE_WU : Nat
  BHY_SENSOR_HANDLE_MAGNETIC_FIELD_UNCALIBRATED_WU : Nat
  BHY_SENSOR_HANDLE_GAME_ROTATION_VECTOR_WU : Nat
  BHY_SENSOR_HANDLE_GYROSCOPE_UNCALIBRATED_WU : Nat
  BHY_SENSOR_HANDLE_STEP_DETECTOR_WU : Nat
  BHY_SENSOR_HANDLE_STEP_COUNTER_WU : Nat
  BHY_SENSOR_HANDLE_GEOMAGNETIC_ROTATION_VECTOR_WU : Nat
  BHY_SENSOR_HANDLE_HEART_RATE_WU : Nat
  BHY_SENSOR_HANDLE_TILT_DETECTOR : Nat
  BHY_SENSOR_HANDLE_WAKE_GESTURE : Nat
  BHY_SENSOR_HANDLE_GLANCE_GESTURE : Nat
  BHY_SENSOR_HANDLE_PICK_UP_GESTURE : Nat
  BHY_SENSOR_HANDLE_BSX_C : Nat
  BHY_SENSOR_HANDLE_BSX_B : Nat
  BHY_SENSOR_HANDLE_BSX_A : Nat
  BHY_SENSOR_HANDLE_TIMESTAMP_LSW : Nat
  BHY_SENSOR_HANDLE_TIMESTAMP_MSW : Nat
  BHY_SENSOR_HANDLE_META_EVENT : Nat
  BHY_SENSOR_HANDLE_TIMESTAMP_LSW_WU : Nat
  BHY_SENSOR_HANDLE_TIMESTAMP_MSW_WU : Nat
  BHY_SENSOR_HANDLE_META_EVENT_WU : Nat
  BHY_SENSOR_HANDLE_ACTIVITY_RECOGNITION : Nat
  BHY_SENSOR_HANDLE_DEBUG : Nat
  BHY_SENSOR_HANDLE_CUSTOM_1 : Nat
  BHY_SENSOR_HANDLE_CUSTOM_2 : Nat
  BHY_SENSOR_HANDLE_CUSTOM_3 : Nat
  BHY_SENSOR_HANDLE_CUSTOM_4 : Nat
  BHY_SENSOR_HANDLE_CUSTOM_5 : Nat
  BHY_SENSOR_HANDLE_CUSTOM_1_WU : Nat
  BHY_SENSOR_HANDLE_CUSTOM_2_WU : Nat
  BHY_SENSOR_HANDLE_CUSTOM_3_WU : Nat
  BHY_SENSOR_HANDLE_CUSTOM_4_WU : Nat
  BHY_SENSOR_HANDLE_CUSTOM_5_WU : Nat
  BHY_SENSOR_DATA_LEN_ACCELEROMETER : Nat
  BHY_SENSOR_DATA_LEN_GEOMAGNETIC_FIELD : Nat
  BHY_SENSOR_DATA_LEN_ORIENTATION : Nat
  BHY_SENSOR_DATA_LEN_GYROSCOPE : Nat
  BHY_SENSOR_DATA_LEN_LIGHT : Nat
  BHY_SENSOR_DATA_LEN_PRESSURE : Nat
  BHY_SENSOR_DATA_LEN_TEMPERATURE : Nat
  BHY_SENSOR_DATA_LEN_PROXIMITY : Nat
  BHY_SENSOR_DATA_LEN_GRAVITY : Nat
  BHY_SENSOR_DATA_LEN_LINEAR_ACCELERATION : Nat
  BHY_SENSOR_DATA_LEN_ROTATION_VECTOR : Nat
  BHY_SENSOR_DATA_LEN_RELATIVE_HUMIDITY : Nat
  BHY_SENSOR_DATA_LEN_AMBIENT_TEMPERATURE : Nat
  BHY_SENSOR_DATA_LEN_MAGNETIC_FIELD_UNCALIBRATED : Nat
  BHY_SENSOR_DATA_LEN_GAME_ROTATION_VECTOR : Nat
  BHY_SENSOR_DATA_LEN_GYROSCOPE_UNCALIBRATED : Nat
  BHY_SENSOR_DATA_LEN_SIGNIFICANT_MOTION : Nat
  BHY_SENSOR_DATA_LEN_STEP_DETECTOR : Nat
  BHY_SENSOR_DATA_LEN_STEP_COUNTER : Nat
  BHY_SENSOR_DATA_LEN_GEOMAGNETIC_ROTATION_VECTOR : Nat
  BHY_SENSOR_DATA_LEN_HEART_RATE : Nat
  BHY_SENSOR_DATA_LEN_ACCELEROMETER_WU : Nat
  BHY_SENSOR_DATA_LEN_GEOMAGNETIC_FIELD_WU : Nat
  BHY_SENSOR_DATA_LEN_ORIENTATION_WU : Nat
  BHY_SENSOR_DATA_LEN_GYROSCOPE_WU : Nat
  BHY_SENSOR_DATA_LEN_LIGHT_WU : Nat
  BHY_SENSOR_DATA_LEN_PRESSURE_WU : Nat
  BHY_SENSOR_DATA_LEN_TEMPERATURE_WU : Nat
  BHY_SENSOR_DATA_LEN_PROXIMITY_WU : Nat
  BHY_SENSOR_DATA_LEN_GRAVITY_WU : Nat
  BHY_SENSOR_DATA_LEN_LINEAR_ACCELERATION_WU : Nat
  BHY_SENSOR_DATA_LEN_ROTATION_VECTOR_WU : Nat
  BHY_SENSOR_DATA_LEN_RELATIVE_HUMIDITY_WU : Nat
  BHY_SENSOR_DATA_LEN_AMBIENT_TEMPERATURE_WU : Nat
  BHY_SENSOR_DATA_LEN_MAGNETIC_FIELD_UNCALIBRATED_WU : Nat
  BHY_SENSOR_DATA_LEN_GAME_ROTATION_VECTOR_WU : Nat
  BHY_SENSOR_DATA_LEN_GYROSCOPE_UNCALIBRATED_WU : Nat
  BHY_SENSOR_DATA_LEN_STEP_DETECTOR_WU : Nat
  BHY_SENSOR_DATA_LEN_STEP_COUNTER_WU : Nat
  BHY_SENSOR_DATA_LEN_GEOMAGNETIC_ROTATION_VECTOR_WU : Nat
  BHY_SENSOR_DATA_LEN_HEART_RATE_WU : Nat
  BHY_SENSOR_DATA_LEN_TILT_DETECTOR : Nat
  BHY_SENSOR_DATA_LEN_WAKE_GESTURE : Nat
  BHY_SENSOR_DATA_LEN_GLANCE_GESTURE : Nat
  BHY_SENSOR_DATA_LEN_PICK_UP_GESTURE : Nat
  BHY_SENSOR_DATA_LEN_BSX_C : Nat
  BHY_SENSOR_DATA_LEN_BSX_B : Nat
  BHY_SENSOR_DATA_LEN_BSX_A : Nat
  BHY_SENSOR_DATA_LEN_TIMESTAMP_LSW : Nat
  BHY_SENSOR_DATA_LEN_TIMESTAMP_MSW : Nat
  BHY_SENSOR_DATA_LEN_META_EVENT : Nat
  BHY_SENSOR_DATA_LEN_TIMESTAMP_LSW_WU : Nat
  BHY_SENSOR_DATA_LEN_TIMESTAMP_MSW_WU : Nat
  BHY_SENSOR_DATA_LEN_META_EVENT_WU : Nat
  BHY_SENSOR_DATA_LEN_ACTIVITY_RECOGNITION : Nat
  BHY_SENSOR_DATA_LEN_DEBUG : Nat
  BHY_SENSOR_DATA_LEN_CUSTOM_1 : Nat
  BHY_SENSOR_DATA_LEN_CUSTOM_2 : Nat
  BHY_SENSOR_DATA_LEN_CUSTOM_3 : Nat
  BHY_SENSOR_DATA_LEN_CUSTOM_4 : Nat
  BHY_SENSOR_DATA_LEN_CUSTOM_5 : Nat
  BHY_SENSOR_DATA_LEN_CUSTOM_1_WU : Nat
  BHY_SENSOR_DATA_LEN_CUSTOM_2_WU : Nat
  BHY_SENSOR_DATA_LEN_CUSTOM_3_WU : Nat
  BHY_SENSOR_DATA_LEN_CUSTOM_4_WU : Nat
  BHY_SENSOR_DATA_LEN_CUSTOM_5_WU : Nat
  PEDOMETER_SENSOR : Nat
  META_EVENT_INITIALIZED : Nat
  META_EVENT_SELF_TEST_RESULTS : Nat
  SELF_TEST_RESULT_INDEX_ACC : Nat
  SELF_TEST_RESULT_INDEX_MAG : Nat
  SELF_TEST_RESULT_INDEX_GYRO : Nat
  BHY_FRAME_SIZE : Nat
  BHY_FRAME_SIZE_AR : Nat
  BHY_FIFO_LEN_MAX : Nat
  LOGGING_DONE : Nat
  NEW_STEP : Nat
  START_WALK : Nat
  STOP_WALK : Nat
  FIRST_STEP : Nat
  SIZEOF_FIFO_FRAME : Nat
  SIZEOF_ACC_BUFFER : Nat
  pedometer_of_bytes : List Nat → pedometer_data

/-- The case labels of the switch in bhy_get_sensor_type_data_len, in source order, each with the
length it returns and the value it leaves in report_to_ar. -/
def sensor_type_cases (H : bhy_consts) : List (Nat × Nat × Nat) :=
  [(H.BHY_SENSOR_HANDLE_ACCELEROMETER, H.BHY_SENSOR_DATA_LEN_ACCELEROMETER, 0),
   (H.BHY_SENSOR_HANDLE_GEOMAGNETIC_FIELD, H.BHY_SENSOR_DATA_LEN_GEOMAGNETIC_FIELD, 0),
   (H.BHY_SENSOR_HANDLE_ORIENTATION, H.BHY_SENSOR_DATA_LEN_ORIENTATION, 0),
   (H.BHY_SENSOR_HANDLE_GYROSCOPE, H.BHY_SENSOR_DATA_LEN_GYROSCOPE, 0),
   (H.BHY_SENSOR_HANDLE_LIGHT, H.BHY_SENSOR_DATA_LEN_LIGHT, 0),
   (H.BHY_SENSOR_HANDLE_PRESSURE, H.BHY_SENSOR_DATA_LEN_PRESSURE, 0),
   (H.BHY_SENSOR_HANDLE_TEMPERATURE, H.BHY_SENSOR_DATA_LEN_TEMPERATURE, 0),
   (H.BHY_SENSOR_HANDLE_PROXIMITY, H.BHY_SENSOR_DATA_LEN_PROXIMITY, 0),
   (H.BHY_SENSOR_HANDLE_GRAVITY, H.BHY_SENSOR_DATA_LEN_GRAVITY, 0),
   (H.BHY_SENSOR_HANDLE_LINEAR_ACCELERATION, H.BHY_SENSOR_DATA_LEN_LINEAR_ACCELERATION, 0),
   (H.BHY_SENSOR_HANDLE_ROTATION_VECTOR, H.BHY_SENSOR_DATA_LEN_ROTATION_VECTOR, 0),
   (H.BHY_SENSOR_HANDLE_RELATIVE_HUMIDITY, H.BHY_SENSOR_DATA_LEN_RELATIVE_HUMIDITY, 0),
   (H.BHY_SENSOR_HANDLE_AMBIENT_TEMPERATURE, H.BHY_SENSOR_DATA_LEN_AMBIENT_TEMPERATURE, 0),
   (H.BHY_SENSOR_HANDLE_MAGNETIC_FIELD_UNCALIBRATED, H.BHY_SENSOR_DATA_LEN_MAGNETIC_FIELD_UNCALIBRATED, 0),
   (H.BHY_SENSOR_HANDLE_GAME_ROTATION_VECTOR, H.BHY_SENSOR_DATA_LEN_GAME_ROTATION_VECTOR, 0),
   (H.BHY_SENSOR_HANDLE_GYROSCOPE_UNCALIBRATED, H.BHY_SENSOR_DATA_LEN_GYROSCOPE_UNCALIBRATED, 0),
   (H.BHY_SENSOR_HANDLE_SIGNIFICANT_MOTION, H.BHY_SENSOR_DATA_LEN_SIGNIFICANT_MOTION, 0),
   (H.BHY_SENSOR_HANDLE_STEP_DETECTOR, H.BHY_SENSOR_DATA_LEN_STEP_DETECTOR, 0),
   (H.BHY_SENSOR_HANDLE_STEP_COUNTER, H.BHY_SENSOR_DATA_LEN_STEP_COUNTER, 0),
   (H.BHY_SENSOR_HANDLE_GEOMAGNETIC_ROTATION_VECTOR, H.BHY_SENSOR_DATA_LEN_GEOMAGNETIC_ROTATION_VECTOR, 0),
   (H.BHY_SENSOR_HANDLE_HEART_RATE, H.BHY_SENSOR_DATA_LEN_HEART_RATE, 0),
   (H.BHY_SENSOR_HANDLE_ACCELEROMETER_WU, H.BHY_SENSOR_DATA_LEN_ACCELEROMETER_WU, 0),
   (H.BHY_SENSOR_HANDLE_GEOMAGNETIC_FIELD_WU, H.BHY_SENSOR_DATA_LEN_GEOMAGNETIC_FIELD_WU, 0),
   (H.BHY_SENSOR_HANDLE_ORIENTATION_WU, H.BHY_SENSOR_DATA_LEN_ORIENTATION_WU, 0),
   (H.BHY_SENSOR_HANDLE_GYROSCOPE_WU, H.BHY_SENSOR_DATA_LEN_GYROSCOPE_WU, 0),
   (H.BHY_SENSOR_HANDLE_LIGHT_WU, H.BHY_SENSOR_DATA_LEN_LIGHT_WU, 0),
   (H.BHY_SENSOR_HANDLE_PRESSURE_WU, H.BHY_SENSOR_DATA_LEN_PRESSURE_WU, 0),
   (H.BHY_SENSOR_HANDLE_TEMPERATURE_WU, H.BHY_SENSOR_DATA_LEN_TEMPERATURE_WU, 0),
   (H.BHY_SENSOR_HANDLE_PROXIMITY_WU, H.BHY_SENSOR_DATA_LEN_PROXIMITY_WU, 0),
   (H.BHY_SENSOR_HANDLE_GRAVITY_WU, H.BHY_SENSOR_DATA_LEN_GRAVITY_WU, 0),
   (H.BHY_SENSOR_HANDLE_LINEAR_ACCELERATION_WU, H.BHY_SENSOR_DATA_LEN_LINEAR_ACCELERATION_WU, 0),
   (H.BHY_SENSOR_HANDLE_ROTATION_VECTOR_WU, H.BHY_SENSOR_DATA_LEN_ROTATION_VECTOR_WU, 0),
   (H.BHY_SENSOR_HANDLE_RELATIVE_HUMIDITY_WU, H.BHY_SENSOR_DATA_LEN_RELATIVE_HUMIDITY_WU, 0),
   (H.BHY_SENSOR_HANDLE_AMBIENT_TEMPERATURE_WU, H.BHY_SENSOR_DATA_LEN_AMBIENT_TEMPERATURE_WU, 0),
   (H.BHY_SENSOR_HANDLE_MAGNETIC_FIELD_UNCALIBRATED_WU, H.BHY_SENSOR_DATA_LEN_MAGNETIC_FIELD_UNCALIBRATED_WU, 0),
   (H.BHY_SENSOR_HANDLE_GAME_ROTATION_VECTOR_WU, H.BHY_SENSOR_DATA_LEN_GAME_ROTATION_VECTOR_WU, 0),
   (H.BHY_SENSOR_HANDLE_GYROSCOPE_UNCALIBRATED_WU, H.BHY_SENSOR_DATA_LEN_GYROSCOPE_UNCALIBRATED_WU, 0),
   (H.BHY_SENSOR_HANDLE_STEP_DETECTOR_WU, H.BHY_SENSOR_DATA_LEN_STEP_DETECTOR_WU, 0),
   (H.BHY_SENSOR_HANDLE_STEP_COUNTER_WU, H.BHY_SENSOR_DATA_LEN_STEP_COUNTER_WU, 0),
   (H.BHY_SENSOR_HANDLE_GEOMAGNETIC_ROTATION_VECTOR_WU, H.BHY_SENSOR_DATA_LEN_GEOMAGNETIC_ROTATION_VECTOR_WU, 0),
   (H.BHY_SENSOR_HANDLE_HEART_RATE_WU, H.BHY_SENSOR_DATA_LEN_HEART_RATE_WU, 0),
   (H.BHY_SENSOR_HANDLE_TILT_DETECTOR, H.BHY_SENSOR_DATA_LEN_TILT_DETECTOR, 0),
   (H.BHY_SENSOR_HANDLE_WAKE_GESTURE, H.BHY_SENSOR_DATA_LEN_WAKE_GESTURE, 0),
   (H.BHY_SENSOR_HANDLE_GLANCE_GESTURE, H.BHY_SENSOR_DATA_LEN_GLANCE_GESTURE, 0),
   (H.BHY_SENSOR_HANDLE_PICK_UP_GESTURE, H.BHY_SENSOR_DATA_LEN_PICK_UP_GESTURE, 0),
   (H.BHY_SENSOR_HANDLE_BSX_C, H.BHY_SENSOR_DATA_LEN_BSX_C, 0),
   (H.BHY_SENSOR_HANDLE_BSX_B, H.BHY_SENSOR_DATA_LEN_BSX_B, 0),
   (H.BHY_SENSOR_HANDLE_BSX_A, H.BHY_SENSOR_DATA_LEN_BSX_A, 0),
   (H.BHY_SENSOR_HANDLE_TIMESTAMP_LSW, H.BHY_SENSOR_DATA_LEN_TIMESTAMP_LSW, 1),
   (H.BHY_SENSOR_HANDLE_TIMESTAMP_MSW, H.BHY_SENSOR_DATA_LEN_TIMESTAMP_MSW, 1),
   (H.BHY_SENSOR_HANDLE_META_EVENT, H.BHY_SENSOR_DATA_LEN_META_EVENT, 1),
   (H.BHY_SENSOR_HANDLE_TIMESTAMP_LSW_WU, H.BHY_SENSOR_DATA_LEN_TIMESTAMP_LSW_WU, 1),
   (H.BHY_SENSOR_HANDLE_TIMESTAMP_MSW_WU, H.BHY_SENSOR_DATA_LEN_TIMESTAMP_MSW_WU, 1),
   (H.BHY_SENSOR_HANDLE_META_EVENT_WU, H.BHY_SENSOR_DATA_LEN_META_EVENT_WU, 1),
   (H.BHY_SENSOR_HANDLE_ACTIVITY_RECOGNITION, H.BHY_SENSOR_DATA_LEN_ACTIVITY_RECOGNITION, 1),
   (H.BHY_SENSOR_HANDLE_DEBUG, H.BHY_SENSOR_DATA_LEN_DEBUG, 0),
   (H.BHY_SENSOR_HANDLE_CUSTOM_1, H.BHY_SENSOR_DATA_LEN_CUSTOM_1, 0),
   (H.BHY_SENSOR_HANDLE_CUSTOM_2, H.BHY_SENSOR_DATA_LEN_CUSTOM_2, 0),
   (H.BHY_SENSOR_HANDLE_CUSTOM_3, H.BHY_SENSOR_DATA_LEN_CUSTOM_3, 0),
   (H.BHY_SENSOR_HANDLE_CUSTOM_4, H.BHY_SENSOR_DATA_LEN_CUSTOM_4, 0),
   (H.BHY_SENSOR_HANDLE_CUSTOM_5, H.BHY_SENSOR_DATA_LEN_CUSTOM_5, 0),
   (H.BHY_SENSOR_HANDLE_CUSTOM_1_WU, H.BHY_SENSOR_DATA_LEN_CUSTOM_1_WU, 0),
   (H.BHY_SENSOR_HANDLE_CUSTOM_2_WU, H.BHY_SENSOR_DATA_LEN_CUSTOM_2_WU, 0),
   (H.BHY_SENSOR_HANDLE_CUSTOM_3_WU, H.BHY_SENSOR_DATA_LEN_CUSTOM_3_WU, 0),
   (H.BHY_SENSOR_HANDLE_CUSTOM_4_WU, H.BHY_SENSOR_DATA_LEN_CUSTOM_4_WU, 0),
   (H.BHY_SENSOR_HANDLE_CUSTOM_5_WU, H.BHY_SENSOR_DATA_LEN_CUSTOM_5_WU, 0)]
/-- The errno value EINVAL of the kernel. -/
def EINVAL : Int := 22

/-- The function bhy_get_sensor_type_data_len: the payload length of a sensor type (or -EINVAL for
BHY_SENSOR_HANDLE_ZERO and for every value that is no case label), paired with the value stored
in report_to_ar. -/
def bhy_get_sensor_type_data_len (H : bhy_consts) (sensor_type : Nat) : Int × Nat :=
  if sensor_type = H.BHY_SENSOR_HANDLE_ZERO then (-EINVAL, 0)
  else
    match (sensor_type_cases H).find? (fun c => c.1 == sensor_type) with
    | some c => ((c.2.1 : Int), c.2.2)
    | none => (-EINVAL, 0)

/-- The case labels of the switch are pairwise distinct, as the C language requires. -/
def distinct_case_labels (H : bhy_consts) : Prop :=
  (H.BHY_SENSOR_HANDLE_ZERO :: (sensor_type_cases H).map (fun c => c.1)).Nodup

/-! ## Frames and frame queues -/

/-- A slot of a frame queue (struct fifo_frame): the handle and the data bytes. -/
structure fifo_frame where
  handle : Nat
  data : List Nat
deriving DecidableEq, Repr, Inhabited

/-- A frame queue (struct frame_queue): the slots and the two indices. -/
structure frame_queue where
  frames : List fifo_frame
  head : Nat
  tail : Nat
deriving DecidableEq, Repr, Inhabited

/-- The call memcpy(dst, bytes, len) for len the number of bytes given: the first bytes of dst are
replaced, the rest of dst stays. -/
def memcpy (dst bytes : List Nat) : List Nat :=
  bytes ++ dst.drop bytes.length

/-- The byte data[i] of a buffer. -/
def byte_at (data : List Nat) (i : Nat) : Nat :=
  data.getD i 0

/-- The len bytes of a buffer from index i on, the source of memcpy(dst, &data[i], len). -/
def bytes_from (data : List Nat) (i len : Nat) : List Nat :=
  (List.range len).map (fun k => byte_at data (i + k))

/-- The slot q->frames[q->head]. -/
def head_slot (q : frame_queue) : fifo_frame :=
  q.frames.getD q.head default

/-- Replace the slot q->frames[q->head]. -/
def set_head_slot (q : frame_queue) (f : fifo_frame) : frame_queue :=
  { q with frames := q.frames.set q.head f }

/-- The index update that every producer inlines after filling q->frames[q->head]: head moves on
by one slot and wraps at N - 1; when it then meets tail, tail moves on by one slot as well. -/
def queue_advance (N : Nat) (q : frame_queue) : frame_queue :=
  let head := if q.head = N - 1 then 0 else q.head + 1
  let tail := if head = q.tail then (if q.tail = N - 1 then 0 else q.tail + 1) else q.tail
  { q with head := head, tail := tail }

/-- The push step of the decoders: the handle is stored, the payload is copied to the start of the
data of q->frames[q->head], and the indices are updated. -/
def queue_push (N : Nat) (q : frame_queue) (handle : Nat) (bytes : List Nat) : frame_queue :=
  queue_advance N
    (set_head_slot q { handle := handle, data := memcpy (head_slot q).data bytes })

/-- What a read of a frame attribute gives back: the returned length, the frame copied to the
caller (none when nothing is copied) and the queue afterwards. -/
structure show_result where
  ret : Nat
  buf : Option fifo_frame
  q : frame_queue
deriving DecidableEq, Repr

/-- The body shared by bhy_show_fifo_frame and bhy_show_fifo_frame_ar on a queue of N slots. -/
def show_frame (N sizeof_frame : Nat) (q : frame_queue) : show_result :=
  if q.tail = q.head then { ret := 0, buf := none, q := q }
  else
    { ret := sizeof_frame,
      buf := some (q.frames.getD q.tail default),
      q := { q with tail := if q.tail = N - 1 then 0 else q.tail + 1 } }

/-- Read frames until the queue reports empty; none when fuel runs out first. -/
def drain (N sizeof_frame : Nat) : Nat → frame_queue → Option (List fifo_frame)
  | 0, _ => none
  | fuel + 1, q =>
    match (show_frame N sizeof_frame q).buf with
    | none => some []
    | some f => (drain N sizeof_frame fuel (show_frame N sizeof_frame q).q).map (fun l => f :: l)

/-- The sensor event record of the specification (section 3): the handle with its payload
bytes. -/
structure sensor_event_record where
  handle : Nat
  data : List Nat
deriving DecidableEq, Repr

/-- A frame carries a record: the same handle, and the payload at the start of its data. -/
def frame_carries (f : fifo_frame) (r : sensor_event_record) : Prop :=
  f.handle = r.handle ∧ f.data.take r.data.length = r.data

instance (f : fifo_frame) (r : sensor_event_record) : Decidable (frame_carries f r) := by
  unfold frame_carries; exact inferInstance

/-- Push the records of a list, in order, with no read in between. -/
def push_all (N : Nat) (q : frame_queue) (rs : List sensor_event_record) : frame_queue :=
  rs.foldl (fun q r => queue_push N q r.handle r.data) q

/-! ## The device session state -/

/-- The values of the reset flag. -/
inductive reset_flag_t where
  | RESET_FLAG_TODO
  | RESET_FLAG_READY
  | RESET_FLAG_INITIALIZED
  | RESET_FLAG_SELF_TEST
  | RESET_FLAG_ERROR
deriving DecidableEq, Repr, Inhabited

open reset_flag_t

/-- The fields of struct bhy_client_data that the decoders, the pedometer code, the interrupt pump
and the configuration files use, with three static variables: last_step of process_step,
ram_patch_init, the variable init of bhy_load_ram_patch, and pedometer_count, the variable count
of enable_pedometer. -/
structure bhy_client_data where
  data_queue : frame_queue
  data_queue_ar : frame_queue
  fifo_buf : List Nat
  reset_flag : reset_flag_t
  self_test_result : List Int
  acc_cal : List Int
  acc_buffer : List Nat
  walk_mode : Bool
  last_walk_mode : Bool
  total_step : Nat
  last_total_step : Nat
  current_index : Nat
  start_index : Nat
  pedo : List pedometer_data
  interrupt_mask : Nat
  step_det_enabled : Bool
  step_cnt_enabled : Bool
  step_det : Bool
  step_det_reported : Bool
  step_count : Nat
  last_step_count : Nat
  last_step : Nat
  timestamp_irq : Nat
  irq_count : Nat
  sensor_sel : Nat
  acc_enabled : Bool
  acc_delay : Nat
  tilt_enabled : Bool
  pickup_enabled : Bool
  smd_enabled : Bool
  ar_enabled : Bool
  ram_patch_init : Bool
  pedometer_count : Int
deriving DecidableEq, Repr, Inhabited

/-- The function bhy_show_fifo_frame: read one frame of the main queue. -/
def bhy_show_fifo_frame (H : bhy_consts) (cd : bhy_client_data) : show_result × bhy_client_data :=
  let r := show_frame H.BHY_FRAME_SIZE H.SIZEOF_FIFO_FRAME cd.data_queue
  (r, { cd with data_queue := r.q })

/-- The function bhy_show_fifo_frame_ar: read one frame of the activity-recognition queue. -/
def bhy_show_fifo_frame_ar (H : bhy_consts) (cd : bhy_client_data) :
    show_result × bhy_client_data :=
  let r := show_frame H.BHY_FRAME_SIZE_AR H.SIZEOF_FIFO_FRAME cd.data_queue_ar
  (r, { cd with data_queue_ar := r.q })

/-- The frames a queue holds for its reader, oldest first: the slots from tail up to, and not
including, head, around the end of the array. -/
def queue_contents (q : frame_queue) : List fifo_frame :=
  if q.tail ≤ q.head then (q.frames.take q.head).drop q.tail
  else q.frames.drop q.tail ++ q.frames.take q.head

/-- The queue has its N slots allocated and both indices below N. -/
def queue_ok (N : Nat) (q : frame_queue) : Prop :=
  q.frames.length = N ∧ q.head < N ∧ q.tail < N

instance (N : Nat) (q : frame_queue) : Decidable (queue_ok N q) := by
  unfold queue_ok; exact inferInstance

/-- The offsets at which the loop of bhy_read_fifo_data stores a frame: the decoder of section 4.1
of the specification, except that a record with the step-detector or the step-counter tag is
passed over, tag and payload, with no frame stored and no guard applied. -/
def steady_offsets (H : bhy_consts) (data : List Nat) (bytes_remain : Nat) : Nat → Nat → List Nat
  | 0, _ => []
  | fuel + 1, i =>
    if i < bytes_remain then
      let L := (bhy_get_sensor_type_data_len H (byte_at data i)).1
      if byte_at data i = H.BHY_SENSOR_HANDLE_STEP_DETECTOR
          ∨ byte_at data i = H.BHY_SENSOR_HANDLE_STEP_COUNTER then
        steady_offsets H data bytes_remain fuel ((i : Int) + L + 1).toNat
      else if L < 0 then []
      else if (i : Int) + L ≥ bytes_remain then []
      else i :: steady_offsets H data bytes_remain fuel (i + L.toNat + 1)
    else []

/-- The accelerometer records of a buffer can be stored as they are: the calibration offsets are
zero, the payload has the six bytes of the three axes, and its bytes are bytes. -/
def acc_unchanged (acc_cal : List Int) (payload : List Nat) : Prop :=
  (∀ i, i < 3 → acc_cal.getD i 0 = 0) ∧ 6 ≤ payload.length ∧ ∀ b ∈ payload, b < 256

instance (acc_cal : List Int) (payload : List Nat) : Decidable (acc_unchanged acc_cal payload) := by
  unfold acc_unchanged; exact inferInstance

/-- The record is a meta event whose first payload byte signals "initialized", in the words of
the specification. -/
def is_init_record (H : bhy_consts) (r : sensor_event_record) : Prop :=
  r.handle = H.BHY_SENSOR_HANDLE_META_EVENT ∧ r.data.head? = some H.META_EVENT_INITIALIZED

instance (H : bhy_consts) (r : sensor_event_record) : Decidable (is_init_record H r) := by
  unfold is_init_record; exact inferInstance

/-! ## Pedometer bookkeeping -/

/-- The first part of process_pedometer: the record is taken in, in normal mode (data_index is
zero) or in logging mode. -/
def pedometer_record (cd : bhy_client_data) (new_data : pedometer_data) : bhy_client_data :=
  if new_data.data_index = 0 then
    if new_data.step_status = 0 then
      { cd with walk_mode := false }
    else
      { cd with walk_mode := true, total_step := new_data.walk_count }
  else
    let start_index :=
      if new_data.data_index > 0 ∧ cd.current_index = 0 then new_data.data_index
      else cd.start_index
    { cd with start_index := start_index,
              current_index := new_data.data_index,
              pedo := cd.pedo.set new_data.data_index new_data }

/-- The step of process_pedometer under the comment "ready to send logging data". -/
def pedometer_logging_done (H : bhy_consts) (cd : bhy_client_data) : bhy_client_data :=
  if cd.current_index = 1 then
    { cd with interrupt_mask := cd.interrupt_mask ||| H.LOGGING_DONE }
  else cd

/-- The step of process_pedometer under the comment "new normal mode step". -/
def pedometer_new_step (H : bhy_consts) (cd : bhy_client_data) : bhy_client_data :=
  if cd.last_total_step ≠ cd.total_step then
    { cd with last_total_step := cd.total_step,
              interrupt_mask := cd.interrupt_mask ||| H.NEW_STEP }
  else cd

/-- The step of process_pedometer under the comment "start walking". -/
def pedometer_start_walk (H : bhy_consts) (cd : bhy_client_data) : bhy_client_data :=
  if cd.last_walk_mode = false ∧ cd.walk_mode = true then
    { cd with last_walk_mode := cd.walk_mode,
              interrupt_mask := cd.interrupt_mask ||| H.START_WALK }
  else cd

/-- The step of process_pedometer under the comment "stop walking". -/
def pedometer_stop_walk (H : bhy_consts) (cd : bhy_client_data) : bhy_client_data :=
  if cd.last_walk_mode = true ∧ cd.walk_mode = false then
    { cd with last_walk_mode := cd.walk_mode,
              interrupt_mask := cd.interrupt_mask ||| H.STOP_WALK }
  else cd

/-- The function process_pedometer on the frame data of a pedometer record.  The signalling of the
completions int_done and log_done is left out. -/
def process_pedometer (H : bhy_consts) (cd : bhy_client_data) (data : List Nat) :
    bhy_client_data :=
  let cd := pedometer_record cd (H.pedometer_of_bytes data)
  let cd := { cd with interrupt_mask := 0 }
  let cd := pedometer_logging_done H cd
  let cd := pedometer_new_step H cd
  let cd := pedometer_start_walk H cd
  pedometer_stop_walk H cd

/-- The states after each record of a sequence handed to process_pedometer, oldest first. -/
def pedometer_states (H : bhy_consts) : bhy_client_data → List (List Nat) → List bhy_client_data
  | _, [] => []
  | cd, d :: ds => process_pedometer H cd d :: pedometer_states H (process_pedometer H cd d) ds

/-- The end of process_step: step_diff is added to the step counter and raises step_det, each
when enabled. -/
def process_step_finish (cd : bhy_client_data) (step_diff : Nat) : bhy_client_data :=
  let step_count :=
    if cd.step_cnt_enabled then (cd.step_count + step_diff) % 2 ^ 32 else cd.step_count
  let step_det := if cd.step_det_enabled ∧ step_diff ≠ 0 then true else cd.step_det
  { cd with step_count := step_count, step_det := step_det }

/-- The value of step_diff in the normal mode of process_step, from the difference to the last
step count and the interrupt mask. -/
def normal_step_diff (H : bhy_consts) (interrupt_mask step_diff : Nat) : Nat :=
  if step_diff > H.FIRST_STEP then
    if interrupt_mask &&& H.NEW_STEP ≠ 0 then
      if interrupt_mask = H.START_WALK then H.FIRST_STEP else 1
    else step_diff
  else if step_diff > 2 ∧ step_diff < H.FIRST_STEP then 1
  else step_diff

/-- The function process_step; the counters are unsigned 32-bit values. -/
def process_step (H : bhy_consts) (cd : bhy_client_data) (data : List Nat) : bhy_client_data :=
  if cd.step_det_enabled = false ∧ cd.step_cnt_enabled = false then cd
  else
    let new_data := H.pedometer_of_bytes data
    if new_data.data_index = 0 then
      if cd.interrupt_mask ≥ H.NEW_STEP then
        if cd.interrupt_mask &&& H.STOP_WALK ≠ 0 then cd
        else
          let current_step := new_data.walk_count % 2 ^ 32
          let step_diff := (current_step + 2 ^ 32 - cd.last_step) % 2 ^ 32
          process_step_finish { cd with last_step := current_step }
            (normal_step_diff H cd.interrupt_mask step_diff)
      else process_step_finish cd 0
    else
      let step_diff := (new_data.walk_count + new_data.run_count) % 2 ^ 32
      process_step_finish { cd with last_step := (cd.last_step + step_diff) % 2 ^ 32 } step_diff

/-- One axis of the accelerometer triplet after the calibration offset is subtracted: the two
little-endian bytes of the 16-bit difference. -/
def acc_axis (acc_cal : List Int) (data : List Nat) (i : Nat) : List Nat :=
  let acc_temp : Int := byte_at data (2 * i) + 256 * byte_at data (2 * i + 1)
  let v := ((acc_temp - acc_cal.getD i 0) % 65536).toNat
  [v % 256, v / 256]

/-- The function process_data on the data of the frame being filled; the data comes back because
the accelerometer case rewrites it in place. -/
def process_data (H : bhy_consts) (cd : bhy_client_data) (data : List Nat) (handle : Nat) :
    bhy_client_data × List Nat :=
  if handle = H.BHY_SENSOR_HANDLE_ACCELEROMETER then
    let data :=
      memcpy data (acc_axis cd.acc_cal data 0 ++ acc_axis cd.acc_cal data 1
        ++ acc_axis cd.acc_cal data 2)
    ({ cd with acc_buffer := bytes_from data 0 H.SIZEOF_ACC_BUFFER }, data)
  else if handle = H.PEDOMETER_SENSOR then
    (process_step H (process_pedometer H cd data) data, data)
  else (cd, data)

/-- The first len bytes of the little-endian image of a counter. -/
def le_bytes (v len : Nat) : List Nat :=
  (List.range len).map (fun k => v / 256 ^ k % 256)

/-- The first half of generate_step_data, up to the label step_cnt: the synthetic step-detector
frame. -/
def generate_step_det (H : bhy_consts) (cd : bhy_client_data) : bhy_client_data :=
  if cd.step_det_enabled then
    if cd.step_det = false then cd
    else if cd.step_det_reported then cd
    else
      let q := cd.data_queue
      let q := set_head_slot q { head_slot q with handle := H.BHY_SENSOR_HANDLE_STEP_DETECTOR }
      { cd with data_queue := queue_advance H.BHY_FRAME_SIZE q,
                step_det := false, step_det_reported := true }
  else cd

/-- The second half of generate_step_data, from the label step_cnt on: the synthetic step-counter
frame. -/
def generate_step_cnt (H : bhy_consts) (cd : bhy_client_data) : bhy_client_data :=
  if cd.step_cnt_enabled then
    if cd.last_step_count = cd.step_count then cd
    else
      let bytes := le_bytes cd.step_count H.BHY_SENSOR_DATA_LEN_STEP_COUNTER
      let q := queue_push H.BHY_FRAME_SIZE cd.data_queue H.BHY_SENSOR_HANDLE_STEP_COUNTER bytes
      { cd with data_queue := q, last_step_count := cd.step_count }
  else cd

/-- The function generate_step_data. -/
def generate_step_data (H : bhy_consts) (cd : bhy_client_data) : bhy_client_data :=
  generate_step_cnt H (generate_step_det H cd)

/-! ## The decoders -/

/-- The body of the loop of detect_init_event for a record that passed both guards. -/
def detect_init_body (H : bhy_consts) (data : List Nat) (parse_index data_len : Nat)
    (cd : bhy_client_data) : bhy_client_data :=
  let sensor_type := byte_at data parse_index
  let cd :=
    if sensor_type = H.BHY_SENSOR_HANDLE_META_EVENT ∧
        byte_at data (parse_index + 1) = H.META_EVENT_INITIALIZED then
      { cd with reset_flag := RESET_FLAG_INITIALIZED }
    else cd
  let payload := bytes_from data (parse_index + 1) data_len
  { cd with data_queue := queue_push H.BHY_FRAME_SIZE cd.data_queue sensor_type payload }

/-- The loop of detect_init_event from parse_index on; none when fuel runs out. -/
def detect_init_loop (H : bhy_consts) (data : List Nat) (bytes_remain : Nat) :
    Nat → Nat → bhy_client_data → Option bhy_client_data
  | 0, _, _ => none
  | fuel + 1, parse_index, cd =>
    if parse_index < bytes_remain then
      let sensor_type := byte_at data parse_index
      let data_len := (bhy_get_sensor_type_data_len H sensor_type).1
      if data_len < 0 then some cd
      else if (parse_index : Int) + data_len ≥ bytes_remain then some cd
      else
        detect_init_loop H data bytes_remain fuel (parse_index + data_len.toNat + 1)
          (detect_init_body H data parse_index data_len.toNat cd)
    else some cd

/-- What the bus returns to one drain of the FIFO: the value of the bytes-remain register and the
bytes of the FIFO register, each none when the read fails. -/
structure fifo_read where
  bytes_remain : Option Nat
  fifo : Option (List Nat)
deriving DecidableEq, Repr

/-- The function detect_init_event; the input events sent at the end are left out. -/
def detect_init_event (H : bhy_consts) (rd : fifo_read) (cd : bhy_client_data) :
    Option bhy_client_data :=
  match rd.bytes_remain with
  | none => some cd
  | some bytes_remain =>
    if bytes_remain > H.BHY_FIFO_LEN_MAX then some cd
    else
      match rd.fifo with
      | none => some cd
      | some bytes =>
        let cd := { cd with fifo_buf := memcpy cd.fifo_buf (bytes_from bytes 0 bytes_remain) }
        detect_init_loop H cd.fifo_buf bytes_remain (bytes_remain + 1) 0 cd

/-- The conversion (s8) of a byte. -/
def s8 (b : Nat) : Int :=
  if b % 256 < 128 then (b % 256 : Nat) else ((b % 256 : Nat) : Int) - 256

/-- The body of the loop of detect_self_test_event for a record that passed both guards, on the
session state and result_detected. -/
def detect_self_test_body (H : bhy_consts) (data : List Nat) (parse_index data_len : Nat)
    (st : bhy_client_data × Nat) : bhy_client_data × Nat :=
  let sensor_type := byte_at data parse_index
  let cd := st.1
  let st :=
    if sensor_type = H.BHY_SENSOR_HANDLE_META_EVENT ∧
        byte_at data (parse_index + 1) = H.META_EVENT_SELF_TEST_RESULTS then
      let sensor := byte_at data (parse_index + 2)
      let idx : Option Nat :=
        if sensor = H.BHY_SENSOR_HANDLE_ACCELEROMETER then some H.SELF_TEST_RESULT_INDEX_ACC
        else if sensor = H.BHY_SENSOR_HANDLE_MAGNETIC_FIELD_UNCALIBRATED then
          some H.SELF_TEST_RESULT_INDEX_MAG
        else if sensor = H.BHY_SENSOR_HANDLE_GYROSCOPE_UNCALIBRATED then
          some H.SELF_TEST_RESULT_INDEX_GYRO
        else none
      let cd :=
        match idx with
        | some idx =>
          { cd with self_test_result :=
              cd.self_test_result.set idx (s8 (byte_at data (parse_index + 3))) }
        | none => cd
      (cd, 1)
    else (cd, st.2)
  let payload := bytes_from data (parse_index + 1) data_len
  ({ st.1 with data_queue := queue_push H.BHY_FRAME_SIZE st.1.data_queue sensor_type payload },
    st.2)

/-- The loop of detect_self_test_event from parse_index on; none when fuel runs out. -/
def detect_self_test_loop (H : bhy_consts) (data : List Nat) (bytes_remain : Nat) :
    Nat → Nat → bhy_client_data × Nat → Option (bhy_client_data × Nat)
  | 0, _, _ => none
  | fuel + 1, parse_index, st =>
    if parse_index < bytes_remain then
      let sensor_type := byte_at data parse_index
      let data_len := (bhy_get_sensor_type_data_len H sensor_type).1
      if data_len < 0 then some st
      else if (parse_index : Int) + data_len ≥ bytes_remain then some st
      else
        detect_self_test_loop H data bytes_remain fuel (parse_index + data_len.toNat + 1)
          (detect_self_test_body H data parse_index data_len.toNat st)
    else some st

/-- The function detect_self_test_event.  The callee bhy_load_ram_patch is a parameter; the input
events sent before the reload are left out. -/
def detect_self_test_event (H : bhy_consts)
    (bhy_load_ram_patch : bhy_client_data → bhy_client_data)
    (rd : fifo_read) (cd : bhy_client_data) : Option bhy_client_data :=
  match rd.bytes_remain with
  | none => some cd
  | some bytes_remain =>
    if bytes_remain > H.BHY_FIFO_LEN_MAX then some cd
    else
      match rd.fifo with
      | none => some cd
      | some bytes =>
        let cd := { cd with fifo_buf := memcpy cd.fifo_buf (bytes_from bytes 0 bytes_remain) }
        match detect_self_test_loop H cd.fifo_buf bytes_remain (bytes_remain + 1) 0 (cd, 0) with
        | none => none
        | some (cd, result_detected) =>
          if result_detected ≠ 0 then some (bhy_load_ram_patch cd) else some cd

/-- The first part of the body of the loop of bhy_read_fifo_data: the frame is filled at
q->frames[q->head], process_data runs on its data, and the indices of the main queue move. -/
def bhy_read_fifo_store (H : bhy_consts) (parse_index data_len : Nat) (cd : bhy_client_data) :
    bhy_client_data :=
  let sensor_type := byte_at cd.fifo_buf parse_index
  let payload := bytes_from cd.fifo_buf (parse_index + 1) data_len
  let q := set_head_slot cd.data_queue
    { handle := sensor_type, data := memcpy (head_slot cd.data_queue).data payload }
  let p := process_data H { cd with data_queue := q } (head_slot q).data (head_slot q).handle
  let q := set_head_slot p.1.data_queue { head_slot p.1.data_queue with data := p.2 }
  { p.1 with data_queue := queue_advance H.BHY_FRAME_SIZE q }

/-- The copy of a record to the activity-recognition queue at the end of the body. -/
def bhy_read_fifo_ar (H : bhy_consts) (parse_index data_len report_to_ar : Nat)
    (cd : bhy_client_data) : bhy_client_data :=
  if report_to_ar ≠ 0 then
    let payload := bytes_from cd.fifo_buf (parse_index + 1) data_len
    let q := queue_push H.BHY_FRAME_SIZE_AR cd.data_queue_ar (byte_at cd.fifo_buf parse_index)
      payload
    { cd with data_queue_ar := q }
  else cd

/-- The body of the loop of bhy_read_fifo_data for a record that passed the filter and both
guards. -/
def bhy_read_fifo_body (H : bhy_consts) (parse_index data_len report_to_ar : Nat)
    (cd : bhy_client_data) : bhy_client_data :=
  let sensor_type := byte_at cd.fifo_buf parse_index
  let cd := bhy_read_fifo_store H parse_index data_len cd
  let cd := if sensor_type = H.PEDOMETER_SENSOR then generate_step_data H cd else cd
  bhy_read_fifo_ar H parse_index data_len report_to_ar cd

/-- The loop of bhy_read_fifo_data from parse_index on; none when fuel runs out. -/
def bhy_read_fifo_loop (H : bhy_consts) (bytes_remain : Nat) :
    Nat → Nat → bhy_client_data → Option bhy_client_data
  | 0, _, _ => none
  | fuel + 1, parse_index, cd =>
    if parse_index < bytes_remain then
      let sensor_type := byte_at cd.fifo_buf parse_index
      let data_len := (bhy_get_sensor_type_data_len H sensor_type).1
      let report_to_ar := (bhy_get_sensor_type_data_len H sensor_type).2
      if sensor_type = H.BHY_SENSOR_HANDLE_STEP_DETECTOR
          ∨ sensor_type = H.BHY_SENSOR_HANDLE_STEP_COUNTER then
        bhy_read_fifo_loop H bytes_remain fuel ((parse_index : Int) + data_len + 1).toNat cd
      else if data_len < 0 then some cd
      else if (parse_index : Int) + data_len ≥ bytes_remain then some cd
      else
        bhy_read_fifo_loop H bytes_remain fuel (parse_index + data_len.toNat + 1)
          (bhy_read_fifo_body H parse_index data_len.toNat report_to_ar cd)
    else some cd

/-- The function bhy_read_fifo_data. -/
def bhy_read_fifo_data (H : bhy_consts) (rd : fifo_read) (cd : bhy_client_data) :
    Option bhy_client_data :=
  match rd.bytes_remain with
  | none => some cd
  | some bytes_remain =>
    if bytes_remain = 0 then some cd
    else
      match rd.fifo with
      | none => some cd
      | some bytes =>
        let cd := { cd with fifo_buf := memcpy cd.fifo_buf (bytes_from bytes 0 bytes_remain) }
        (bhy_read_fifo_loop H bytes_remain (bytes_remain + 1) 0 cd).map
          (fun cd => { cd with step_det_reported := false })

/-! ## The decoder of the specification -/

/-- The frame decoder as the specification words it (section 4.1), given by the offsets at which
it emits a record.  At offset i it reads the tag, looks up the payload length L, stops on an unknown tag and
on i + L ≥ bytes_remain, and otherwise emits and goes on at i + L + 1. -/
def record_offsets (H : bhy_consts) (data : List Nat) (bytes_remain : Nat) : Nat → Nat → List Nat
  | 0, _ => []
  | fuel + 1, i =>
    if i < bytes_remain then
      let L := (bhy_get_sensor_type_data_len H (byte_at data i)).1
      if L < 0 then []
      else if (i : Int) + L ≥ bytes_remain then []
      else i :: record_offsets H data bytes_remain fuel (i + L.toNat + 1)
    else []

/-- The payload length L of the record at offset i, from the tag table. -/
def payload_len (H : bhy_consts) (data : List Nat) (i : Nat) : Nat :=
  (bhy_get_sensor_type_data_len H (byte_at data i)).1.toNat

/-- The record of the specification at offset i: the tag with the L bytes after it. -/
def record_at (H : bhy_consts) (data : List Nat) (i : Nat) : sensor_event_record :=
  { handle := byte_at data i, data := bytes_from data (i + 1) (payload_len H data i) }

/-- The offsets of the maximal prefix of well-formed records: the decoder of the specification
run from offset 0, with fuel for every byte of the declared length. -/
def well_formed_offsets (H : bhy_consts) (data : List Nat) (bytes_remain : Nat) : List Nat :=
  record_offsets H data bytes_remain (bytes_remain + 1) 0

/-- The maximal prefix of well-formed records of the specification. -/
def well_formed_records (H : bhy_consts) (data : List Nat) (bytes_remain : Nat) :
    List sensor_event_record :=
  (well_formed_offsets H data bytes_remain).map (record_at H data)

/-- The record at offset j is a meta event with the sub-type "self-test results". -/
def self_test_at (H : bhy_consts) (data : List Nat) (j : Nat) : Prop :=
  byte_at data j = H.BHY_SENSOR_HANDLE_META_EVENT
    ∧ byte_at data (j + 1) = H.META_EVENT_SELF_TEST_RESULTS

instance (H : bhy_consts) (data : List Nat) (j : Nat) : Decidable (self_test_at H data j) := by
  unfold self_test_at; exact inferInstance

/-- The session state and result_detected of the self-test scan once the records at the offsets
js have been handled, in order. -/
def self_test_scan (H : bhy_consts) (data : List Nat) (js : List Nat) (cd : bhy_client_data) :
    bhy_client_data × Nat :=
  js.foldl (fun st j => detect_self_test_body H data j (payload_len H data j) st) (cd, 0)

/-- The integer v is the byte b read as a signed 8-bit value, the signed result byte of the
specification: v lies in -128..127 and differs from b by a multiple of 256, so a byte below 128
reads as itself and a byte from 128 to 255 as the byte minus 256. -/
def reads_as_signed (b : Nat) (v : Int) : Prop :=
  -128 ≤ v ∧ v ≤ 127 ∧ (v - (b : Int)) % 256 = 0

instance (b : Nat) (v : Int) : Decidable (reads_as_signed b v) := by
  unfold reads_as_signed; exact inferInstance

/-- The number that a sequence of bytes stands for in little-endian order, the first byte being
the least significant. -/
def le_value : List Nat → Nat
  | [] => 0
  | b :: bs => b + 256 * le_value bs

/-- The test interrupt_mask & flag of the C code. -/
def flag_set (interrupt_mask flag : Nat) : Prop :=
  interrupt_mask &&& flag ≠ 0

instance (interrupt_mask flag : Nat) : Decidable (flag_set interrupt_mask flag) := by
  unfold flag_set; exact inferInstance

/-- The flag START_WALK is a bit of its own: it is not zero and shares no bit with the three other
flags of the interrupt mask. -/
def start_walk_bit (H : bhy_consts) : Prop :=
  H.START_WALK ≠ 0 ∧ H.LOGGING_DONE &&& H.START_WALK = 0 ∧ H.NEW_STEP &&& H.START_WALK = 0
    ∧ H.STOP_WALK &&& H.START_WALK = 0

instance (H : bhy_consts) : Decidable (start_walk_bit H) := by
  unfold start_walk_bit; exact inferInstance

/-- The walk mode after the record before record k of a sequence handed to process_pedometer; for
the first record, the value last_walk_mode starts with. -/
def walk_mode_before (H : bhy_consts) (cd : bhy_client_data) (ds : List (List Nat)) :
    Nat → Bool
  | 0 => cd.last_walk_mode
  | k + 1 => ((pedometer_states H cd ds).getD k cd).walk_mode


set_option autoImplicit false

/-! ## The tags of the activity-recognition stream -/

/-- The tags that the specification names as flagged report_to_ar: the two timestamp tags and the
meta event, their three wake-up variants, and activity recognition. -/
def ar_tags (H : bhy_consts) : List Nat :=
  [H.BHY_SENSOR_HANDLE_TIMESTAMP_LSW, H.BHY_SENSOR_HANDLE_TIMESTAMP_MSW,
   H.BHY_SENSOR_HANDLE_META_EVENT, H.BHY_SENSOR_HANDLE_TIMESTAMP_LSW_WU,
   H.BHY_SENSOR_HANDLE_TIMESTAMP_MSW_WU, H.BHY_SENSOR_HANDLE_META_EVENT_WU,
   H.BHY_SENSOR_HANDLE_ACTIVITY_RECOGNITION]

/-! ## Constants of the protocols -/

/-- Modelled from the spec: the constants of bhy_core.h and bhy_host_interface.h, both absent
from the sources, that the interrupt pump, the parameter protocol and the configuration files
use; the definitions below take them as the parameter P.  BHY_TS_LOGGING_SUPPORT tells whether
that macro is defined; retry counts are taken as natural numbers. -/
structure bhy_host_consts where
  BHY_SENSOR_HANDLE_TIMESTAMP_SYNC : Nat
  BHY_SENSOR_HANDLE_MAX : Nat
  BHY_FLUSH_DISCARD_ALL : Nat
  BHY_FLUSH_FLUSH_ALL : Nat
  AR_SENSOR : Nat
  BHY_PARAM_ACK_WAIT_RETRY : Nat
  BHY_SOFT_PASS_THRU_READ_RETRY : Nat
  BHY_RESET_WAIT_RETRY : Nat
  BHY_PAGE_SENSOR : Nat
  BHY_PAGE_SYSTEM : Nat
  BHY_PAGE_SOFT_PASS_THRU : Nat
  BHY_PARAM_SENSOR_CONF_0 : Nat
  BHY_PARAM_SYSTEM_META_EVENT_CTRL : Nat
  BHY_PARAM_SYSTEM_WAKE_UP_META_EVENT_CTRL : Nat
  BHY_PARAM_SOFT_PASS_THRU_READ : Nat
  BHY_PARAM_SOFT_PASS_THRU_WRITE : Nat
  HOST_CTRL_MASK_ALGORITHM_STANDBY : Nat
  HOST_CTRL_MASK_SELF_TEST_REQ : Nat
  BHY_HOST_STATUS_MASK_ALGO_STANDBY : Nat
  BHY_AR_ACTIVATE : Nat
  PEDOMETER_CYCLE : Nat
  BHY_TS_LOGGING_SUPPORT : Bool

/-! ## Error codes and the register transport -/

/-- The errno value EIO of the kernel. -/
def EIO : Int := 5

/-- The errno value EBUSY of the kernel. -/
def EBUSY : Int := 16

/-- The registers of the hub that the modelled functions access (bhy_host_interface.h). -/
inductive bhy_reg where
  | BHY_REG_PARAM_PAGE_SEL
  | BHY_REG_PARAM_REQ
  | BHY_REG_PARAM_ACK
  | BHY_REG_SAVED_PARAM_0
  | BHY_REG_LOAD_PARAM_0
  | BHY_REG_RESET_REQ
  | BHY_REG_UPLOAD_ADDR_0
  | BHY_REG_CHIP_CTRL
  | BHY_REG_UPLOAD_DATA
  | BHY_REG_DATA_CRC_0
  | BHY_REG_BYTES_REMAIN_0
  | BHY_REG_FIFO_BUFFER_0
  | BHY_REG_HOST_IRQ_TIMESTAMP_1
  | BHY_REG_FIFO_FLUSH
  | BHY_REG_HOST_CTRL
  | BHY_REG_HOST_STATUS
deriving DecidableEq, Repr

open bhy_reg

/-- A call of bhy_read_reg or bhy_write_reg: the register with the length read or the bytes
written.  The modelled functions return the calls they issue, in order. -/
inductive bus_op where
  | read (reg : bhy_reg) (len : Nat)
  | write (reg : bhy_reg) (data : List Nat)
deriving DecidableEq, Repr

/-- The bytes of dst with those from offset off on replaced by bytes: memcpy(dst + off, ..). -/
def memcpy_at (dst : List Nat) (off : Nat) (bytes : List Nat) : List Nat :=
  bytes_from dst 0 off ++ bytes ++ dst.drop (off + bytes.length)

/-- The value v & ~mask. -/
def clear_bits (v mask : Nat) : Nat :=
  v - (v &&& mask)

/-! ## The paged parameter protocol -/

/-- What the bus answers during one call of bhy_read_parameter or bhy_write_parameter: the return
value of each register access (negative: failed), the acknowledge byte read by each poll, counted
from 0, and the bytes of the saved parameter. -/
structure param_bus where
  load_write : Int
  page_write : Int
  req_write : Int
  ack_read : Nat → Int × Nat
  saved_read : Int × List Nat
  page_clear : Int
  req_clear : Int

/-- The outcome of a parameter call: the return value, the buffer of the caller, and the register
accesses issued. -/
structure param_result where
  ret : Int
  data : List Nat
  ops : List bus_op
deriving DecidableEq, Repr

/-- How the loop "Wait for ack" is left: by return ret after a failed read, by return -EINVAL on
the acknowledge 0x80, or past its end with the value retry then has. -/
inductive ack_wait where
  | failed (ret : Int)
  | rejected
  | left (retry : Int)
deriving DecidableEq, Repr

/-- The loop while (retry--) of both parameter functions, from the given value of retry and the
number of the next poll. -/
def param_ack_wait (bus : param_bus) (expected : Nat) : Nat → Nat → ack_wait × List bus_op
  | 0, _ => (ack_wait.left (-1), [])
  | retry + 1, poll =>
    let r := bus.ack_read poll
    if r.1 < 0 then (ack_wait.failed r.1, [bus_op.read BHY_REG_PARAM_ACK 1])
    else if r.2 = 0x80 then (ack_wait.rejected, [bus_op.read BHY_REG_PARAM_ACK 1])
    else if r.2 = expected then (ack_wait.left retry, [bus_op.read BHY_REG_PARAM_ACK 1])
    else
      let w := param_ack_wait bus expected retry (poll + 1)
      (w.1, bus_op.read BHY_REG_PARAM_ACK 1 :: w.2)

/-- The part "Clear up" at the end of both parameter functions: 0 when both writes succeed, the
return value of the failing write otherwise. -/
def param_clear_up (bus : param_bus) : Int × List bus_op :=
  if bus.page_clear < 0 then (bus.page_clear, [bus_op.write BHY_REG_PARAM_PAGE_SEL [0]])
  else if bus.req_clear < 0 then
    (bus.req_clear, [bus_op.write BHY_REG_PARAM_PAGE_SEL [0], bus_op.write BHY_REG_PARAM_REQ [0]])
  else (0, [bus_op.write BHY_REG_PARAM_PAGE_SEL [0], bus_op.write BHY_REG_PARAM_REQ [0]])

/-- The function bhy_read_parameter; data is the buffer of the caller. -/
def bhy_read_parameter (P : bhy_host_consts) (bus : param_bus) (page_num param_num : Nat)
    (data : List Nat) (len : Nat) : param_result :=
  let sel := [bus_op.write BHY_REG_PARAM_PAGE_SEL [page_num]]
  if bus.page_write < 0 then ⟨bus.page_write, data, sel⟩
  else
    let sel := sel ++ [bus_op.write BHY_REG_PARAM_REQ [param_num]]
    if bus.req_write < 0 then ⟨bus.req_write, data, sel⟩
    else
      let w := param_ack_wait bus param_num P.BHY_PARAM_ACK_WAIT_RETRY 0
      match w.1 with
      | ack_wait.failed ret => ⟨ret, data, sel ++ w.2⟩
      | ack_wait.rejected => ⟨- EINVAL, data, sel ++ w.2⟩
      | ack_wait.left retry =>
        if retry = -1 then ⟨- EINVAL, data, sel ++ w.2⟩
        else
          let fetch := sel ++ w.2 ++ [bus_op.read BHY_REG_SAVED_PARAM_0 len]
          if bus.saved_read.1 < 0 then ⟨bus.saved_read.1, data, fetch⟩
          else
            let data := memcpy data (bytes_from bus.saved_read.2 0 len)
            let c := param_clear_up bus
            if c.1 < 0 then ⟨c.1, data, fetch ++ c.2⟩
            else ⟨(len : Int), data, fetch ++ c.2⟩

/-- The function bhy_write_parameter. -/
def bhy_write_parameter (P : bhy_host_consts) (bus : param_bus) (page_num param_num : Nat)
    (data : List Nat) (len : Nat) : param_result :=
  let sel := [bus_op.write BHY_REG_LOAD_PARAM_0 (bytes_from data 0 len)]
  if bus.load_write < 0 then ⟨bus.load_write, data, sel⟩
  else
    let sel := sel ++ [bus_op.write BHY_REG_PARAM_PAGE_SEL [page_num]]
    if bus.page_write < 0 then ⟨bus.page_write, data, sel⟩
    else
      let param_num_mod := (param_num ||| 0x80) % 256
      let sel := sel ++ [bus_op.write BHY_REG_PARAM_REQ [param_num_mod]]
      if bus.req_write < 0 then ⟨bus.req_write, data, sel⟩
      else
        let w := param_ack_wait bus param_num_mod P.BHY_PARAM_ACK_WAIT_RETRY 0
        match w.1 with
        | ack_wait.failed ret => ⟨ret, data, sel ++ w.2⟩
        | ack_wait.rejected => ⟨- EINVAL, data, sel ++ w.2⟩
        | ack_wait.left retry =>
          if retry = -1 then ⟨- EINVAL, data, sel ++ w.2⟩
          else
            let c := param_clear_up bus
            if c.1 < 0 then ⟨c.1, data, sel ++ w.2 ++ c.2⟩
            else ⟨(len : Int), data, sel ++ w.2 ++ c.2⟩

/-! ## Soft pass-through -/

/-- The loop do .. while (--retry) of the soft pass-through functions, entered with retry at
least 1: each pass is one bhy_read_parameter into temp, answered by reads k.  The first component
is none after a failed call, and the value of retry when the loop is left otherwise. -/
def soft_pass_thru_poll (P : bhy_host_consts) (reads : Nat → param_bus) (param_num : Nat) :
    Nat → Nat → List Nat → Option Nat × List Nat × List bus_op
  | 0, _, temp => (some 0, temp, [])
  | retry + 1, k, temp =>
    let p := bhy_read_parameter P (reads k) P.BHY_PAGE_SOFT_PASS_THRU param_num temp 8
    if p.ret < 0 then (none, p.data, p.ops)
    else if byte_at p.data 3 ≠ 0 then (some (retry + 1), p.data, p.ops)
    else
      let w := soft_pass_thru_poll P reads param_num retry (k + 1) p.data
      (w.1, w.2.1, p.ops ++ w.2.2)

/-- The function bhy_soft_pass_thru_read_reg: temp is the content of the local array at entry,
data the buffer of the caller.  With a retry count of 0 the loop do .. while (--retry) is entered
with retry 0 and counts down from there; the model gives none for it. -/
def bhy_soft_pass_thru_read_reg (P : bhy_host_consts) (write_bus : param_bus)
    (reads : Nat → param_bus) (temp : List Nat) (slave_addr reg : Nat) (data : List Nat)
    (len : Nat) : Option param_result :=
  if len > 4 ∨ len ≤ 0 then some ⟨- EINVAL, data, []⟩
  else
    let temp := memcpy temp [slave_addr, reg, len]
    let w := bhy_write_parameter P write_bus P.BHY_PAGE_SOFT_PASS_THRU
      P.BHY_PARAM_SOFT_PASS_THRU_READ temp 8
    if w.ret < 0 then some ⟨- EIO, data, w.ops⟩
    else
      match P.BHY_SOFT_PASS_THRU_READ_RETRY with
      | 0 => none
      | retry + 1 =>
        let p := soft_pass_thru_poll P reads P.BHY_PARAM_SOFT_PASS_THRU_READ (retry + 1) 0 temp
        match p.1 with
        | none => some ⟨- EIO, data, w.ops ++ p.2.2⟩
        | some left =>
          if left = 0 then some ⟨- EIO, data, w.ops ++ p.2.2⟩
          else some ⟨0, memcpy data (bytes_from p.2.1 4 len), w.ops ++ p.2.2⟩

/-- The function bhy_soft_pass_thru_write_reg, with the same conventions. -/
def bhy_soft_pass_thru_write_reg (P : bhy_host_consts) (write_bus : param_bus)
    (reads : Nat → param_bus) (temp : List Nat) (slave_addr reg : Nat) (data : List Nat)
    (len : Nat) : Option param_result :=
  if len > 4 ∨ len ≤ 0 then some ⟨- EINVAL, data, []⟩
  else
    let temp := memcpy temp [slave_addr, reg, len]
    let temp := memcpy_at temp 4 (bytes_from data 0 len)
    let w := bhy_write_parameter P write_bus P.BHY_PAGE_SOFT_PASS_THRU
      P.BHY_PARAM_SOFT_PASS_THRU_WRITE temp 8
    if w.ret < 0 then some ⟨- EIO, data, w.ops⟩
    else
      match P.BHY_SOFT_PASS_THRU_READ_RETRY with
      | 0 => none
      | retry + 1 =>
        let p := soft_pass_thru_poll P reads P.BHY_PARAM_SOFT_PASS_THRU_WRITE (retry + 1) 0 temp
        match p.1 with
        | none => some ⟨- EIO, data, w.ops ++ p.2.2⟩
        | some left =>
          if left = 0 then some ⟨- EIO, data, w.ops ++ p.2.2⟩
          else some ⟨0, data, w.ops ++ p.2.2⟩

/-! ## The configuration files -/

/-- The outcome of a call that works on the session state: the return value, the state, and the
register accesses issued. -/
structure op_result where
  ret : Int
  cd : bhy_client_data
  ops : List bus_op
deriving DecidableEq, Repr

/-- The function bhy_store_sensor_sel. -/
def bhy_store_sensor_sel (cd : bhy_client_data) (buf : List Nat) (count : Nat) : op_result :=
  ⟨(count : Int), { cd with sensor_sel := byte_at buf 0 }, []⟩

/-- The function bhy_store_sensor_flush; flush_write is what the write to the flush register
returns. -/
def bhy_store_sensor_flush (P : bhy_host_consts) (flush_write : Int) (cd : bhy_client_data)
    (buf : List Nat) (count : Nat) : op_result :=
  let sensor_sel := byte_at buf 0
  if sensor_sel ≤ 0 ∨ (sensor_sel > P.BHY_SENSOR_HANDLE_MAX
      ∧ sensor_sel ≠ P.BHY_FLUSH_DISCARD_ALL ∧ sensor_sel ≠ P.BHY_FLUSH_FLUSH_ALL) then
    ⟨- EINVAL, cd, []⟩
  else if flush_write < 0 then ⟨flush_write, cd, [bus_op.write BHY_REG_FIFO_FLUSH [sensor_sel]]⟩
  else ⟨(count : Int), cd, [bus_op.write BHY_REG_FIFO_FLUSH [sensor_sel]]⟩

/-- The part of bhy_store_sensor_conf after the parameter is written: the bookkeeping of the
enabled sensors.  The callees accel_open_calibration and enable_pedometer are parameters. -/
def sensor_conf_enabled (H : bhy_consts) (P : bhy_host_consts)
    (accel_open_calibration : bhy_client_data → bhy_client_data)
    (enable_pedometer : bhy_client_data → Bool → op_result)
    (cd : bhy_client_data) (buf : List Nat) (count : Nat) : op_result :=
  let enable : Bool := decide (byte_at buf 0 ||| byte_at buf 1 ≠ 0)
  if cd.sensor_sel = H.BHY_SENSOR_HANDLE_ACCELEROMETER then
    if enable then
      let c := accel_open_calibration { cd with acc_enabled := enable }
      ⟨(count : Int), { c with acc_delay := byte_at buf 1 <<< 8 ||| byte_at buf 0 }, []⟩
    else ⟨(count : Int), { cd with acc_enabled := enable }, []⟩
  else if cd.sensor_sel = H.BHY_SENSOR_HANDLE_STEP_DETECTOR then
    let e := enable_pedometer cd enable
    if e.ret < 0 then e
    else ⟨(count : Int), { e.cd with step_det_enabled := enable }, e.ops⟩
  else if cd.sensor_sel = H.BHY_SENSOR_HANDLE_STEP_COUNTER then
    let e := enable_pedometer cd enable
    if e.ret < 0 then e
    else ⟨(count : Int), { e.cd with step_cnt_enabled := enable }, e.ops⟩
  else if cd.sensor_sel = H.BHY_SENSOR_HANDLE_TILT_DETECTOR then
    ⟨(count : Int), { cd with tilt_enabled := enable }, []⟩
  else if cd.sensor_sel = H.BHY_SENSOR_HANDLE_PICK_UP_GESTURE then
    ⟨(count : Int), { cd with pickup_enabled := enable }, []⟩
  else if cd.sensor_sel = H.BHY_SENSOR_HANDLE_SIGNIFICANT_MOTION then
    ⟨(count : Int), { cd with smd_enabled := enable }, []⟩
  else if cd.sensor_sel = P.AR_SENSOR then
    ⟨(count : Int), { cd with ar_enabled := enable }, []⟩
  else ⟨(count : Int), cd, []⟩

/-- The function bhy_store_sensor_conf. -/
def bhy_store_sensor_conf (H : bhy_consts) (P : bhy_host_consts)
    (accel_open_calibration : bhy_client_data → bhy_client_data)
    (enable_pedometer : bhy_client_data → Bool → op_result)
    (bus : param_bus) (cd : bhy_client_data) (buf : List Nat) (count : Nat) : op_result :=
  if cd.sensor_sel ≤ 0 ∨ cd.sensor_sel > P.BHY_SENSOR_HANDLE_MAX then ⟨- EINVAL, cd, []⟩
  else
    let w := bhy_write_parameter P bus P.BHY_PAGE_SENSOR
      ((P.BHY_PARAM_SENSOR_CONF_0 + cd.sensor_sel) % 256) buf 8
    if w.ret < 0 then ⟨w.ret, cd, w.ops⟩
    else
      let t := sensor_conf_enabled H P accel_open_calibration enable_pedometer cd buf count
      ⟨t.ret, t.cd, w.ops ++ t.ops⟩

/-- The two updates of data[num] in bhy_store_meta_event_ctrl. -/
def meta_event_bits (byte event_en irq_en bit : Nat) : Nat :=
  let byte :=
    if event_en ≠ 0 then (byte ||| 1 <<< (bit * 2 + 1)) % 256
    else clear_bits byte (1 <<< (bit * 2 + 1))
  if irq_en ≠ 0 then (byte ||| 1 <<< (bit * 2)) % 256 else clear_bits byte (1 <<< (bit * 2))

/-- The function bhy_store_meta_event_ctrl; data is the content of the local array at entry. -/
def bhy_store_meta_event_ctrl (P : bhy_host_consts) (read_bus write_bus : param_bus)
    (data : List Nat) (cd : bhy_client_data) (buf : List Nat) (count : Nat) : op_result :=
  let type := byte_at buf 0
  if type ≤ 0 ∨ type > 32 then ⟨- EINVAL, cd, []⟩
  else
    let event_en := byte_at buf 1 &&& 0x1
    let irq_en := byte_at buf 2 &&& 0x1
    let num := (type - 1) / 4
    let bit := (type - 1) % 4
    let param :=
      if byte_at buf 3 ≠ 0 then P.BHY_PARAM_SYSTEM_WAKE_UP_META_EVENT_CTRL
      else P.BHY_PARAM_SYSTEM_META_EVENT_CTRL
    let r := bhy_read_parameter P read_bus P.BHY_PAGE_SYSTEM param data 8
    if r.ret < 0 then ⟨- EIO, cd, r.ops⟩
    else
      let data := r.data.set num (meta_event_bits (byte_at r.data num) event_en irq_en bit)
      let w := bhy_write_parameter P write_bus P.BHY_PAGE_SYSTEM param data 8
      if w.ret < 0 then ⟨- EIO, cd, r.ops ++ w.ops⟩
      else ⟨(count : Int), cd, r.ops ++ w.ops⟩

/-! ## The self-test request -/

/-- What the bus answers during bhy_store_self_test: the k-th read and the k-th write of the host
control register, and the polls of the host status register in the first and in the second
loop, each with its return value. -/
structure self_test_bus where
  host_ctrl_read : Nat → Int × Nat
  host_ctrl_write : Nat → Int
  standby_status : Nat → Int × Nat
  resume_status : Nat → Int × Nat

/-- A loop do .. while (--retry) of bhy_store_self_test: each pass reads the host status and
leaves the loop when stop holds of it.  The first component is none after a failed read, and the
value of retry when the loop is left otherwise. -/
def host_status_poll (status : Nat → Int × Nat) (stop : Nat → Bool) :
    Nat → Nat → Option Nat × List bus_op
  | 0, _ => (some 0, [])
  | retry + 1, k =>
    let r := status k
    if r.1 < 0 then (none, [bus_op.read BHY_REG_HOST_STATUS 1])
    else if stop r.2 then (some (retry + 1), [bus_op.read BHY_REG_HOST_STATUS 1])
    else
      let w := host_status_poll status stop retry (k + 1)
      (w.1, bus_op.read BHY_REG_HOST_STATUS 1 :: w.2)

/-- The end of bhy_store_self_test, from the comment "clear self test bit" on. -/
def self_test_clear (P : bhy_host_consts) (bus : self_test_bus) (cd : bhy_client_data)
    (count : Nat) (ops : List bus_op) : op_result :=
  let r := bus.host_ctrl_read 2
  let ops := ops ++ [bus_op.read BHY_REG_HOST_CTRL 1]
  if r.1 < 0 then ⟨- EIO, cd, ops⟩
  else
    let reg_data := clear_bits r.2 P.HOST_CTRL_MASK_SELF_TEST_REQ
    let ops := ops ++ [bus_op.write BHY_REG_HOST_CTRL [reg_data]]
    if bus.host_ctrl_write 2 < 0 then ⟨- EIO, cd, ops⟩
    else ⟨(count : Int), cd, ops⟩

/-- The middle of bhy_store_self_test, from the comment "Write self test bit" on. -/
def self_test_request (P : bhy_host_consts) (bus : self_test_bus) (cd : bhy_client_data)
    (count : Nat) (ops : List bus_op) : op_result :=
  let r := bus.host_ctrl_read 1
  let ops := ops ++ [bus_op.read BHY_REG_HOST_CTRL 1]
  if r.1 < 0 then ⟨- EIO, cd, ops⟩
  else
    let reg_data := (r.2 ||| P.HOST_CTRL_MASK_SELF_TEST_REQ) % 256
    let reg_data := clear_bits reg_data P.HOST_CTRL_MASK_ALGORITHM_STANDBY
    let ops := ops ++ [bus_op.write BHY_REG_HOST_CTRL [reg_data]]
    if bus.host_ctrl_write 1 < 0 then ⟨- EIO, cd, ops⟩
    else
      let p := host_status_poll bus.resume_status
        (fun s => decide (s &&& P.BHY_HOST_STATUS_MASK_ALGO_STANDBY = 0)) 10 0
      match p.1 with
      | none => ⟨- EIO, cd, ops ++ p.2⟩
      | some _ => self_test_clear P bus cd count (ops ++ p.2)

/-- The function bhy_store_self_test.  The callee kstrtol is a parameter: it gives the number
parsed from buf in the given base, or none where kstrtol returns an error. -/
def bhy_store_self_test (P : bhy_host_consts) (kstrtol : List Nat → Nat → Option Int)
    (bus : self_test_bus) (cd : bhy_client_data) (buf : List Nat) (count : Nat) : op_result :=
  match kstrtol buf 16 with
  | none => ⟨- EINVAL, cd, []⟩
  | some req =>
    if req ≠ 1 then ⟨- EINVAL, cd, []⟩
    else
      let cd := { cd with reset_flag := RESET_FLAG_SELF_TEST }
      let r := bus.host_ctrl_read 0
      let ops := [bus_op.read BHY_REG_HOST_CTRL 1]
      if r.1 < 0 then ⟨- EIO, cd, ops⟩
      else
        let reg_data := (r.2 ||| P.HOST_CTRL_MASK_ALGORITHM_STANDBY) % 256
        let ops := ops ++ [bus_op.write BHY_REG_HOST_CTRL [reg_data]]
        if bus.host_ctrl_write 0 < 0 then ⟨- EIO, cd, ops⟩
        else
          let p := host_status_poll bus.standby_status
            (fun s => decide (s &&& P.BHY_HOST_STATUS_MASK_ALGO_STANDBY ≠ 0)) 10 0
          match p.1 with
          | none => ⟨- EIO, cd, ops ++ p.2⟩
          | some retry =>
            if retry = 0 then ⟨- EBUSY, cd, ops ++ p.2⟩
            else self_test_request P bus cd count (ops ++ p.2)

/-! ## The firmware load -/

/-- The header of the RAM patch file (struct ram_patch_header): the two fields read here. -/
structure ram_patch_header where
  data_length : Nat
  crc : Nat
deriving DecidableEq, Repr

/-- The RAM patch file as vfs_read presents it: the header (none when the read fails or comes
back short), and the results of the calls of vfs_read in the loop, in order: the bytes read, or
none for a negative return.  Past the end of the list vfs_read returns 0. -/
structure ram_patch_file where
  header : Option ram_patch_header
  reads : List (Option (List Nat))
deriving DecidableEq, Repr

/-- What the surroundings answer during one call of bhy_load_ram_patch: the return value of each
register write, whether the reset-phase flag reads RESET_FLAG_READY at each poll of the wait loop
(counted from 0), the file as filp_open gives it (none when it cannot be opened), the return
value of the k-th upload write, the CRC read with its return value, and the content of the local
array data_buf at entry. -/
structure ram_patch_env where
  reset_write : Int
  reset_ready : Nat → Bool
  upload_addr_write : Int
  chip_ctrl_upload_write : Int
  file : Option ram_patch_file
  upload_data_write : Nat → Int
  crc_read : Int × Nat
  chip_ctrl_disable_write : Int
  chip_ctrl_run_write : Int
  data_buf : List Nat

/-- The loop while (retry--) that waits for the reset, from the given value of retry and the
number of the next poll: the value of retry when the loop is left, and whether it was left with
the flag read as RESET_FLAG_READY. -/
def reset_wait (reset_ready : Nat → Bool) : Nat → Nat → Int × Bool
  | 0, _ => (-1, false)
  | retry + 1, poll =>
    if reset_ready poll then ((retry : Int), true)
    else reset_wait reset_ready retry (poll + 1)

/-- The loop for (i = 0; i < read_len; i += 4) that swaps the bytes of each 32-bit word of
data_buf. -/
def swab32_buf (data_buf : List Nat) (read_len : Nat) : List Nat :=
  (List.range ((read_len + 3) / 4)).foldl
    (fun b w => memcpy_at b (4 * w) (bytes_from b (4 * w) 4).reverse) data_buf

/-- The loop while (remain > 0) of bhy_load_ram_patch over the results of vfs_read that are
left, with the number k of the next upload write: 0 when the loop ends, the error code it
returns otherwise, and the upload writes issued. -/
def upload_loop (upload_data_write : Nat → Int) :
    List (Option (List Nat)) → Nat → Nat → List Nat → Int × List bus_op
  | [], remain, _, _ => if remain > 0 then (- EINVAL, []) else (0, [])
  | none :: _, remain, _, _ => if remain > 0 then (- EIO, []) else (0, [])
  | some bytes :: rest, remain, k, data_buf =>
    if remain > 0 then
      let read_len := (bytes.take 64).length
      if read_len = 0 then (- EINVAL, [])
      else
        let data_buf := swab32_buf (memcpy data_buf (bytes.take 64)) read_len
        let op := bus_op.write BHY_REG_UPLOAD_DATA (bytes_from data_buf 0 read_len)
        if upload_data_write k < 0 then (- EIO, [op])
        else
          let w := upload_loop upload_data_write rest ((remain + 65536 - read_len) % 65536)
            (k + 1) data_buf
          (w.1, op :: w.2)
    else (0, [])

/-- The end of bhy_load_ram_patch, from the comment "Check CRC" on.  The callee sync_sensor is a
parameter. -/
def ram_patch_finish (sync_sensor : bhy_client_data → bhy_client_data) (env : ram_patch_env)
    (header : ram_patch_header) (cd : bhy_client_data) (ops : List bus_op) : op_result :=
  let ops := ops ++ [bus_op.read BHY_REG_DATA_CRC_0 4]
  if env.crc_read.1 < 0 then ⟨- EIO, { cd with reset_flag := RESET_FLAG_ERROR }, ops⟩
  else if env.crc_read.2 ≠ header.crc then
    ⟨- EIO, { cd with reset_flag := RESET_FLAG_ERROR }, ops⟩
  else
    let ops := ops ++ [bus_op.write BHY_REG_CHIP_CTRL [0]]
    if env.chip_ctrl_disable_write < 0 then
      ⟨- EIO, { cd with reset_flag := RESET_FLAG_ERROR }, ops⟩
    else
      let ops := ops ++ [bus_op.write BHY_REG_CHIP_CTRL [1]]
      if env.chip_ctrl_run_write < 0 then
        ⟨- EIO, { cd with reset_flag := RESET_FLAG_ERROR }, ops⟩
      else
        let cd := if cd.ram_patch_init then sync_sensor cd else cd
        ⟨0, { cd with ram_patch_init := true }, ops⟩

/-- The middle of bhy_load_ram_patch, from the comment "Upload data" on. -/
def ram_patch_upload (sync_sensor : bhy_client_data → bhy_client_data) (env : ram_patch_env)
    (cd : bhy_client_data) (ops : List bus_op) : op_result :=
  match env.file with
  | none => ⟨- EIO, { cd with reset_flag := RESET_FLAG_ERROR }, ops⟩
  | some f =>
    match f.header with
    | none => ⟨- EIO, { cd with reset_flag := RESET_FLAG_ERROR }, ops⟩
    | some header =>
      let remain := header.data_length % 65536
      if remain % 4 ≠ 0 then ⟨- EINVAL, { cd with reset_flag := RESET_FLAG_ERROR }, ops⟩
      else
        let u := upload_loop env.upload_data_write f.reads remain 0 env.data_buf
        if u.1 ≠ 0 then ⟨u.1, { cd with reset_flag := RESET_FLAG_ERROR }, ops ++ u.2⟩
        else ram_patch_finish sync_sensor env header cd (ops ++ u.2)

/-- The function bhy_load_ram_patch.  While it waits, the reset-phase flag is set to
RESET_FLAG_READY by the interrupt handler; the state after a wait that saw it carries that
value. -/
def bhy_load_ram_patch (P : bhy_host_consts) (sync_sensor : bhy_client_data → bhy_client_data)
    (env : ram_patch_env) (cd : bhy_client_data) : op_result :=
  let cd := { cd with reset_flag := RESET_FLAG_TODO }
  let ops := [bus_op.write BHY_REG_RESET_REQ [1]]
  if env.reset_write < 0 then ⟨env.reset_write, { cd with reset_flag := RESET_FLAG_ERROR }, ops⟩
  else
    let w := reset_wait env.reset_ready P.BHY_RESET_WAIT_RETRY 0
    let cd := if w.2 then { cd with reset_flag := RESET_FLAG_READY } else cd
    if w.1 ≤ 0 then ⟨- EIO, { cd with reset_flag := RESET_FLAG_ERROR }, ops⟩
    else
      let ops := ops ++ [bus_op.write BHY_REG_UPLOAD_ADDR_0 [0, 0]]
      if env.upload_addr_write < 0 then
        ⟨- EIO, { cd with reset_flag := RESET_FLAG_ERROR }, ops⟩
      else
        let ops := ops ++ [bus_op.write BHY_REG_CHIP_CTRL [2]]
        if env.chip_ctrl_upload_write < 0 then
          ⟨- EIO, { cd with reset_flag := RESET_FLAG_ERROR }, ops⟩
        else ram_patch_upload sync_sensor env cd ops

/-! ## The interrupt handler and its work function -/

/-- The function bhy_irq_handler, given the time bhy_get_ap_timestamp reads: the state, and
whether the work function was scheduled. -/
def bhy_irq_handler (now : Nat) (cd : bhy_client_data) : bhy_client_data × Bool :=
  if cd.reset_flag = RESET_FLAG_TODO then ({ cd with reset_flag := RESET_FLAG_READY }, false)
  else ({ cd with timestamp_irq := now }, true)

/-- What the bus answers during one run of bhy_irq_work_func: the four bytes of the firmware
timestamp (none when the read fails), the content of the local array timestamp_fw at entry, and
the two reads of the FIFO drain. -/
structure irq_bus where
  timestamp_fw_read : Option (List Nat)
  timestamp_fw : List Nat
  fifo : fifo_read

/-- The outcome of bhy_irq_work_func: the state, and the register reads issued by the function
and by the decoder it calls (the accesses of a firmware reload are those of
bhy_load_ram_patch). -/
structure irq_work_result where
  cd : bhy_client_data
  ops : List bus_op
deriving DecidableEq, Repr

/-- The register reads of detect_init_event and of detect_self_test_event. -/
def startup_scan_reads (H : bhy_consts) (rd : fifo_read) : List bus_op :=
  match rd.bytes_remain with
  | none => [bus_op.read BHY_REG_BYTES_REMAIN_0 2]
  | some bytes_remain =>
    if bytes_remain > H.BHY_FIFO_LEN_MAX then [bus_op.read BHY_REG_BYTES_REMAIN_0 2]
    else [bus_op.read BHY_REG_BYTES_REMAIN_0 2, bus_op.read BHY_REG_FIFO_BUFFER_0 bytes_remain]

/-- The register reads of bhy_read_fifo_data. -/
def bhy_read_fifo_data_reads (rd : fifo_read) : List bus_op :=
  match rd.bytes_remain with
  | none => [bus_op.read BHY_REG_BYTES_REMAIN_0 2]
  | some bytes_remain =>
    if bytes_remain = 0 then [bus_op.read BHY_REG_BYTES_REMAIN_0 2]
    else [bus_op.read BHY_REG_BYTES_REMAIN_0 2, bus_op.read BHY_REG_FIFO_BUFFER_0 bytes_remain]

/-- The part "Report timestamp sync" of bhy_irq_work_func: the frame with the interrupt
timestamp and the firmware timestamp goes to the main queue and to the activity-recognition
queue.  After a failed read the local array timestamp_fw keeps the content it had. -/
def report_timestamp_sync (H : bhy_consts) (P : bhy_host_consts) (bus : irq_bus) (cd :
    bhy_client_data) :
    bhy_client_data :=
  let timestamp_fw :=
    match bus.timestamp_fw_read with
    | some bytes => bytes_from bytes 0 4
    | none => bytes_from bus.timestamp_fw 0 4
  let stamp := le_bytes cd.timestamp_irq 8 ++ timestamp_fw
  let cd :=
    if P.BHY_TS_LOGGING_SUPPORT then
      let irq_count := (cd.irq_count + 1) % 4294967296
      { cd with irq_count := irq_count,
                data_queue := queue_push H.BHY_FRAME_SIZE cd.data_queue
                  P.BHY_SENSOR_HANDLE_TIMESTAMP_SYNC (stamp ++ le_bytes irq_count 4) }
    else
      { cd with data_queue := queue_push H.BHY_FRAME_SIZE cd.data_queue
                  P.BHY_SENSOR_HANDLE_TIMESTAMP_SYNC stamp }
  { cd with data_queue_ar := queue_push H.BHY_FRAME_SIZE_AR cd.data_queue_ar
              P.BHY_SENSOR_HANDLE_TIMESTAMP_SYNC stamp }

/-- The function bhy_irq_work_func.  The callee bhy_load_ram_patch of detect_self_test_event is a
parameter; the wake lock, the sleep in suspend and the input events are left out. -/
def bhy_irq_work_func (H : bhy_consts) (P : bhy_host_consts)
    (bhy_load_ram_patch : bhy_client_data → bhy_client_data)
    (bus : irq_bus) (cd : bhy_client_data) : Option irq_work_result :=
  match cd.reset_flag with
  | RESET_FLAG_TODO => some ⟨{ cd with reset_flag := RESET_FLAG_READY }, []⟩
  | RESET_FLAG_READY =>
    (detect_init_event H bus.fifo cd).map (fun c => ⟨c, startup_scan_reads H bus.fifo⟩)
  | RESET_FLAG_SELF_TEST =>
    (detect_self_test_event H bhy_load_ram_patch bus.fifo cd).map
      (fun c => ⟨c, startup_scan_reads H bus.fifo⟩)
  | _ =>
    let cd := report_timestamp_sync H P bus cd
    (bhy_read_fifo_data H bus.fifo cd).map
      (fun c => ⟨c, bus_op.read BHY_REG_HOST_IRQ_TIMESTAMP_1 4
        :: bhy_read_fifo_data_reads bus.fifo⟩)

/-- A hardware interrupt: bhy_irq_handler, followed by bhy_irq_work_func when the handler
scheduled it. -/
def hardware_interrupt (H : bhy_consts) (P : bhy_host_consts)
    (bhy_load_ram_patch : bhy_client_data → bhy_client_data)
    (now : Nat) (bus : irq_bus) (cd : bhy_client_data) : Option irq_work_result :=
  let h := bhy_irq_handler now cd
  if h.2 then bhy_irq_work_func H P bhy_load_ram_patch bus h.1 else some ⟨h.1, []⟩

/-! ## Words of the specification about the protocols -/

/-- Poll k of the acknowledge register neither fails nor ends the wait: the read succeeds and
gives a byte that is neither the rejection 0x80 nor the expected acknowledge. -/
def quiet_ack (bus : param_bus) (expected k : Nat) : Prop :=
  0 ≤ (bus.ack_read k).1 ∧ (bus.ack_read k).2 ≠ 0x80 ∧ (bus.ack_read k).2 ≠ expected

instance (bus : param_bus) (expected k : Nat) : Decidable (quiet_ack bus expected k) := by
  unfold quiet_ack; exact inferInstance

/-- The upload of the payload goes through, in the words of the specification: as long as bytes
are due, the next read of the file neither fails nor meets the end of the file, and the write
of the bytes to the upload register succeeds. -/
def upload_ok (upload_data_write : Nat → Int) : List (Option (List Nat)) → Nat → Nat → Prop
  | [], remain, _ => remain = 0
  | none :: _, remain, _ => remain = 0
  | some bytes :: rest, remain, k =>
    remain = 0 ∨ (bytes ≠ [] ∧ 0 ≤ upload_data_write k
      ∧ upload_ok upload_data_write rest ((remain + 65536 - (bytes.take 64).length) % 65536)
          (k + 1))

/-- No step of the firmware load fails: none of the failures the specification lists for
bhy_load_ram_patch occurs.  The wait for the reset counts as passed when its loop is left with
retry above 0. -/
def load_succeeds (P : bhy_host_consts) (env : ram_patch_env) : Prop :=
  0 ≤ env.reset_write
    ∧ 0 < (reset_wait env.reset_ready P.BHY_RESET_WAIT_RETRY 0).1
    ∧ 0 ≤ env.upload_addr_write
    ∧ 0 ≤ env.chip_ctrl_upload_write
    ∧ ∃ f header, env.file = some f ∧ f.header = some header
        ∧ header.data_length % 65536 % 4 = 0
        ∧ upload_ok env.upload_data_write f.reads (header.data_length % 65536) 0
        ∧ 0 ≤ env.crc_read.1 ∧ env.crc_read.2 = header.crc
        ∧ 0 ≤ env.chip_ctrl_disable_write ∧ 0 ≤ env.chip_ctrl_run_write

/-! ## Swap entries (arch/arm64/include/asm/pgtable.h) -/

/-- The macro __SWP_TYPE_SHIFT. -/
def __SWP_TYPE_SHIFT : Nat := 3

/-- The macro __SWP_TYPE_BITS. -/
def __SWP_TYPE_BITS : Nat := 6

/-- The macro __SWP_OFFSET_BITS. -/
def __SWP_OFFSET_BITS : Nat := 49

/-- The macro __SWP_TYPE_MASK. -/
def __SWP_TYPE_MASK : Nat := (1 <<< __SWP_TYPE_BITS) - 1

/-- The macro __SWP_OFFSET_SHIFT. -/
def __SWP_OFFSET_SHIFT : Nat := __SWP_TYPE_BITS + __SWP_TYPE_SHIFT

/-- The macro __SWP_OFFSET_MASK. -/
def __SWP_OFFSET_MASK : Nat := (1 <<< __SWP_OFFSET_BITS) - 1

/-- The type swp_entry_t: one unsigned long, 64 bits on arm64. -/
structure swp_entry_t where
  val : Nat
deriving DecidableEq, Repr

/-- The type pte_t: one 64-bit pteval_t, read by pte_val. -/
structure pte_t where
  pte : Nat
deriving DecidableEq, Repr

/-- The macro __swp_type. -/
def __swp_type (x : swp_entry_t) : Nat :=
  (x.val >>> __SWP_TYPE_SHIFT) &&& __SWP_TYPE_MASK

/-- The macro __swp_offset. -/
def __swp_offset (x : swp_entry_t) : Nat :=
  (x.val >>> __SWP_OFFSET_SHIFT) &&& __SWP_OFFSET_MASK

/-- The macro __swp_entry on two unsigned long arguments: each shift is taken modulo 2^64. -/
def __swp_entry (type offset : Nat) : swp_entry_t :=
  ⟨(type <<< __SWP_TYPE_SHIFT) % 2 ^ 64 ||| (offset <<< __SWP_OFFSET_SHIFT) % 2 ^ 64⟩

/-- The macro __pte_to_swp_entry. -/
def __pte_to_swp_entry (pte : pte_t) : swp_entry_t :=
  ⟨pte.pte⟩

/-- The macro __swp_entry_to_pte. -/
def __swp_entry_to_pte (swp : swp_entry_t) : pte_t :=
  ⟨swp.val⟩

/-! ## Words of the specification about the pedometer flags -/

/-- The flags START_WALK and STOP_WALK are bits of their own: neither shares a bit with the
other or with LOGGING_DONE or NEW_STEP. -/
def walk_bits_apart (H : bhy_consts) : Prop :=
  H.LOGGING_DONE &&& H.START_WALK = 0 ∧ H.NEW_STEP &&& H.START_WALK = 0
    ∧ H.STOP_WALK &&& H.START_WALK = 0 ∧ H.LOGGING_DONE &&& H.STOP_WALK = 0
    ∧ H.NEW_STEP &&& H.STOP_WALK = 0

instance (H : bhy_consts) : Decidable (walk_bits_apart H) := by
  unfold walk_bits_apart; exact inferInstance

/-! ## Synthetic step frames in a batch -/

/-- The number of step-detector frames that generate_step_data pushes while the loop of
bhy_read_fifo_data handles the records at the offsets given, from the state given: a pass
pushes one when the record is a pedometer record and, after the frame is stored,
step_det_enabled and step_det are set and step_det_reported is clear. -/
def step_det_frames (H : bhy_consts) : List Nat → bhy_client_data → Nat
  | [], _ => 0
  | j :: js, cd =>
    let s := bhy_read_fifo_store H j (payload_len H cd.fifo_buf j) cd
    (if byte_at cd.fifo_buf j = H.PEDOMETER_SENSOR ∧ s.step_det_enabled = true
        ∧ s.step_det = true ∧ s.step_det_reported = false then 1 else 0)
      + step_det_frames H js
          (bhy_read_fifo_body H j (payload_len H cd.fifo_buf j)
            (bhy_get_sensor_type_data_len H (byte_at cd.fifo_buf j)).2 cd)

/-! ## The queues at probe time and the activity-recognition activation -/

/-- The part of bhy_probe that sets up the two queues: frames and frames_ar are the arrays that
kmalloc returns for BHY_FRAME_SIZE and BHY_FRAME_SIZE_AR slots, with whatever they hold. -/
def bhy_probe_queues (cd : bhy_client_data) (frames frames_ar : List fifo_frame) :
    bhy_client_data :=
  { cd with data_queue := { frames := frames, head := 0, tail := 0 },
            data_queue_ar := { frames := frames_ar, head := 0, tail := 0 } }

/-- The function bhy_store_activate_ar_hal; the callee kstrtol is a parameter, as in
bhy_store_self_test, and the input event is left out. -/
def bhy_store_activate_ar_hal (H : bhy_consts) (P : bhy_host_consts)
    (kstrtol : List Nat → Nat → Option Int) (cd : bhy_client_data) (buf : List Nat)
    (count : Nat) : op_result :=
  match kstrtol buf 10 with
  | none => ⟨- EINVAL, cd, []⟩
  | some req =>
    if req ≠ 1 then ⟨- EINVAL, cd, []⟩
    else
      let qa := cd.data_queue_ar
      let qa := set_head_slot qa { head_slot qa with handle := P.BHY_AR_ACTIVATE }
      ⟨(count : Int), { cd with data_queue_ar := queue_advance H.BHY_FRAME_SIZE_AR qa }, []⟩

/-- Both queues have their slots allocated and their indices inside the array. -/
def queues_ok (H : bhy_consts) (cd : bhy_client_data) : Prop :=
  queue_ok H.BHY_FRAME_SIZE cd.data_queue ∧ queue_ok H.BHY_FRAME_SIZE_AR cd.data_queue_ar

instance (H : bhy_consts) (cd : bhy_client_data) : Decidable (queues_ok H cd) := by
  unfold queues_ok; exact inferInstance

/-! ## The axis values of an accelerometer triplet -/

/-- The value of the 16-bit little-endian word i of an array of shorts, read as unsigned. -/
def axis_value (data : List Nat) (i : Nat) : Int :=
  (byte_at data (2 * i) : Int) + 256 * (byte_at data (2 * i + 1) : Int)

/-! ## The bytes sent to the upload register -/

/-- The bytes that a sequence of register accesses writes to the upload-data register, in
order. -/
def uploaded_bytes : List bus_op → List Nat
  | [] => []
  | bus_op.read _ _ :: ops => uploaded_bytes ops
  | bus_op.write reg data :: ops =>
    if reg = BHY_REG_UPLOAD_DATA then data ++ uploaded_bytes ops else uploaded_bytes ops

/-! ## Enabling the pedometer -/

/-- The function enable_sensor: buffer is the array short buffer[4] as its eight bytes, the sensor
is passed as one unsigned char, and the two callees are the store functions of the sysfs
attributes.  The parameters accel_open_calibration and nested are the callees of
bhy_store_sensor_conf; bus answers its parameter write. -/
def enable_sensor (H : bhy_consts) (P : bhy_host_consts)
    (accel_open_calibration : bhy_client_data → bhy_client_data)
    (nested : bhy_client_data → Bool → op_result)
    (bus : param_bus) (cd : bhy_client_data) (sensor : Nat) (enable : Bool) (delay : Nat) :
    op_result :=
  let buffer := le_bytes (if enable then delay else 0) 2 ++ List.replicate 6 0
  let s := bhy_store_sensor_sel cd [sensor % 256] 1
  if s.ret < 0 then s
  else
    let c := bhy_store_sensor_conf H P accel_open_calibration nested bus s.cd buffer 8
    ⟨c.ret, c.cd, s.ops ++ c.ops⟩

/-- The function enable_pedometer; its static variable count is the field pedometer_count, taken
to stay below 2^31.  The parameter nested stands for the call of enable_pedometer that
bhy_store_sensor_conf makes when the selected sensor is the step detector or the step counter. -/
def enable_pedometer (H : bhy_consts) (P : bhy_host_consts)
    (accel_open_calibration : bhy_client_data → bhy_client_data)
    (nested : bhy_client_data → Bool → op_result)
    (bus : param_bus) (cd : bhy_client_data) (enable : Bool) : op_result :=
  let count : Int :=
    if enable then cd.pedometer_count + 1
    else if cd.pedometer_count ≤ 0 then 0 else cd.pedometer_count - 1
  let cd := { cd with pedometer_count := count }
  if (if enable then (1 : Int) else 0) ≠ count then ⟨0, cd, []⟩
  else enable_sensor H P accel_open_calibration nested bus cd H.PEDOMETER_SENSOR enable
    P.PEDOMETER_CYCLE
/-- Modelled from the spec: one assignment of the constants of bhy_core.h, with pairwise distinct
case labels, an accelerometer payload of 6 bytes and a meta-event payload of 8 bytes as in the
scenarios of the spec, a main ring of 4 slots and an activity-recognition ring of 3; the
pedometer record takes one byte per field.  It serves to evaluate the definitions on concrete
inputs. -/
def sample_consts : bhy_consts where
  BHY_SENSOR_HANDLE_ZERO := 0
  BHY_SENSOR_HANDLE_ACCELEROMETER := 1
  BHY_SENSOR_HANDLE_GEOMAGNETIC_FIELD := 2
  BHY_SENSOR_HANDLE_ORIENTATION := 3
  BHY_SENSOR_HANDLE_GYROSCOPE := 4
  BHY_SENSOR_HANDLE_LIGHT := 5
  BHY_SENSOR_HANDLE_PRESSURE := 6
  BHY_SENSOR_HANDLE_TEMPERATURE := 7
  BHY_SENSOR_HANDLE_PROXIMITY := 8
  BHY_SENSOR_HANDLE_GRAVITY := 9
  BHY_SENSOR_HANDLE_LINEAR_ACCELERATION := 10
  BHY_SENSOR_HANDLE_ROTATION_VECTOR := 11
  BHY_SENSOR_HANDLE_RELATIVE_HUMIDITY := 12
  BHY_SENSOR_HANDLE_AMBIENT_TEMPERATURE := 13
  BHY_SENSOR_HANDLE_MAGNETIC_FIELD_UNCALIBRATED := 14
  BHY_SENSOR_HANDLE_GAME_ROTATION_VECTOR := 15
  BHY_SENSOR_HANDLE_GYROSCOPE_UNCALIBRATED := 16
  BHY_SENSOR_HANDLE_SIGNIFICANT_MOTION := 17
  BHY_SENSOR_HANDLE_STEP_DETECTOR := 18
  BHY_SENSOR_HANDLE_STEP_COUNTER := 19
  BHY_SENSOR_HANDLE_GEOMAGNETIC_ROTATION_VECTOR := 20
  BHY_SENSOR_HANDLE_HEART_RATE := 21
  BHY_SENSOR_HANDLE_ACCELEROMETER_WU := 33
  BHY_SENSOR_HANDLE_GEOMAGNETIC_FIELD_WU := 34
  BHY_SENSOR_HANDLE_ORIENTATION_WU := 35
  BHY_SENSOR_HANDLE_GYROSCOPE_WU := 36
  BHY_SENSOR_HANDLE_LIGHT_WU := 37
  BHY_SENSOR_HANDLE_PRESSURE_WU := 38
  BHY_SENSOR_HANDLE_TEMPERATURE_WU := 39
  BHY_SENSOR_HANDLE_PROXIMITY_WU := 40
  BHY_SENSOR_HANDLE_GRAVITY_WU := 41
  BHY_SENSOR_HANDLE_LINEAR_ACCELERATION_WU := 42
  BHY_SENSOR_HANDLE_ROTATION_VECTOR_WU := 43
  BHY_SENSOR_HANDLE_RELATIVE_HUMIDITY_WU := 44
  BHY_SENSOR_HANDLE_AMBIENT_TEMPERATURE_WU := 45
  BHY_SENSOR_HANDLE_MAGNETIC_FIELD_UNCALIBRATED_WU := 46
  BHY_SENSOR_HANDLE_GAME_ROTATION_VECTOR_WU := 47
  BHY_SENSOR_HANDLE_GYROSCOPE_UNCALIBRATED_WU := 48
  BHY_SENSOR_HANDLE_STEP_DETECTOR_WU := 50
  BHY_SENSOR_HANDLE_STEP_COUNTER_WU := 51
  BHY_SENSOR_HANDLE_GEOMAGNETIC_ROTATION_VECTOR_WU := 52
  BHY_SENSOR_HANDLE_HEART_RATE_WU := 53
  BHY_SENSOR_HANDLE_TILT_DETECTOR := 22
  BHY_SENSOR_HANDLE_WAKE_GESTURE := 23
  BHY_SENSOR_HANDLE_GLANCE_GESTURE := 24
  BHY_SENSOR_HANDLE_PICK_UP_GESTURE := 25
  BHY_SENSOR_HANDLE_BSX_C := 249
  BHY_SENSOR_HANDLE_BSX_B := 250
  BHY_SENSOR_HANDLE_BSX_A := 251
  BHY_SENSOR_HANDLE_TIMESTAMP_LSW := 252
  BHY_SENSOR_HANDLE_TIMESTAMP_MSW := 253
  BHY_SENSOR_HANDLE_META_EVENT := 254
  BHY_SENSOR_HANDLE_TIMESTAMP_LSW_WU := 246
  BHY_SENSOR_HANDLE_TIMESTAMP_MSW_WU := 247
  BHY_SENSOR_HANDLE_META_EVENT_WU := 248
  BHY_SENSOR_HANDLE_ACTIVITY_RECOGNITION := 31
  BHY_SENSOR_HANDLE_DEBUG := 245
  BHY_SENSOR_HANDLE_CUSTOM_1 := 26
  BHY_SENSOR_HANDLE_CUSTOM_2 := 27
  BHY_SENSOR_HANDLE_CUSTOM_3 := 28
  BHY_SENSOR_HANDLE_CUSTOM_4 := 29
  BHY_SENSOR_HANDLE_CUSTOM_5 := 30
  BHY_SENSOR_HANDLE_CUSTOM_1_WU := 58
  BHY_SENSOR_HANDLE_CUSTOM_2_WU := 59
  BHY_SENSOR_HANDLE_CUSTOM_3_WU := 60
  BHY_SENSOR_HANDLE_CUSTOM_4_WU := 61
  BHY_SENSOR_HANDLE_CUSTOM_5_WU := 62
  BHY_SENSOR_DATA_LEN_ACCELEROMETER := 6
  BHY_SENSOR_DATA_LEN_GEOMAGNETIC_FIELD := 7
  BHY_SENSOR_DATA_LEN_ORIENTATION := 7
  BHY_SENSOR_DATA_LEN_GYROSCOPE := 7
  BHY_SENSOR_DATA_LEN_LIGHT := 2
  BHY_SENSOR_DATA_LEN_PRESSURE := 3
  BHY_SENSOR_DATA_LEN_TEMPERATURE := 2
  BHY_SENSOR_DATA_LEN_PROXIMITY := 2
  BHY_SENSOR_DATA_LEN_GRAVITY := 7
  BHY_SENSOR_DATA_LEN_LINEAR_ACCELERATION := 7
  BHY_SENSOR_DATA_LEN_ROTATION_VECTOR := 10
  BHY_SENSOR_DATA_LEN_RELATIVE_HUMIDITY := 2
  BHY_SENSOR_DATA_LEN_AMBIENT_TEMPERATURE := 2
  BHY_SENSOR_DATA_LEN_MAGNETIC_FIELD_UNCALIBRATED := 13
  BHY_SENSOR_DATA_LEN_GAME_ROTATION_VECTOR := 10
  BHY_SENSOR_DATA_LEN_GYROSCOPE_UNCALIBRATED := 13
  BHY_SENSOR_DATA_LEN_SIGNIFICANT_MOTION := 0
  BHY_SENSOR_DATA_LEN_STEP_DETECTOR := 0
  BHY_SENSOR_DATA_LEN_STEP_COUNTER := 2
  BHY_SENSOR_DATA_LEN_GEOMAGNETIC_ROTATION_VECTOR := 10
  BHY_SENSOR_DATA_LEN_HEART_RATE := 1
  BHY_SENSOR_DATA_LEN_ACCELEROMETER_WU := 6
  BHY_SENSOR_DATA_LEN_GEOMAGNETIC_FIELD_WU := 7
  BHY_SENSOR_DATA_LEN_ORIENTATION_WU := 7
  BHY_SENSOR_DATA_LEN_GYROSCOPE_WU := 7
  BHY_SENSOR_DATA_LEN_LIGHT_WU := 2
  BHY_SENSOR_DATA_LEN_PRESSURE_WU := 3
  BHY_SENSOR_DATA_LEN_TEMPERATURE_WU := 2
  BHY_SENSOR_DATA_LEN_PROXIMITY_WU := 2
  BHY_SENSOR_DATA_LEN_GRAVITY_WU := 7
  BHY_SENSOR_DATA_LEN_LINEAR_ACCELERATION_WU := 7
  BHY_SENSOR_DATA_LEN_ROTATION_VECTOR_WU := 10
  BHY_SENSOR_DATA_LEN_RELATIVE_HUMIDITY_WU := 2
  BHY_SENSOR_DATA_LEN_AMBIENT_TEMPERATURE_WU := 2
  BHY_SENSOR_DATA_LEN_MAGNETIC_FIELD_UNCALIBRATED_WU := 13
  BHY_SENSOR_DATA_LEN_GAME_ROTATION_VECTOR_WU := 10
  BHY_SENSOR_DATA_LEN_GYROSCOPE_UNCALIBRATED_WU := 13
  BHY_SENSOR_DATA_LEN_STEP_DETECTOR_WU := 0
  BHY_SENSOR_DATA_LEN_STEP_COUNTER_WU := 2
  BHY_SENSOR_DATA_LEN_GEOMAGNETIC_ROTATION_VECTOR_WU := 10
  BHY_SENSOR_DATA_LEN_HEART_RATE_WU := 1
  BHY_SENSOR_DATA_LEN_TILT_DETECTOR := 0
  BHY_SENSOR_DATA_LEN_WAKE_GESTURE := 0
  BHY_SENSOR_DATA_LEN_GLANCE_GESTURE := 0
  BHY_SENSOR_DATA_LEN_PICK_UP_GESTURE := 0
  BHY_SENSOR_DATA_LEN_BSX_C := 16
  BHY_SENSOR_DATA_LEN_BSX_B := 16
  BHY_SENSOR_DATA_LEN_BSX_A := 16
  BHY_SENSOR_DATA_LEN_TIMESTAMP_LSW := 2
  BHY_SENSOR_DATA_LEN_TIMESTAMP_MSW := 2
  BHY_SENSOR_DATA_LEN_META_EVENT := 8
  BHY_SENSOR_DATA_LEN_TIMESTAMP_LSW_WU := 2
  BHY_SENSOR_DATA_LEN_TIMESTAMP_MSW_WU := 2
  BHY_SENSOR_DATA_LEN_META_EVENT_WU := 8
  BHY_SENSOR_DATA_LEN_ACTIVITY_RECOGNITION := 2
  BHY_SENSOR_DATA_LEN_DEBUG := 13
  BHY_SENSOR_DATA_LEN_CUSTOM_1 := 12
  BHY_SENSOR_DATA_LEN_CUSTOM_2 := 1
  BHY_SENSOR_DATA_LEN_CUSTOM_3 := 1
  BHY_SENSOR_DATA_LEN_CUSTOM_4 := 1
  BHY_SENSOR_DATA_LEN_CUSTOM_5 := 1
  BHY_SENSOR_DATA_LEN_CUSTOM_1_WU := 12
  BHY_SENSOR_DATA_LEN_CUSTOM_2_WU := 1
  BHY_SENSOR_DATA_LEN_CUSTOM_3_WU := 1
  BHY_SENSOR_DATA_LEN_CUSTOM_4_WU := 1
  BHY_SENSOR_DATA_LEN_CUSTOM_5_WU := 1
  PEDOMETER_SENSOR := 26
  META_EVENT_INITIALIZED := 16
  META_EVENT_SELF_TEST_RESULTS := 15
  SELF_TEST_RESULT_INDEX_ACC := 0
  SELF_TEST_RESULT_INDEX_MAG := 1
  SELF_TEST_RESULT_INDEX_GYRO := 2
  BHY_FRAME_SIZE := 4
  BHY_FRAME_SIZE_AR := 3
  BHY_FIFO_LEN_MAX := 64
  LOGGING_DONE := 1
  NEW_STEP := 2
  START_WALK := 4
  STOP_WALK := 8
  FIRST_STEP := 6
  SIZEOF_FIFO_FRAME := 18
  SIZEOF_ACC_BUFFER := 6
  pedometer_of_bytes := fun d =>
    { data_index := d.getD 0 0, walk_count := d.getD 1 0, run_count := d.getD 2 0,
      step_status := d.getD 3 0, start_time := d.getD 4 0, end_time := d.getD 5 0 }
/-- A session state for sample_consts: both queues empty with all slots zeroed, no calibration
offsets, the step sensors disabled. -/
def sample_state : bhy_client_data where
  data_queue := { frames := List.replicate 4 { handle := 0, data := List.replicate 16 0 },
                  head := 0, tail := 0 }
  data_queue_ar := { frames := List.replicate 3 { handle := 0, data := List.replicate 16 0 },
                     head := 0, tail := 0 }
  fifo_buf := List.replicate 64 0
  reset_flag := RESET_FLAG_TODO
  self_test_result := [-1, -1, -1]
  acc_cal := [0, 0, 0]
  acc_buffer := List.replicate 6 0
  walk_mode := false
  last_walk_mode := false
  total_step := 0
  last_total_step := 0
  current_index := 0
  start_index := 0
  pedo := List.replicate 8 default
  interrupt_mask := 0
  step_det_enabled := false
  step_cnt_enabled := false
  step_det := false
  step_det_reported := false
  step_count := 0
  last_step_count := 0
  last_step := 0
  timestamp_irq := 0
  irq_count := 0
  sensor_sel := 0
  acc_enabled := false
  acc_delay := 0
  tilt_enabled := false
  pickup_enabled := false
  smd_enabled := false
  ar_enabled := false
  ram_patch_init := false
  pedometer_count := 0

/-- The buffer of the decoding scenario: an accelerometer record and an unknown tag. -/
def acc_scenario_buf : List Nat := [1, 5, 0, 0, 0, 0, 0, 200]

/-- The sample state with the buffer of the decoding scenario in its FIFO buffer. -/
def acc_scenario_state : bhy_client_data :=
  { sample_state with fifo_buf := acc_scenario_buf }

/-- The buffer of the self-test scenario: one meta event with sub-type self-test results for the
accelerometer and the result byte 0. -/
def self_test_scenario_buf : List Nat := [254, 15, 1, 0, 0, 0, 0, 0, 0]

/-- A stand-in for bhy_load_ram_patch that counts its calls in last_step. -/
def counting_reload (cd : bhy_client_data) : bhy_client_data :=
  { cd with last_step := cd.last_step + 1 }


/-- Sample values for the constants of the protocols: three polls in every bounded wait. -/
def sample_host_consts : bhy_host_consts where
  BHY_SENSOR_HANDLE_TIMESTAMP_SYNC := 243
  BHY_SENSOR_HANDLE_MAX := 64
  BHY_FLUSH_DISCARD_ALL := 254
  BHY_FLUSH_FLUSH_ALL := 255
  AR_SENSOR := 31
  BHY_PARAM_ACK_WAIT_RETRY := 3
  BHY_SOFT_PASS_THRU_READ_RETRY := 3
  BHY_RESET_WAIT_RETRY := 3
  BHY_PAGE_SENSOR := 3
  BHY_PAGE_SYSTEM := 1
  BHY_PAGE_SOFT_PASS_THRU := 15
  BHY_PARAM_SENSOR_CONF_0 := 64
  BHY_PARAM_SYSTEM_META_EVENT_CTRL := 1
  BHY_PARAM_SYSTEM_WAKE_UP_META_EVENT_CTRL := 29
  BHY_PARAM_SOFT_PASS_THRU_READ := 1
  BHY_PARAM_SOFT_PASS_THRU_WRITE := 2
  HOST_CTRL_MASK_ALGORITHM_STANDBY := 1
  HOST_CTRL_MASK_SELF_TEST_REQ := 2
  BHY_HOST_STATUS_MASK_ALGO_STANDBY := 4
  BHY_AR_ACTIVATE := 242
  PEDOMETER_CYCLE := 100
  BHY_TS_LOGGING_SUPPORT := false

/-- The buffer of the activity-recognition scenario: a timestamp record, an accelerometer record
and an activity-recognition record. -/
def ar_scenario_buf : List Nat := [252, 9, 8, 1, 5, 0, 0, 0, 0, 0, 31, 3, 0]

/-- The sample state with the buffer of the activity-recognition scenario in its FIFO buffer. -/
def ar_scenario_state : bhy_client_data :=
  { sample_state with fifo_buf := ar_scenario_buf }

/-- A bus for the parameter protocol that accepts every write and acknowledges with the given
byte at every poll. -/
def acking_bus (ack : Nat) : param_bus where
  load_write := 0
  page_write := 0
  req_write := 0
  ack_read := fun _ => (0, ack)
  saved_read := (0, [1, 2, 3, 4, 5, 6, 7, 8])
  page_clear := 0
  req_clear := 0

/-- A bus for the interrupt work function: the firmware timestamp reads as 1, 2, 3, 4 and the
FIFO holds one meta event of nine bytes. -/
def sample_irq_bus : irq_bus where
  timestamp_fw_read := some [1, 2, 3, 4]
  timestamp_fw := [222, 173, 190, 239]
  fifo := { bytes_remain := some 9, fifo := some [254, 1, 0, 0, 0, 0, 0, 0, 0] }

/-- The bus of sample_irq_bus with a failing read of the firmware timestamp. -/
def failing_timestamp_bus : irq_bus :=
  { sample_irq_bus with timestamp_fw_read := none }

/-- A bus for bhy_store_self_test on which every access succeeds and the host status follows the
request at once. -/
def sample_self_test_bus : self_test_bus where
  host_ctrl_read := fun _ => (0, 0)
  host_ctrl_write := fun _ => 0
  standby_status := fun _ => (0, 4)
  resume_status := fun _ => (0, 0)

/-- A stand-in for kstrtol on one hexadecimal digit. -/
def sample_kstrtol (buf : List Nat) (_base : Nat) : Option Int :=
  match buf with
  | [c] => if 48 ≤ c ∧ c ≤ 57 then some ((c : Int) - 48) else none
  | _ => none

/-- A RAM patch file with a payload of eight bytes, read in one call. -/
def sample_patch_file : ram_patch_file where
  header := some { data_length := 8, crc := 305419896 }
  reads := [some [1, 2, 3, 4, 5, 6, 7, 8]]

/-- Surroundings in which every step of bhy_load_ram_patch succeeds: the flag reads
RESET_FLAG_READY from the first poll on and the CRC register gives the CRC of the header. -/
def sample_patch_env : ram_patch_env where
  reset_write := 0
  reset_ready := fun _ => true
  upload_addr_write := 0
  chip_ctrl_upload_write := 0
  file := some sample_patch_file
  upload_data_write := fun _ => 0
  crc_read := (0, 305419896)
  chip_ctrl_disable_write := 0
  chip_ctrl_run_write := 0
  data_buf := List.replicate 64 0

/-- The surroundings of sample_patch_env with a CRC register that gives another value. -/
def bad_crc_env : ram_patch_env :=
  { sample_patch_env with crc_read := (0, 1) }

/-- A bus for the interrupt work function whose FIFO holds the buffer of the self-test
scenario. -/
def self_test_irq_bus : irq_bus where
  timestamp_fw_read := some [1, 2, 3, 4]
  timestamp_fw := [0, 0, 0, 0]
  fifo := { bytes_remain := some 9, fifo := some self_test_scenario_buf }

/-- A session state with both step sensors enabled, a step detected and not yet reported, and a
step count of 5 not yet sent. -/
def step_scenario_state : bhy_client_data :=
  { sample_state with step_det_enabled := true, step_cnt_enabled := true, step_det := true,
                      step_count := 5 }

/-- The sample state with calibration offsets 1, -2 and 300 and an accelerometer record with the
axis values 5, 0 and 256 at the start of its FIFO buffer. -/
def cal_scenario_state : bhy_client_data :=
  { sample_state with acc_cal := [1, -2, 300], fifo_buf := [1, 5, 0, 0, 0, 0, 1, 200] }

/-- The surroundings of sample_patch_env where the flag reads RESET_FLAG_READY from the third poll
on, the last one that the three retries of the sample allow. -/
def late_ready_env : ram_patch_env :=
  { sample_patch_env with reset_ready := fun k => decide (2 ≤ k) }

/-- A drain where the device declares 65 bytes, one more than the 64 of BHY_FIFO_LEN_MAX in the
sample: an accelerometer record and 58 bytes of an unknown tag. -/
def oversized_read : fifo_read where
  bytes_remain := some 65
  fifo := some ([1, 5, 0, 0, 0, 0, 0] ++ List.replicate 58 200)

/-- A RAM patch file whose header declares a payload of 4 bytes and that goes on for 65540 bytes
after the header: vfs_read gives 64 bytes 1024 times and then the last 4. -/
def wrap_patch_file : ram_patch_file where
  header := some { data_length := 4, crc := 305419896 }
  reads := List.replicate 1024 (some (List.replicate 64 7)) ++ [some [1, 2, 3, 4]]

/-- The surroundings of sample_patch_env with the file wrap_patch_file. -/
def wrap_patch_env : ram_patch_env :=
  { sample_patch_env with file := some wrap_patch_file }

/-- A bus for the parameter protocol on which the first write of a parameter call fails with
-EIO. -/
def failing_param_bus : param_bus :=
  { acking_bus 218 with load_write := -5 }

/-- A stand-in for the nested call of enable_pedometer, which the sample never reaches: the
pedometer tag is neither the step detector nor the step counter. -/
def no_nested_call (cd : bhy_client_data) (_enable : Bool) : op_result :=
  ⟨0, cd, []⟩

/-- The buffer of the pedometer scenario: one pedometer record in normal mode (data_index 0) with
a walk count of 5 and step_status 1, and an unknown tag. -/
def pedometer_scenario_buf : List Nat := [26, 0, 5, 0, 1, 0, 0, 0, 0, 0, 0, 0, 0, 200]

/-- The sample state with the buffer of the pedometer scenario in its FIFO buffer. -/
def pedometer_scenario_state : bhy_client_data :=
  { sample_state with fifo_buf := pedometer_scenario_buf }

/-- The buffer of a failed self test: one meta event with sub-type self-test results for the
uncalibrated gyroscope and the result byte 200. -/
def failed_self_test_buf : List Nat := [254, 15, 16, 200, 0, 0, 0, 0, 0]

/-! # Theorems -/

/-! ## The frame queues -/

theorem ring_step_eq_mod (N i : Nat) (h : i < N) :
    (if i = N - 1 then 0 else i + 1) = (i + 1) % N := by
  split
  · next h1 =>
    have : i + 1 = N := by omega
    rw [this, Nat.mod_self]
  · next h1 =>
    rw [Nat.mod_eq_of_lt (by omega)]

theorem queue_advance_frames (N : Nat) (q : frame_queue) :
    (queue_advance N q).frames = q.frames := rfl

theorem queue_advance_head (N : Nat) (q : frame_queue) :
    (queue_advance N q).head = if q.head = N - 1 then 0 else q.head + 1 := rfl

theorem queue_advance_tail (N : Nat) (q : frame_queue) :
    (queue_advance N q).tail =
      if (if q.head = N - 1 then 0 else q.head + 1) = q.tail then
        (if q.tail = N - 1 then 0 else q.tail + 1)
      else q.tail := rfl

theorem queue_push_frames (N : Nat) (q : frame_queue) (handle : Nat) (bytes : List Nat) :
    (queue_push N q handle bytes).frames =
      q.frames.set q.head { handle := handle, data := memcpy (head_slot q).data bytes } := rfl

theorem memcpy_take (dst bytes : List Nat) : (memcpy dst bytes).take bytes.length = bytes := by
  simp [memcpy]

/-- Claim C2: on a queue of N slots with head and tail below N, the push step is total, puts the record
(the handle and the payload bytes) into the slot frames[head], leaves every other slot as it
was, moves head to (head + 1) mod N, and moves tail to (tail + 1) mod N exactly when the new
head equals the old tail, leaving it unchanged otherwise. -/
theorem queue_push_step (N : Nat) (q : frame_queue) (handle : Nat) (bytes : List Nat)
    (hlen : q.frames.length = N) (hh : q.head < N) (ht : q.tail < N) :
    frame_carries ((queue_push N q handle bytes).frames.getD q.head default)
        { handle := handle, data := bytes }
      ∧ (∀ i, i ≠ q.head →
          (queue_push N q handle bytes).frames.getD i default = q.frames.getD i default)
      ∧ (queue_push N q handle bytes).frames.length = N
      ∧ (queue_push N q handle bytes).head = (q.head + 1) % N
      ∧ ((queue_push N q handle bytes).head = q.tail →
          (queue_push N q handle bytes).tail = (q.tail + 1) % N)
      ∧ ((queue_push N q handle bytes).head ≠ q.tail →
          (queue_push N q handle bytes).tail = q.tail) := by
  have hhead : (queue_push N q handle bytes).head = (q.head + 1) % N := by
    show (if q.head = N - 1 then 0 else q.head + 1) = _
    exact ring_step_eq_mod N q.head hh
  have htail : (queue_push N q handle bytes).tail =
      if (queue_push N q handle bytes).head = q.tail then
        (if q.tail = N - 1 then 0 else q.tail + 1) else q.tail := rfl
  refine ⟨?_, ?_, ?_, hhead, ?_, ?_⟩
  · rw [queue_push_frames]
    have : q.head < q.frames.length := by omega
    simp [List.getD_eq_getElem?_getD, List.getElem?_set, this, frame_carries, memcpy_take]
  · intro i hi
    rw [queue_push_frames]
    simp [List.getD_eq_getElem?_getD, List.getElem?_set, Ne.symm hi]
  · rw [queue_push_frames]; simpa using hlen
  · intro h
    rw [htail, if_pos h]
    exact ring_step_eq_mod N q.tail ht
  · intro h
    rw [htail, if_neg h]

theorem queue_push_step_witness :
    frame_carries ((queue_push 2 ⟨[⟨0, [9, 9]⟩, ⟨0, [9, 9]⟩], 1, 0⟩ 7 [3]).frames.getD 1 default)
        { handle := 7, data := [3] }
      ∧ (∀ i, i ≠ 1 →
          (queue_push 2 ⟨[⟨0, [9, 9]⟩, ⟨0, [9, 9]⟩], 1, 0⟩ 7 [3]).frames.getD i default
            = [(⟨0, [9, 9]⟩ : fifo_frame), ⟨0, [9, 9]⟩].getD i default)
      ∧ (queue_push 2 ⟨[⟨0, [9, 9]⟩, ⟨0, [9, 9]⟩], 1, 0⟩ 7 [3]).frames.length = 2
      ∧ (queue_push 2 ⟨[⟨0, [9, 9]⟩, ⟨0, [9, 9]⟩], 1, 0⟩ 7 [3]).head = (1 + 1) % 2
      ∧ ((queue_push 2 ⟨[⟨0, [9, 9]⟩, ⟨0, [9, 9]⟩], 1, 0⟩ 7 [3]).head = 0 →
          (queue_push 2 ⟨[⟨0, [9, 9]⟩, ⟨0, [9, 9]⟩], 1, 0⟩ 7 [3]).tail = (0 + 1) % 2)
      ∧ ((queue_push 2 ⟨[⟨0, [9, 9]⟩, ⟨0, [9, 9]⟩], 1, 0⟩ 7 [3]).head ≠ 0 →
          (queue_push 2 ⟨[⟨0, [9, 9]⟩, ⟨0, [9, 9]⟩], 1, 0⟩ 7 [3]).tail = 0) :=
  queue_push_step 2 ⟨[⟨0, [9, 9]⟩, ⟨0, [9, 9]⟩], 1, 0⟩ 7 [3] (by decide) (by decide) (by decide)

theorem show_frame_spec (N sz : Nat) (q : frame_queue) (hsz : 0 < sz) (ht : q.tail < N) :
    ((show_frame N sz q).ret = 0 ↔ q.tail = q.head)
      ∧ (q.tail = q.head → (show_frame N sz q).buf = none ∧ (show_frame N sz q).q = q)
      ∧ (q.tail ≠ q.head →
          (show_frame N sz q).ret = sz
          ∧ (show_frame N sz q).buf = some (q.frames.getD q.tail default)
          ∧ (show_frame N sz q).q.tail = (q.tail + 1) % N
          ∧ (show_frame N sz q).q.head = q.head
          ∧ (show_frame N sz q).q.frames = q.frames) := by
  by_cases h : q.tail = q.head
  · simp [show_frame, h]
  · have := ring_step_eq_mod N q.tail ht
    simp [show_frame, h, this]
    omega

/-- Claim C3: for the main queue (bhy_show_fifo_frame) and the activity-recognition queue
(bhy_show_fifo_frame_ar), with head and tail below the number of slots: the read returns length 0
if and only if tail equals head, and then copies nothing and leaves the session state unchanged;
otherwise it returns the size of a frame with a copy of frames[tail], moves tail to
(tail + 1) mod N and leaves head, every slot and the other queue unchanged. -/
theorem show_fifo_frame_spec (H : bhy_consts) (cd : bhy_client_data)
    (hsz : 0 < H.SIZEOF_FIFO_FRAME)
    (ht : cd.data_queue.tail < H.BHY_FRAME_SIZE)
    (hta : cd.data_queue_ar.tail < H.BHY_FRAME_SIZE_AR) :
    (((bhy_show_fifo_frame H cd).1.ret = 0 ↔ cd.data_queue.tail = cd.data_queue.head)
      ∧ (cd.data_queue.tail = cd.data_queue.head →
          (bhy_show_fifo_frame H cd).1.buf = none ∧ (bhy_show_fifo_frame H cd).2 = cd)
      ∧ (cd.data_queue.tail ≠ cd.data_queue.head →
          (bhy_show_fifo_frame H cd).1.ret = H.SIZEOF_FIFO_FRAME
          ∧ (bhy_show_fifo_frame H cd).1.buf
              = some (cd.data_queue.frames.getD cd.data_queue.tail default)
          ∧ (bhy_show_fifo_frame H cd).2 =
              { cd with data_queue :=
                  { cd.data_queue with tail := (cd.data_queue.tail + 1) % H.BHY_FRAME_SIZE } }))
    ∧ (((bhy_show_fifo_frame_ar H cd).1.ret = 0 ↔ cd.data_queue_ar.tail = cd.data_queue_ar.head)
      ∧ (cd.data_queue_ar.tail = cd.data_queue_ar.head →
          (bhy_show_fifo_frame_ar H cd).1.buf = none ∧ (bhy_show_fifo_frame_ar H cd).2 = cd)
      ∧ (cd.data_queue_ar.tail ≠ cd.data_queue_ar.head →
          (bhy_show_fifo_frame_ar H cd).1.ret = H.SIZEOF_FIFO_FRAME
          ∧ (bhy_show_fifo_frame_ar H cd).1.buf
              = some (cd.data_queue_ar.frames.getD cd.data_queue_ar.tail default)
          ∧ (bhy_show_fifo_frame_ar H cd).2 =
              { cd with data_queue_ar :=
                  { cd.data_queue_ar with
                    tail := (cd.data_queue_ar.tail + 1) % H.BHY_FRAME_SIZE_AR } })) := by
  have h1 := show_frame_spec H.BHY_FRAME_SIZE H.SIZEOF_FIFO_FRAME cd.data_queue hsz ht
  have h2 := show_frame_spec H.BHY_FRAME_SIZE_AR H.SIZEOF_FIFO_FRAME cd.data_queue_ar hsz hta
  obtain ⟨a1, b1, c1⟩ := h1
  obtain ⟨a2, b2, c2⟩ := h2
  refine ⟨⟨a1, ?_, ?_⟩, ⟨a2, ?_, ?_⟩⟩
  · intro h
    refine ⟨(b1 h).1, ?_⟩
    show { cd with data_queue := _ } = cd
    rw [(b1 h).2]
  · intro h
    obtain ⟨r1, r2, r3, r4, r5⟩ := c1 h
    refine ⟨r1, r2, ?_⟩
    show { cd with data_queue := _ } = _
    congr 1
    cases hq : show_frame H.BHY_FRAME_SIZE H.SIZEOF_FIFO_FRAME cd.data_queue with
    | mk ret buf q =>
      rw [hq] at r3 r4 r5
      cases q
      simp_all
  · intro h
    refine ⟨(b2 h).1, ?_⟩
    show { cd with data_queue_ar := _ } = cd
    rw [(b2 h).2]
  · intro h
    obtain ⟨r1, r2, r3, r4, r5⟩ := c2 h
    refine ⟨r1, r2, ?_⟩
    show { cd with data_queue_ar := _ } = _
    congr 1
    cases hq : show_frame H.BHY_FRAME_SIZE_AR H.SIZEOF_FIFO_FRAME cd.data_queue_ar with
    | mk ret buf q =>
      rw [hq] at r3 r4 r5
      cases q
      simp_all

theorem queue_advance_eq (N : Nat) (fr : List fifo_frame) (h t h1 t1 : Nat)
    (hh : h1 = if h = N - 1 then 0 else h + 1)
    (ht : t1 = if h1 = t then (if t = N - 1 then 0 else t + 1) else t) :
    queue_advance N ⟨fr, h, t⟩ = ⟨fr, h1, t1⟩ := by
  subst ht; subst hh; rfl

theorem contents_push_split (A B : List fifo_frame) (x f : fifo_frame) (t N : Nat)
    (hN : N = A.length + 1 + B.length) (ht : t < N) (h2 : 2 ≤ N) :
    queue_contents (queue_advance N ⟨A ++ f :: B, A.length, t⟩) =
      if (queue_contents ⟨A ++ x :: B, A.length, t⟩).length + 1 < N then
        queue_contents ⟨A ++ x :: B, A.length, t⟩ ++ [f]
      else (queue_contents ⟨A ++ x :: B, A.length, t⟩).tail ++ [f] := by
  subst hN
  by_cases hth : t ≤ A.length
  · have hc : queue_contents ⟨A ++ x :: B, A.length, t⟩ = A.drop t := by
      simp [queue_contents, hth]
    rw [hc]
    by_cases hB : B.length = 0
    · have hB0 : B = [] := List.length_eq_zero.mp hB
      subst hB0
      simp only [List.length_nil, Nat.add_zero] at *
      by_cases ht0 : t = 0
      · subst ht0
        rw [queue_advance_eq _ _ _ _ 0 1 (by split_ifs <;> omega) (by split_ifs <;> omega)]
        have h1 : ¬ (A.length + 1 < A.length + 1) := by omega
        have h7 : 1 - A.length = 0 := by omega
        simp [queue_contents, List.drop_append_eq_append_drop, h1, h7]
      · rw [queue_advance_eq _ _ _ _ 0 t (by split_ifs <;> omega) (by split_ifs <;> omega)]
        have h1 : ¬ (t ≤ 0) := by omega
        have h3 : A.length - t + 1 < A.length + 1 := by omega
        have h4 : t - A.length = 0 := by omega
        simp [queue_contents, List.drop_append_eq_append_drop, h1, h3, h4]
    · rw [queue_advance_eq _ _ _ _ (A.length + 1) t (by split_ifs <;> omega)
        (by split_ifs <;> omega)]
      have h1 : t ≤ A.length + 1 := by omega
      have h3 : A.length - t + 1 < A.length + 1 + B.length := by omega
      have h4 : t - A.length = 0 := by omega
      simp [queue_contents, List.drop_append_eq_append_drop, List.take_append_eq_append_take,
        h1, h3, h4, List.take_of_length_le]
  · have h5 : t - A.length = (t - A.length - 1) + 1 := by omega
    have h6 : A.length ≤ t := by omega
    have hc : queue_contents ⟨A ++ x :: B, A.length, t⟩ = B.drop (t - A.length - 1) ++ A := by
      simp only [queue_contents, hth, if_false, List.drop_append_eq_append_drop,
        List.drop_eq_nil_of_le h6, List.nil_append, List.take_left']
      rw [h5, List.drop_succ_cons]
      simp
    rw [hc]
    by_cases hadj : t = A.length + 1
    · subst hadj
      have e1 : A.length + 1 + 1 - A.length = 2 := by omega
      have e2 : A.length + 1 - A.length - 1 = 0 := by omega
      have e3 : A.length + 1 - A.length = 1 := by omega
      rcases B with _ | ⟨b, _ | ⟨c, B⟩⟩
      · simp at ht
      · rw [queue_advance_eq _ _ _ _ (A.length + 1) 0 (by simp) (by simp)]
        simp [queue_contents, List.take_append_eq_append_take, e2, e3]
      · rw [queue_advance_eq _ _ _ _ (A.length + 1) (A.length + 1 + 1)
          (by simp only [List.length_cons]; split_ifs <;> omega)
          (by simp only [List.length_cons]; split_ifs <;> omega)]
        have e4 : ¬ (B.length + A.length + 1 + 1 + 1 < A.length + 1 + (B.length + 1 + 1)) := by
          omega
        have e6 : A.length ≤ A.length + 1 + 1 := by omega
        simp [queue_contents, List.take_append_eq_append_take,
            List.drop_append_eq_append_drop, e1, e2, e4, List.take_of_length_le,
            List.drop_eq_nil_of_le e6]
    · rw [queue_advance_eq _ _ _ _ (A.length + 1) t (by split_ifs <;> omega)
          (by split_ifs <;> omega)]
      have h8 : ¬ (t ≤ A.length + 1) := by omega
      have e5 : B.length - (t - A.length - 1) + A.length + 1 < A.length + 1 + B.length := by
        omega
      simp only [queue_contents, h8, if_false, List.take_append_eq_append_take,
            List.drop_append_eq_append_drop, List.length_append, List.length_drop, e5, if_true,
            List.drop_eq_nil_of_le h6, List.nil_append, List.take_of_length_le (Nat.le_succ _),
            Nat.sub_self, List.take_zero, List.append_nil, List.append_assoc]
      rw [h5, List.drop_succ_cons]
      simp
theorem queue_ok_push (N : Nat) (q : frame_queue) (f : fifo_frame) (hok : queue_ok N q) :
    queue_ok N (queue_advance N (set_head_slot q f)) := by
  obtain ⟨hl, hh, ht⟩ := hok
  refine ⟨?_, ?_, ?_⟩
  · simp [queue_advance, set_head_slot, hl]
  · show (if q.head = N - 1 then 0 else q.head + 1) < N
    split_ifs <;> omega
  · show (if (if q.head = N - 1 then 0 else q.head + 1) = q.tail then
        (if q.tail = N - 1 then 0 else q.tail + 1) else q.tail) < N
    split_ifs <;> omega

theorem contents_length_lt (N : Nat) (q : frame_queue) (hok : queue_ok N q) :
    (queue_contents q).length < N := by
  obtain ⟨hl, hh, ht⟩ := hok
  unfold queue_contents
  split_ifs with h
  · simp; omega
  · simp; omega

theorem contents_push (N : Nat) (q : frame_queue) (f : fifo_frame) (hok : queue_ok N q)
    (h2 : 2 ≤ N) :
    queue_contents (queue_advance N (set_head_slot q f)) =
      if (queue_contents q).length + 1 < N then queue_contents q ++ [f]
      else (queue_contents q).tail ++ [f] := by
  obtain ⟨hl, hh, ht⟩ := hok
  obtain ⟨fr, h, t⟩ := q
  simp only at hl hh ht
  obtain ⟨A, B, hfr, hA, hset⟩ := @List.exists_of_set _ h f fr (show h < fr.length by omega)
  have hN : N = A.length + 1 + B.length := by
    rw [← hl, hfr]; simp; omega
  subst hA
  have := contents_push_split A B (fr[A.length]) f t N hN ht h2
  rw [← hfr] at this
  show queue_contents (queue_advance N ⟨fr.set A.length f, A.length, t⟩) = _
  rw [hset]
  exact this

theorem contents_show (N sz : Nat) (q : frame_queue) (hok : queue_ok N q) :
    (q.tail = q.head → queue_contents q = [])
      ∧ (q.tail ≠ q.head →
          queue_contents q = q.frames.getD q.tail default :: queue_contents (show_frame N sz q).q
          ∧ queue_ok N (show_frame N sz q).q) := by
  obtain ⟨hl, hh, ht⟩ := hok
  obtain ⟨fr, h, t⟩ := q
  simp only at hl hh ht
  constructor
  · intro e
    simp only at e
    subst e
    simp [queue_contents]
  · intro e
    simp only [ne_eq] at e
    have hget : fr.getD t default = fr[t] := by
      simp [List.getD_eq_getElem?_getD, List.getElem?_eq_getElem (show t < fr.length by omega)]
    have hq : (show_frame N sz ⟨fr, h, t⟩).q = ⟨fr, h, if t = N - 1 then 0 else t + 1⟩ := by
      simp [show_frame, e]
    rw [hq, hget]
    refine ⟨?_, hl, hh, by show (if t = N - 1 then 0 else t + 1) < N; split_ifs <;> omega⟩
    have hd : fr.drop t = fr[t] :: fr.drop (t + 1) :=
      List.drop_eq_getElem_cons (show t < fr.length by omega)
    by_cases hth : t ≤ h
    · have h1 : t < h := by omega
      have h3 : ¬ (t = N - 1) := by omega
      have h4 : t + 1 ≤ h := by omega
      have h5 : t < (List.take h fr).length := by simp; omega
      simp only [queue_contents, if_pos hth, if_neg h3, if_pos h4]
      rw [List.drop_eq_getElem_cons h5]
      simp
    · by_cases h3 : t = N - 1
      · have h6 : fr.drop (t + 1) = [] := List.drop_eq_nil_of_le (by omega)
        simp only [queue_contents, if_neg hth, if_pos h3, if_pos (Nat.zero_le h), List.drop_zero]
        rw [hd, h6]
        rfl
      · have h4 : ¬ (t + 1 ≤ h) := by omega
        simp only [queue_contents, if_neg hth, if_neg h3, if_neg h4]
        rw [hd]
        rfl

theorem drain_contents (N sz : Nat) :
    ∀ (fuel : Nat) (q : frame_queue), queue_ok N q → (queue_contents q).length < fuel →
      drain N sz fuel q = some (queue_contents q) := by
  intro fuel
  induction fuel with
  | zero => intro q _ h; omega
  | succ n ih =>
    intro q hok hlen
    obtain ⟨he, hne⟩ := contents_show N sz q hok
    by_cases e : q.tail = q.head
    · have : (show_frame N sz q).buf = none := by simp [show_frame, e]
      simp [drain, this, he e]
    · obtain ⟨hc, hok2⟩ := hne e
      have hb : (show_frame N sz q).buf = some (q.frames.getD q.tail default) := by
        simp [show_frame, e]
      have hlen2 : (queue_contents (show_frame N sz q).q).length < n := by
        rw [hc] at hlen; simp at hlen; omega
      simp only [drain, hb]
      rw [ih _ hok2 hlen2, hc]
      rfl
theorem forall₂_tail_of {α β : Type} (R : α → β → Prop) (l₁ : List α) (l₂ : List β)
    (h : List.Forall₂ R l₁ l₂) : List.Forall₂ R l₁.tail l₂.tail := by
  cases h with
  | nil => exact List.Forall₂.nil
  | cons _ ht => exact ht

theorem queue_push_carries (q : frame_queue) (r : sensor_event_record) :
    frame_carries { handle := r.handle, data := memcpy (head_slot q).data r.data } r :=
  ⟨rfl, memcpy_take _ _⟩

theorem push_all_contents (N : Nat) (h2 : 2 ≤ N) :
    ∀ (rs recs : List sensor_event_record) (q : frame_queue), queue_ok N q →
      List.Forall₂ frame_carries (queue_contents q) (recs.drop (recs.length - (N - 1))) →
      queue_ok N (push_all N q rs) ∧
        List.Forall₂ frame_carries (queue_contents (push_all N q rs))
          ((recs ++ rs).drop ((recs ++ rs).length - (N - 1))) := by
  intro rs
  induction rs with
  | nil => intro recs q hok hc; simpa [push_all] using ⟨hok, hc⟩
  | cons r rs ih =>
    intro recs q hok hc
    have hok2 := queue_ok_push N q
      { handle := r.handle, data := memcpy (head_slot q).data r.data } hok
    have hcp := contents_push N q
      { handle := r.handle, data := memcpy (head_slot q).data r.data } hok h2
    have hlen := hc.length_eq
    rw [List.length_drop] at hlen
    have hstep : List.Forall₂ frame_carries
        (queue_contents (queue_push N q r.handle r.data))
        ((recs ++ [r]).drop ((recs ++ [r]).length - (N - 1))) := by
      show List.Forall₂ frame_carries (queue_contents (queue_advance N (set_head_slot q _))) _
      rw [hcp]
      have hr : List.Forall₂ frame_carries
          [{ handle := r.handle, data := memcpy (head_slot q).data r.data }] [r] :=
        List.Forall₂.cons (queue_push_carries q r) List.Forall₂.nil
      split_ifs with hlt
      · have e0 : recs.length - (N - 1) = 0 := by omega
        have e1 : (recs ++ [r]).length - (N - 1) = 0 := by simp; omega
        rw [e0] at hc
        rw [e1]
        exact List.rel_append hc hr
      · have e1 : (recs ++ [r]).length - (N - 1) = (recs.length - (N - 1)) + 1 := by
          simp; omega
        rw [e1, List.drop_append_of_le_length (by omega), ← List.tail_drop]
        exact List.rel_append (forall₂_tail_of _ _ _ hc) hr
    have := ih (recs ++ [r]) (queue_push N q r.handle r.data) hok2 hstep
    simpa [push_all] using this

theorem push_all_then_drain (N sz : Nat) (q : frame_queue) (rs : List sensor_event_record)
    (h2 : 2 ≤ N) (hok : queue_ok N q) (hempty : q.tail = q.head) :
    ∃ fs, drain N sz N (push_all N q rs) = some fs ∧
      List.Forall₂ frame_carries fs (rs.drop (rs.length - (N - 1))) := by
  have hc0 : queue_contents q = [] := (contents_show N sz q hok).1 hempty
  have h := push_all_contents N h2 rs [] q hok (by rw [hc0]; simp)
  simp only [List.nil_append] at h
  refine ⟨queue_contents (push_all N q rs), ?_, h.2⟩
  exact drain_contents N sz N _ h.1 (contents_length_lt N _ h.1)

/-- Claim C1, as the code has it: on a queue of N ≥ 2 slots that is empty (tail equals head), after
N + 1 records r0..rN are pushed with no read in between, repeated reads return frames carrying
exactly the N - 1 most recent records r2..rN, in arrival order, and then report an empty
queue. -/
theorem push_overflow_then_drain (N sz : Nat) (q : frame_queue) (rs : List sensor_event_record)
    (h2 : 2 ≤ N) (hok : queue_ok N q) (hempty : q.tail = q.head) (hlen : rs.length = N + 1) :
    ∃ fs, drain N sz N (push_all N q rs) = some fs ∧
      List.Forall₂ frame_carries fs (rs.drop 2) := by
  have h := push_all_then_drain N sz q rs h2 hok hempty
  have e : rs.length - (N - 1) = 2 := by omega
  rw [e] at h
  exact h

theorem push_overflow_then_drain_witness :
    ∃ fs, drain 2 1 2 (push_all 2 ⟨[⟨0, [0]⟩, ⟨0, [0]⟩], 0, 0⟩
        [⟨1, [10]⟩, ⟨2, [20]⟩, ⟨3, [30]⟩]) = some fs ∧
      List.Forall₂ frame_carries fs
        ([(⟨1, [10]⟩ : sensor_event_record), ⟨2, [20]⟩, ⟨3, [30]⟩].drop 2) :=
  push_overflow_then_drain 2 1 ⟨[⟨0, [0]⟩, ⟨0, [0]⟩], 0, 0⟩ [⟨1, [10]⟩, ⟨2, [20]⟩, ⟨3, [30]⟩]
    (by decide) (by decide) (by decide) (by decide)

/-- Claim C1, counterexample: on a 2-slot queue, after A, B, C are pushed the reads return the frame of
C alone and then report empty; they do not return B and then C. -/
theorem push_three_into_two_slots :
    drain 2 1 3 (push_all 2 ⟨[⟨0, [0]⟩, ⟨0, [0]⟩], 0, 0⟩ [⟨1, [10]⟩, ⟨2, [20]⟩, ⟨3, [30]⟩])
        = some [⟨3, [30]⟩]
      ∧ ¬ ∃ fs, drain 2 1 3 (push_all 2 ⟨[⟨0, [0]⟩, ⟨0, [0]⟩], 0, 0⟩
            [⟨1, [10]⟩, ⟨2, [20]⟩, ⟨3, [30]⟩]) = some fs ∧
          List.Forall₂ frame_carries fs [⟨2, [20]⟩, ⟨3, [30]⟩] := by
  have h : drain 2 1 3 (push_all 2 ⟨[⟨0, [0]⟩, ⟨0, [0]⟩], 0, 0⟩
      [⟨1, [10]⟩, ⟨2, [20]⟩, ⟨3, [30]⟩]) = some [⟨3, [30]⟩] := by decide
  refine ⟨h, ?_⟩
  rintro ⟨fs, hfs, hcar⟩
  rw [h] at hfs
  cases hfs
  cases hcar with
  | cons _ ht => cases ht
theorem show_fifo_frame_spec_witness :
    (((bhy_show_fifo_frame sample_consts sample_state).1.ret = 0
        ↔ sample_state.data_queue.tail = sample_state.data_queue.head)
      ∧ (sample_state.data_queue.tail = sample_state.data_queue.head →
          (bhy_show_fifo_frame sample_consts sample_state).1.buf = none
            ∧ (bhy_show_fifo_frame sample_consts sample_state).2 = sample_state)
      ∧ (sample_state.data_queue.tail ≠ sample_state.data_queue.head →
          (bhy_show_fifo_frame sample_consts sample_state).1.ret
              = sample_consts.SIZEOF_FIFO_FRAME
          ∧ (bhy_show_fifo_frame sample_consts sample_state).1.buf
              = some (sample_state.data_queue.frames.getD sample_state.data_queue.tail default)
          ∧ (bhy_show_fifo_frame sample_consts sample_state).2 =
              { sample_state with data_queue :=
                  { sample_state.data_queue with
                    tail := (sample_state.data_queue.tail + 1) % sample_consts.BHY_FRAME_SIZE } }))
    ∧ (((bhy_show_fifo_frame_ar sample_consts sample_state).1.ret = 0
        ↔ sample_state.data_queue_ar.tail = sample_state.data_queue_ar.head)
      ∧ (sample_state.data_queue_ar.tail = sample_state.data_queue_ar.head →
          (bhy_show_fifo_frame_ar sample_consts sample_state).1.buf = none
            ∧ (bhy_show_fifo_frame_ar sample_consts sample_state).2 = sample_state)
      ∧ (sample_state.data_queue_ar.tail ≠ sample_state.data_queue_ar.head →
          (bhy_show_fifo_frame_ar sample_consts sample_state).1.ret
              = sample_consts.SIZEOF_FIFO_FRAME
          ∧ (bhy_show_fifo_frame_ar sample_consts sample_state).1.buf
              = some (sample_state.data_queue_ar.frames.getD sample_state.data_queue_ar.tail
                  default)
          ∧ (bhy_show_fifo_frame_ar sample_consts sample_state).2 =
              { sample_state with data_queue_ar :=
                  { sample_state.data_queue_ar with
                    tail := (sample_state.data_queue_ar.tail + 1)
                      % sample_consts.BHY_FRAME_SIZE_AR } })) :=
  show_fifo_frame_spec sample_consts sample_state (by decide) (by decide) (by decide)

/-! ## The decoders -/

theorem detect_init_loop_fold (H : bhy_consts) (data : List Nat) (br : Nat) :
    ∀ (fuel i : Nat) (cd : bhy_client_data), br - i < fuel →
      detect_init_loop H data br fuel i cd =
        some ((record_offsets H data br fuel i).foldl
          (fun cd j => detect_init_body H data j (payload_len H data j) cd) cd) := by
  intro fuel
  induction fuel with
  | zero => intro i cd h; omega
  | succ n ih =>
    intro i cd h
    unfold detect_init_loop record_offsets
    by_cases hi : i < br
    · simp only [hi, if_true]
      by_cases hneg : (bhy_get_sensor_type_data_len H (byte_at data i)).1 < 0
      · simp [hneg]
      · by_cases hfit : (i : Int) + (bhy_get_sensor_type_data_len H (byte_at data i)).1 ≥ br
        · simp [hneg, hfit]
        · simp only [hneg, hfit, if_false]
          rw [ih _ _ (by omega)]
          simp [payload_len]
    · simp [hi]

theorem detect_self_test_loop_fold (H : bhy_consts) (data : List Nat) (br : Nat) :
    ∀ (fuel i : Nat) (st : bhy_client_data × Nat), br - i < fuel →
      detect_self_test_loop H data br fuel i st =
        some ((record_offsets H data br fuel i).foldl
          (fun st j => detect_self_test_body H data j (payload_len H data j) st) st) := by
  intro fuel
  induction fuel with
  | zero => intro i st h; omega
  | succ n ih =>
    intro i st h
    unfold detect_self_test_loop record_offsets
    by_cases hi : i < br
    · simp only [hi, if_true]
      by_cases hneg : (bhy_get_sensor_type_data_len H (byte_at data i)).1 < 0
      · simp [hneg]
      · by_cases hfit : (i : Int) + (bhy_get_sensor_type_data_len H (byte_at data i)).1 ≥ br
        · simp [hneg, hfit]
        · simp only [hneg, hfit, if_false]
          rw [ih _ _ (by omega)]
          simp [payload_len]
    · simp [hi]

theorem record_offsets_fuel (H : bhy_consts) (data : List Nat) (br : Nat) :
    ∀ (fuel1 fuel2 i : Nat), br - i < fuel1 → br - i < fuel2 →
      record_offsets H data br fuel1 i = record_offsets H data br fuel2 i := by
  intro fuel1
  induction fuel1 with
  | zero => intro fuel2 i h; omega
  | succ n ih =>
    intro fuel2 i h1 h2
    obtain ⟨m, rfl⟩ : ∃ m, fuel2 = m + 1 := ⟨fuel2 - 1, by omega⟩
    unfold record_offsets
    by_cases hi : i < br
    · simp only [hi, if_true]
      by_cases hneg : (bhy_get_sensor_type_data_len H (byte_at data i)).1 < 0
      · simp [hneg]
      · by_cases hfit : (i : Int) + (bhy_get_sensor_type_data_len H (byte_at data i)).1 ≥ br
        · simp [hneg, hfit]
        · simp only [hneg, hfit, if_false]
          rw [ih m _ (by omega) (by omega)]
    · simp [hi]

theorem record_offsets_mem (H : bhy_consts) (data : List Nat) (br : Nat) :
    ∀ (fuel i j : Nat), j ∈ record_offsets H data br fuel i →
      i ≤ j ∧ 0 ≤ (bhy_get_sensor_type_data_len H (byte_at data j)).1
        ∧ j + payload_len H data j < br := by
  intro fuel
  induction fuel with
  | zero => intro i j h; simp [record_offsets] at h
  | succ n ih =>
    intro i j h
    unfold record_offsets at h
    by_cases hi : i < br
    · simp only [hi, if_true] at h
      by_cases hneg : (bhy_get_sensor_type_data_len H (byte_at data i)).1 < 0
      · simp [hneg] at h
      · by_cases hfit : (i : Int) + (bhy_get_sensor_type_data_len H (byte_at data i)).1 ≥ br
        · simp [hneg, hfit] at h
        · simp only [hneg, hfit, if_false, List.mem_cons] at h
          rcases h with h | h
          · subst h
            refine ⟨le_refl _, by omega, ?_⟩
            unfold payload_len
            omega
          · have := ih _ _ h
            omega
    · simp [hi] at h
theorem process_pedometer_frame (H : bhy_consts) (cd : bhy_client_data) (data : List Nat) :
    (process_pedometer H cd data).fifo_buf = cd.fifo_buf
      ∧ (process_pedometer H cd data).data_queue = cd.data_queue
      ∧ (process_pedometer H cd data).data_queue_ar = cd.data_queue_ar := by
  have a : ∀ (c : bhy_client_data) (d : pedometer_data),
      (pedometer_record c d).fifo_buf = c.fifo_buf
        ∧ (pedometer_record c d).data_queue = c.data_queue
        ∧ (pedometer_record c d).data_queue_ar = c.data_queue_ar := by
    intro c d; unfold pedometer_record; split_ifs <;> exact ⟨rfl, rfl, rfl⟩
  have b : ∀ c : bhy_client_data,
      (pedometer_logging_done H c).fifo_buf = c.fifo_buf
        ∧ (pedometer_logging_done H c).data_queue = c.data_queue
        ∧ (pedometer_logging_done H c).data_queue_ar = c.data_queue_ar := by
    intro c; unfold pedometer_logging_done; split_ifs <;> exact ⟨rfl, rfl, rfl⟩
  have c1 : ∀ c : bhy_client_data,
      (pedometer_new_step H c).fifo_buf = c.fifo_buf
        ∧ (pedometer_new_step H c).data_queue = c.data_queue
        ∧ (pedometer_new_step H c).data_queue_ar = c.data_queue_ar := by
    intro c; unfold pedometer_new_step; split_ifs <;> exact ⟨rfl, rfl, rfl⟩
  have d1 : ∀ c : bhy_client_data,
      (pedometer_start_walk H c).fifo_buf = c.fifo_buf
        ∧ (pedometer_start_walk H c).data_queue = c.data_queue
        ∧ (pedometer_start_walk H c).data_queue_ar = c.data_queue_ar := by
    intro c; unfold pedometer_start_walk; split_ifs <;> exact ⟨rfl, rfl, rfl⟩
  have e1 : ∀ c : bhy_client_data,
      (pedometer_stop_walk H c).fifo_buf = c.fifo_buf
        ∧ (pedometer_stop_walk H c).data_queue = c.data_queue
        ∧ (pedometer_stop_walk H c).data_queue_ar = c.data_queue_ar := by
    intro c; unfold pedometer_stop_walk; split_ifs <;> exact ⟨rfl, rfl, rfl⟩
  unfold process_pedometer
  simp only [e1, d1, c1, b, a, and_self]

theorem process_step_frame (H : bhy_consts) (cd : bhy_client_data) (data : List Nat) :
    (process_step H cd data).fifo_buf = cd.fifo_buf
      ∧ (process_step H cd data).data_queue = cd.data_queue
      ∧ (process_step H cd data).data_queue_ar = cd.data_queue_ar := by
  unfold process_step
  dsimp only
  split_ifs <;> exact ⟨rfl, rfl, rfl⟩

theorem process_data_frame (H : bhy_consts) (cd : bhy_client_data) (data : List Nat)
    (handle : Nat) :
    (process_data H cd data handle).1.fifo_buf = cd.fifo_buf
      ∧ (process_data H cd data handle).1.data_queue = cd.data_queue
      ∧ (process_data H cd data handle).1.data_queue_ar = cd.data_queue_ar := by
  unfold process_data
  split_ifs
  · exact ⟨rfl, rfl, rfl⟩
  · have h1 := process_step_frame H (process_pedometer H cd data) data
    have h2 := process_pedometer_frame H cd data
    exact ⟨h1.1.trans h2.1, h1.2.1.trans h2.2.1, h1.2.2.trans h2.2.2⟩
  · exact ⟨rfl, rfl, rfl⟩

theorem generate_step_data_frame (H : bhy_consts) (cd : bhy_client_data) :
    (generate_step_data H cd).fifo_buf = cd.fifo_buf
      ∧ (generate_step_data H cd).data_queue_ar = cd.data_queue_ar := by
  have a : ∀ c : bhy_client_data, (generate_step_det H c).fifo_buf = c.fifo_buf
      ∧ (generate_step_det H c).data_queue_ar = c.data_queue_ar := by
    intro c; unfold generate_step_det; split_ifs <;> exact ⟨rfl, rfl⟩
  have b : ∀ c : bhy_client_data, (generate_step_cnt H c).fifo_buf = c.fifo_buf
      ∧ (generate_step_cnt H c).data_queue_ar = c.data_queue_ar := by
    intro c; unfold generate_step_cnt; split_ifs <;> exact ⟨rfl, rfl⟩
  unfold generate_step_data
  simp only [a, b, and_self]

theorem bhy_read_fifo_store_fifo_buf (H : bhy_consts) (j L : Nat) (cd : bhy_client_data) :
    (bhy_read_fifo_store H j L cd).fifo_buf = cd.fifo_buf := by
  unfold bhy_read_fifo_store
  exact (process_data_frame H _ _ _).1

theorem bhy_read_fifo_ar_frame (H : bhy_consts) (j L ar : Nat) (cd : bhy_client_data) :
    (bhy_read_fifo_ar H j L ar cd).fifo_buf = cd.fifo_buf
      ∧ (bhy_read_fifo_ar H j L ar cd).data_queue = cd.data_queue := by
  unfold bhy_read_fifo_ar
  split_ifs <;> exact ⟨rfl, rfl⟩

theorem bhy_read_fifo_body_fifo_buf (H : bhy_consts) (j L ar : Nat) (cd : bhy_client_data) :
    (bhy_read_fifo_body H j L ar cd).fifo_buf = cd.fifo_buf := by
  unfold bhy_read_fifo_body
  rw [(bhy_read_fifo_ar_frame H j L ar _).1]
  split_ifs
  · rw [(generate_step_data_frame H _).1, bhy_read_fifo_store_fifo_buf]
  · rw [bhy_read_fifo_store_fifo_buf]
theorem steady_fold_fifo_buf (H : bhy_consts) (data : List Nat) :
    ∀ (js : List Nat) (cd : bhy_client_data), cd.fifo_buf = data →
      (js.foldl (fun cd j => bhy_read_fifo_body H j (payload_len H data j)
          (bhy_get_sensor_type_data_len H (byte_at data j)).2 cd) cd).fifo_buf = data := by
  intro js
  induction js with
  | nil => intro cd h; exact h
  | cons j js ih =>
    intro cd h
    simp only [List.foldl_cons]
    exact ih _ (by rw [bhy_read_fifo_body_fifo_buf]; exact h)

theorem bhy_read_fifo_loop_fold (H : bhy_consts) (data : List Nat) (br : Nat)
    (hdet : 0 ≤ (bhy_get_sensor_type_data_len H H.BHY_SENSOR_HANDLE_STEP_DETECTOR).1)
    (hcnt : 0 ≤ (bhy_get_sensor_type_data_len H H.BHY_SENSOR_HANDLE_STEP_COUNTER).1) :
    ∀ (fuel i : Nat) (cd : bhy_client_data), br - i < fuel → cd.fifo_buf = data →
      bhy_read_fifo_loop H br fuel i cd =
        some ((steady_offsets H data br fuel i).foldl
          (fun cd j => bhy_read_fifo_body H j (payload_len H data j)
            (bhy_get_sensor_type_data_len H (byte_at data j)).2 cd) cd) := by
  intro fuel
  induction fuel with
  | zero => intro i cd h; omega
  | succ n ih =>
    intro i cd h hbuf
    unfold bhy_read_fifo_loop steady_offsets
    rw [hbuf]
    by_cases hi : i < br
    · simp only [hi, if_true]
      by_cases hstep : byte_at data i = H.BHY_SENSOR_HANDLE_STEP_DETECTOR
          ∨ byte_at data i = H.BHY_SENSOR_HANDLE_STEP_COUNTER
      · have hL : 0 ≤ (bhy_get_sensor_type_data_len H (byte_at data i)).1 := by
          rcases hstep with e | e <;> rw [e] <;> assumption
        simp only [hstep, if_true]
        exact ih _ _ (by omega) hbuf
      · simp only [hstep, if_false]
        by_cases hneg : (bhy_get_sensor_type_data_len H (byte_at data i)).1 < 0
        · simp [hneg]
        · by_cases hfit : (i : Int) + (bhy_get_sensor_type_data_len H (byte_at data i)).1 ≥ br
          · simp [hneg, hfit]
          · simp only [hneg, hfit, if_false]
            rw [ih _ _ (by omega) (by rw [bhy_read_fifo_body_fifo_buf]; exact hbuf)]
            simp [payload_len]
    · simp [hi]

theorem steady_offsets_mem (H : bhy_consts) (data : List Nat) (br : Nat) :
    ∀ (fuel i j : Nat), j ∈ steady_offsets H data br fuel i →
      byte_at data j ≠ H.BHY_SENSOR_HANDLE_STEP_DETECTOR
        ∧ byte_at data j ≠ H.BHY_SENSOR_HANDLE_STEP_COUNTER
        ∧ 0 ≤ (bhy_get_sensor_type_data_len H (byte_at data j)).1
        ∧ j + payload_len H data j < br := by
  intro fuel
  induction fuel with
  | zero => intro i j h; simp [steady_offsets] at h
  | succ n ih =>
    intro i j h
    unfold steady_offsets at h
    by_cases hi : i < br
    · simp only [hi, if_true] at h
      by_cases hstep : byte_at data i = H.BHY_SENSOR_HANDLE_STEP_DETECTOR
          ∨ byte_at data i = H.BHY_SENSOR_HANDLE_STEP_COUNTER
      · simp only [hstep, if_true] at h
        exact ih _ _ h
      · simp only [hstep, if_false] at h
        by_cases hneg : (bhy_get_sensor_type_data_len H (byte_at data i)).1 < 0
        · simp [hneg] at h
        · by_cases hfit : (i : Int) + (bhy_get_sensor_type_data_len H (byte_at data i)).1 ≥ br
          · simp [hneg, hfit] at h
          · simp only [hneg, hfit, if_false, List.mem_cons] at h
            rcases h with h | h
            · subst h
              push_neg at hstep
              refine ⟨hstep.1, hstep.2, by omega, ?_⟩
              unfold payload_len
              omega
            · exact ih _ _ h
    · simp [hi] at h

theorem steady_offsets_eq_record_offsets (H : bhy_consts) (data : List Nat) (br : Nat)
    (hdet : 0 ≤ (bhy_get_sensor_type_data_len H H.BHY_SENSOR_HANDLE_STEP_DETECTOR).1)
    (hcnt : 0 ≤ (bhy_get_sensor_type_data_len H H.BHY_SENSOR_HANDLE_STEP_COUNTER).1) :
    ∀ (fuel i : Nat), br - i < fuel →
      (∀ j ∈ record_offsets H data br fuel i,
        byte_at data j ≠ H.BHY_SENSOR_HANDLE_STEP_DETECTOR
          ∧ byte_at data j ≠ H.BHY_SENSOR_HANDLE_STEP_COUNTER) →
      steady_offsets H data br fuel i = record_offsets H data br fuel i := by
  intro fuel
  induction fuel with
  | zero => intro i h; omega
  | succ n ih =>
    intro i h hplain
    unfold record_offsets at hplain
    unfold steady_offsets record_offsets
    by_cases hi : i < br
    · simp only [hi, if_true] at hplain ⊢
      by_cases hneg : (bhy_get_sensor_type_data_len H (byte_at data i)).1 < 0
      · have hstep : ¬ (byte_at data i = H.BHY_SENSOR_HANDLE_STEP_DETECTOR
          ∨ byte_at data i = H.BHY_SENSOR_HANDLE_STEP_COUNTER) := by
          rintro (e | e) <;> rw [e] at hneg <;> omega
        simp [hneg, hstep]
      · by_cases hfit : (i : Int) + (bhy_get_sensor_type_data_len H (byte_at data i)).1 ≥ br
        · simp only [hneg, hfit, if_true, if_false]
          split_ifs with hstep
          · have hn : 1 ≤ n := by omega
            obtain ⟨m, rfl⟩ : ∃ m, n = m + 1 := ⟨n - 1, by omega⟩
            unfold steady_offsets
            have : ¬ (((i : Int) + (bhy_get_sensor_type_data_len H (byte_at data i)).1
                + 1).toNat < br) := by omega
            simp [this]
          · rfl
        · simp only [hneg, hfit, if_false] at hplain ⊢
          have hstep : ¬ (byte_at data i = H.BHY_SENSOR_HANDLE_STEP_DETECTOR
              ∨ byte_at data i = H.BHY_SENSOR_HANDLE_STEP_COUNTER) := by
            have := hplain i (List.mem_cons_self _ _)
            tauto
          simp only [hstep, if_false]
          rw [ih _ (by omega) (fun j hj => hplain j (List.mem_cons_of_mem _ hj))]
    · simp [hi]
/-! ## The tag table -/

theorem find_case_of_nodup :
    ∀ (l : List (Nat × Nat × Nat)) (c : Nat × Nat × Nat),
      (l.map (fun c => c.1)).Nodup → c ∈ l → l.find? (fun r => r.1 == c.1) = some c := by
  intro l
  induction l with
  | nil => intro c _ h; simp at h
  | cons a l ih =>
    intro c hnd hc
    simp only [List.map_cons, List.nodup_cons] at hnd
    rcases List.mem_cons.mp hc with e | e
    · subst e
      simp [List.find?]
    · have hne : a.1 ≠ c.1 := by
        intro h
        exact hnd.1 (h ▸ List.mem_map_of_mem (fun c => c.1) e)
      have hb : (a.1 == c.1) = false := by simpa using hne
      rw [List.find?, hb]
      exact ih c hnd.2 e

theorem data_len_of_case (H : bhy_consts) (hd : distinct_case_labels H) (c : Nat × Nat × Nat)
    (hc : c ∈ sensor_type_cases H) :
    bhy_get_sensor_type_data_len H c.1 = ((c.2.1 : Int), c.2.2) := by
  unfold distinct_case_labels at hd
  rw [List.nodup_cons] at hd
  have hz : c.1 ≠ H.BHY_SENSOR_HANDLE_ZERO := by
    intro h
    exact hd.1 (h ▸ List.mem_map_of_mem (fun c => c.1) hc)
  unfold bhy_get_sensor_type_data_len
  rw [if_neg hz, find_case_of_nodup _ c hd.2 hc]

theorem data_len_step_detector (H : bhy_consts) (hd : distinct_case_labels H) :
    bhy_get_sensor_type_data_len H H.BHY_SENSOR_HANDLE_STEP_DETECTOR =
      ((H.BHY_SENSOR_DATA_LEN_STEP_DETECTOR : Int), 0) :=
  data_len_of_case H hd
    (H.BHY_SENSOR_HANDLE_STEP_DETECTOR, H.BHY_SENSOR_DATA_LEN_STEP_DETECTOR, 0)
    (by simp [sensor_type_cases])

theorem data_len_step_counter (H : bhy_consts) (hd : distinct_case_labels H) :
    bhy_get_sensor_type_data_len H H.BHY_SENSOR_HANDLE_STEP_COUNTER =
      ((H.BHY_SENSOR_DATA_LEN_STEP_COUNTER : Int), 0) :=
  data_len_of_case H hd
    (H.BHY_SENSOR_HANDLE_STEP_COUNTER, H.BHY_SENSOR_DATA_LEN_STEP_COUNTER, 0)
    (by simp [sensor_type_cases])

theorem data_len_meta_event (H : bhy_consts) (hd : distinct_case_labels H) :
    bhy_get_sensor_type_data_len H H.BHY_SENSOR_HANDLE_META_EVENT =
      ((H.BHY_SENSOR_DATA_LEN_META_EVENT : Int), 1) :=
  data_len_of_case H hd
    (H.BHY_SENSOR_HANDLE_META_EVENT, H.BHY_SENSOR_DATA_LEN_META_EVENT, 1)
    (by simp [sensor_type_cases])

theorem sample_consts_distinct : distinct_case_labels sample_consts := by
  unfold distinct_case_labels
  decide
/-! ## What the decoders store -/

theorem detect_init_body_queue (H : bhy_consts) (data : List Nat) (j L : Nat)
    (cd : bhy_client_data) :
    (detect_init_body H data j L cd).data_queue =
      queue_push H.BHY_FRAME_SIZE cd.data_queue (byte_at data j) (bytes_from data (j + 1) L) := by
  unfold detect_init_body
  dsimp only
  split_ifs <;> rfl

theorem detect_init_fold_queue (H : bhy_consts) (data : List Nat) :
    ∀ (js : List Nat) (cd : bhy_client_data),
      (js.foldl (fun cd j => detect_init_body H data j (payload_len H data j) cd) cd).data_queue
        = push_all H.BHY_FRAME_SIZE cd.data_queue (js.map (record_at H data)) := by
  intro js
  induction js with
  | nil => intro cd; rfl
  | cons j js ih =>
    intro cd
    simp only [List.foldl_cons, List.map_cons, push_all]
    rw [ih, detect_init_body_queue]
    rfl

theorem head_slot_set (q : frame_queue) (f : fifo_frame) (h : q.head < q.frames.length) :
    head_slot (set_head_slot q f) = f := by
  simp [head_slot, set_head_slot, List.getD_eq_getElem?_getD, h]

theorem set_head_slot_twice (q : frame_queue) (f g : fifo_frame) :
    set_head_slot (set_head_slot q f) g = set_head_slot q g := by
  simp [set_head_slot]

theorem acc_axis_zero (cal : List Int) (data : List Nat) (i : Nat) (hcal : cal.getD i 0 = 0)
    (h0 : byte_at data (2 * i) < 256) (h1 : byte_at data (2 * i + 1) < 256) :
    acc_axis cal data i = [byte_at data (2 * i), byte_at data (2 * i + 1)] := by
  unfold acc_axis
  rw [hcal]
  have hv : ((((byte_at data (2 * i) : Nat) : Int) + 256 * ((byte_at data (2 * i + 1) : Nat) : Int)
      - 0) % 65536).toNat = byte_at data (2 * i) + 256 * byte_at data (2 * i + 1) := by
    omega
  simp only [hv]
  congr 1
  · omega
  · congr 1
    omega

theorem acc_rewrite_zero (cal : List Int) (data : List Nat)
    (hcal : ∀ i, i < 3 → cal.getD i 0 = 0) (hlen : 6 ≤ data.length)
    (hb : ∀ k, k < 6 → byte_at data k < 256) :
    memcpy data (acc_axis cal data 0 ++ acc_axis cal data 1 ++ acc_axis cal data 2) = data := by
  rw [acc_axis_zero cal data 0 (hcal 0 (by omega)) (hb _ (by omega)) (hb _ (by omega)),
    acc_axis_zero cal data 1 (hcal 1 (by omega)) (hb _ (by omega)) (hb _ (by omega)),
    acc_axis_zero cal data 2 (hcal 2 (by omega)) (hb _ (by omega)) (hb _ (by omega))]
  match data, hlen with
  | d0 :: d1 :: d2 :: d3 :: d4 :: d5 :: rest, _ =>
    simp [memcpy, byte_at]
theorem bytes_from_length (data : List Nat) (i len : Nat) : (bytes_from data i len).length = len := by
  simp [bytes_from]

theorem byte_at_append_left (l r : List Nat) (k : Nat) (h : k < l.length) :
    byte_at (l ++ r) k = l[k] := by
  simp [byte_at, List.getD_eq_getElem?_getD, List.getElem?_append_left h, h]

theorem process_data_plain (H : bhy_consts) (cd : bhy_client_data) (payload rest : List Nat)
    (handle : Nat) (hnp : handle ≠ H.PEDOMETER_SENSOR)
    (hacc : handle = H.BHY_SENSOR_HANDLE_ACCELEROMETER → acc_unchanged cd.acc_cal payload) :
    (process_data H cd (payload ++ rest) handle).2 = payload ++ rest
      ∧ (process_data H cd (payload ++ rest) handle).1.acc_cal = cd.acc_cal
      ∧ (process_data H cd (payload ++ rest) handle).1.data_queue = cd.data_queue := by
  unfold process_data
  split_ifs with h1
  · obtain ⟨hc, hl, hb⟩ := hacc h1
    refine ⟨?_, rfl, rfl⟩
    apply acc_rewrite_zero _ _ hc (by simp; omega)
    intro k hk
    rw [byte_at_append_left _ _ _ (by omega)]
    exact hb _ (List.getElem_mem _)
  · exact ⟨rfl, rfl, rfl⟩

theorem store_core (H : bhy_consts) (c : bhy_client_data) (q : frame_queue)
    (tag : Nat) (payload rest : List Nat) (hhead : q.head < q.frames.length)
    (hnp : tag ≠ H.PEDOMETER_SENSOR)
    (hacc : tag = H.BHY_SENSOR_HANDLE_ACCELEROMETER → acc_unchanged c.acc_cal payload)
    (q1 : frame_queue) (hq1 : q1 = set_head_slot q { handle := tag, data := payload ++ rest })
    (p : bhy_client_data × List Nat)
    (hp : p = process_data H { c with data_queue := q1 } (head_slot q1).data (head_slot q1).handle) :
    set_head_slot p.1.data_queue { head_slot p.1.data_queue with data := p.2 } = q1
      ∧ p.1.acc_cal = c.acc_cal := by
  have hs : head_slot q1 = { handle := tag, data := payload ++ rest } := by
    rw [hq1]; exact head_slot_set _ _ hhead
  rw [hs] at hp
  obtain ⟨h1, h2, h3⟩ := process_data_plain H { c with data_queue := q1 } payload rest tag hnp hacc
  rw [← hp] at h1 h2 h3
  refine ⟨?_, h2⟩
  rw [h1, h3]
  show set_head_slot q1 { head_slot q1 with data := payload ++ rest } = q1
  rw [hs, hq1, set_head_slot_twice]

theorem bhy_read_fifo_store_plain (H : bhy_consts) (j L : Nat) (cd : bhy_client_data)
    (hhead : cd.data_queue.head < cd.data_queue.frames.length)
    (hnp : byte_at cd.fifo_buf j ≠ H.PEDOMETER_SENSOR)
    (hacc : byte_at cd.fifo_buf j = H.BHY_SENSOR_HANDLE_ACCELEROMETER →
      acc_unchanged cd.acc_cal (bytes_from cd.fifo_buf (j + 1) L)) :
    (bhy_read_fifo_store H j L cd).data_queue =
        queue_push H.BHY_FRAME_SIZE cd.data_queue (byte_at cd.fifo_buf j)
          (bytes_from cd.fifo_buf (j + 1) L)
      ∧ (bhy_read_fifo_store H j L cd).acc_cal = cd.acc_cal := by
  obtain ⟨h1, h2⟩ := store_core H cd cd.data_queue (byte_at cd.fifo_buf j)
    (bytes_from cd.fifo_buf (j + 1) L)
    ((head_slot cd.data_queue).data.drop (bytes_from cd.fifo_buf (j + 1) L).length)
    hhead hnp hacc _ rfl _ rfl
  unfold bhy_read_fifo_store
  dsimp only
  unfold memcpy
  refine ⟨?_, h2⟩
  rw [h1]
  rfl
theorem bhy_read_fifo_body_plain (H : bhy_consts) (j L ar : Nat) (cd : bhy_client_data)
    (hhead : cd.data_queue.head < cd.data_queue.frames.length)
    (hnp : byte_at cd.fifo_buf j ≠ H.PEDOMETER_SENSOR)
    (hacc : byte_at cd.fifo_buf j = H.BHY_SENSOR_HANDLE_ACCELEROMETER →
      acc_unchanged cd.acc_cal (bytes_from cd.fifo_buf (j + 1) L)) :
    (bhy_read_fifo_body H j L ar cd).data_queue =
        queue_push H.BHY_FRAME_SIZE cd.data_queue (byte_at cd.fifo_buf j)
          (bytes_from cd.fifo_buf (j + 1) L)
      ∧ (bhy_read_fifo_body H j L ar cd).acc_cal = cd.acc_cal := by
  obtain ⟨h1, h2⟩ := bhy_read_fifo_store_plain H j L cd hhead hnp hacc
  unfold bhy_read_fifo_body
  dsimp only
  rw [if_neg hnp]
  unfold bhy_read_fifo_ar
  split_ifs
  · exact ⟨h1, h2⟩
  · exact ⟨h1, h2⟩

theorem steady_fold_queue (H : bhy_consts) (data : List Nat) (cal : List Int) :
    ∀ (js : List Nat) (cd : bhy_client_data), cd.fifo_buf = data → cd.acc_cal = cal →
      queue_ok H.BHY_FRAME_SIZE cd.data_queue →
      (∀ j ∈ js, byte_at data j ≠ H.PEDOMETER_SENSOR
        ∧ (byte_at data j = H.BHY_SENSOR_HANDLE_ACCELEROMETER →
            acc_unchanged cal (bytes_from data (j + 1) (payload_len H data j)))) →
      (js.foldl (fun cd j => bhy_read_fifo_body H j (payload_len H data j)
          (bhy_get_sensor_type_data_len H (byte_at data j)).2 cd) cd).data_queue
        = push_all H.BHY_FRAME_SIZE cd.data_queue (js.map (record_at H data)) := by
  intro js
  induction js with
  | nil => intro cd _ _ _ _; rfl
  | cons j js ih =>
    intro cd hbuf hcal hok hplain
    have hj := hplain j (List.mem_cons_self _ _)
    obtain ⟨h1, h2⟩ := bhy_read_fifo_body_plain H j (payload_len H data j)
      (bhy_get_sensor_type_data_len H (byte_at data j)).2 cd (by rw [hok.1]; exact hok.2.1)
      (by rw [hbuf]; exact hj.1) (by rw [hbuf, hcal]; exact hj.2)
    simp only [List.foldl_cons, List.map_cons, push_all]
    rw [ih _ (by rw [bhy_read_fifo_body_fifo_buf]; exact hbuf) (by rw [h2]; exact hcal)
      (by rw [h1]; exact queue_ok_push _ _ _ hok)
      (fun k hk => hplain k (List.mem_cons_of_mem _ hk)), h1, hbuf]
    rfl

/-! ## The decoders read below bytes_remain only -/

theorem bytes_from_congr (d1 d2 : List Nat) (i len br : Nat) (hfit : i + len ≤ br)
    (h : ∀ k, k < br → byte_at d1 k = byte_at d2 k) :
    bytes_from d1 i len = bytes_from d2 i len := by
  unfold bytes_from
  apply List.map_congr_left
  intro k hk
  exact h _ (by have := List.mem_range.mp hk; omega)

theorem detect_init_loop_congr (H : bhy_consts) (d1 d2 : List Nat) (br : Nat)
    (hmeta : 1 ≤ (bhy_get_sensor_type_data_len H H.BHY_SENSOR_HANDLE_META_EVENT).1)
    (h : ∀ k, k < br → byte_at d1 k = byte_at d2 k) :
    ∀ (fuel i : Nat) (cd : bhy_client_data),
      detect_init_loop H d1 br fuel i cd = detect_init_loop H d2 br fuel i cd := by
  intro fuel
  induction fuel with
  | zero => intro i cd; rfl
  | succ n ih =>
    intro i cd
    unfold detect_init_loop
    by_cases hi : i < br
    · simp only [hi, if_true]
      rw [← h i hi]
      by_cases hneg : (bhy_get_sensor_type_data_len H (byte_at d1 i)).1 < 0
      · simp [hneg]
      · by_cases hfit : (i : Int) + (bhy_get_sensor_type_data_len H (byte_at d1 i)).1 ≥ br
        · simp [hneg, hfit]
        · simp only [hneg, hfit, if_false]
          rw [ih]
          congr 1
          unfold detect_init_body
          dsimp only
          rw [← h i hi, bytes_from_congr d1 d2 (i + 1) _ br (by omega) h]
          by_cases hm : byte_at d1 i = H.BHY_SENSOR_HANDLE_META_EVENT
          · rw [hm] at hfit
            rw [← h (i + 1) (by omega)]
          · simp [hm]
    · simp [hi]
theorem process_pedometer_buf (H : bhy_consts) (c : bhy_client_data) (d x : List Nat) :
    process_pedometer H { c with fifo_buf := d } x
      = { process_pedometer H c x with fifo_buf := d } := by
  have a : ∀ (c : bhy_client_data) (n : pedometer_data),
      pedometer_record { c with fifo_buf := d } n
        = { pedometer_record c n with fifo_buf := d } := by
    intro c n; unfold pedometer_record; dsimp only; split_ifs <;> rfl
  have b : ∀ c : bhy_client_data, pedometer_logging_done H { c with fifo_buf := d }
      = { pedometer_logging_done H c with fifo_buf := d } := by
    intro c; unfold pedometer_logging_done; dsimp only; split_ifs <;> rfl
  have c1 : ∀ c : bhy_client_data, pedometer_new_step H { c with fifo_buf := d }
      = { pedometer_new_step H c with fifo_buf := d } := by
    intro c; unfold pedometer_new_step; dsimp only; split_ifs <;> rfl
  have d1 : ∀ c : bhy_client_data, pedometer_start_walk H { c with fifo_buf := d }
      = { pedometer_start_walk H c with fifo_buf := d } := by
    intro c; unfold pedometer_start_walk; dsimp only; split_ifs <;> rfl
  have e1 : ∀ c : bhy_client_data, pedometer_stop_walk H { c with fifo_buf := d }
      = { pedometer_stop_walk H c with fifo_buf := d } := by
    intro c; unfold pedometer_stop_walk; dsimp only; split_ifs <;> rfl
  unfold process_pedometer
  dsimp only
  rw [a, ← e1, ← d1, ← c1, ← b]

theorem process_step_buf (H : bhy_consts) (c : bhy_client_data) (d x : List Nat) :
    process_step H { c with fifo_buf := d } x = { process_step H c x with fifo_buf := d } := by
  unfold process_step
  dsimp only
  split_ifs <;> rfl

theorem process_data_buf (H : bhy_consts) (c : bhy_client_data) (d x : List Nat) (handle : Nat) :
    process_data H { c with fifo_buf := d } x handle
      = ({ (process_data H c x handle).1 with fifo_buf := d }, (process_data H c x handle).2) := by
  unfold process_data
  split_ifs
  · rfl
  · rw [process_pedometer_buf, process_step_buf]
  · rfl

theorem generate_step_data_buf (H : bhy_consts) (c : bhy_client_data) (d : List Nat) :
    generate_step_data H { c with fifo_buf := d }
      = { generate_step_data H c with fifo_buf := d } := by
  have a : ∀ c : bhy_client_data, generate_step_det H { c with fifo_buf := d }
      = { generate_step_det H c with fifo_buf := d } := by
    intro c; unfold generate_step_det; dsimp only; split_ifs <;> rfl
  have b : ∀ c : bhy_client_data, generate_step_cnt H { c with fifo_buf := d }
      = { generate_step_cnt H c with fifo_buf := d } := by
    intro c; unfold generate_step_cnt; dsimp only; split_ifs <;> rfl
  unfold generate_step_data
  rw [a, b]

theorem bhy_read_fifo_body_buf (H : bhy_consts) (j L ar br : Nat) (c : bhy_client_data)
    (d : List Nat) (hfit : j + L < br) (h : ∀ k, k < br → byte_at d k = byte_at c.fifo_buf k) :
    bhy_read_fifo_body H j L ar { c with fifo_buf := d }
      = { bhy_read_fifo_body H j L ar c with fifo_buf := d } := by
  have hj : byte_at d j = byte_at c.fifo_buf j := h j (by omega)
  have hp : bytes_from d (j + 1) L = bytes_from c.fifo_buf (j + 1) L :=
    bytes_from_congr _ _ _ _ br (by omega) h
  have hs : bhy_read_fifo_store H j L { c with fifo_buf := d }
      = { bhy_read_fifo_store H j L c with fifo_buf := d } := by
    unfold bhy_read_fifo_store
    dsimp only
    rw [hj, hp]
    generalize set_head_slot c.data_queue
      { handle := byte_at c.fifo_buf j,
        data := memcpy (head_slot c.data_queue).data (bytes_from c.fifo_buf (j + 1) L) } = q1
    have key := process_data_buf H { c with data_queue := q1 } d (head_slot q1).data
      (head_slot q1).handle
    dsimp only at key
    rw [key]
  have ha : ∀ c1 : bhy_client_data, c1.fifo_buf = c.fifo_buf →
      bhy_read_fifo_ar H j L ar { c1 with fifo_buf := d }
        = { bhy_read_fifo_ar H j L ar c1 with fifo_buf := d } := by
    intro c1 h1
    unfold bhy_read_fifo_ar
    dsimp only
    rw [hj, hp, h1]
    split_ifs <;> rfl
  unfold bhy_read_fifo_body
  dsimp only
  rw [hj, hs]
  split_ifs
  · rw [generate_step_data_buf, ha]
    rw [(generate_step_data_frame H _).1, bhy_read_fifo_store_fifo_buf]
  · rw [ha]
    rw [bhy_read_fifo_store_fifo_buf]

theorem bhy_read_fifo_loop_congr (H : bhy_consts) (br : Nat) (d : List Nat) :
    ∀ (fuel i : Nat) (c : bhy_client_data),
      (∀ k, k < br → byte_at d k = byte_at c.fifo_buf k) →
      bhy_read_fifo_loop H br fuel i { c with fifo_buf := d }
        = (bhy_read_fifo_loop H br fuel i c).map (fun c1 => { c1 with fifo_buf := d }) := by
  intro fuel
  induction fuel with
  | zero => intro i c _; rfl
  | succ n ih =>
    intro i c h
    unfold bhy_read_fifo_loop
    dsimp only
    by_cases hi : i < br
    · simp only [hi, if_true]
      rw [h i hi]
      by_cases hstep : byte_at c.fifo_buf i = H.BHY_SENSOR_HANDLE_STEP_DETECTOR
          ∨ byte_at c.fifo_buf i = H.BHY_SENSOR_HANDLE_STEP_COUNTER
      · simp only [hstep, if_true]
        exact ih _ c h
      · simp only [hstep, if_false]
        by_cases hneg : (bhy_get_sensor_type_data_len H (byte_at c.fifo_buf i)).1 < 0
        · simp [hneg]
        · by_cases hfit :
              (i : Int) + (bhy_get_sensor_type_data_len H (byte_at c.fifo_buf i)).1 ≥ br
          · simp [hneg, hfit]
          · simp only [hneg, hfit, if_false]
            rw [bhy_read_fifo_body_buf H i _ _ br c d (by omega) h]
            exact ih _ _ (by rw [bhy_read_fifo_body_fifo_buf]; exact h)
    · simp [hi]
/-- Claim C5, as the code has it: the decoders read the buffer below bytes_remain only, in that bytes at
index bytes_remain and beyond have no influence on the outcome of the loop of detect_init_event
(whose read of the first payload byte of a meta event needs a payload of at least one byte) nor
on that of the loop of bhy_read_fifo_data.  At parse_index below bytes_remain with a known tag of
payload length L (in bhy_read_fifo_data: a known tag other than step detector and step counter,
which are passed over), the record is stored and decoding goes on at parse_index + L + 1 if
parse_index + L < bytes_remain; otherwise the loop ends with the state as it was, no partial
record written. -/
theorem decoder_reads_below_bytes_remain (H : bhy_consts) (data d : List Nat)
    (bytes_remain fuel i : Nat) (cd : bhy_client_data) :
    (1 ≤ (bhy_get_sensor_type_data_len H H.BHY_SENSOR_HANDLE_META_EVENT).1 →
        (∀ k, k < bytes_remain → byte_at d k = byte_at data k) →
        detect_init_loop H d bytes_remain (bytes_remain + 1) 0 cd
          = detect_init_loop H data bytes_remain (bytes_remain + 1) 0 cd)
      ∧ ((∀ k, k < bytes_remain → byte_at d k = byte_at cd.fifo_buf k) →
          bhy_read_fifo_loop H bytes_remain (bytes_remain + 1) 0 { cd with fifo_buf := d }
            = (bhy_read_fifo_loop H bytes_remain (bytes_remain + 1) 0 cd).map
                (fun c => { c with fifo_buf := d }))
      ∧ (i < bytes_remain → 0 ≤ (bhy_get_sensor_type_data_len H (byte_at data i)).1 →
          (i + payload_len H data i < bytes_remain →
              detect_init_loop H data bytes_remain (fuel + 1) i cd
                = detect_init_loop H data bytes_remain fuel (i + payload_len H data i + 1)
                    (detect_init_body H data i (payload_len H data i) cd))
            ∧ (¬ i + payload_len H data i < bytes_remain →
                detect_init_loop H data bytes_remain (fuel + 1) i cd = some cd))
      ∧ (i < bytes_remain → 0 ≤ (bhy_get_sensor_type_data_len H (byte_at cd.fifo_buf i)).1 →
          byte_at cd.fifo_buf i ≠ H.BHY_SENSOR_HANDLE_STEP_DETECTOR →
          byte_at cd.fifo_buf i ≠ H.BHY_SENSOR_HANDLE_STEP_COUNTER →
          (i + payload_len H cd.fifo_buf i < bytes_remain →
              bhy_read_fifo_loop H bytes_remain (fuel + 1) i cd
                = bhy_read_fifo_loop H bytes_remain fuel (i + payload_len H cd.fifo_buf i + 1)
                    (bhy_read_fifo_body H i (payload_len H cd.fifo_buf i)
                      (bhy_get_sensor_type_data_len H (byte_at cd.fifo_buf i)).2 cd))
            ∧ (¬ i + payload_len H cd.fifo_buf i < bytes_remain →
                bhy_read_fifo_loop H bytes_remain (fuel + 1) i cd = some cd)) := by
  refine ⟨?_, ?_, ?_, ?_⟩
  · intro hmeta h
    exact detect_init_loop_congr H d data bytes_remain hmeta h _ 0 cd
  · intro h
    exact bhy_read_fifo_loop_congr H bytes_remain d _ 0 cd h
  · intro hi hknown
    have hneg : ¬ (bhy_get_sensor_type_data_len H (byte_at data i)).1 < 0 := by omega
    constructor
    · intro hfit
      have hf : ¬ ((i : Int) + (bhy_get_sensor_type_data_len H (byte_at data i)).1
          ≥ bytes_remain) := by
        unfold payload_len at hfit; omega
      rw [detect_init_loop]
      simp only [hi, hneg, hf, if_true, if_false]
      rfl
    · intro hfit
      have hf : (i : Int) + (bhy_get_sensor_type_data_len H (byte_at data i)).1
          ≥ bytes_remain := by
        unfold payload_len at hfit; omega
      rw [detect_init_loop]
      simp only [hi, hneg, hf, if_true, if_false]
  · intro hi hknown hd hc
    have hneg : ¬ (bhy_get_sensor_type_data_len H (byte_at cd.fifo_buf i)).1 < 0 := by omega
    have hstep : ¬ (byte_at cd.fifo_buf i = H.BHY_SENSOR_HANDLE_STEP_DETECTOR
        ∨ byte_at cd.fifo_buf i = H.BHY_SENSOR_HANDLE_STEP_COUNTER) := by tauto
    constructor
    · intro hfit
      have hf : ¬ ((i : Int) + (bhy_get_sensor_type_data_len H (byte_at cd.fifo_buf i)).1
          ≥ bytes_remain) := by
        unfold payload_len at hfit; omega
      rw [bhy_read_fifo_loop]
      simp only [hi, hneg, hf, hstep, if_true, if_false]
      rfl
    · intro hfit
      have hf : (i : Int) + (bhy_get_sensor_type_data_len H (byte_at cd.fifo_buf i)).1
          ≥ bytes_remain := by
        unfold payload_len at hfit; omega
      rw [bhy_read_fifo_loop]
      simp only [hi, hneg, hf, hstep, if_true, if_false]

theorem decoder_reads_below_bytes_remain_witness :
    detect_init_loop sample_consts [1, 5, 0, 0, 0, 0, 0, 254, 16] 7 (7 + 1) 0 acc_scenario_state
        = detect_init_loop sample_consts acc_scenario_buf 7 (7 + 1) 0 acc_scenario_state
      ∧ bhy_read_fifo_loop sample_consts 7 (7 + 1) 0
          { acc_scenario_state with fifo_buf := [1, 5, 0, 0, 0, 0, 0, 254, 16] }
        = (bhy_read_fifo_loop sample_consts 7 (7 + 1) 0 acc_scenario_state).map
            (fun c => { c with fifo_buf := [1, 5, 0, 0, 0, 0, 0, 254, 16] })
      ∧ detect_init_loop sample_consts acc_scenario_buf 7 (1 + 1) 0 acc_scenario_state
          = detect_init_loop sample_consts acc_scenario_buf 7 1
              (0 + payload_len sample_consts acc_scenario_buf 0 + 1)
              (detect_init_body sample_consts acc_scenario_buf 0
                (payload_len sample_consts acc_scenario_buf 0) acc_scenario_state)
      ∧ bhy_read_fifo_loop sample_consts 7 (1 + 1) 0 acc_scenario_state
          = bhy_read_fifo_loop sample_consts 7 1
              (0 + payload_len sample_consts acc_scenario_state.fifo_buf 0 + 1)
              (bhy_read_fifo_body sample_consts 0
                (payload_len sample_consts acc_scenario_state.fifo_buf 0)
                (bhy_get_sensor_type_data_len sample_consts
                  (byte_at acc_scenario_state.fifo_buf 0)).2 acc_scenario_state) :=
  have h := decoder_reads_below_bytes_remain sample_consts acc_scenario_buf
    [1, 5, 0, 0, 0, 0, 0, 254, 16] 7 1 0 acc_scenario_state
  ⟨h.1 (by decide) (by decide), h.2.1 (by decide),
    (h.2.2.1 (by decide) (by decide)).1 (by decide),
    (h.2.2.2 (by decide) (by decide) (by decide) (by decide)).1 (by decide)⟩

/-- Claim C5, counterexample: in bhy_read_fifo_data the step-counter record [19, 7, 7] with
bytes_remain 3 has a known tag of payload length 2 and fits (0 + 2 < 3), and no frame is
stored: the loop ends with the state as it was. -/
theorem steady_decoder_skips_fitting_record :
    0 ≤ (bhy_get_sensor_type_data_len sample_consts (byte_at [19, 7, 7] 0)).1
      ∧ 0 + payload_len sample_consts [19, 7, 7] 0 < 3
      ∧ bhy_read_fifo_loop sample_consts 3 4 0 { sample_state with fifo_buf := [19, 7, 7] }
          = some { sample_state with fifo_buf := [19, 7, 7] } := by
  decide
/-! ## The init scan -/

theorem detect_init_fold_flag (H : bhy_consts) (data : List Nat) :
    ∀ (js : List Nat) (cd : bhy_client_data),
      (js.foldl (fun cd j => detect_init_body H data j (payload_len H data j) cd) cd).reset_flag
        = if ∃ j ∈ js, byte_at data j = H.BHY_SENSOR_HANDLE_META_EVENT
              ∧ byte_at data (j + 1) = H.META_EVENT_INITIALIZED
          then RESET_FLAG_INITIALIZED else cd.reset_flag := by
  intro js
  induction js with
  | nil => intro cd; simp
  | cons j js ih =>
    intro cd
    simp only [List.foldl_cons]
    rw [ih]
    by_cases hrest : ∃ k ∈ js, byte_at data k = H.BHY_SENSOR_HANDLE_META_EVENT
        ∧ byte_at data (k + 1) = H.META_EVENT_INITIALIZED
    · have : ∃ k ∈ j :: js, byte_at data k = H.BHY_SENSOR_HANDLE_META_EVENT
          ∧ byte_at data (k + 1) = H.META_EVENT_INITIALIZED := by
        obtain ⟨k, hk, hp⟩ := hrest
        exact ⟨k, List.mem_cons_of_mem _ hk, hp⟩
      rw [if_pos hrest, if_pos this]
    · rw [if_neg hrest]
      by_cases hj : byte_at data j = H.BHY_SENSOR_HANDLE_META_EVENT
          ∧ byte_at data (j + 1) = H.META_EVENT_INITIALIZED
      · have : ∃ k ∈ j :: js, byte_at data k = H.BHY_SENSOR_HANDLE_META_EVENT
            ∧ byte_at data (k + 1) = H.META_EVENT_INITIALIZED :=
          ⟨j, List.mem_cons_self _ _, hj⟩
        rw [if_pos this]
        unfold detect_init_body
        dsimp only
        rw [if_pos hj]
      · have : ¬ ∃ k ∈ j :: js, byte_at data k = H.BHY_SENSOR_HANDLE_META_EVENT
            ∧ byte_at data (k + 1) = H.META_EVENT_INITIALIZED := by
          rintro ⟨k, hk, hp⟩
          rcases List.mem_cons.mp hk with e | e
          · subst e; exact hj hp
          · exact hrest ⟨k, e, hp⟩
        rw [if_neg this]
        unfold detect_init_body
        dsimp only
        rw [if_neg hj]

theorem bytes_from_head (data : List Nat) (i len : Nat) (h : 1 ≤ len) :
    (bytes_from data i len).head? = some (byte_at data i) := by
  obtain ⟨m, rfl⟩ : ∃ m, len = m + 1 := ⟨len - 1, by omega⟩
  simp [bytes_from, List.range_succ_eq_map]

theorem init_record_iff (H : bhy_consts) (data : List Nat) (br : Nat)
    (hmeta : 1 ≤ (bhy_get_sensor_type_data_len H H.BHY_SENSOR_HANDLE_META_EVENT).1) :
    (∃ r ∈ well_formed_records H data br, is_init_record H r)
      ↔ ∃ j ∈ well_formed_offsets H data br, byte_at data j = H.BHY_SENSOR_HANDLE_META_EVENT
          ∧ byte_at data (j + 1) = H.META_EVENT_INITIALIZED := by
  have key : ∀ j, byte_at data j = H.BHY_SENSOR_HANDLE_META_EVENT →
      (record_at H data j).data.head? = some (byte_at data (j + 1)) := by
    intro j hj
    apply bytes_from_head
    unfold payload_len
    rw [hj]
    omega
  constructor
  · rintro ⟨r, hr, h1, h2⟩
    obtain ⟨j, hj, rfl⟩ := List.mem_map.mp hr
    have h1' : byte_at data j = H.BHY_SENSOR_HANDLE_META_EVENT := h1
    rw [key j h1'] at h2
    exact ⟨j, hj, h1', Option.some.inj h2⟩
  · rintro ⟨j, hj, h1, h2⟩
    refine ⟨record_at H data j, List.mem_map_of_mem _ hj, h1, ?_⟩
    rw [key j h1, h2]

/-- Claim C6: when both register reads of detect_init_event succeed and the declared length is within
the maximum FIFO size, the scan ends and has pushed the records of the well-formed prefix of the
FIFO buffer to the main queue; if one of them is a meta event whose first payload byte is
META_EVENT_INITIALIZED (a meta event has at least one payload byte), the reset flag is
RESET_FLAG_INITIALIZED afterwards, and if none is, the reset flag is unchanged. -/
theorem detect_init_event_spec (H : bhy_consts) (rd : fifo_read) (cd : bhy_client_data)
    (bytes_remain : Nat) (bytes : List Nat)
    (hbr : rd.bytes_remain = some bytes_remain) (hmax : bytes_remain ≤ H.BHY_FIFO_LEN_MAX)
    (hfifo : rd.fifo = some bytes)
    (hmeta : 1 ≤ (bhy_get_sensor_type_data_len H H.BHY_SENSOR_HANDLE_META_EVENT).1) :
    ∃ cd1, detect_init_event H rd cd = some cd1
      ∧ cd1.data_queue = push_all H.BHY_FRAME_SIZE cd.data_queue
          (well_formed_records H (memcpy cd.fifo_buf (bytes_from bytes 0 bytes_remain))
            bytes_remain)
      ∧ ((∃ r ∈ well_formed_records H (memcpy cd.fifo_buf (bytes_from bytes 0 bytes_remain))
            bytes_remain, is_init_record H r) →
          cd1.reset_flag = RESET_FLAG_INITIALIZED)
      ∧ ((¬ ∃ r ∈ well_formed_records H (memcpy cd.fifo_buf (bytes_from bytes 0 bytes_remain))
            bytes_remain, is_init_record H r) →
          cd1.reset_flag = cd.reset_flag) := by
  have hnot : ¬ bytes_remain > H.BHY_FIFO_LEN_MAX := by omega
  have hev : detect_init_event H rd cd =
      detect_init_loop H (memcpy cd.fifo_buf (bytes_from bytes 0 bytes_remain)) bytes_remain
        (bytes_remain + 1) 0
        { cd with fifo_buf := memcpy cd.fifo_buf (bytes_from bytes 0 bytes_remain) } := by
    unfold detect_init_event
    rw [hbr]
    dsimp only
    rw [if_neg hnot, hfifo]
  rw [hev, detect_init_loop_fold H _ bytes_remain _ 0 _ (by omega)]
  refine ⟨_, rfl, ?_, ?_, ?_⟩
  · rw [detect_init_fold_queue]
    rfl
  · intro h
    rw [detect_init_fold_flag]
    exact if_pos ((init_record_iff H _ _ hmeta).mp h)
  · intro h
    rw [detect_init_fold_flag]
    exact if_neg (fun h2 => h ((init_record_iff H _ _ hmeta).mpr h2))

theorem detect_init_event_spec_witness :
    ∃ cd1, detect_init_event sample_consts
          { bytes_remain := some 9, fifo := some [254, 16, 0, 0, 0, 0, 0, 0, 0] }
          { sample_state with reset_flag := RESET_FLAG_READY } = some cd1
      ∧ cd1.data_queue = push_all sample_consts.BHY_FRAME_SIZE sample_state.data_queue
          [{ handle := 254, data := [16, 0, 0, 0, 0, 0, 0, 0] }]
      ∧ cd1.reset_flag = RESET_FLAG_INITIALIZED :=
  have h := detect_init_event_spec sample_consts
    { bytes_remain := some 9, fifo := some [254, 16, 0, 0, 0, 0, 0, 0, 0] }
    { sample_state with reset_flag := RESET_FLAG_READY } 9 [254, 16, 0, 0, 0, 0, 0, 0, 0]
    rfl (by decide) rfl (by decide)
  h.elim fun cd1 h1 => ⟨cd1, h1.1, h1.2.1, h1.2.2.1 (by decide)⟩
/-! ## The self-test scan -/

theorem self_test_body_len (H : bhy_consts) (data : List Nat) (j L : Nat)
    (st : bhy_client_data × Nat) :
    (detect_self_test_body H data j L st).1.self_test_result.length
      = st.1.self_test_result.length := by
  unfold detect_self_test_body
  dsimp only
  split_ifs <;> simp

theorem self_test_fold_len (H : bhy_consts) (data : List Nat) :
    ∀ (js : List Nat) (st : bhy_client_data × Nat),
      (js.foldl (fun st j => detect_self_test_body H data j (payload_len H data j) st)
          st).1.self_test_result.length = st.1.self_test_result.length := by
  intro js
  induction js with
  | nil => intro st; rfl
  | cons j js ih =>
    intro st
    simp only [List.foldl_cons]
    rw [ih, self_test_body_len]

theorem s8_reads_as_signed (b : Nat) : reads_as_signed b (s8 b) := by
  unfold reads_as_signed s8
  split_ifs <;> omega

theorem self_test_body_result (H : bhy_consts) (data : List Nat) (j L : Nat)
    (st : bhy_client_data × Nat) (hst : self_test_at H data j)
    (hAM : H.BHY_SENSOR_HANDLE_ACCELEROMETER ≠ H.BHY_SENSOR_HANDLE_MAGNETIC_FIELD_UNCALIBRATED)
    (hAG : H.BHY_SENSOR_HANDLE_ACCELEROMETER ≠ H.BHY_SENSOR_HANDLE_GYROSCOPE_UNCALIBRATED)
    (hMG : H.BHY_SENSOR_HANDLE_MAGNETIC_FIELD_UNCALIBRATED
      ≠ H.BHY_SENSOR_HANDLE_GYROSCOPE_UNCALIBRATED) :
    (byte_at data (j + 2) = H.BHY_SENSOR_HANDLE_ACCELEROMETER →
        H.SELF_TEST_RESULT_INDEX_ACC < st.1.self_test_result.length →
        (detect_self_test_body H data j L st).1.self_test_result[H.SELF_TEST_RESULT_INDEX_ACC]?
          = some (s8 (byte_at data (j + 3))))
      ∧ (byte_at data (j + 2) = H.BHY_SENSOR_HANDLE_MAGNETIC_FIELD_UNCALIBRATED →
        H.SELF_TEST_RESULT_INDEX_MAG < st.1.self_test_result.length →
        (detect_self_test_body H data j L st).1.self_test_result[H.SELF_TEST_RESULT_INDEX_MAG]?
          = some (s8 (byte_at data (j + 3))))
      ∧ (byte_at data (j + 2) = H.BHY_SENSOR_HANDLE_GYROSCOPE_UNCALIBRATED →
        H.SELF_TEST_RESULT_INDEX_GYRO < st.1.self_test_result.length →
        (detect_self_test_body H data j L st).1.self_test_result[H.SELF_TEST_RESULT_INDEX_GYRO]?
          = some (s8 (byte_at data (j + 3))))
      ∧ (detect_self_test_body H data j L st).2 = 1 := by
  have hst' : byte_at data j = H.BHY_SENSOR_HANDLE_META_EVENT
      ∧ byte_at data (j + 1) = H.META_EVENT_SELF_TEST_RESULTS := hst
  unfold detect_self_test_body
  dsimp only
  rw [if_pos hst']
  refine ⟨?_, ?_, ?_, rfl⟩
  · intro hs hl
    rw [if_pos hs]
    simp [List.getElem?_set, hl]
  · intro hs hl
    have h1 : ¬ byte_at data (j + 2) = H.BHY_SENSOR_HANDLE_ACCELEROMETER := by
      rw [hs]; exact fun e => hAM e.symm
    rw [if_neg h1, if_pos hs]
    simp [List.getElem?_set, hl]
  · intro hs hl
    have h1 : ¬ byte_at data (j + 2) = H.BHY_SENSOR_HANDLE_ACCELEROMETER := by
      rw [hs]; exact fun e => hAG e.symm
    have h2 : ¬ byte_at data (j + 2) = H.BHY_SENSOR_HANDLE_MAGNETIC_FIELD_UNCALIBRATED := by
      rw [hs]; exact fun e => hMG e.symm
    rw [if_neg h1, if_neg h2, if_pos hs]
    simp [List.getElem?_set, hl]

theorem self_test_body_detected (H : bhy_consts) (data : List Nat) (j L : Nat)
    (st : bhy_client_data × Nat) :
    (detect_self_test_body H data j L st).2 = if self_test_at H data j then 1 else st.2 := by
  unfold detect_self_test_body self_test_at
  dsimp only
  split_ifs <;> rfl

theorem self_test_fold_detected (H : bhy_consts) (data : List Nat) :
    ∀ (js : List Nat) (st : bhy_client_data × Nat),
      (js.foldl (fun st j => detect_self_test_body H data j (payload_len H data j) st) st).2
        = if ∃ j ∈ js, self_test_at H data j then 1 else st.2 := by
  intro js
  induction js with
  | nil => intro st; simp
  | cons j js ih =>
    intro st
    simp only [List.foldl_cons]
    rw [ih, self_test_body_detected]
    by_cases hrest : ∃ k ∈ js, self_test_at H data k
    · have : ∃ k ∈ j :: js, self_test_at H data k := by
        obtain ⟨k, hk, hp⟩ := hrest
        exact ⟨k, List.mem_cons_of_mem _ hk, hp⟩
      rw [if_pos hrest, if_pos this]
    · rw [if_neg hrest]
      by_cases hj : self_test_at H data j
      · rw [if_pos hj, if_pos ⟨j, List.mem_cons_self _ _, hj⟩]
      · have : ¬ ∃ k ∈ j :: js, self_test_at H data k := by
          rintro ⟨k, hk, hp⟩
          rcases List.mem_cons.mp hk with e | e
          · subst e; exact hj hp
          · exact hrest ⟨k, e, hp⟩
        rw [if_neg hj, if_neg this]
/-- Claim C7: when both register reads of detect_self_test_event succeed and the declared length is
within the maximum FIFO size, then for every record of the well-formed prefix that is a meta
event with sub-type self-test results, once the scan has handled it self_test_result holds the
signed result byte at the accelerometer, magnetometer or gyroscope index, according to which of
the three sensors its sensor byte names: the value in -128..127 that differs from the byte by a
multiple of 256 (the byte itself below 128, the byte minus 256 from 128 on); and the function
returns the state of the scan with
bhy_load_ram_patch applied to it once if the prefix has at least one self-test-results record, and
the state of the scan itself, with no reload, if it has none. -/
theorem detect_self_test_event_spec (H : bhy_consts)
    (bhy_load_ram_patch : bhy_client_data → bhy_client_data)
    (rd : fifo_read) (cd : bhy_client_data) (bytes_remain : Nat) (bytes data : List Nat)
    (cd0 : bhy_client_data)
    (hbr : rd.bytes_remain = some bytes_remain) (hmax : bytes_remain ≤ H.BHY_FIFO_LEN_MAX)
    (hfifo : rd.fifo = some bytes)
    (hdata : data = memcpy cd.fifo_buf (bytes_from bytes 0 bytes_remain))
    (hcd0 : cd0 = { cd with fifo_buf := data })
    (hAM : H.BHY_SENSOR_HANDLE_ACCELEROMETER ≠ H.BHY_SENSOR_HANDLE_MAGNETIC_FIELD_UNCALIBRATED)
    (hAG : H.BHY_SENSOR_HANDLE_ACCELEROMETER ≠ H.BHY_SENSOR_HANDLE_GYROSCOPE_UNCALIBRATED)
    (hMG : H.BHY_SENSOR_HANDLE_MAGNETIC_FIELD_UNCALIBRATED
      ≠ H.BHY_SENSOR_HANDLE_GYROSCOPE_UNCALIBRATED)
    (hacc : H.SELF_TEST_RESULT_INDEX_ACC < cd.self_test_result.length)
    (hmag : H.SELF_TEST_RESULT_INDEX_MAG < cd.self_test_result.length)
    (hgyro : H.SELF_TEST_RESULT_INDEX_GYRO < cd.self_test_result.length) :
    (∀ pre j post, well_formed_offsets H data bytes_remain = pre ++ j :: post →
        self_test_at H data j →
        (byte_at data (j + 2) = H.BHY_SENSOR_HANDLE_ACCELEROMETER →
          ∃ v : Int, (self_test_scan H data (pre ++ [j]) cd0).1.self_test_result[
              H.SELF_TEST_RESULT_INDEX_ACC]? = some v
            ∧ reads_as_signed (byte_at data (j + 3)) v)
        ∧ (byte_at data (j + 2) = H.BHY_SENSOR_HANDLE_MAGNETIC_FIELD_UNCALIBRATED →
          ∃ v : Int, (self_test_scan H data (pre ++ [j]) cd0).1.self_test_result[
              H.SELF_TEST_RESULT_INDEX_MAG]? = some v
            ∧ reads_as_signed (byte_at data (j + 3)) v)
        ∧ (byte_at data (j + 2) = H.BHY_SENSOR_HANDLE_GYROSCOPE_UNCALIBRATED →
          ∃ v : Int, (self_test_scan H data (pre ++ [j]) cd0).1.self_test_result[
              H.SELF_TEST_RESULT_INDEX_GYRO]? = some v
            ∧ reads_as_signed (byte_at data (j + 3)) v))
      ∧ detect_self_test_event H bhy_load_ram_patch rd cd =
          some (if ∃ j ∈ well_formed_offsets H data bytes_remain, self_test_at H data j then
              bhy_load_ram_patch
                (self_test_scan H data (well_formed_offsets H data bytes_remain) cd0).1
            else (self_test_scan H data (well_formed_offsets H data bytes_remain) cd0).1) := by
  constructor
  · intro pre j post _ hst
    have hl : ∀ st : bhy_client_data × Nat, st = (pre.foldl
        (fun st j => detect_self_test_body H data j (payload_len H data j) st) (cd0, 0)) →
        st.1.self_test_result.length = cd.self_test_result.length := by
      intro st e
      rw [e, self_test_fold_len, hcd0]
    have hscan : self_test_scan H data (pre ++ [j]) cd0 =
        detect_self_test_body H data j (payload_len H data j) (pre.foldl
          (fun st j => detect_self_test_body H data j (payload_len H data j) st) (cd0, 0)) := by
      simp [self_test_scan, List.foldl_append]
    rw [hscan]
    obtain ⟨a, b, c, _⟩ := self_test_body_result H data j (payload_len H data j)
      (pre.foldl (fun st j => detect_self_test_body H data j (payload_len H data j) st) (cd0, 0))
      hst hAM hAG hMG
    have hlen := hl _ rfl
    exact ⟨fun h => ⟨_, a h (by rw [hlen]; exact hacc), s8_reads_as_signed _⟩,
      fun h => ⟨_, b h (by rw [hlen]; exact hmag), s8_reads_as_signed _⟩,
      fun h => ⟨_, c h (by rw [hlen]; exact hgyro), s8_reads_as_signed _⟩⟩
  · have hnot : ¬ bytes_remain > H.BHY_FIFO_LEN_MAX := by omega
    have hdet := self_test_fold_detected H data (well_formed_offsets H data bytes_remain) (cd0, 0)
    unfold detect_self_test_event
    rw [hbr]
    dsimp only
    rw [if_neg hnot, hfifo]
    dsimp only
    rw [← hdata, ← hcd0, detect_self_test_loop_fold H data bytes_remain _ 0 _ (by omega)]
    dsimp only
    by_cases hex : ∃ j ∈ well_formed_offsets H data bytes_remain, self_test_at H data j
    · rw [if_pos hex] at hdet
      have h1 : (List.foldl (fun st j => detect_self_test_body H data j (payload_len H data j) st)
          (cd0, 0) (record_offsets H data bytes_remain (bytes_remain + 1) 0)).2 ≠ 0 := by
        have : (List.foldl (fun st j => detect_self_test_body H data j (payload_len H data j) st)
          (cd0, 0) (record_offsets H data bytes_remain (bytes_remain + 1) 0)).2 = 1 := hdet
        omega
      rw [if_pos h1, if_pos hex]
      rfl
    · rw [if_neg hex] at hdet
      have h1 : ¬ (List.foldl (fun st j => detect_self_test_body H data j (payload_len H data j)
          st) (cd0, 0) (record_offsets H data bytes_remain (bytes_remain + 1) 0)).2 ≠ 0 := by
        have : (List.foldl (fun st j => detect_self_test_body H data j (payload_len H data j) st)
          (cd0, 0) (record_offsets H data bytes_remain (bytes_remain + 1) 0)).2 = 0 := hdet
        omega
      rw [if_neg h1, if_neg hex]
      rfl
theorem detect_self_test_event_spec_witness :
    (self_test_scan sample_consts self_test_scenario_buf ([] ++ [0])
          { sample_state with fifo_buf := self_test_scenario_buf }).1.self_test_result[
            sample_consts.SELF_TEST_RESULT_INDEX_ACC]? = some 0
      ∧ (self_test_scan sample_consts failed_self_test_buf ([] ++ [0])
          { sample_state with fifo_buf := failed_self_test_buf }).1.self_test_result[
            sample_consts.SELF_TEST_RESULT_INDEX_GYRO]? = some (-56)
      ∧ detect_self_test_event sample_consts counting_reload
          { bytes_remain := some 9, fifo := some self_test_scenario_buf }
          { sample_state with fifo_buf := self_test_scenario_buf }
        = some (counting_reload
            (self_test_scan sample_consts self_test_scenario_buf [0]
              { sample_state with fifo_buf := self_test_scenario_buf }).1) := by
  have h := detect_self_test_event_spec sample_consts counting_reload
    { bytes_remain := some 9, fifo := some self_test_scenario_buf }
    { sample_state with fifo_buf := self_test_scenario_buf } 9 self_test_scenario_buf
    self_test_scenario_buf { sample_state with fifo_buf := self_test_scenario_buf }
    rfl (by decide) rfl (by decide) rfl (by decide) (by decide) (by decide) (by decide)
    (by decide) (by decide)
  have g := detect_self_test_event_spec sample_consts counting_reload
    { bytes_remain := some 9, fifo := some failed_self_test_buf }
    { sample_state with fifo_buf := failed_self_test_buf } 9 failed_self_test_buf
    failed_self_test_buf { sample_state with fifo_buf := failed_self_test_buf }
    rfl (by decide) rfl (by decide) rfl (by decide) (by decide) (by decide) (by decide)
    (by decide) (by decide)
  obtain ⟨v, hv, v1, v2, v3⟩ := (h.1 [] 0 [] (by decide) (by decide)).1 (by decide)
  obtain ⟨w, hw, w1, w2, w3⟩ := (g.1 [] 0 [] (by decide) (by decide)).2.2 (by decide)
  have hb : byte_at self_test_scenario_buf (0 + 3) = 0 := by decide
  have hc : byte_at failed_self_test_buf (0 + 3) = 200 := by decide
  rw [hb] at v3
  rw [hc] at w3
  have ev : v = 0 := by omega
  have ew : w = -56 := by omega
  rw [ev] at hv
  rw [ew] at hw
  exact ⟨hv, hw, h.2⟩
/-! ## The pedometer -/

theorem logging_done_step (H : bhy_consts) (c : bhy_client_data)
    (h1 : H.LOGGING_DONE &&& H.START_WALK = 0) :
    (pedometer_logging_done H c).walk_mode = c.walk_mode
      ∧ (pedometer_logging_done H c).last_walk_mode = c.last_walk_mode
      ∧ (pedometer_logging_done H c).total_step = c.total_step
      ∧ (pedometer_logging_done H c).interrupt_mask &&& H.START_WALK
          = c.interrupt_mask &&& H.START_WALK := by
  unfold pedometer_logging_done
  split_ifs
  · exact ⟨rfl, rfl, rfl, by simp [Nat.and_distrib_right, h1]⟩
  · exact ⟨rfl, rfl, rfl, rfl⟩

theorem new_step_step (H : bhy_consts) (c : bhy_client_data)
    (h2 : H.NEW_STEP &&& H.START_WALK = 0) :
    (pedometer_new_step H c).walk_mode = c.walk_mode
      ∧ (pedometer_new_step H c).last_walk_mode = c.last_walk_mode
      ∧ (pedometer_new_step H c).total_step = c.total_step
      ∧ (pedometer_new_step H c).interrupt_mask &&& H.START_WALK
          = c.interrupt_mask &&& H.START_WALK := by
  unfold pedometer_new_step
  split_ifs
  · exact ⟨rfl, rfl, rfl, by simp [Nat.and_distrib_right, h2]⟩
  · exact ⟨rfl, rfl, rfl, rfl⟩

theorem start_walk_step (H : bhy_consts) (c : bhy_client_data) :
    (pedometer_start_walk H c).walk_mode = c.walk_mode
      ∧ (pedometer_start_walk H c).total_step = c.total_step
      ∧ (c.last_walk_mode = false ∧ c.walk_mode = true →
          (pedometer_start_walk H c).last_walk_mode = true
            ∧ (pedometer_start_walk H c).interrupt_mask &&& H.START_WALK
                = (c.interrupt_mask &&& H.START_WALK) ||| H.START_WALK)
      ∧ (¬ (c.last_walk_mode = false ∧ c.walk_mode = true) →
          (pedometer_start_walk H c).last_walk_mode = c.last_walk_mode
            ∧ (pedometer_start_walk H c).interrupt_mask &&& H.START_WALK
                = c.interrupt_mask &&& H.START_WALK) := by
  unfold pedometer_start_walk
  split_ifs with h
  · refine ⟨rfl, rfl, fun _ => ⟨h.2, by simp [Nat.and_distrib_right]⟩, fun h3 => absurd h h3⟩
  · exact ⟨rfl, rfl, fun h3 => absurd h3 h, fun _ => ⟨rfl, rfl⟩⟩

theorem stop_walk_step (H : bhy_consts) (c : bhy_client_data)
    (h3 : H.STOP_WALK &&& H.START_WALK = 0) :
    (pedometer_stop_walk H c).walk_mode = c.walk_mode
      ∧ (pedometer_stop_walk H c).total_step = c.total_step
      ∧ (pedometer_stop_walk H c).interrupt_mask &&& H.START_WALK
          = c.interrupt_mask &&& H.START_WALK
      ∧ (pedometer_stop_walk H c).last_walk_mode
          = if c.last_walk_mode = true ∧ c.walk_mode = false then false else c.last_walk_mode := by
  unfold pedometer_stop_walk
  split_ifs with h
  · exact ⟨rfl, rfl, by simp [Nat.and_distrib_right, h3], h.2⟩
  · exact ⟨rfl, rfl, rfl, rfl⟩

theorem pedometer_flags (H : bhy_consts) (c : bhy_client_data) (hbit : start_walk_bit H)
    (hm : c.interrupt_mask = 0) :
    (pedometer_stop_walk H (pedometer_start_walk H (pedometer_new_step H
        (pedometer_logging_done H c)))).walk_mode = c.walk_mode
      ∧ (pedometer_stop_walk H (pedometer_start_walk H (pedometer_new_step H
        (pedometer_logging_done H c)))).last_walk_mode = c.walk_mode
      ∧ (pedometer_stop_walk H (pedometer_start_walk H (pedometer_new_step H
        (pedometer_logging_done H c)))).total_step = c.total_step
      ∧ (flag_set (pedometer_stop_walk H (pedometer_start_walk H (pedometer_new_step H
          (pedometer_logging_done H c)))).interrupt_mask H.START_WALK
        ↔ (c.last_walk_mode = false ∧ c.walk_mode = true)) := by
  obtain ⟨h0, h1, h2, h3⟩ := hbit
  obtain ⟨a1, a2, a3, a4⟩ := logging_done_step H c h1
  obtain ⟨b1, b2, b3, b4⟩ := new_step_step H (pedometer_logging_done H c) h2
  obtain ⟨c1, c2, c3, c4⟩ := start_walk_step H (pedometer_new_step H (pedometer_logging_done H c))
  obtain ⟨d1, d2, d3, d4⟩ := stop_walk_step H
    (pedometer_start_walk H (pedometer_new_step H (pedometer_logging_done H c))) h3
  rw [b1, a1, b2, a2] at c3 c4
  rw [b4, a4, hm] at c3 c4
  rw [c1, b1, a1] at d4
  unfold flag_set
  rw [d1, c1, b1, a1, d2, c2, b3, a3, d3, d4]
  refine ⟨rfl, ?_, rfl, ?_⟩
  · by_cases hs : c.last_walk_mode = false ∧ c.walk_mode = true
    · rw [(c3 hs).1]
      simp [hs.2]
    · rw [(c4 hs).1]
      cases hl : c.last_walk_mode <;> cases hw : c.walk_mode <;> simp_all
  · by_cases hs : c.last_walk_mode = false ∧ c.walk_mode = true
    · rw [(c3 hs).2]
      simp [hs, h0]
    · rw [(c4 hs).2]
      simp [hs]
theorem pedometer_steps_keep (H : bhy_consts) (c : bhy_client_data) :
    (pedometer_stop_walk H (pedometer_start_walk H (pedometer_new_step H
        (pedometer_logging_done H c)))).walk_mode = c.walk_mode
      ∧ (pedometer_stop_walk H (pedometer_start_walk H (pedometer_new_step H
        (pedometer_logging_done H c)))).total_step = c.total_step := by
  have a : ∀ c : bhy_client_data, (pedometer_logging_done H c).walk_mode = c.walk_mode
      ∧ (pedometer_logging_done H c).total_step = c.total_step := by
    intro c; unfold pedometer_logging_done; split_ifs <;> exact ⟨rfl, rfl⟩
  have b : ∀ c : bhy_client_data, (pedometer_new_step H c).walk_mode = c.walk_mode
      ∧ (pedometer_new_step H c).total_step = c.total_step := by
    intro c; unfold pedometer_new_step; split_ifs <;> exact ⟨rfl, rfl⟩
  have c1 : ∀ c : bhy_client_data, (pedometer_start_walk H c).walk_mode = c.walk_mode
      ∧ (pedometer_start_walk H c).total_step = c.total_step := by
    intro c; unfold pedometer_start_walk; split_ifs <;> exact ⟨rfl, rfl⟩
  have d : ∀ c : bhy_client_data, (pedometer_stop_walk H c).walk_mode = c.walk_mode
      ∧ (pedometer_stop_walk H c).total_step = c.total_step := by
    intro c; unfold pedometer_stop_walk; split_ifs <;> exact ⟨rfl, rfl⟩
  rw [(d _).1, (c1 _).1, (b _).1, (a _).1, (d _).2, (c1 _).2, (b _).2, (a _).2]
  exact ⟨rfl, rfl⟩

/-- Claim C8: for a pedometer record with data_index 0 handed to process_pedometer: if step_status is
0, walk_mode is false afterwards and total_step is unchanged; if step_status is not 0, walk_mode
is true afterwards and total_step is the walk_count of the record. -/
theorem process_pedometer_normal_mode (H : bhy_consts) (cd : bhy_client_data) (data : List Nat)
    (h0 : (H.pedometer_of_bytes data).data_index = 0) :
    ((H.pedometer_of_bytes data).step_status = 0 →
        (process_pedometer H cd data).walk_mode = false
          ∧ (process_pedometer H cd data).total_step = cd.total_step)
      ∧ ((H.pedometer_of_bytes data).step_status ≠ 0 →
        (process_pedometer H cd data).walk_mode = true
          ∧ (process_pedometer H cd data).total_step
              = (H.pedometer_of_bytes data).walk_count) := by
  unfold process_pedometer
  dsimp only
  rw [(pedometer_steps_keep H _).1, (pedometer_steps_keep H _).2]
  dsimp only
  unfold pedometer_record
  rw [if_pos h0]
  constructor
  · intro hs
    rw [if_pos hs]
    exact ⟨rfl, rfl⟩
  · intro hs
    rw [if_neg hs]
    exact ⟨rfl, rfl⟩

theorem process_pedometer_normal_mode_witness :
    (process_pedometer sample_consts sample_state [0, 5, 0, 1, 0, 0]).walk_mode = true
      ∧ (process_pedometer sample_consts sample_state [0, 5, 0, 1, 0, 0]).total_step = 5 :=
  (process_pedometer_normal_mode sample_consts sample_state [0, 5, 0, 1, 0, 0] (by decide)).2
    (by decide)

theorem process_pedometer_start_walk (H : bhy_consts) (cd : bhy_client_data) (d : List Nat)
    (hbit : start_walk_bit H) :
    (process_pedometer H cd d).last_walk_mode = (process_pedometer H cd d).walk_mode
      ∧ (flag_set (process_pedometer H cd d).interrupt_mask H.START_WALK
        ↔ (cd.last_walk_mode = false ∧ (process_pedometer H cd d).walk_mode = true)) := by
  have hrec : (pedometer_record cd (H.pedometer_of_bytes d)).last_walk_mode
      = cd.last_walk_mode := by
    unfold pedometer_record; split_ifs <;> rfl
  obtain ⟨a, b, _, e⟩ := pedometer_flags H
    { pedometer_record cd (H.pedometer_of_bytes d) with interrupt_mask := 0 } hbit rfl
  unfold process_pedometer
  dsimp only at a b e ⊢
  rw [a, b, e, hrec]
  exact ⟨rfl, Iff.rfl⟩

theorem pedometer_states_getD_zero (H : bhy_consts) (cd : bhy_client_data) (d : List Nat)
    (ds : List (List Nat)) :
    (pedometer_states H cd (d :: ds)).getD 0 cd = process_pedometer H cd d := rfl

/-- Claim C9: over every sequence of pedometer records handed to process_pedometer, starting with
last_walk_mode false, the flag START_WALK (a bit of its own in the mask) is set in interrupt_mask
after record k if and only if the walk mode was false after the record before it (for the first
record: last_walk_mode was false) and is true after record k. -/
theorem start_walk_once_per_transition (H : bhy_consts) (hbit : start_walk_bit H) :
    ∀ (ds : List (List Nat)) (cd : bhy_client_data) (k : Nat) (s : bhy_client_data),
      cd.last_walk_mode = false →
      (pedometer_states H cd ds)[k]? = some s →
      (flag_set s.interrupt_mask H.START_WALK
        ↔ (walk_mode_before H cd ds k = false ∧ s.walk_mode = true)) := by
  have gen : ∀ (ds : List (List Nat)) (cd : bhy_client_data) (k : Nat) (s : bhy_client_data),
      (pedometer_states H cd ds)[k]? = some s →
      (flag_set s.interrupt_mask H.START_WALK
          ↔ (walk_mode_before H cd ds k = false ∧ s.walk_mode = true))
        ∧ s.last_walk_mode = s.walk_mode := by
    intro ds
    induction ds with
    | nil => intro cd k s h; simp [pedometer_states] at h
    | cons d ds ih =>
      intro cd k s h
      obtain ⟨p1, p2⟩ := process_pedometer_start_walk H cd d hbit
      cases k with
      | zero =>
        simp only [pedometer_states, List.getElem?_cons_zero, Option.some.injEq] at h
        subst h
        exact ⟨p2, p1⟩
      | succ k =>
        simp only [pedometer_states, List.getElem?_cons_succ] at h
        obtain ⟨q1, q2⟩ := ih (process_pedometer H cd d) k s h
        refine ⟨?_, q2⟩
        rw [q1]
        have hw : walk_mode_before H (process_pedometer H cd d) ds k
            = walk_mode_before H cd (d :: ds) (k + 1) := by
          cases k with
          | zero =>
            show (process_pedometer H cd d).last_walk_mode = _
            rw [p1]
            rfl
          | succ k =>
            show ((pedometer_states H (process_pedometer H cd d) ds).getD k _).walk_mode
              = ((pedometer_states H cd (d :: ds)).getD (k + 1) _).walk_mode
            have hk : k < (pedometer_states H (process_pedometer H cd d) ds).length := by
              have := (List.getElem?_eq_some.mp h).1
              omega
            simp [pedometer_states, List.getD_eq_getElem?_getD, List.getElem?_eq_getElem hk]
        rw [hw]
  intro ds cd k s _ h
  exact (gen ds cd k s h).1

theorem start_walk_once_per_transition_witness :
    flag_set (process_pedometer sample_consts sample_state [0, 5, 0, 1, 0, 0]).interrupt_mask
        sample_consts.START_WALK
      ↔ (walk_mode_before sample_consts sample_state [[0, 5, 0, 1, 0, 0], [0, 6, 0, 1, 0, 0]] 0
            = false
          ∧ (process_pedometer sample_consts sample_state [0, 5, 0, 1, 0, 0]).walk_mode = true) :=
  start_walk_once_per_transition sample_consts (by decide)
    [[0, 5, 0, 1, 0, 0], [0, 6, 0, 1, 0, 0]] sample_state 0
    (process_pedometer sample_consts sample_state [0, 5, 0, 1, 0, 0]) (by decide) (by decide)
/-! ## Step records in the steady-state decoder -/

/-- Claim C10: in the loop of bhy_read_fifo_data, a record at parse_index whose tag is the step
detector or the step counter is passed over: the loop goes on at parse_index + L + 1, after tag
and payload, with the session state, both queues included, as it was.  The whole loop ends, and
it stores frames for the records at the offsets of steady_offsets only, none of which has the
step-detector or the step-counter tag. -/
theorem steady_decoder_skips_step_records (H : bhy_consts) (hd : distinct_case_labels H)
    (bytes_remain fuel i : Nat) (cd : bhy_client_data) :
    (i < bytes_remain →
        (byte_at cd.fifo_buf i = H.BHY_SENSOR_HANDLE_STEP_DETECTOR
          ∨ byte_at cd.fifo_buf i = H.BHY_SENSOR_HANDLE_STEP_COUNTER) →
        bhy_read_fifo_loop H bytes_remain (fuel + 1) i cd
          = bhy_read_fifo_loop H bytes_remain fuel (i + payload_len H cd.fifo_buf i + 1) cd)
      ∧ bhy_read_fifo_loop H bytes_remain (bytes_remain + 1) 0 cd
          = some ((steady_offsets H cd.fifo_buf bytes_remain (bytes_remain + 1) 0).foldl
              (fun c j => bhy_read_fifo_body H j (payload_len H cd.fifo_buf j)
                (bhy_get_sensor_type_data_len H (byte_at cd.fifo_buf j)).2 c) cd)
      ∧ ∀ j ∈ steady_offsets H cd.fifo_buf bytes_remain (bytes_remain + 1) 0,
          byte_at cd.fifo_buf j ≠ H.BHY_SENSOR_HANDLE_STEP_DETECTOR
            ∧ byte_at cd.fifo_buf j ≠ H.BHY_SENSOR_HANDLE_STEP_COUNTER := by
  have hdet : 0 ≤ (bhy_get_sensor_type_data_len H H.BHY_SENSOR_HANDLE_STEP_DETECTOR).1 := by
    rw [data_len_step_detector H hd]; exact Int.natCast_nonneg _
  have hcnt : 0 ≤ (bhy_get_sensor_type_data_len H H.BHY_SENSOR_HANDLE_STEP_COUNTER).1 := by
    rw [data_len_step_counter H hd]; exact Int.natCast_nonneg _
  refine ⟨?_, ?_, ?_⟩
  · intro hi hstep
    have hL : 0 ≤ (bhy_get_sensor_type_data_len H (byte_at cd.fifo_buf i)).1 := by
      rcases hstep with e | e <;> rw [e] <;> assumption
    have hidx : ((i : Int) + (bhy_get_sensor_type_data_len H (byte_at cd.fifo_buf i)).1
        + 1).toNat = i + payload_len H cd.fifo_buf i + 1 := by
      unfold payload_len; omega
    rw [bhy_read_fifo_loop]
    simp only [hi, hstep, if_true]
    rw [hidx]
  · exact bhy_read_fifo_loop_fold H cd.fifo_buf bytes_remain hdet hcnt _ 0 cd (by omega) rfl
  · intro j hj
    have := steady_offsets_mem H cd.fifo_buf bytes_remain _ 0 j hj
    exact ⟨this.1, this.2.1⟩

theorem steady_decoder_skips_step_records_witness :
    bhy_read_fifo_loop sample_consts 6 (6 + 1) 0 { sample_state with fifo_buf := [19, 7, 7, 5, 1, 2] }
      = bhy_read_fifo_loop sample_consts 6 6
          (0 + payload_len sample_consts [19, 7, 7, 5, 1, 2] 0 + 1)
          { sample_state with fifo_buf := [19, 7, 7, 5, 1, 2] } :=
  (steady_decoder_skips_step_records sample_consts sample_consts_distinct 6 6 0
    { sample_state with fifo_buf := [19, 7, 7, 5, 1, 2] }).1 (by decide) (by decide)

/-! ## The activity-recognition queue -/

theorem ar_rows (H : bhy_consts) :
    ((sensor_type_cases H).filter (fun c => c.2.2 != 0)).map (fun c => c.1) = ar_tags H := by
  rfl

theorem report_to_ar_iff (H : bhy_consts) (hd : distinct_case_labels H) (tag : Nat) :
    (bhy_get_sensor_type_data_len H tag).2 ≠ 0 ↔ tag ∈ ar_tags H := by
  constructor
  · intro h
    unfold bhy_get_sensor_type_data_len at h
    split_ifs at h with hz
    · exact absurd rfl h
    · cases hf : (sensor_type_cases H).find? (fun c => c.1 == tag) with
      | none => rw [hf] at h; exact absurd rfl h
      | some c =>
        rw [hf] at h
        have hm := List.mem_of_find?_eq_some hf
        have hp := List.find?_some hf
        simp only [beq_iff_eq] at hp
        rw [← hp, ← ar_rows, List.mem_map]
        refine ⟨c, ?_, rfl⟩
        rw [List.mem_filter]
        exact ⟨hm, by simpa using h⟩
  · intro h
    rw [← ar_rows, List.mem_map] at h
    obtain ⟨c, hc, rfl⟩ := h
    rw [List.mem_filter] at hc
    rw [data_len_of_case H hd c hc.1]
    simpa using hc.2

theorem bhy_read_fifo_store_ar (H : bhy_consts) (j L : Nat) (cd : bhy_client_data) :
    (bhy_read_fifo_store H j L cd).data_queue_ar = cd.data_queue_ar := by
  unfold bhy_read_fifo_store
  exact (process_data_frame H _ _ _).2.2

theorem bhy_read_fifo_body_ar (H : bhy_consts) (j L ar : Nat) (cd : bhy_client_data) :
    (bhy_read_fifo_body H j L ar cd).data_queue_ar =
      if ar ≠ 0 then
        queue_push H.BHY_FRAME_SIZE_AR cd.data_queue_ar (byte_at cd.fifo_buf j)
          (bytes_from cd.fifo_buf (j + 1) L)
      else cd.data_queue_ar := by
  have hmid : ∀ c : bhy_client_data,
      ((if byte_at cd.fifo_buf j = H.PEDOMETER_SENSOR then generate_step_data H c else c).fifo_buf
          = c.fifo_buf)
        ∧ ((if byte_at cd.fifo_buf j = H.PEDOMETER_SENSOR then generate_step_data H c
            else c).data_queue_ar = c.data_queue_ar) := by
    intro c
    split_ifs
    · exact generate_step_data_frame H c
    · exact ⟨rfl, rfl⟩
  unfold bhy_read_fifo_body
  dsimp only
  generalize hs : bhy_read_fifo_store H j L cd = s
  have hb : s.fifo_buf = cd.fifo_buf := by rw [← hs]; exact bhy_read_fifo_store_fifo_buf H j L cd
  have ha : s.data_queue_ar = cd.data_queue_ar := by
    rw [← hs]; exact bhy_read_fifo_store_ar H j L cd
  obtain ⟨m1, m2⟩ := hmid s
  generalize (if byte_at cd.fifo_buf j = H.PEDOMETER_SENSOR then generate_step_data H s else s)
    = m at m1 m2
  unfold bhy_read_fifo_ar
  split_ifs
  · dsimp only
    rw [m1, m2, hb, ha]
  · rw [m2, ha]

theorem steady_fold_ar (H : bhy_consts) (data : List Nat) :
    ∀ (js : List Nat) (cd : bhy_client_data), cd.fifo_buf = data →
      (js.foldl (fun cd j => bhy_read_fifo_body H j (payload_len H data j)
          (bhy_get_sensor_type_data_len H (byte_at data j)).2 cd) cd).data_queue_ar
        = push_all H.BHY_FRAME_SIZE_AR cd.data_queue_ar
            ((js.filter
              (fun j => decide ((bhy_get_sensor_type_data_len H (byte_at data j)).2 ≠ 0))).map
              (record_at H data)) := by
  intro js
  induction js with
  | nil => intro cd _; rfl
  | cons j js ih =>
    intro cd hbuf
    simp only [List.foldl_cons]
    rw [ih _ (by rw [bhy_read_fifo_body_fifo_buf]; exact hbuf), bhy_read_fifo_body_ar, hbuf]
    by_cases hf : (bhy_get_sensor_type_data_len H (byte_at data j)).2 ≠ 0
    · rw [if_pos hf, List.filter_cons_of_pos (by simpa using hf)]
      rfl
    · rw [if_neg hf, List.filter_cons_of_neg (by simpa using hf)]

theorem process_data_keeps (H : bhy_consts) (cd : bhy_client_data) (data : List Nat)
    (handle : Nat) (hacc : handle ≠ H.BHY_SENSOR_HANDLE_ACCELEROMETER) :
    (process_data H cd data handle).2 = data := by
  unfold process_data
  rw [if_neg hacc]
  split_ifs <;> rfl

theorem bhy_read_fifo_store_main (H : bhy_consts) (j L : Nat) (cd : bhy_client_data)
    (hhead : cd.data_queue.head < cd.data_queue.frames.length)
    (hacc : byte_at cd.fifo_buf j ≠ H.BHY_SENSOR_HANDLE_ACCELEROMETER) :
    (bhy_read_fifo_store H j L cd).data_queue =
      queue_push H.BHY_FRAME_SIZE cd.data_queue (byte_at cd.fifo_buf j)
        (bytes_from cd.fifo_buf (j + 1) L) := by
  unfold bhy_read_fifo_store
  dsimp only
  generalize hf : fifo_frame.mk (byte_at cd.fifo_buf j)
    (memcpy (head_slot cd.data_queue).data (bytes_from cd.fifo_buf (j + 1) L)) = f
  have hfh : f.handle = byte_at cd.fifo_buf j := by rw [← hf]
  have hs : head_slot (set_head_slot cd.data_queue f) = f := head_slot_set _ _ hhead
  rw [hs, process_data_keeps H _ _ _ (by rw [hfh]; exact hacc), (process_data_frame H _ _ _).2.1]
  dsimp only
  rw [hs, set_head_slot_twice, ← hf]
  rfl

/-- Claim C11: the tag table leaves report_to_ar set exactly for the seven tags of ar_tags (the
two timestamp tags and the meta event, their wake-up variants, activity recognition).  The loop of
bhy_read_fifo_data ends and has pushed to the activity-recognition queue, in order, exactly the
records it emitted whose tag is one of the seven, each with its tag as handle and its L payload
bytes as data.  A pass of the loop body on such a record first pushes the same handle and payload
to the main queue; a pass on any other record leaves the activity-recognition queue as it was. -/
theorem ar_queue_iff_report_to_ar (H : bhy_consts) (hd : distinct_case_labels H)
    (bytes_remain : Nat) (cd : bhy_client_data) :
    (∀ tag, (bhy_get_sensor_type_data_len H tag).2 ≠ 0 ↔ tag ∈ ar_tags H)
      ∧ (∃ cd1, bhy_read_fifo_loop H bytes_remain (bytes_remain + 1) 0 cd = some cd1
          ∧ cd1.data_queue_ar = push_all H.BHY_FRAME_SIZE_AR cd.data_queue_ar
              (((steady_offsets H cd.fifo_buf bytes_remain (bytes_remain + 1) 0).filter
                (fun j => decide (byte_at cd.fifo_buf j ∈ ar_tags H))).map
                (record_at H cd.fifo_buf)))
      ∧ (∀ (j : Nat) (c : bhy_client_data),
          c.data_queue.head < c.data_queue.frames.length →
          byte_at c.fifo_buf j ∈ ar_tags H →
          (bhy_read_fifo_store H j (payload_len H c.fifo_buf j) c).data_queue
              = queue_push H.BHY_FRAME_SIZE c.data_queue (record_at H c.fifo_buf j).handle
                  (record_at H c.fifo_buf j).data
            ∧ (bhy_read_fifo_body H j (payload_len H c.fifo_buf j)
                (bhy_get_sensor_type_data_len H (byte_at c.fifo_buf j)).2 c).data_queue_ar
              = queue_push H.BHY_FRAME_SIZE_AR c.data_queue_ar (record_at H c.fifo_buf j).handle
                  (record_at H c.fifo_buf j).data)
      ∧ (∀ (j : Nat) (c : bhy_client_data), byte_at c.fifo_buf j ∉ ar_tags H →
          (bhy_read_fifo_body H j (payload_len H c.fifo_buf j)
            (bhy_get_sensor_type_data_len H (byte_at c.fifo_buf j)).2 c).data_queue_ar
              = c.data_queue_ar) := by
  have hdet : 0 ≤ (bhy_get_sensor_type_data_len H H.BHY_SENSOR_HANDLE_STEP_DETECTOR).1 := by
    rw [data_len_step_detector H hd]; exact Int.natCast_nonneg _
  have hcnt : 0 ≤ (bhy_get_sensor_type_data_len H H.BHY_SENSOR_HANDLE_STEP_COUNTER).1 := by
    rw [data_len_step_counter H hd]; exact Int.natCast_nonneg _
  refine ⟨report_to_ar_iff H hd, ⟨_, bhy_read_fifo_loop_fold H cd.fifo_buf bytes_remain hdet hcnt
    _ 0 cd (by omega) rfl, ?_⟩, ?_, ?_⟩
  · rw [steady_fold_ar H cd.fifo_buf _ cd rfl]
    congr 2
    apply List.filter_congr
    intro j _
    exact decide_eq_decide.mpr (report_to_ar_iff H hd _)
  · intro j c hhead htag
    have hflag := (report_to_ar_iff H hd _).mpr htag
    have hacc : byte_at c.fifo_buf j ≠ H.BHY_SENSOR_HANDLE_ACCELEROMETER := by
      intro e
      apply hflag
      rw [e, data_len_of_case H hd
        (H.BHY_SENSOR_HANDLE_ACCELEROMETER, H.BHY_SENSOR_DATA_LEN_ACCELEROMETER, 0)
        (by simp [sensor_type_cases])]
    refine ⟨bhy_read_fifo_store_main H j _ c hhead hacc, ?_⟩
    rw [bhy_read_fifo_body_ar, if_pos hflag]
    rfl
  · intro j c htag
    have hflag : ¬ (bhy_get_sensor_type_data_len H (byte_at c.fifo_buf j)).2 ≠ 0 :=
      fun h => htag ((report_to_ar_iff H hd _).mp h)
    rw [bhy_read_fifo_body_ar, if_neg hflag]

theorem ar_queue_iff_report_to_ar_witness :
    distinct_case_labels sample_consts
      ∧ ∃ cd1, bhy_read_fifo_loop sample_consts 13 (13 + 1) 0 ar_scenario_state = some cd1
          ∧ cd1.data_queue_ar = push_all sample_consts.BHY_FRAME_SIZE_AR
              ar_scenario_state.data_queue_ar
              (((steady_offsets sample_consts ar_scenario_state.fifo_buf 13 (13 + 1) 0).filter
                (fun j => decide (byte_at ar_scenario_state.fifo_buf j ∈ ar_tags
                    sample_consts))).map
                (record_at sample_consts ar_scenario_state.fifo_buf)) :=
  ⟨sample_consts_distinct,
    (ar_queue_iff_report_to_ar sample_consts sample_consts_distinct 13 ar_scenario_state).2.1⟩

theorem ar_scenario_offsets :
    steady_offsets sample_consts ar_scenario_buf 13 14 0 = [0, 3, 10]
      ∧ (push_all 3 sample_state.data_queue_ar
          [record_at sample_consts ar_scenario_buf 0, record_at sample_consts ar_scenario_buf
              10]).head
            = 2 := by
  decide

/-! ## The interrupt in the state "awaiting reset" -/

/-- Claim C12: when the reset-phase flag is RESET_FLAG_TODO, bhy_irq_handler sets it to
RESET_FLAG_READY and schedules no work, so that the whole interrupt issues no register access and
leaves the rest of the session state, both queues included, as it was; bhy_irq_work_func, if it
sees RESET_FLAG_TODO, does the same whatever the bus would answer. -/
theorem awaiting_reset_interrupt (H : bhy_consts) (P : bhy_host_consts)
    (bhy_load_ram_patch : bhy_client_data → bhy_client_data) (now : Nat) (bus : irq_bus)
    (cd : bhy_client_data) (hflag : cd.reset_flag = RESET_FLAG_TODO) :
    bhy_irq_handler now cd = ({ cd with reset_flag := RESET_FLAG_READY }, false)
      ∧ hardware_interrupt H P bhy_load_ram_patch now bus cd
          = some ⟨{ cd with reset_flag := RESET_FLAG_READY }, []⟩
      ∧ bhy_irq_work_func H P bhy_load_ram_patch bus cd
          = some ⟨{ cd with reset_flag := RESET_FLAG_READY }, []⟩
      ∧ ({ cd with reset_flag := RESET_FLAG_READY } : bhy_client_data).data_queue = cd.data_queue
      ∧ ({ cd with reset_flag := RESET_FLAG_READY } : bhy_client_data).data_queue_ar
          = cd.data_queue_ar := by
  have hh : bhy_irq_handler now cd = ({ cd with reset_flag := RESET_FLAG_READY }, false) := by
    unfold bhy_irq_handler
    rw [if_pos hflag]
  refine ⟨hh, ?_, ?_, rfl, rfl⟩
  · unfold hardware_interrupt
    rw [hh]
    rfl
  · unfold bhy_irq_work_func
    rw [hflag]

theorem awaiting_reset_interrupt_witness :
    sample_state.reset_flag = RESET_FLAG_TODO
      ∧ hardware_interrupt sample_consts sample_host_consts counting_reload 7 sample_irq_bus
          sample_state
          = some ⟨{ sample_state with reset_flag := RESET_FLAG_READY }, []⟩ :=
  ⟨rfl, (awaiting_reset_interrupt sample_consts sample_host_consts counting_reload 7
    sample_irq_bus sample_state rfl).2.1⟩

/-! ## The self-test request -/

theorem self_test_clear_cd (P : bhy_host_consts) (bus : self_test_bus) (cd : bhy_client_data)
    (count : Nat) (ops : List bus_op) : (self_test_clear P bus cd count ops).cd = cd := by
  unfold self_test_clear
  dsimp only
  split_ifs <;> rfl

theorem self_test_request_cd (P : bhy_host_consts) (bus : self_test_bus) (cd : bhy_client_data)
    (count : Nat) (ops : List bus_op) : (self_test_request P bus cd count ops).cd = cd := by
  unfold self_test_request
  dsimp only
  split_ifs
  · rfl
  · rfl
  · split
    · rfl
    · exact self_test_clear_cd P bus cd count _

/-- Claim C15: whatever the reset-phase flag is, bhy_store_self_test on an input that kstrtol
parses to 1 (base 16) returns with the flag RESET_FLAG_SELF_TEST and the rest of the session
state as it was, whatever the bus answers afterwards; on an input that kstrtol rejects or parses
to another number it returns -EINVAL with the session state, the flag included, unchanged and no
register access issued. -/
theorem store_self_test_sets_flag (P : bhy_host_consts) (kstrtol : List Nat → Nat → Option Int)
    (bus : self_test_bus) (cd : bhy_client_data) (buf : List Nat) (count : Nat) :
    (kstrtol buf 16 = some 1 →
        (bhy_store_self_test P kstrtol bus cd buf count).cd
          = { cd with reset_flag := RESET_FLAG_SELF_TEST }
        ∧ (bhy_store_self_test P kstrtol bus cd buf count).cd.reset_flag = RESET_FLAG_SELF_TEST)
      ∧ (kstrtol buf 16 ≠ some 1 →
        bhy_store_self_test P kstrtol bus cd buf count = ⟨- EINVAL, cd, []⟩) := by
  constructor
  · intro h
    have key : (bhy_store_self_test P kstrtol bus cd buf count).cd
        = { cd with reset_flag := RESET_FLAG_SELF_TEST } := by
      unfold bhy_store_self_test
      rw [h]
      dsimp only
      rw [if_neg (by decide)]
      split_ifs
      · rfl
      · rfl
      · split
        · rfl
        · split_ifs
          · rfl
          · exact self_test_request_cd P bus _ count _
    exact ⟨key, by rw [key]⟩
  · intro h
    unfold bhy_store_self_test
    cases hk : kstrtol buf 16 with
    | none => rfl
    | some req =>
      have hreq : req ≠ 1 := fun e => h (by rw [hk, e])
      dsimp only
      rw [if_pos hreq]

theorem store_self_test_sets_flag_witness :
    sample_kstrtol [49] 16 = some 1
      ∧ (bhy_store_self_test sample_host_consts sample_kstrtol sample_self_test_bus
          { sample_state with reset_flag := RESET_FLAG_ERROR } [49] 1).cd.reset_flag
            = RESET_FLAG_SELF_TEST
      ∧ sample_kstrtol [50] 16 ≠ some 1
      ∧ bhy_store_self_test sample_host_consts sample_kstrtol sample_self_test_bus
          { sample_state with reset_flag := RESET_FLAG_ERROR } [50] 1
            = ⟨- EINVAL, { sample_state with reset_flag := RESET_FLAG_ERROR }, []⟩ :=
  ⟨by decide,
    ((store_self_test_sets_flag sample_host_consts sample_kstrtol sample_self_test_bus
      { sample_state with reset_flag := RESET_FLAG_ERROR } [49] 1).1 (by decide)).2,
    by decide,
    (store_self_test_sets_flag sample_host_consts sample_kstrtol sample_self_test_bus
      { sample_state with reset_flag := RESET_FLAG_ERROR } [50] 1).2 (by decide)⟩

/-! ## Rejected configuration requests -/

/-- Claim C20: a configuration request with an invalid selector or argument returns -EINVAL with
no register access issued and the session state unchanged: bhy_store_sensor_flush on selector 0
or on a selector above BHY_SENSOR_HANDLE_MAX that is neither BHY_FLUSH_DISCARD_ALL nor
BHY_FLUSH_FLUSH_ALL, bhy_store_sensor_conf with sensor_sel outside 1..BHY_SENSOR_HANDLE_MAX,
bhy_store_meta_event_ctrl on an event type outside 1..32, and both soft pass-through functions on
a length of 0 or above 4. -/
theorem invalid_request_rejected_before_bus (H : bhy_consts) (P : bhy_host_consts) (cd :
    bhy_client_data)
    (buf : List Nat) (count : Nat) :
    (∀ flush_write : Int,
        (byte_at buf 0 = 0 ∨ (P.BHY_SENSOR_HANDLE_MAX < byte_at buf 0
          ∧ byte_at buf 0 ≠ P.BHY_FLUSH_DISCARD_ALL ∧ byte_at buf 0 ≠ P.BHY_FLUSH_FLUSH_ALL)) →
        bhy_store_sensor_flush P flush_write cd buf count = ⟨- EINVAL, cd, []⟩)
      ∧ (∀ (accel_open_calibration : bhy_client_data → bhy_client_data)
          (enable_pedometer : bhy_client_data → Bool → op_result) (bus : param_bus),
        ¬ (1 ≤ cd.sensor_sel ∧ cd.sensor_sel ≤ P.BHY_SENSOR_HANDLE_MAX) →
        bhy_store_sensor_conf H P accel_open_calibration enable_pedometer bus cd buf count
          = ⟨- EINVAL, cd, []⟩)
      ∧ (∀ (read_bus write_bus : param_bus) (data : List Nat),
        ¬ (1 ≤ byte_at buf 0 ∧ byte_at buf 0 ≤ 32) →
        bhy_store_meta_event_ctrl P read_bus write_bus data cd buf count = ⟨- EINVAL, cd, []⟩)
      ∧ (∀ (write_bus : param_bus) (reads : Nat → param_bus) (temp : List Nat)
          (slave_addr reg : Nat) (data : List Nat) (len : Nat),
        (len = 0 ∨ 4 < len) →
        bhy_soft_pass_thru_read_reg P write_bus reads temp slave_addr reg data len
            = some ⟨- EINVAL, data, []⟩
          ∧ bhy_soft_pass_thru_write_reg P write_bus reads temp slave_addr reg data len
            = some ⟨- EINVAL, data, []⟩) := by
  refine ⟨?_, ?_, ?_, ?_⟩
  · intro flush_write h
    unfold bhy_store_sensor_flush
    dsimp only
    rw [if_pos]
    rcases h with h | h
    · left; omega
    · right; exact h
  · intro cal ped bus h
    unfold bhy_store_sensor_conf
    rw [if_pos]
    omega
  · intro rb wb data h
    unfold bhy_store_meta_event_ctrl
    dsimp only
    rw [if_pos]
    omega
  · intro wb reads temp sa reg data len h
    have hg : len > 4 ∨ len ≤ 0 := by omega
    constructor
    · unfold bhy_soft_pass_thru_read_reg
      rw [if_pos hg]
    · unfold bhy_soft_pass_thru_write_reg
      rw [if_pos hg]

theorem invalid_request_rejected_before_bus_witness :
    (byte_at [0, 1] 0 = 0 ∨ (sample_host_consts.BHY_SENSOR_HANDLE_MAX < byte_at [0, 1] 0
        ∧ byte_at [0, 1] 0 ≠ sample_host_consts.BHY_FLUSH_DISCARD_ALL
        ∧ byte_at [0, 1] 0 ≠ sample_host_consts.BHY_FLUSH_FLUSH_ALL))
      ∧ bhy_store_sensor_flush sample_host_consts 0 sample_state [0, 1] 2
          = ⟨- EINVAL, sample_state, []⟩
      ∧ (5 = 0 ∨ 4 < 5)
      ∧ bhy_soft_pass_thru_read_reg sample_host_consts (acking_bus 129) (fun _ => acking_bus 1)
          [0, 0, 0, 0, 0, 0, 0, 0] 16 64 [0, 0, 0, 0, 0] 5 = some ⟨- EINVAL, [0, 0, 0, 0, 0], []⟩ :=
  ⟨by decide,
    (invalid_request_rejected_before_bus sample_consts sample_host_consts sample_state [0, 1] 2).1
        0 (by decide),
    by decide,
    ((invalid_request_rejected_before_bus sample_consts sample_host_consts sample_state [0, 1]
        2).2.2.2
      (acking_bus 129) (fun _ => acking_bus 1) [0, 0, 0, 0, 0, 0, 0, 0] 16 64 [0, 0, 0, 0, 0] 5
      (by decide)).1⟩

theorem valid_flush_reaches_bus :
    bhy_store_sensor_flush sample_host_consts 0 sample_state [255, 1] 2
        = ⟨2, sample_state, [bus_op.write BHY_REG_FIFO_FLUSH [255]]⟩
      ∧ (bhy_soft_pass_thru_read_reg sample_host_consts (acking_bus 129) (fun _ => acking_bus 1)
          [0, 0, 0, 0, 0, 0, 0, 0] 16 64 [0, 0, 0, 0] 4).map (fun r => (r.ret, r.data))
        = some (0, [5, 6, 7, 8]) := by
  decide

/-! ## The acknowledge poll of the parameter protocol -/

theorem param_ack_wait_exhausted (bus : param_bus) (expected : Nat) :
    ∀ (retry poll : Nat), (∀ k, k < retry → quiet_ack bus expected (poll + k)) →
      (param_ack_wait bus expected retry poll).1 = ack_wait.left (-1) := by
  intro retry
  induction retry with
  | zero => intro poll _; rfl
  | succ n ih =>
    intro poll h
    obtain ⟨h1, h2, h3⟩ := h 0 (by omega)
    rw [Nat.add_zero] at h1 h2 h3
    unfold param_ack_wait
    dsimp only
    rw [if_neg (by omega), if_neg h2, if_neg h3]
    apply ih
    intro k hk
    have := h (k + 1) (by omega)
    rwa [show poll + (k + 1) = poll + 1 + k by omega] at this

theorem param_ack_wait_rejected (bus : param_bus) (expected : Nat) :
    ∀ (k retry poll : Nat), k < retry → (∀ j, j < k → quiet_ack bus expected (poll + j)) →
      0 ≤ (bus.ack_read (poll + k)).1 → (bus.ack_read (poll + k)).2 = 0x80 →
      (param_ack_wait bus expected retry poll).1 = ack_wait.rejected := by
  intro k
  induction k with
  | zero =>
    intro retry poll hk _ h1 h2
    obtain ⟨n, rfl⟩ : ∃ n, retry = n + 1 := ⟨retry - 1, by omega⟩
    rw [Nat.add_zero] at h1 h2
    unfold param_ack_wait
    dsimp only
    rw [if_neg (by omega), if_pos h2]
  | succ m ih =>
    intro retry poll hk hq h1 h2
    obtain ⟨n, rfl⟩ : ∃ n, retry = n + 1 := ⟨retry - 1, by omega⟩
    obtain ⟨q1, q2, q3⟩ := hq 0 (by omega)
    rw [Nat.add_zero] at q1 q2 q3
    unfold param_ack_wait
    dsimp only
    rw [if_neg (by omega), if_neg q2, if_neg q3]
    apply ih n (poll + 1) (by omega)
    · intro j hj
      have := hq (j + 1) (by omega)
      rwa [show poll + (j + 1) = poll + 1 + j by omega] at this
    · rwa [show poll + 1 + m = poll + (m + 1) by omega]
    · rwa [show poll + 1 + m = poll + (m + 1) by omega]

theorem param_ack_wait_failed (bus : param_bus) (expected : Nat) :
    ∀ (k retry poll : Nat), k < retry → (∀ j, j < k → quiet_ack bus expected (poll + j)) →
      (bus.ack_read (poll + k)).1 < 0 →
      (param_ack_wait bus expected retry poll).1 = ack_wait.failed (bus.ack_read (poll + k)).1 := by
  intro k
  induction k with
  | zero =>
    intro retry poll hk _ h1
    obtain ⟨n, rfl⟩ : ∃ n, retry = n + 1 := ⟨retry - 1, by omega⟩
    rw [Nat.add_zero] at h1
    unfold param_ack_wait
    dsimp only
    rw [if_pos h1]
    rfl
  | succ m ih =>
    intro retry poll hk hq h1
    obtain ⟨n, rfl⟩ : ∃ n, retry = n + 1 := ⟨retry - 1, by omega⟩
    obtain ⟨q1, q2, q3⟩ := hq 0 (by omega)
    rw [Nat.add_zero] at q1 q2 q3
    unfold param_ack_wait
    dsimp only
    rw [if_neg (by omega), if_neg q2, if_neg q3]
    rw [show poll + (m + 1) = poll + 1 + m by omega] at h1 ⊢
    apply ih n (poll + 1) (by omega) _ h1
    intro j hj
    have := hq (j + 1) (by omega)
    rwa [show poll + (j + 1) = poll + 1 + j by omega] at this

theorem bhy_read_parameter_wait (P : bhy_host_consts) (bus : param_bus) (page_num param_num : Nat)
    (data : List Nat) (len : Nat) (hp : 0 ≤ bus.page_write) (hr : 0 ≤ bus.req_write) :
    (∀ ret, (param_ack_wait bus param_num P.BHY_PARAM_ACK_WAIT_RETRY 0).1 = ack_wait.failed ret →
        (bhy_read_parameter P bus page_num param_num data len).ret = ret)
      ∧ ((param_ack_wait bus param_num P.BHY_PARAM_ACK_WAIT_RETRY 0).1 = ack_wait.rejected →
        (bhy_read_parameter P bus page_num param_num data len).ret = - EINVAL)
      ∧ ((param_ack_wait bus param_num P.BHY_PARAM_ACK_WAIT_RETRY 0).1 = ack_wait.left (-1) →
        (bhy_read_parameter P bus page_num param_num data len).ret = - EINVAL) := by
  refine ⟨?_, ?_, ?_⟩
  · intro ret h
    unfold bhy_read_parameter
    dsimp only
    rw [if_neg (by omega), if_neg (by omega), h]
  · intro h
    unfold bhy_read_parameter
    dsimp only
    rw [if_neg (by omega), if_neg (by omega), h]
  · intro h
    unfold bhy_read_parameter
    dsimp only
    rw [if_neg (by omega), if_neg (by omega), h]
    dsimp only
    rw [if_pos rfl]

theorem bhy_write_parameter_wait (P : bhy_host_consts) (bus : param_bus) (page_num param_num : Nat)
    (data : List Nat) (len : Nat) (hl : 0 ≤ bus.load_write) (hp : 0 ≤ bus.page_write)
    (hr : 0 ≤ bus.req_write) :
    (∀ ret, (param_ack_wait bus ((param_num ||| 0x80) % 256) P.BHY_PARAM_ACK_WAIT_RETRY 0).1
          = ack_wait.failed ret →
        (bhy_write_parameter P bus page_num param_num data len).ret = ret)
      ∧ ((param_ack_wait bus ((param_num ||| 0x80) % 256) P.BHY_PARAM_ACK_WAIT_RETRY 0).1
          = ack_wait.rejected →
        (bhy_write_parameter P bus page_num param_num data len).ret = - EINVAL)
      ∧ ((param_ack_wait bus ((param_num ||| 0x80) % 256) P.BHY_PARAM_ACK_WAIT_RETRY 0).1
          = ack_wait.left (-1) →
        (bhy_write_parameter P bus page_num param_num data len).ret = - EINVAL) := by
  refine ⟨?_, ?_, ?_⟩
  · intro ret h
    unfold bhy_write_parameter
    dsimp only
    rw [if_neg (by omega), if_neg (by omega), if_neg (by omega), h]
  · intro h
    unfold bhy_write_parameter
    dsimp only
    rw [if_neg (by omega), if_neg (by omega), if_neg (by omega), h]
  · intro h
    unfold bhy_write_parameter
    dsimp only
    rw [if_neg (by omega), if_neg (by omega), if_neg (by omega), h]
    dsimp only
    rw [if_pos rfl]

/-- Claim C19, as the code has it: when every poll of the bounded acknowledge wait of
bhy_read_parameter or bhy_write_parameter succeeds without the expected acknowledge and without
the rejection 0x80, the function returns -EINVAL, the code it also returns when a poll reads the
rejection 0x80; when a poll fails on the bus, it returns the negative value of that read.  For
bhy_write_parameter the expected acknowledge is param_num | 0x80. -/
theorem ack_poll_exhausted_returns_einval (P : bhy_host_consts) (bus : param_bus)
    (page_num param_num : Nat) (data : List Nat) (len : Nat) :
    (0 ≤ bus.page_write → 0 ≤ bus.req_write →
        ((∀ k, k < P.BHY_PARAM_ACK_WAIT_RETRY → quiet_ack bus param_num k) →
          (bhy_read_parameter P bus page_num param_num data len).ret = - EINVAL)
        ∧ (∀ k, k < P.BHY_PARAM_ACK_WAIT_RETRY → (∀ j, j < k → quiet_ack bus param_num j) →
          0 ≤ (bus.ack_read k).1 → (bus.ack_read k).2 = 0x80 →
          (bhy_read_parameter P bus page_num param_num data len).ret = - EINVAL)
        ∧ (∀ k, k < P.BHY_PARAM_ACK_WAIT_RETRY → (∀ j, j < k → quiet_ack bus param_num j) →
          (bus.ack_read k).1 < 0 →
          (bhy_read_parameter P bus page_num param_num data len).ret = (bus.ack_read k).1))
      ∧ (0 ≤ bus.load_write → 0 ≤ bus.page_write → 0 ≤ bus.req_write →
        ((∀ k, k < P.BHY_PARAM_ACK_WAIT_RETRY →
            quiet_ack bus ((param_num ||| 0x80) % 256) k) →
          (bhy_write_parameter P bus page_num param_num data len).ret = - EINVAL)
        ∧ (∀ k, k < P.BHY_PARAM_ACK_WAIT_RETRY →
          (∀ j, j < k → quiet_ack bus ((param_num ||| 0x80) % 256) j) →
          0 ≤ (bus.ack_read k).1 → (bus.ack_read k).2 = 0x80 →
          (bhy_write_parameter P bus page_num param_num data len).ret = - EINVAL)
        ∧ (∀ k, k < P.BHY_PARAM_ACK_WAIT_RETRY →
          (∀ j, j < k → quiet_ack bus ((param_num ||| 0x80) % 256) j) →
          (bus.ack_read k).1 < 0 →
          (bhy_write_parameter P bus page_num param_num data len).ret = (bus.ack_read k).1)) := by
  constructor
  · intro hp hr
    obtain ⟨a, b, c⟩ := bhy_read_parameter_wait P bus page_num param_num data len hp hr
    refine ⟨?_, ?_, ?_⟩
    · intro h
      apply c
      apply param_ack_wait_exhausted
      intro k hk
      rw [Nat.zero_add]
      exact h k hk
    · intro k hk hq h1 h2
      apply b
      apply param_ack_wait_rejected bus param_num k _ 0 hk
      · intro j hj; rw [Nat.zero_add]; exact hq j hj
      · rwa [Nat.zero_add]
      · rwa [Nat.zero_add]
    · intro k hk hq h1
      have := param_ack_wait_failed bus param_num k _ 0 hk
        (by intro j hj; rw [Nat.zero_add]; exact hq j hj) (by rwa [Nat.zero_add])
      rw [Nat.zero_add] at this
      exact a _ this
  · intro hl hp hr
    obtain ⟨a, b, c⟩ := bhy_write_parameter_wait P bus page_num param_num data len hl hp hr
    refine ⟨?_, ?_, ?_⟩
    · intro h
      apply c
      apply param_ack_wait_exhausted
      intro k hk
      rw [Nat.zero_add]
      exact h k hk
    · intro k hk hq h1 h2
      apply b
      apply param_ack_wait_rejected bus _ k _ 0 hk
      · intro j hj; rw [Nat.zero_add]; exact hq j hj
      · rwa [Nat.zero_add]
      · rwa [Nat.zero_add]
    · intro k hk hq h1
      have := param_ack_wait_failed bus ((param_num ||| 0x80) % 256) k _ 0 hk
        (by intro j hj; rw [Nat.zero_add]; exact hq j hj) (by rwa [Nat.zero_add])
      rw [Nat.zero_add] at this
      exact a _ this

theorem ack_poll_exhausted_returns_einval_witness :
    (0 : Int) ≤ (acking_bus 0).page_write ∧ (0 : Int) ≤ (acking_bus 0).req_write
      ∧ (∀ k, k < sample_host_consts.BHY_PARAM_ACK_WAIT_RETRY → quiet_ack (acking_bus 0) 5 k)
      ∧ (bhy_read_parameter sample_host_consts (acking_bus 0) 1 5 [] 8).ret = - EINVAL :=
  have hq : ∀ k, k < sample_host_consts.BHY_PARAM_ACK_WAIT_RETRY → quiet_ack (acking_bus 0) 5 k :=
    fun _ _ => (show (0 : Int) ≤ 0 ∧ (0 : Nat) ≠ 0x80 ∧ (0 : Nat) ≠ 5 from by decide)
  ⟨by decide, by decide, hq,
    ((ack_poll_exhausted_returns_einval sample_host_consts (acking_bus 0) 1 5 [] 8).1
      (by decide) (by decide)).1 hq⟩

/-- Claim C19 as worded fails on the code: with three polls allowed, a device that never
acknowledges makes bhy_read_parameter and bhy_write_parameter return -EINVAL after the third
poll, and a device that answers 0x80 makes them return -EINVAL as well: the code for the
exhausted wait is the code for the rejection. -/
theorem ack_timeout_code_is_rejection_code :
    (bhy_read_parameter sample_host_consts (acking_bus 0) 1 5 [] 8).ret = - EINVAL
      ∧ (bhy_read_parameter sample_host_consts (acking_bus 0) 1 5 [] 8).ops
          = [bus_op.write BHY_REG_PARAM_PAGE_SEL [1], bus_op.write BHY_REG_PARAM_REQ [5],
             bus_op.read BHY_REG_PARAM_ACK 1, bus_op.read BHY_REG_PARAM_ACK 1,
             bus_op.read BHY_REG_PARAM_ACK 1]
      ∧ (bhy_read_parameter sample_host_consts (acking_bus 128) 1 5 [] 8).ret = - EINVAL
      ∧ (bhy_read_parameter sample_host_consts (acking_bus 128) 1 5 [] 8).ops
          = [bus_op.write BHY_REG_PARAM_PAGE_SEL [1], bus_op.write BHY_REG_PARAM_REQ [5],
             bus_op.read BHY_REG_PARAM_ACK 1]
      ∧ (bhy_write_parameter sample_host_consts (acking_bus 0) 1 5 [9] 1).ret
          = (bhy_write_parameter sample_host_consts (acking_bus 128) 1 5 [9] 1).ret
      ∧ (bhy_write_parameter sample_host_consts (acking_bus 0) 1 5 [9] 1).ret = - EINVAL := by
  decide

/-! ## The firmware load -/

theorem upload_loop_ret (w : Nat → Int) :
    ∀ (reads : List (Option (List Nat))) (remain k : Nat) (buf : List Nat),
      ((upload_loop w reads remain k buf).1 = 0 ∨ (upload_loop w reads remain k buf).1 = - EIO
          ∨ (upload_loop w reads remain k buf).1 = - EINVAL)
        ∧ ((upload_loop w reads remain k buf).1 = 0 ↔ upload_ok w reads remain k) := by
  have eio_ne : (- EIO : Int) ≠ 0 := by decide
  have einval_ne : (- EINVAL : Int) ≠ 0 := by decide
  intro reads
  induction reads with
  | nil =>
    intro remain k buf
    unfold upload_loop upload_ok
    by_cases h : remain > 0
    · rw [if_pos h]
      exact ⟨Or.inr (Or.inr rfl), ⟨fun h' => absurd h' einval_ne, fun h' => by omega⟩⟩
    · rw [if_neg h]
      exact ⟨Or.inl rfl, by constructor <;> intro _ <;> first | rfl | omega⟩
  | cons r rest ih =>
    intro remain k buf
    cases r with
    | none =>
      unfold upload_loop upload_ok
      by_cases h : remain > 0
      · rw [if_pos h]
        exact ⟨Or.inr (Or.inl rfl), ⟨fun h' => absurd h' eio_ne, fun h' => by omega⟩⟩
      · rw [if_neg h]
        exact ⟨Or.inl rfl, by constructor <;> intro _ <;> first | rfl | omega⟩
    | some bytes =>
      unfold upload_loop upload_ok
      by_cases h : remain > 0
      · rw [if_pos h]
        dsimp only
        by_cases hlen : (List.take 64 bytes).length = 0
        · rw [if_pos hlen]
          have hb : bytes = [] := by
            cases bytes with
            | nil => rfl
            | cons b bs => simp at hlen
          refine ⟨Or.inr (Or.inr rfl), ?_⟩
          constructor
          · intro h'; exact absurd h' einval_ne
          · rintro (h' | ⟨h', _⟩)
            · omega
            · exact absurd hb h'
        · rw [if_neg hlen]
          have hb : bytes ≠ [] := by
            intro e; apply hlen; rw [e]; rfl
          by_cases hw : w k < 0
          · rw [if_pos hw]
            refine ⟨Or.inr (Or.inl rfl), ?_⟩
            constructor
            · intro h'; exact absurd h' eio_ne
            · rintro (h' | ⟨_, h', _⟩) <;> omega
          · rw [if_neg hw]
            obtain ⟨i1, i2⟩ := ih ((remain + 65536 - (List.take 64 bytes).length) % 65536)
              (k + 1) (swab32_buf (memcpy buf (List.take 64 bytes)) (List.take 64 bytes).length)
            refine ⟨i1, ?_⟩
            constructor
            · intro h'
              exact Or.inr ⟨hb, by omega, i2.mp h'⟩
            · rintro (h' | ⟨_, _, h'⟩)
              · omega
              · exact i2.mpr h'
      · rw [if_neg h]
        exact ⟨Or.inl rfl, by constructor <;> intro _ <;> first | rfl | (left; omega)⟩

theorem reset_wait_seen (reset_ready : Nat → Bool) :
    ∀ (retry poll : Nat), 0 ≤ (reset_wait reset_ready retry poll).1 →
      (reset_wait reset_ready retry poll).2 = true := by
  intro retry
  induction retry with
  | zero =>
    intro poll h
    have h' : (0 : Int) ≤ -1 := h
    omega
  | succ n ih =>
    intro poll h
    unfold reset_wait at h ⊢
    by_cases hr : reset_ready poll = true
    · rw [if_pos hr]
    · rw [if_neg hr] at h ⊢
      exact ih _ h

theorem ram_patch_finish_spec (sync_sensor : bhy_client_data → bhy_client_data)
    (env : ram_patch_env) (header : ram_patch_header) (cd : bhy_client_data)
    (ops : List bus_op) :
    ((ram_patch_finish sync_sensor env header cd ops).ret = 0
        ∨ ((ram_patch_finish sync_sensor env header cd ops).ret = - EIO
          ∧ (ram_patch_finish sync_sensor env header cd ops).cd.reset_flag = RESET_FLAG_ERROR))
      ∧ ((ram_patch_finish sync_sensor env header cd ops).ret = 0 ↔
          (0 ≤ env.crc_read.1 ∧ env.crc_read.2 = header.crc
            ∧ 0 ≤ env.chip_ctrl_disable_write ∧ 0 ≤ env.chip_ctrl_run_write))
      ∧ ((ram_patch_finish sync_sensor env header cd ops).ret = 0 →
          (ram_patch_finish sync_sensor env header cd ops).cd
            = { (if cd.ram_patch_init then sync_sensor cd else cd) with
                ram_patch_init := true }) := by
  have eio_ne : (- EIO : Int) ≠ 0 := by decide
  unfold ram_patch_finish
  dsimp only
  by_cases h1 : env.crc_read.1 < 0
  · rw [if_pos h1]
    exact ⟨Or.inr ⟨rfl, rfl⟩, ⟨fun h => absurd h eio_ne, fun h => by omega⟩,
      fun h => absurd h eio_ne⟩
  · rw [if_neg h1]
    by_cases h2 : env.crc_read.2 ≠ header.crc
    · rw [if_pos h2]
      exact ⟨Or.inr ⟨rfl, rfl⟩, ⟨fun h => absurd h eio_ne, fun h => absurd h.2.1 h2⟩,
        fun h => absurd h eio_ne⟩
    · rw [if_neg h2]
      by_cases h3 : env.chip_ctrl_disable_write < 0
      · rw [if_pos h3]
        exact ⟨Or.inr ⟨rfl, rfl⟩, ⟨fun h => absurd h eio_ne, fun h => by omega⟩,
          fun h => absurd h eio_ne⟩
      · rw [if_neg h3]
        by_cases h4 : env.chip_ctrl_run_write < 0
        · rw [if_pos h4]
          exact ⟨Or.inr ⟨rfl, rfl⟩, ⟨fun h => absurd h eio_ne, fun h => by omega⟩,
            fun h => absurd h eio_ne⟩
        · rw [if_neg h4]
          exact ⟨Or.inl rfl, ⟨fun _ => ⟨by omega, not_not.mp h2, by omega, by omega⟩,
            fun _ => rfl⟩, fun _ => rfl⟩

theorem ram_patch_upload_spec (sync_sensor : bhy_client_data → bhy_client_data)
    (env : ram_patch_env) (cd : bhy_client_data) (ops : List bus_op) :
    ((ram_patch_upload sync_sensor env cd ops).ret = 0
        ∨ (((ram_patch_upload sync_sensor env cd ops).ret = - EIO
            ∨ (ram_patch_upload sync_sensor env cd ops).ret = - EINVAL)
          ∧ (ram_patch_upload sync_sensor env cd ops).cd.reset_flag = RESET_FLAG_ERROR))
      ∧ ((ram_patch_upload sync_sensor env cd ops).ret = 0 ↔
          ∃ f header, env.file = some f ∧ f.header = some header
            ∧ header.data_length % 65536 % 4 = 0
            ∧ upload_ok env.upload_data_write f.reads (header.data_length % 65536) 0
            ∧ 0 ≤ env.crc_read.1 ∧ env.crc_read.2 = header.crc
            ∧ 0 ≤ env.chip_ctrl_disable_write ∧ 0 ≤ env.chip_ctrl_run_write)
      ∧ ((ram_patch_upload sync_sensor env cd ops).ret = 0 →
          (ram_patch_upload sync_sensor env cd ops).cd
            = { (if cd.ram_patch_init then sync_sensor cd else cd) with
                ram_patch_init := true }) := by
  have eio_ne : (- EIO : Int) ≠ 0 := by decide
  have einval_ne : (- EINVAL : Int) ≠ 0 := by decide
  unfold ram_patch_upload
  cases hf : env.file with
  | none =>
    dsimp only
    exact ⟨Or.inr ⟨Or.inl rfl, rfl⟩,
      ⟨fun h => absurd h eio_ne, fun ⟨_, _, h, _⟩ => by simp at h⟩, fun h => absurd h eio_ne⟩
  | some f =>
    dsimp only
    cases hh : f.header with
    | none =>
      dsimp only
      exact ⟨Or.inr ⟨Or.inl rfl, rfl⟩,
        ⟨fun h => absurd h eio_ne, fun ⟨f', _, h, h', _⟩ => by
          simp only [Option.some.injEq] at h
          subst h
          rw [hh] at h'
          simp at h'⟩, fun h => absurd h eio_ne⟩
    | some header =>
      dsimp only
      by_cases h4 : header.data_length % 65536 % 4 ≠ 0
      · rw [if_pos h4]
        exact ⟨Or.inr ⟨Or.inr rfl, rfl⟩,
          ⟨fun h => absurd h einval_ne, fun ⟨f', hd', h, h', h'', _⟩ => by
            simp only [Option.some.injEq] at h
            subst h
            rw [hh] at h'
            simp only [Option.some.injEq] at h'
            subst h'
            exact absurd h'' h4⟩, fun h => absurd h einval_ne⟩
      · rw [if_neg h4]
        obtain ⟨u1, u2⟩ := upload_loop_ret env.upload_data_write f.reads
          (header.data_length % 65536) 0 env.data_buf
        by_cases hu : (upload_loop env.upload_data_write f.reads (header.data_length % 65536) 0
            env.data_buf).1 ≠ 0
        · rw [if_pos hu]
          refine ⟨Or.inr ⟨?_, rfl⟩, ⟨fun h => absurd h hu, ?_⟩, fun h => absurd h hu⟩
          · rcases u1 with u | u | u
            · exact absurd u hu
            · exact Or.inl u
            · exact Or.inr u
          · rintro ⟨f', hd', h, h', _, h'', _⟩
            simp only [Option.some.injEq] at h
            subst h
            rw [hh] at h'
            simp only [Option.some.injEq] at h'
            subst h'
            exact absurd (u2.mpr h'') hu
        · rw [if_neg hu]
          obtain ⟨f1, f2, f3⟩ := ram_patch_finish_spec sync_sensor env header cd
            (ops ++ (upload_loop env.upload_data_write f.reads (header.data_length % 65536) 0
              env.data_buf).2)
          refine ⟨?_, ?_, f3⟩
          · rcases f1 with a | ⟨a, b⟩
            · exact Or.inl a
            · exact Or.inr ⟨Or.inl a, b⟩
          · rw [f2]
            constructor
            · intro h
              exact ⟨f, header, rfl, hh, not_not.mp h4, u2.mp (not_not.mp hu), h⟩
            · rintro ⟨f', hd', h, h', _, _, rest⟩
              simp only [Option.some.injEq] at h
              subst h
              rw [hh] at h'
              simp only [Option.some.injEq] at h'
              subst h'
              exact rest

theorem bhy_load_ram_patch_spec (P : bhy_host_consts)
    (sync_sensor : bhy_client_data → bhy_client_data) (env : ram_patch_env)
    (cd : bhy_client_data) :
    ((bhy_load_ram_patch P sync_sensor env cd).ret = 0
        ∨ ((bhy_load_ram_patch P sync_sensor env cd).ret < 0
          ∧ ((bhy_load_ram_patch P sync_sensor env cd).ret = env.reset_write
            ∨ (bhy_load_ram_patch P sync_sensor env cd).ret = - EIO
            ∨ (bhy_load_ram_patch P sync_sensor env cd).ret = - EINVAL)
          ∧ (bhy_load_ram_patch P sync_sensor env cd).cd.reset_flag = RESET_FLAG_ERROR))
      ∧ ((bhy_load_ram_patch P sync_sensor env cd).ret = 0 ↔ load_succeeds P env)
      ∧ ((bhy_load_ram_patch P sync_sensor env cd).ret = 0 →
          (bhy_load_ram_patch P sync_sensor env cd).cd
            = { (if cd.ram_patch_init then
                  sync_sensor { cd with reset_flag := RESET_FLAG_READY }
                else { cd with reset_flag := RESET_FLAG_READY }) with
                ram_patch_init := true }) := by
  have eio_ne : (- EIO : Int) ≠ 0 := by decide
  have eio_neg : (- EIO : Int) < 0 := by decide
  have einval_neg : (- EINVAL : Int) < 0 := by decide
  unfold bhy_load_ram_patch load_succeeds
  dsimp only
  by_cases h1 : env.reset_write < 0
  · rw [if_pos h1]
    exact ⟨Or.inr ⟨h1, Or.inl rfl, rfl⟩,
      ⟨fun h => by
        have h' : env.reset_write = 0 := h
        omega, fun h => by omega⟩,
      fun h => by
        have h' : env.reset_write = 0 := h
        omega⟩
  · rw [if_neg h1]
    by_cases h2 : (reset_wait env.reset_ready P.BHY_RESET_WAIT_RETRY 0).1 ≤ 0
    · rw [if_pos h2]
      exact ⟨Or.inr ⟨eio_neg, Or.inr (Or.inl rfl), rfl⟩,
        ⟨fun h => absurd h eio_ne, fun h => by omega⟩, fun h => absurd h eio_ne⟩
    · rw [if_neg h2]
      have hseen := reset_wait_seen env.reset_ready P.BHY_RESET_WAIT_RETRY 0 (by omega)
      rw [hseen]
      simp only [if_true]
      by_cases h3 : env.upload_addr_write < 0
      · rw [if_pos h3]
        exact ⟨Or.inr ⟨eio_neg, Or.inr (Or.inl rfl), rfl⟩,
          ⟨fun h => absurd h eio_ne, fun h => by omega⟩, fun h => absurd h eio_ne⟩
      · rw [if_neg h3]
        by_cases h4 : env.chip_ctrl_upload_write < 0
        · rw [if_pos h4]
          exact ⟨Or.inr ⟨eio_neg, Or.inr (Or.inl rfl), rfl⟩,
            ⟨fun h => absurd h eio_ne, fun h => by omega⟩, fun h => absurd h eio_ne⟩
        · rw [if_neg h4]
          obtain ⟨u1, u2, u3⟩ := ram_patch_upload_spec sync_sensor env
            { cd with reset_flag := RESET_FLAG_READY }
            ([bus_op.write BHY_REG_RESET_REQ [1]] ++ [bus_op.write BHY_REG_UPLOAD_ADDR_0 [0, 0]]
              ++ [bus_op.write BHY_REG_CHIP_CTRL [2]])
          refine ⟨?_, ?_, u3⟩
          · rcases u1 with a | ⟨a | a, b⟩
            · exact Or.inl a
            · exact Or.inr ⟨by rw [a]; exact eio_neg, Or.inr (Or.inl a), b⟩
            · exact Or.inr ⟨by rw [a]; exact einval_neg, Or.inr (Or.inr a), b⟩
          · rw [u2]
            constructor
            · intro h
              exact ⟨by omega, by omega, by omega, by omega, h⟩
            · intro h
              exact h.2.2.2.2

/-- Claim C17: for every outcome of the bus and file operations, bhy_load_ram_patch returns
either 0 or a negative code (the value of the failed reset write, -EIO or -EINVAL) with the
reset-phase flag RESET_FLAG_ERROR; it returns 0 exactly when no step fails, and so each failure
(reset write, wait for the reset, upload address or chip control write, file missing, header
read, payload length not a multiple of 4, payload read failed or ended early, upload write, CRC
read, CRC mismatch, the two last chip control writes) gives a negative code and the flag
RESET_FLAG_ERROR. -/
theorem load_ram_patch_failure_sets_error (P : bhy_host_consts)
    (sync_sensor : bhy_client_data → bhy_client_data) (env : ram_patch_env)
    (cd : bhy_client_data) :
    ((bhy_load_ram_patch P sync_sensor env cd).ret = 0
        ∨ ((bhy_load_ram_patch P sync_sensor env cd).ret < 0
          ∧ (bhy_load_ram_patch P sync_sensor env cd).cd.reset_flag = RESET_FLAG_ERROR))
      ∧ ((bhy_load_ram_patch P sync_sensor env cd).ret = 0 ↔ load_succeeds P env)
      ∧ ((env.reset_write < 0
            ∨ (reset_wait env.reset_ready P.BHY_RESET_WAIT_RETRY 0).1 ≤ 0
            ∨ env.upload_addr_write < 0
            ∨ env.chip_ctrl_upload_write < 0
            ∨ env.file = none
            ∨ ∃ f, env.file = some f ∧ (f.header = none
                ∨ ∃ header, f.header = some header ∧ (header.data_length % 65536 % 4 ≠ 0
                    ∨ ¬ upload_ok env.upload_data_write f.reads (header.data_length % 65536) 0
                    ∨ env.crc_read.1 < 0
                    ∨ env.crc_read.2 ≠ header.crc
                    ∨ env.chip_ctrl_disable_write < 0
                    ∨ env.chip_ctrl_run_write < 0))) →
          (bhy_load_ram_patch P sync_sensor env cd).ret < 0
            ∧ (bhy_load_ram_patch P sync_sensor env cd).cd.reset_flag = RESET_FLAG_ERROR) := by
  obtain ⟨h1, h2, _⟩ := bhy_load_ram_patch_spec P sync_sensor env cd
  have hcases : (bhy_load_ram_patch P sync_sensor env cd).ret = 0
      ∨ ((bhy_load_ram_patch P sync_sensor env cd).ret < 0
        ∧ (bhy_load_ram_patch P sync_sensor env cd).cd.reset_flag = RESET_FLAG_ERROR) := by
    rcases h1 with a | ⟨a, _, b⟩
    · exact Or.inl a
    · exact Or.inr ⟨a, b⟩
  refine ⟨hcases, h2, ?_⟩
  intro hcause
  rcases hcases with a | a
  · exfalso
    obtain ⟨s1, s2, s3, s4, f, header, s5, s6, s7, s8, s9, s10, s11, s12⟩ := h2.mp a
    rcases hcause with c | c | c | c | c | ⟨f', c1, c⟩
    · omega
    · omega
    · omega
    · omega
    · rw [s5] at c; simp at c
    · rw [s5] at c1
      simp only [Option.some.injEq] at c1
      subst c1
      rcases c with c | ⟨hd', c1, c⟩
      · rw [s6] at c; simp at c
      · rw [s6] at c1
        simp only [Option.some.injEq] at c1
        subst c1
        rcases c with c | c | c | c | c | c
        · exact c s7
        · exact c s8
        · omega
        · exact c s10
        · omega
        · omega
  · exact a

theorem load_ram_patch_failure_sets_error_witness :
    (∃ f, bad_crc_env.file = some f ∧ ∃ header, f.header = some header
        ∧ bad_crc_env.crc_read.2 ≠ header.crc)
      ∧ (bhy_load_ram_patch sample_host_consts (fun c => c) bad_crc_env sample_state).ret < 0
      ∧ (bhy_load_ram_patch sample_host_consts (fun c => c) bad_crc_env sample_state).cd.reset_flag
          = RESET_FLAG_ERROR :=
  ⟨⟨sample_patch_file, rfl, _, rfl, by decide⟩,
    (load_ram_patch_failure_sets_error sample_host_consts (fun c => c) bad_crc_env sample_state).2.2
      (Or.inr (Or.inr (Or.inr (Or.inr (Or.inr ⟨sample_patch_file, rfl, Or.inr ⟨_, rfl,
        Or.inr (Or.inr (Or.inr (Or.inl (by decide))))⟩⟩)))))⟩

theorem load_ram_patch_sample_run :
    bhy_load_ram_patch sample_host_consts (fun c => c) sample_patch_env sample_state
        = ⟨0, { sample_state with reset_flag := RESET_FLAG_READY, ram_patch_init := true },
            [bus_op.write BHY_REG_RESET_REQ [1], bus_op.write BHY_REG_UPLOAD_ADDR_0 [0, 0],
             bus_op.write BHY_REG_CHIP_CTRL [2],
             bus_op.write BHY_REG_UPLOAD_DATA [4, 3, 2, 1, 8, 7, 6, 5],
             bus_op.read BHY_REG_DATA_CRC_0 4, bus_op.write BHY_REG_CHIP_CTRL [0],
             bus_op.write BHY_REG_CHIP_CTRL [1]]⟩
      ∧ bhy_load_ram_patch sample_host_consts (fun c => c) bad_crc_env sample_state
        = ⟨- EIO, { sample_state with reset_flag := RESET_FLAG_ERROR },
            [bus_op.write BHY_REG_RESET_REQ [1], bus_op.write BHY_REG_UPLOAD_ADDR_0 [0, 0],
             bus_op.write BHY_REG_CHIP_CTRL [2],
             bus_op.write BHY_REG_UPLOAD_DATA [4, 3, 2, 1, 8, 7, 6, 5],
             bus_op.read BHY_REG_DATA_CRC_0 4]⟩ := by
  decide

/-! ## The reset-phase flag in the decoders -/

theorem process_pedometer_flag (H : bhy_consts) (cd : bhy_client_data) (data : List Nat) :
    (process_pedometer H cd data).reset_flag = cd.reset_flag := by
  have a : ∀ (c : bhy_client_data) (d : pedometer_data),
      (pedometer_record c d).reset_flag = c.reset_flag := by
    intro c d; unfold pedometer_record; split_ifs <;> rfl
  have b : ∀ c : bhy_client_data, (pedometer_logging_done H c).reset_flag = c.reset_flag := by
    intro c; unfold pedometer_logging_done; split_ifs <;> rfl
  have c1 : ∀ c : bhy_client_data, (pedometer_new_step H c).reset_flag = c.reset_flag := by
    intro c; unfold pedometer_new_step; split_ifs <;> rfl
  have d1 : ∀ c : bhy_client_data, (pedometer_start_walk H c).reset_flag = c.reset_flag := by
    intro c; unfold pedometer_start_walk; split_ifs <;> rfl
  have e1 : ∀ c : bhy_client_data, (pedometer_stop_walk H c).reset_flag = c.reset_flag := by
    intro c; unfold pedometer_stop_walk; split_ifs <;> rfl
  unfold process_pedometer
  simp only [e1, d1, c1, b, a]

theorem process_step_flag (H : bhy_consts) (cd : bhy_client_data) (data : List Nat) :
    (process_step H cd data).reset_flag = cd.reset_flag := by
  unfold process_step
  dsimp only
  split_ifs <;> rfl

theorem process_data_flag (H : bhy_consts) (cd : bhy_client_data) (data : List Nat)
    (handle : Nat) : (process_data H cd data handle).1.reset_flag = cd.reset_flag := by
  unfold process_data
  split_ifs
  · rfl
  · exact (process_step_flag H _ data).trans (process_pedometer_flag H cd data)
  · rfl

theorem generate_step_data_flag (H : bhy_consts) (cd : bhy_client_data) :
    (generate_step_data H cd).reset_flag = cd.reset_flag := by
  have a : ∀ c : bhy_client_data, (generate_step_det H c).reset_flag = c.reset_flag := by
    intro c; unfold generate_step_det; split_ifs <;> rfl
  have b : ∀ c : bhy_client_data, (generate_step_cnt H c).reset_flag = c.reset_flag := by
    intro c; unfold generate_step_cnt; split_ifs <;> rfl
  unfold generate_step_data
  rw [b, a]

theorem bhy_read_fifo_body_flag (H : bhy_consts) (j L ar : Nat) (cd : bhy_client_data) :
    (bhy_read_fifo_body H j L ar cd).reset_flag = cd.reset_flag := by
  have hs : (bhy_read_fifo_store H j L cd).reset_flag = cd.reset_flag := by
    unfold bhy_read_fifo_store
    exact process_data_flag H _ _ _
  have ha : ∀ c : bhy_client_data, (bhy_read_fifo_ar H j L ar c).reset_flag = c.reset_flag := by
    intro c; unfold bhy_read_fifo_ar; split_ifs <;> rfl
  unfold bhy_read_fifo_body
  dsimp only
  rw [ha]
  split_ifs
  · rw [generate_step_data_flag, hs]
  · exact hs

theorem steady_fold_flag (H : bhy_consts) (data : List Nat) :
    ∀ (js : List Nat) (cd : bhy_client_data),
      (js.foldl (fun cd j => bhy_read_fifo_body H j (payload_len H data j)
          (bhy_get_sensor_type_data_len H (byte_at data j)).2 cd) cd).reset_flag
        = cd.reset_flag := by
  intro js
  induction js with
  | nil => intro cd; rfl
  | cons j js ih =>
    intro cd
    simp only [List.foldl_cons]
    rw [ih, bhy_read_fifo_body_flag]

theorem bhy_read_fifo_data_flag (H : bhy_consts) (hd : distinct_case_labels H) (rd : fifo_read)
    (cd : bhy_client_data) :
    ∃ cd1, bhy_read_fifo_data H rd cd = some cd1 ∧ cd1.reset_flag = cd.reset_flag := by
  have hdet : 0 ≤ (bhy_get_sensor_type_data_len H H.BHY_SENSOR_HANDLE_STEP_DETECTOR).1 := by
    rw [data_len_step_detector H hd]; exact Int.natCast_nonneg _
  have hcnt : 0 ≤ (bhy_get_sensor_type_data_len H H.BHY_SENSOR_HANDLE_STEP_COUNTER).1 := by
    rw [data_len_step_counter H hd]; exact Int.natCast_nonneg _
  unfold bhy_read_fifo_data
  cases hbr : rd.bytes_remain with
  | none => exact ⟨cd, rfl, rfl⟩
  | some br =>
    dsimp only
    split_ifs
    · exact ⟨cd, rfl, rfl⟩
    · cases hf : rd.fifo with
      | none => exact ⟨cd, rfl, rfl⟩
      | some bytes =>
        dsimp only
        rw [bhy_read_fifo_loop_fold H _ br hdet hcnt _ 0 _ (by omega) rfl]
        refine ⟨_, rfl, ?_⟩
        dsimp only
        rw [steady_fold_flag]

theorem detect_self_test_body_flag (H : bhy_consts) (data : List Nat) (j L : Nat)
    (st : bhy_client_data × Nat) :
    (detect_self_test_body H data j L st).1.reset_flag = st.1.reset_flag := by
  unfold detect_self_test_body
  dsimp only
  split_ifs <;> rfl

theorem self_test_fold_flag (H : bhy_consts) (data : List Nat) :
    ∀ (js : List Nat) (st : bhy_client_data × Nat),
      (js.foldl (fun st j => detect_self_test_body H data j (payload_len H data j) st)
          st).1.reset_flag = st.1.reset_flag := by
  intro js
  induction js with
  | nil => intro st; rfl
  | cons j js ih =>
    intro st
    simp only [List.foldl_cons]
    rw [ih, detect_self_test_body_flag]

/-! ## The interrupt pump -/

theorem report_timestamp_sync_frame (H : bhy_consts) (P : bhy_host_consts) (bus : irq_bus) (cd :
    bhy_client_data) :
    (report_timestamp_sync H P bus cd).reset_flag = cd.reset_flag
      ∧ (report_timestamp_sync H P bus cd).fifo_buf = cd.fifo_buf := by
  unfold report_timestamp_sync
  dsimp only
  split_ifs <;> exact ⟨rfl, rfl⟩

theorem bhy_irq_work_func_steady (H : bhy_consts) (P : bhy_host_consts)
    (bhy_load_ram_patch : bhy_client_data → bhy_client_data) (bus : irq_bus)
    (cd : bhy_client_data)
    (hflag : cd.reset_flag = RESET_FLAG_INITIALIZED ∨ cd.reset_flag = RESET_FLAG_ERROR) :
    bhy_irq_work_func H P bhy_load_ram_patch bus cd =
      (bhy_read_fifo_data H bus.fifo (report_timestamp_sync H P bus cd)).map
        (fun c => ⟨c, bus_op.read BHY_REG_HOST_IRQ_TIMESTAMP_1 4
          :: bhy_read_fifo_data_reads bus.fifo⟩) := by
  unfold bhy_irq_work_func
  rcases hflag with h | h <;> rw [h]

theorem hardware_interrupt_scheduled (H : bhy_consts) (P : bhy_host_consts)
    (bhy_load_ram_patch : bhy_client_data → bhy_client_data) (now : Nat) (bus : irq_bus)
    (cd : bhy_client_data) (hflag : cd.reset_flag ≠ RESET_FLAG_TODO) :
    hardware_interrupt H P bhy_load_ram_patch now bus cd
      = bhy_irq_work_func H P bhy_load_ram_patch bus { cd with timestamp_irq := now } := by
  unfold hardware_interrupt bhy_irq_handler
  rw [if_neg hflag]
  rfl

/-- Claim C18: once the reset-phase flag is RESET_FLAG_ERROR, a hardware interrupt
(bhy_irq_handler followed by bhy_irq_work_func) returns, whatever the bus answers and whatever
the FIFO holds, with the flag still RESET_FLAG_ERROR; the same holds of bhy_irq_work_func run on
its own. -/
theorem error_flag_absorbing (H : bhy_consts) (P : bhy_host_consts) (hd : distinct_case_labels H)
    (bhy_load_ram_patch : bhy_client_data → bhy_client_data) (now : Nat) (bus : irq_bus)
    (cd : bhy_client_data) (hflag : cd.reset_flag = RESET_FLAG_ERROR) :
    (∃ r, hardware_interrupt H P bhy_load_ram_patch now bus cd = some r
        ∧ r.cd.reset_flag = RESET_FLAG_ERROR)
      ∧ (∃ r, bhy_irq_work_func H P bhy_load_ram_patch bus cd = some r
        ∧ r.cd.reset_flag = RESET_FLAG_ERROR) := by
  have work : ∀ c : bhy_client_data, c.reset_flag = RESET_FLAG_ERROR →
      ∃ r, bhy_irq_work_func H P bhy_load_ram_patch bus c = some r
        ∧ r.cd.reset_flag = RESET_FLAG_ERROR := by
    intro c hc
    rw [bhy_irq_work_func_steady H P bhy_load_ram_patch bus c (Or.inr hc)]
    obtain ⟨c1, h1, h2⟩ := bhy_read_fifo_data_flag H hd bus.fifo (report_timestamp_sync H P bus c)
    rw [h1]
    refine ⟨_, rfl, ?_⟩
    dsimp only
    rw [h2, (report_timestamp_sync_frame H P bus c).1, hc]
  constructor
  · rw [hardware_interrupt_scheduled H P bhy_load_ram_patch now bus cd (by rw [hflag]; decide)]
    exact work _ hflag
  · exact work cd hflag

theorem error_flag_absorbing_witness :
    distinct_case_labels sample_consts
      ∧ ({ sample_state with reset_flag := RESET_FLAG_ERROR } : bhy_client_data).reset_flag
          = RESET_FLAG_ERROR
      ∧ ∃ r, hardware_interrupt sample_consts sample_host_consts counting_reload 7 sample_irq_bus
            { sample_state with reset_flag := RESET_FLAG_ERROR } = some r
          ∧ r.cd.reset_flag = RESET_FLAG_ERROR :=
  ⟨sample_consts_distinct, rfl,
    (error_flag_absorbing sample_consts sample_host_consts sample_consts_distinct counting_reload 7
        sample_irq_bus
      { sample_state with reset_flag := RESET_FLAG_ERROR } rfl).1⟩

theorem bytes_from_all (data : List Nat) : bytes_from data 0 data.length = data := by
  apply List.ext_getElem
  · simp [bytes_from]
  · intro k h1 h2
    simp [bytes_from, byte_at, List.getD_eq_getElem?_getD, h2]

theorem le_bytes_length (v len : Nat) : (le_bytes v len).length = len := by
  simp [le_bytes]

theorem queue_push_slot (N : Nat) (q : frame_queue) (handle : Nat) (stamp rest : List Nat)
    (hq : q.head < q.frames.length) :
    ∃ f, (queue_push N q handle (stamp ++ rest)).frames[q.head]? = some f
      ∧ f.handle = handle ∧ f.data.take stamp.length = stamp := by
  refine ⟨{ handle := handle, data := memcpy (head_slot q).data (stamp ++ rest) }, ?_, rfl, ?_⟩
  · rw [queue_push_frames]
    simp [hq]
  · simp [memcpy, List.append_assoc]

theorem le_bytes_succ (v len : Nat) :
    le_bytes v (len + 1) = v % 256 :: le_bytes (v / 256) len := by
  unfold le_bytes
  rw [List.range_succ_eq_map, List.map_cons, List.map_map]
  congr 1
  · simp
  · apply List.map_congr_left
    intro k _
    simp only [Function.comp_apply, Nat.pow_succ, Nat.succ_eq_add_one]
    rw [Nat.mul_comm, Nat.div_div_eq_div_mul]

theorem le_bytes_value (v : Nat) :
    ∀ len : Nat, (∀ b ∈ le_bytes v len, b < 256) ∧ le_value (le_bytes v len) = v % 256 ^ len := by
  intro len
  induction len generalizing v with
  | zero => exact ⟨fun b hb => by simp [le_bytes] at hb, by simp [le_bytes, le_value, Nat.mod_one]⟩
  | succ n ih =>
    obtain ⟨h1, h2⟩ := ih (v / 256)
    rw [le_bytes_succ]
    constructor
    · intro b hb
      rcases List.mem_cons.mp hb with e | e
      · rw [e]; exact Nat.mod_lt _ (by decide)
      · exact h1 b e
    · show v % 256 + 256 * le_value (le_bytes (v / 256) n) = v % 256 ^ (n + 1)
      rw [h2, pow_succ', Nat.mod_mul]

/-- Claim C14: when the reset-phase flag is RESET_FLAG_INITIALIZED, a hardware interrupt at time
now first pushes one frame with the handle BHY_SENSOR_HANDLE_TIMESTAMP_SYNC to the main queue and
one to the activity-recognition queue, and only then runs bhy_read_fifo_data, on the state s with
these two frames pushed.  The first 8 data bytes of each frame are bytes whose little-endian
value is now (as a 64-bit value).  The next 4 bytes are those of the firmware timestamp when its
read succeeds; when the read fails the two frames are pushed all the same, and these 4 bytes are
what the local array timestamp_fw held before the read, not a firmware timestamp. -/
theorem initialized_interrupt_pushes_timestamp_sync (H : bhy_consts) (P : bhy_host_consts)
    (bhy_load_ram_patch : bhy_client_data → bhy_client_data) (now : Nat) (bus : irq_bus)
    (cd : bhy_client_data)
    (hflag : cd.reset_flag = RESET_FLAG_INITIALIZED)
    (hq : cd.data_queue.head < cd.data_queue.frames.length)
    (hqa : cd.data_queue_ar.head < cd.data_queue_ar.frames.length) :
    ∃ (s : bhy_client_data) (stamp fw rest : List Nat),
      hardware_interrupt H P bhy_load_ram_patch now bus cd
          = (bhy_read_fifo_data H bus.fifo s).map
              (fun c => ⟨c, bus_op.read BHY_REG_HOST_IRQ_TIMESTAMP_1 4
                :: bhy_read_fifo_data_reads bus.fifo⟩)
        ∧ s.data_queue = queue_push H.BHY_FRAME_SIZE cd.data_queue
            P.BHY_SENSOR_HANDLE_TIMESTAMP_SYNC (stamp ++ fw ++ rest)
        ∧ s.data_queue_ar = queue_push H.BHY_FRAME_SIZE_AR cd.data_queue_ar
            P.BHY_SENSOR_HANDLE_TIMESTAMP_SYNC (stamp ++ fw)
        ∧ stamp.length = 8 ∧ (∀ b ∈ stamp, b < 256) ∧ le_value stamp = now % 2 ^ 64
        ∧ fw.length = 4
        ∧ (∀ bytes, bus.timestamp_fw_read = some bytes → bytes.length = 4 → fw = bytes)
        ∧ (bus.timestamp_fw_read = none → fw = bytes_from bus.timestamp_fw 0 4)
        ∧ (∃ f, s.data_queue.frames[cd.data_queue.head]? = some f
            ∧ f.handle = P.BHY_SENSOR_HANDLE_TIMESTAMP_SYNC
            ∧ f.data.take 12 = stamp ++ fw)
        ∧ (∃ f, s.data_queue_ar.frames[cd.data_queue_ar.head]? = some f
            ∧ f.handle = P.BHY_SENSOR_HANDLE_TIMESTAMP_SYNC
            ∧ f.data.take 12 = stamp ++ fw)
        ∧ s.fifo_buf = cd.fifo_buf ∧ s.reset_flag = cd.reset_flag := by
  have hrun : hardware_interrupt H P bhy_load_ram_patch now bus cd
      = (bhy_read_fifo_data H bus.fifo
          (report_timestamp_sync H P bus { cd with timestamp_irq := now })).map
          (fun c => ⟨c, bus_op.read BHY_REG_HOST_IRQ_TIMESTAMP_1 4
            :: bhy_read_fifo_data_reads bus.fifo⟩) := by
    rw [hardware_interrupt_scheduled H P bhy_load_ram_patch now bus cd (by rw [hflag]; decide)]
    exact bhy_irq_work_func_steady H P bhy_load_ram_patch bus _ (Or.inl hflag)
  obtain ⟨fw, hfwdef⟩ : ∃ fw, fw = (match bus.timestamp_fw_read with
      | some bytes => bytes_from bytes 0 4
      | none => bytes_from bus.timestamp_fw 0 4) := ⟨_, rfl⟩
  have hfwlen : fw.length = 4 := by
    rw [hfwdef]
    cases bus.timestamp_fw_read <;> exact bytes_from_length _ _ _
  have hsome : ∀ bytes, bus.timestamp_fw_read = some bytes → bytes.length = 4 → fw = bytes := by
    intro bytes hb hl
    rw [hfwdef, hb]
    show bytes_from bytes 0 4 = bytes
    rw [← hl]; exact bytes_from_all bytes
  have hnone : bus.timestamp_fw_read = none → fw = bytes_from bus.timestamp_fw 0 4 := by
    intro hb
    rw [hfwdef, hb]
  have hlen12 : (le_bytes now 8 ++ fw).length = 12 := by
    rw [List.length_append, le_bytes_length, hfwlen]
  have hslot : ∀ (N : Nat) (q : frame_queue) (rest : List Nat), q.head < q.frames.length →
      ∃ f, (queue_push N q P.BHY_SENSOR_HANDLE_TIMESTAMP_SYNC
          (le_bytes now 8 ++ fw ++ rest)).frames[q.head]? = some f
        ∧ f.handle = P.BHY_SENSOR_HANDLE_TIMESTAMP_SYNC
        ∧ f.data.take 12 = le_bytes now 8 ++ fw := by
    intro N q rest h
    have := queue_push_slot N q P.BHY_SENSOR_HANDLE_TIMESTAMP_SYNC (le_bytes now 8 ++ fw) rest h
    rwa [hlen12] at this
  obtain ⟨rest, hmain⟩ : ∃ rest,
      (report_timestamp_sync H P bus { cd with timestamp_irq := now }).data_queue
        = queue_push H.BHY_FRAME_SIZE cd.data_queue P.BHY_SENSOR_HANDLE_TIMESTAMP_SYNC
            (le_bytes now 8 ++ fw ++ rest) := by
    by_cases hlog : P.BHY_TS_LOGGING_SUPPORT = true
    · refine ⟨le_bytes ((cd.irq_count + 1) % 4294967296) 4, ?_⟩
      unfold report_timestamp_sync
      dsimp only
      rw [if_pos hlog, ← hfwdef]
    · refine ⟨[], ?_⟩
      unfold report_timestamp_sync
      dsimp only
      rw [if_neg hlog, ← hfwdef, List.append_nil]
  have har : (report_timestamp_sync H P bus { cd with timestamp_irq := now }).data_queue_ar
      = queue_push H.BHY_FRAME_SIZE_AR cd.data_queue_ar P.BHY_SENSOR_HANDLE_TIMESTAMP_SYNC
          (le_bytes now 8 ++ fw) := by
    unfold report_timestamp_sync
    dsimp only
    rw [← hfwdef]
    split_ifs <;> rfl
  refine ⟨report_timestamp_sync H P bus { cd with timestamp_irq := now }, le_bytes now 8, fw,
    rest, hrun, hmain, har, le_bytes_length _ _, (le_bytes_value now 8).1, ?_, hfwlen, hsome,
    hnone, ?_, ?_, (report_timestamp_sync_frame H P bus _).2,
    (report_timestamp_sync_frame H P bus _).1⟩
  · rw [(le_bytes_value now 8).2]
    norm_num
  · rw [hmain]
    exact hslot _ _ _ hq
  · rw [har]
    have := hslot H.BHY_FRAME_SIZE_AR cd.data_queue_ar [] hqa
    rwa [List.append_nil] at this

theorem initialized_interrupt_pushes_timestamp_sync_witness :
    ({ sample_state with reset_flag := RESET_FLAG_INITIALIZED } : bhy_client_data).reset_flag
        = RESET_FLAG_INITIALIZED
      ∧ failing_timestamp_bus.timestamp_fw_read = none
      ∧ ∃ (s : bhy_client_data) (stamp : List Nat),
          hardware_interrupt sample_consts sample_host_consts counting_reload
              72623859790382856 failing_timestamp_bus
              { sample_state with reset_flag := RESET_FLAG_INITIALIZED }
            = (bhy_read_fifo_data sample_consts failing_timestamp_bus.fifo s).map
                (fun c => ⟨c, bus_op.read BHY_REG_HOST_IRQ_TIMESTAMP_1 4
                  :: bhy_read_fifo_data_reads failing_timestamp_bus.fifo⟩)
          ∧ stamp.length = 8 ∧ (∀ b ∈ stamp, b < 256) ∧ le_value stamp = 72623859790382856
          ∧ s.data_queue_ar = queue_push sample_consts.BHY_FRAME_SIZE_AR
              sample_state.data_queue_ar sample_host_consts.BHY_SENSOR_HANDLE_TIMESTAMP_SYNC
              (stamp ++ [222, 173, 190, 239]) := by
  obtain ⟨s, stamp, fw, rest, h1, -, h3, h4, h5, h6, -, -, h9, -⟩ :=
    initialized_interrupt_pushes_timestamp_sync sample_consts sample_host_consts counting_reload
      72623859790382856 failing_timestamp_bus
      { sample_state with reset_flag := RESET_FLAG_INITIALIZED } rfl (by decide) (by decide)
  have hfw : fw = [222, 173, 190, 239] := by rw [h9 rfl]; decide
  rw [hfw] at h3
  exact ⟨rfl, rfl, s, stamp, h1, h4, h5, by rw [h6]; decide, h3⟩

theorem initialized_interrupt_sample_run :
    (hardware_interrupt sample_consts sample_host_consts counting_reload 72623859790382856
        sample_irq_bus { sample_state with reset_flag := RESET_FLAG_INITIALIZED }).map
        (fun r => (queue_contents r.cd.data_queue, queue_contents r.cd.data_queue_ar))
      = some
        ([{ handle := 243, data := [8, 7, 6, 5, 4, 3, 2, 1, 1, 2, 3, 4, 0, 0, 0, 0] },
          { handle := 254, data := [1, 0, 0, 0, 0, 0, 0, 0, 0, 0, 0, 0, 0, 0, 0, 0] }],
         [{ handle := 243, data := [8, 7, 6, 5, 4, 3, 2, 1, 1, 2, 3, 4, 0, 0, 0, 0] },
          { handle := 254, data := [1, 0, 0, 0, 0, 0, 0, 0, 0, 0, 0, 0, 0, 0, 0, 0] }]) := by
  decide

/-! ## A failed read in the steady-state sequence -/

/-- Claim C16 fails on the code for the read of the firmware timestamp: with the flag
RESET_FLAG_INITIALIZED, both queues empty and a FIFO of one meta event, an interrupt whose read
of the firmware timestamp fails is not aborted.  It goes on to read the bytes-remain register
and the FIFO, and pushes to each queue a TIMESTAMP_SYNC frame, whose bytes 8..11 are what the
local array timestamp_fw held before the read (222, 173, 190, 239), and then the frame of the
meta event; the flag stays RESET_FLAG_INITIALIZED. -/
theorem failed_timestamp_read_not_aborted :
    (hardware_interrupt sample_consts sample_host_consts counting_reload 7 failing_timestamp_bus
        { sample_state with reset_flag := RESET_FLAG_INITIALIZED }).map
        (fun r => (queue_contents r.cd.data_queue, queue_contents r.cd.data_queue_ar,
          r.cd.reset_flag, r.ops))
      = some
        ([{ handle := 243, data := [7, 0, 0, 0, 0, 0, 0, 0, 222, 173, 190, 239, 0, 0, 0, 0] },
          { handle := 254, data := [1, 0, 0, 0, 0, 0, 0, 0, 0, 0, 0, 0, 0, 0, 0, 0] }],
         [{ handle := 243, data := [7, 0, 0, 0, 0, 0, 0, 0, 222, 173, 190, 239, 0, 0, 0, 0] },
          { handle := 254, data := [1, 0, 0, 0, 0, 0, 0, 0, 0, 0, 0, 0, 0, 0, 0, 0] }],
         RESET_FLAG_INITIALIZED,
         [bus_op.read BHY_REG_HOST_IRQ_TIMESTAMP_1 4, bus_op.read BHY_REG_BYTES_REMAIN_0 2,
          bus_op.read BHY_REG_FIFO_BUFFER_0 9]) := by
  decide

/-! ## The interrupt during a self test -/

theorem bhy_load_ram_patch_flag (P : bhy_host_consts)
    (sync_sensor : bhy_client_data → bhy_client_data)
    (hsync : ∀ c, (sync_sensor c).reset_flag = c.reset_flag) (env : ram_patch_env)
    (cd : bhy_client_data) :
    (load_succeeds P env →
        (bhy_load_ram_patch P sync_sensor env cd).cd.reset_flag = RESET_FLAG_READY)
      ∧ (¬ load_succeeds P env →
        (bhy_load_ram_patch P sync_sensor env cd).cd.reset_flag = RESET_FLAG_ERROR) := by
  obtain ⟨h1, h2, h3⟩ := bhy_load_ram_patch_spec P sync_sensor env cd
  constructor
  · intro hs
    rw [h3 (h2.mpr hs)]
    dsimp only
    split_ifs
    · rw [hsync]
    · rfl
  · intro hs
    rcases h1 with a | ⟨_, _, b⟩
    · exact absurd (h2.mp a) hs
    · exact b

theorem detect_self_test_event_cases (H : bhy_consts)
    (bhy_load_ram_patch : bhy_client_data → bhy_client_data)
    (rd : fifo_read) (cd : bhy_client_data) :
    ((rd.bytes_remain = none ∨ (∃ n, rd.bytes_remain = some n ∧ H.BHY_FIFO_LEN_MAX < n)
          ∨ rd.fifo = none)
        ∧ detect_self_test_event H bhy_load_ram_patch rd cd = some cd)
      ∨ ∃ bytes_remain bytes, rd.bytes_remain = some bytes_remain
          ∧ bytes_remain ≤ H.BHY_FIFO_LEN_MAX ∧ rd.fifo = some bytes
          ∧ detect_self_test_event H bhy_load_ram_patch rd cd
            = some (if ∃ j ∈ well_formed_offsets H
                  (memcpy cd.fifo_buf (bytes_from bytes 0 bytes_remain)) bytes_remain,
                  self_test_at H (memcpy cd.fifo_buf (bytes_from bytes 0 bytes_remain)) j then
                bhy_load_ram_patch
                  (self_test_scan H (memcpy cd.fifo_buf (bytes_from bytes 0 bytes_remain))
                    (well_formed_offsets H
                      (memcpy cd.fifo_buf (bytes_from bytes 0 bytes_remain)) bytes_remain)
                    { cd with fifo_buf :=
                        memcpy cd.fifo_buf (bytes_from bytes 0 bytes_remain) }).1
              else
                (self_test_scan H (memcpy cd.fifo_buf (bytes_from bytes 0 bytes_remain))
                  (well_formed_offsets H
                    (memcpy cd.fifo_buf (bytes_from bytes 0 bytes_remain)) bytes_remain)
                  { cd with fifo_buf :=
                      memcpy cd.fifo_buf (bytes_from bytes 0 bytes_remain) }).1) := by
  cases hbr : rd.bytes_remain with
  | none =>
    left
    refine ⟨Or.inl rfl, ?_⟩
    unfold detect_self_test_event
    rw [hbr]
  | some br =>
    by_cases hmax : br > H.BHY_FIFO_LEN_MAX
    · left
      refine ⟨Or.inr (Or.inl ⟨br, rfl, hmax⟩), ?_⟩
      unfold detect_self_test_event
      rw [hbr]
      dsimp only
      rw [if_pos hmax]
    · cases hf : rd.fifo with
      | none =>
        left
        refine ⟨Or.inr (Or.inr rfl), ?_⟩
        unfold detect_self_test_event
        rw [hbr]
        dsimp only
        rw [if_neg hmax, hf]
      | some bytes =>
        right
        refine ⟨br, bytes, rfl, by omega, rfl, ?_⟩
        generalize hdata : memcpy cd.fifo_buf (bytes_from bytes 0 br) = data
        have hdet := self_test_fold_detected H data (well_formed_offsets H data br)
          ({ cd with fifo_buf := data }, 0)
        unfold detect_self_test_event
        rw [hbr]
        dsimp only
        rw [if_neg hmax, hf]
        dsimp only
        rw [hdata, detect_self_test_loop_fold H data br _ 0 _ (by omega)]
        dsimp only
        by_cases hex : ∃ j ∈ well_formed_offsets H data br, self_test_at H data j
        · rw [if_pos hex] at hdet
          have h1 : (List.foldl
              (fun st j => detect_self_test_body H data j (payload_len H data j) st)
              ({ cd with fifo_buf := data }, 0)
              (record_offsets H data br (br + 1) 0)).2 ≠ 0 := by
            have : (List.foldl
              (fun st j => detect_self_test_body H data j (payload_len H data j) st)
              ({ cd with fifo_buf := data }, 0)
              (record_offsets H data br (br + 1) 0)).2 = 1 := hdet
            omega
          rw [if_pos h1, if_pos hex]
          rfl
        · rw [if_neg hex] at hdet
          have h1 : ¬ (List.foldl
              (fun st j => detect_self_test_body H data j (payload_len H data j) st)
              ({ cd with fifo_buf := data }, 0)
              (record_offsets H data br (br + 1) 0)).2 ≠ 0 := by
            have : (List.foldl
              (fun st j => detect_self_test_body H data j (payload_len H data j) st)
              ({ cd with fifo_buf := data }, 0)
              (record_offsets H data br (br + 1) 0)).2 = 0 := hdet
            omega
          rw [if_neg h1, if_neg hex]
          rfl

theorem self_test_scan_flag (H : bhy_consts) (data : List Nat) (js : List Nat)
    (cd : bhy_client_data) : (self_test_scan H data js cd).1.reset_flag = cd.reset_flag := by
  unfold self_test_scan
  exact self_test_fold_flag H data js (cd, 0)

theorem bhy_irq_work_func_self_test (H : bhy_consts) (P : bhy_host_consts)
    (bhy_load_ram_patch : bhy_client_data → bhy_client_data) (bus : irq_bus)
    (cd : bhy_client_data) (hflag : cd.reset_flag = RESET_FLAG_SELF_TEST) :
    bhy_irq_work_func H P bhy_load_ram_patch bus cd =
      (detect_self_test_event H bhy_load_ram_patch bus.fifo cd).map
        (fun c => ⟨c, startup_scan_reads H bus.fifo⟩) := by
  unfold bhy_irq_work_func
  rw [hflag]

/-- Claim C13, as the code has it: when the reset-phase flag is RESET_FLAG_SELF_TEST, a hardware
interrupt runs detect_self_test_event and returns with a flag that is never
RESET_FLAG_INITIALIZED.  If the bytes-remain read or the FIFO read fails, or the length is above
BHY_FIFO_LEN_MAX, nothing but the interrupt timestamp changes.  Otherwise the FIFO is drained
and scanned; if its well-formed prefix has a self-test-results record, the state at return is
that of bhy_load_ram_patch run on the state of the scan, with the flag RESET_FLAG_READY when the
load succeeds and RESET_FLAG_ERROR when it fails; if it has none, no reload is made and the flag
is still RESET_FLAG_SELF_TEST.  The callee sync_sensor is assumed not to write the flag. -/
theorem self_test_interrupt_flag (H : bhy_consts) (P : bhy_host_consts)
    (sync_sensor : bhy_client_data → bhy_client_data)
    (hsync : ∀ c, (sync_sensor c).reset_flag = c.reset_flag) (env : ram_patch_env)
    (now : Nat) (bus : irq_bus) (cd : bhy_client_data)
    (hflag : cd.reset_flag = RESET_FLAG_SELF_TEST) :
    ∃ r, hardware_interrupt H P (fun c => (bhy_load_ram_patch P sync_sensor env c).cd) now bus cd
          = some r
      ∧ r.ops = startup_scan_reads H bus.fifo
      ∧ r.cd.reset_flag ≠ RESET_FLAG_INITIALIZED
      ∧ ((bus.fifo.bytes_remain = none
            ∨ (∃ n, bus.fifo.bytes_remain = some n ∧ H.BHY_FIFO_LEN_MAX < n)
            ∨ bus.fifo.fifo = none) →
          r.cd = { cd with timestamp_irq := now })
      ∧ ∀ bytes_remain bytes data, bus.fifo.bytes_remain = some bytes_remain →
          bytes_remain ≤ H.BHY_FIFO_LEN_MAX → bus.fifo.fifo = some bytes →
          data = memcpy cd.fifo_buf (bytes_from bytes 0 bytes_remain) →
          ((∃ j ∈ well_formed_offsets H data bytes_remain, self_test_at H data j) →
              r.cd = (bhy_load_ram_patch P sync_sensor env
                  (self_test_scan H data (well_formed_offsets H data bytes_remain)
                    { cd with timestamp_irq := now, fifo_buf := data }).1).cd
                ∧ (load_succeeds P env → r.cd.reset_flag = RESET_FLAG_READY)
                ∧ (¬ load_succeeds P env → r.cd.reset_flag = RESET_FLAG_ERROR))
            ∧ ((¬ ∃ j ∈ well_formed_offsets H data bytes_remain, self_test_at H data j) →
              r.cd = (self_test_scan H data (well_formed_offsets H data bytes_remain)
                  { cd with timestamp_irq := now, fifo_buf := data }).1
                ∧ r.cd.reset_flag = RESET_FLAG_SELF_TEST) := by
  have hrun := hardware_interrupt_scheduled H P
    (fun c => (bhy_load_ram_patch P sync_sensor env c).cd) now bus cd (by rw [hflag]; decide)
  rw [bhy_irq_work_func_self_test H P _ bus _ (show ({ cd with timestamp_irq := now }
    : bhy_client_data).reset_flag = RESET_FLAG_SELF_TEST from hflag)] at hrun
  rcases detect_self_test_event_cases H (fun c => (bhy_load_ram_patch P sync_sensor env c).cd)
    bus.fifo { cd with timestamp_irq := now } with ⟨hab, he⟩ | ⟨br, bytes, h1, h2, h3, he⟩
  · rw [he] at hrun
    refine ⟨_, hrun, rfl, ?_, fun _ => rfl, ?_⟩
    · show cd.reset_flag ≠ RESET_FLAG_INITIALIZED
      rw [hflag]; decide
    · intro br' bytes' data e1 e2 e3 _
      exfalso
      rcases hab with a | ⟨n, a, b⟩ | a
      · rw [a] at e1; simp at e1
      · rw [a] at e1
        simp only [Option.some.injEq] at e1
        omega
      · rw [a] at e3; simp at e3
  · generalize hdata : memcpy cd.fifo_buf (bytes_from bytes 0 br) = data0 at he
    have he' : detect_self_test_event H
        (fun c => (bhy_load_ram_patch P sync_sensor env c).cd) bus.fifo
        { cd with timestamp_irq := now }
        = some (if ∃ j ∈ well_formed_offsets H data0 br, self_test_at H data0 j then
            (bhy_load_ram_patch P sync_sensor env
              (self_test_scan H data0 (well_formed_offsets H data0 br)
                { cd with timestamp_irq := now, fifo_buf := data0 }).1).cd
          else (self_test_scan H data0 (well_formed_offsets H data0 br)
                { cd with timestamp_irq := now, fifo_buf := data0 }).1) := he
    have hscan : (self_test_scan H data0 (well_formed_offsets H data0 br)
        { cd with timestamp_irq := now, fifo_buf := data0 }).1.reset_flag
          = RESET_FLAG_SELF_TEST := by
      rw [self_test_scan_flag]; exact hflag
    obtain ⟨l1, l2⟩ := bhy_load_ram_patch_flag P sync_sensor hsync env
      (self_test_scan H data0 (well_formed_offsets H data0 br)
        { cd with timestamp_irq := now, fifo_buf := data0 }).1
    rw [he'] at hrun
    by_cases hex : ∃ j ∈ well_formed_offsets H data0 br, self_test_at H data0 j
    · rw [if_pos hex] at hrun
      refine ⟨_, hrun, rfl, ?_, ?_, ?_⟩
      · dsimp only
        by_cases hs : load_succeeds P env
        · rw [l1 hs]; decide
        · rw [l2 hs]; decide
      · intro hab
        exfalso
        rcases hab with a | ⟨n, a, b⟩ | a
        · rw [a] at h1; simp at h1
        · rw [a] at h1
          simp only [Option.some.injEq] at h1
          omega
        · rw [a] at h3; simp at h3
      · intro br' bytes' data e1 _ e3 ed
        rw [h1] at e1
        rw [h3] at e3
        simp only [Option.some.injEq] at e1 e3
        subst e1 e3
        rw [hdata] at ed
        subst ed
        exact ⟨fun _ => ⟨rfl, l1, l2⟩, fun hne => absurd hex hne⟩
    · rw [if_neg hex] at hrun
      refine ⟨_, hrun, rfl, ?_, ?_, ?_⟩
      · dsimp only
        rw [hscan]; decide
      · intro hab
        exfalso
        rcases hab with a | ⟨n, a, b⟩ | a
        · rw [a] at h1; simp at h1
        · rw [a] at h1
          simp only [Option.some.injEq] at h1
          omega
        · rw [a] at h3; simp at h3
      · intro br' bytes' data e1 _ e3 ed
        rw [h1] at e1
        rw [h3] at e3
        simp only [Option.some.injEq] at e1 e3
        subst e1 e3
        rw [hdata] at ed
        subst ed
        exact ⟨fun h => absurd h hex, fun _ => ⟨rfl, hscan⟩⟩

theorem self_test_interrupt_flag_witness :
    (∀ c : bhy_client_data, ((fun c => c) c : bhy_client_data).reset_flag = c.reset_flag)
      ∧ ({ sample_state with reset_flag := RESET_FLAG_SELF_TEST } : bhy_client_data).reset_flag
          = RESET_FLAG_SELF_TEST
      ∧ ∃ r, hardware_interrupt sample_consts sample_host_consts
            (fun c => (bhy_load_ram_patch sample_host_consts (fun c => c) sample_patch_env c).cd)
            7 self_test_irq_bus { sample_state with reset_flag := RESET_FLAG_SELF_TEST } = some r
          ∧ r.cd.reset_flag ≠ RESET_FLAG_INITIALIZED :=
  ⟨fun _ => rfl, rfl,
    (self_test_interrupt_flag sample_consts sample_host_consts (fun c => c) (fun _ => rfl)
        sample_patch_env 7
      self_test_irq_bus { sample_state with reset_flag := RESET_FLAG_SELF_TEST } rfl).elim
      fun r h => ⟨r, h.1, h.2.2.1⟩⟩

/-- Claim C13 as worded fails on the code: with the flag RESET_FLAG_SELF_TEST, a FIFO that holds
one self-test-results meta event and a firmware reload in which every step succeeds, the
interrupt records the result, runs the reload, and returns with the flag RESET_FLAG_READY, not
RESET_FLAG_INITIALIZED; with a reload that fails on the CRC it returns with
RESET_FLAG_ERROR. -/
theorem self_test_interrupt_ends_ready :
    (hardware_interrupt sample_consts sample_host_consts
        (fun c => (bhy_load_ram_patch sample_host_consts (fun c => c) sample_patch_env c).cd)
        7 self_test_irq_bus { sample_state with reset_flag := RESET_FLAG_SELF_TEST }).map
        (fun r => (r.cd.reset_flag, r.cd.self_test_result, r.cd.ram_patch_init))
      = some (RESET_FLAG_READY, [0, -1, -1], true)
      ∧ (hardware_interrupt sample_consts sample_host_consts
        (fun c => (bhy_load_ram_patch sample_host_consts (fun c => c) bad_crc_env c).cd)
        7 self_test_irq_bus { sample_state with reset_flag := RESET_FLAG_SELF_TEST }).map
        (fun r => r.cd.reset_flag)
      = some RESET_FLAG_ERROR := by
  decide

/-! ## Swap entries -/

theorem swp_entry_val (t o : Nat) (ht : t < 2 ^ 6) (ho : o < 2 ^ 49) :
    (__swp_entry t o).val = 2 ^ 9 * o + 2 ^ 3 * t := by
  have h1 : (t <<< __SWP_TYPE_SHIFT) % 2 ^ 64 = 2 ^ 3 * t := by
    rw [Nat.shiftLeft_eq, Nat.mod_eq_of_lt]
    · show t * 2 ^ 3 = 2 ^ 3 * t
      omega
    · show t * 2 ^ 3 < 2 ^ 64
      omega
  have h2 : (o <<< __SWP_OFFSET_SHIFT) % 2 ^ 64 = 2 ^ 9 * o := by
    rw [Nat.shiftLeft_eq, Nat.mod_eq_of_lt]
    · show o * 2 ^ 9 = 2 ^ 9 * o
      omega
    · show o * 2 ^ 9 < 2 ^ 64
      omega
  show (t <<< __SWP_TYPE_SHIFT) % 2 ^ 64 ||| (o <<< __SWP_OFFSET_SHIFT) % 2 ^ 64 = _
  rw [h1, h2, Nat.or_comm]
  exact (Nat.mul_add_lt_is_or (by omega) o).symm

/-- Claim C25: for every swap type t below 2^6 and swap offset o below 2^49, __swp_type and
__swp_offset give t and o back from __swp_entry(t, o); the encoded value is 2^3 * t + 2^9 * o,
below 2^58, so that bits 0-2 are clear, bits 3-8 hold the type and bits 9-57 the offset; and
__pte_to_swp_entry undoes __swp_entry_to_pte on every entry. -/
theorem swp_entry_round_trip (t o : Nat) (ht : t < 2 ^ 6) (ho : o < 2 ^ 49) :
    __swp_type (__swp_entry t o) = t
      ∧ __swp_offset (__swp_entry t o) = o
      ∧ (__swp_entry t o).val = 2 ^ 3 * t + 2 ^ 9 * o
      ∧ (__swp_entry t o).val < 2 ^ 58
      ∧ (∀ i, i < 3 → (__swp_entry t o).val.testBit i = false)
      ∧ (∀ i, i < 6 → (__swp_entry t o).val.testBit (3 + i) = t.testBit i)
      ∧ (∀ i, i < 49 → (__swp_entry t o).val.testBit (9 + i) = o.testBit i)
      ∧ (∀ i, 58 ≤ i → (__swp_entry t o).val.testBit i = false)
      ∧ ∀ e : swp_entry_t, __pte_to_swp_entry (__swp_entry_to_pte e) = e := by
  have hv := swp_entry_val t o ht ho
  have ht8 : 2 ^ 3 * t < 2 ^ 9 := by omega
  have hbits : ∀ i, (__swp_entry t o).val.testBit i
      = ((decide (3 ≤ i) && t.testBit (i - 3)) || (decide (9 ≤ i) && o.testBit (i - 9))) := by
    intro i
    show ((t <<< __SWP_TYPE_SHIFT) % 2 ^ 64 ||| (o <<< __SWP_OFFSET_SHIFT) % 2 ^ 64).testBit i = _
    have h1 : (t <<< __SWP_TYPE_SHIFT) % 2 ^ 64 = t <<< 3 := by
      rw [Nat.mod_eq_of_lt]
      · rfl
      · rw [Nat.shiftLeft_eq]
        show t * 2 ^ 3 < 2 ^ 64
        omega
    have h2 : (o <<< __SWP_OFFSET_SHIFT) % 2 ^ 64 = o <<< 9 := by
      rw [Nat.mod_eq_of_lt]
      · rfl
      · rw [Nat.shiftLeft_eq]
        show o * 2 ^ 9 < 2 ^ 64
        omega
    rw [h1, h2, Nat.testBit_or, Nat.testBit_shiftLeft, Nat.testBit_shiftLeft]
  refine ⟨?_, ?_, by omega, by omega, ?_, ?_, ?_, ?_, fun e => rfl⟩
  · show ((__swp_entry t o).val >>> 3) &&& (2 ^ 6 - 1) = t
    rw [Nat.and_pow_two_sub_one_eq_mod, Nat.shiftRight_eq_div_pow, hv]
    omega
  · show ((__swp_entry t o).val >>> 9) &&& (2 ^ 49 - 1) = o
    rw [Nat.and_pow_two_sub_one_eq_mod, Nat.shiftRight_eq_div_pow, hv]
    omega
  · intro i hi
    rw [hbits]
    have a : decide (3 ≤ i) = false := by simp; omega
    have b : decide (9 ≤ i) = false := by simp; omega
    rw [a, b]
    rfl
  · intro i hi
    rw [hbits]
    have a : decide (3 ≤ 3 + i) = true := by simp
    have b : decide (9 ≤ 3 + i) = false := by simp; omega
    rw [a, b, Nat.add_sub_cancel_left]
    simp
  · intro i hi
    rw [hbits]
    have a : decide (3 ≤ 9 + i) = true := by simp; omega
    have b : decide (9 ≤ 9 + i) = true := by simp
    have c : t.testBit (9 + i - 3) = false :=
      Nat.testBit_lt_two_pow (Nat.lt_of_lt_of_le ht (Nat.pow_le_pow_right (by decide) (by omega)))
    rw [a, b, c, Nat.add_sub_cancel_left]
    simp
  · intro i hi
    exact Nat.testBit_lt_two_pow
      (Nat.lt_of_lt_of_le (by omega) (Nat.pow_le_pow_right (by decide) hi))

theorem swp_entry_round_trip_witness :
    (5 : Nat) < 2 ^ 6 ∧ (123456789 : Nat) < 2 ^ 49
      ∧ __swp_type (__swp_entry 5 123456789) = 5
      ∧ __swp_offset (__swp_entry 5 123456789) = 123456789 :=
  ⟨by decide, by decide, (swp_entry_round_trip 5 123456789 (by decide) (by decide)).1,
    (swp_entry_round_trip 5 123456789 (by decide) (by decide)).2.1⟩

/-! ## What a queue holds after any number of pushes -/

/-- Claim C26: on a queue of N ≥ 2 slots that is empty (tail equals head), after any records
r1..rk are pushed with no read in between, repeated reads return frames carrying exactly the last
min(k, N - 1) of them, in arrival order, and then report an empty queue; the queue is not empty
after a push (k ≥ 1), and it never holds more than N - 1 frames for its reader. -/
theorem ring_keeps_last_records (N sz : Nat) (q : frame_queue) (rs : List sensor_event_record)
    (h2 : 2 ≤ N) (hok : queue_ok N q) (hempty : q.tail = q.head) :
    (∃ fs, drain N sz N (push_all N q rs) = some fs
        ∧ List.Forall₂ frame_carries fs (rs.drop (rs.length - min rs.length (N - 1)))
        ∧ fs.length = min rs.length (N - 1))
      ∧ (rs ≠ [] → (push_all N q rs).tail ≠ (push_all N q rs).head)
      ∧ (queue_contents (push_all N q rs)).length ≤ N - 1 := by
  have hc0 : queue_contents q = [] := (contents_show N sz q hok).1 hempty
  have h := push_all_contents N h2 rs [] q hok (by rw [hc0]; simp)
  simp only [List.nil_append] at h
  obtain ⟨hok2, hcar⟩ := h
  have hidx : rs.length - min rs.length (N - 1) = rs.length - (N - 1) := by omega
  have hlen : (queue_contents (push_all N q rs)).length = min rs.length (N - 1) := by
    rw [hcar.length_eq, List.length_drop]
    omega
  refine ⟨⟨queue_contents (push_all N q rs), ?_, ?_, hlen⟩, ?_, ?_⟩
  · exact drain_contents N sz N _ hok2 (contents_length_lt N _ hok2)
  · rw [hidx]; exact hcar
  · intro hne heq
    have hz := (contents_show N sz _ hok2).1 heq
    rw [hz] at hlen
    have : 0 < rs.length := List.length_pos.mpr hne
    simp at hlen
    omega
  · rw [hlen]; omega

theorem ring_keeps_last_records_witness :
    ∃ fs, drain 3 1 3 (push_all 3 ⟨[⟨0, [0]⟩, ⟨0, [0]⟩, ⟨0, [0]⟩], 1, 1⟩
        [⟨1, [10]⟩, ⟨2, [20]⟩, ⟨3, [30]⟩, ⟨4, [40]⟩]) = some fs
      ∧ List.Forall₂ frame_carries fs
          ([(⟨1, [10]⟩ : sensor_event_record), ⟨2, [20]⟩, ⟨3, [30]⟩, ⟨4, [40]⟩].drop
            (4 - min 4 (3 - 1)))
      ∧ fs.length = min 4 (3 - 1) :=
  (ring_keeps_last_records 3 1 ⟨[⟨0, [0]⟩, ⟨0, [0]⟩, ⟨0, [0]⟩], 1, 1⟩
    [⟨1, [10]⟩, ⟨2, [20]⟩, ⟨3, [30]⟩, ⟨4, [40]⟩] (by decide) (by decide) (by decide)).1

/-! ## The wait for the reset -/

theorem reset_wait_passed (reset_ready : Nat → Bool) :
    ∀ (retry poll : Nat), 0 < (reset_wait reset_ready retry poll).1 ↔
      ∃ k, k + 1 < retry ∧ reset_ready (poll + k) = true := by
  intro retry
  induction retry with
  | zero =>
    intro poll
    constructor
    · intro h
      have h' : (0 : Int) < -1 := h
      omega
    · rintro ⟨k, hk, _⟩
      omega
  | succ n ih =>
    intro poll
    unfold reset_wait
    by_cases hr : reset_ready poll = true
    · rw [if_pos hr]
      constructor
      · intro h
        have h' : (0 : Int) < (n : Int) := h
        exact ⟨0, by omega, by rwa [Nat.add_zero]⟩
      · rintro ⟨k, hk, _⟩
        show (0 : Int) < (n : Int)
        omega
    · rw [if_neg hr, ih (poll + 1)]
      constructor
      · rintro ⟨k, hk, h⟩
        exact ⟨k + 1, by omega, by rwa [show poll + (k + 1) = poll + 1 + k by omega]⟩
      · rintro ⟨k, hk, h⟩
        cases k with
        | zero => rw [Nat.add_zero] at h; exact absurd h hr
        | succ j =>
          exact ⟨j, by omega, by rwa [show poll + 1 + j = poll + (j + 1) by omega]⟩

theorem reset_wait_congr (r1 r2 : Nat → Bool) :
    ∀ (retry poll : Nat), (∀ k, k < retry → r1 (poll + k) = r2 (poll + k)) →
      reset_wait r1 retry poll = reset_wait r2 retry poll := by
  intro retry
  induction retry with
  | zero => intro poll _; rfl
  | succ n ih =>
    intro poll h
    have h0 := h 0 (by omega)
    rw [Nat.add_zero] at h0
    unfold reset_wait
    rw [h0, ih (poll + 1)]
    intro k hk
    have := h (k + 1) (by omega)
    rwa [show poll + (k + 1) = poll + 1 + k by omega] at this

theorem ram_patch_finish_ops (sync_sensor : bhy_client_data → bhy_client_data)
    (env : ram_patch_env) (header : ram_patch_header) (cd : bhy_client_data)
    (ops : List bus_op) :
    ∃ rest, (ram_patch_finish sync_sensor env header cd ops).ops = ops ++ rest := by
  unfold ram_patch_finish
  dsimp only
  split_ifs <;> exact ⟨_, by simp only [List.append_assoc]; rfl⟩

theorem ram_patch_upload_ops (sync_sensor : bhy_client_data → bhy_client_data)
    (env : ram_patch_env) (cd : bhy_client_data) (ops : List bus_op) :
    ∃ rest, (ram_patch_upload sync_sensor env cd ops).ops = ops ++ rest := by
  unfold ram_patch_upload
  split
  · exact ⟨[], by simp⟩
  · split
    · exact ⟨[], by simp⟩
    · dsimp only
      split_ifs
      · exact ⟨[], by simp⟩
      · exact ⟨_, rfl⟩
      · obtain ⟨rest, h⟩ := ram_patch_finish_ops sync_sensor env _ cd
          (ops ++ (upload_loop env.upload_data_write _ _ 0 env.data_buf).2)
        exact ⟨_, by rw [h, List.append_assoc]⟩

theorem bhy_load_ram_patch_ops (P : bhy_host_consts)
    (sync_sensor : bhy_client_data → bhy_client_data) (env : ram_patch_env)
    (cd : bhy_client_data) (hw : 0 ≤ env.reset_write)
    (hpass : 0 < (reset_wait env.reset_ready P.BHY_RESET_WAIT_RETRY 0).1) :
    ∃ rest, (bhy_load_ram_patch P sync_sensor env cd).ops
      = [bus_op.write BHY_REG_RESET_REQ [1], bus_op.write BHY_REG_UPLOAD_ADDR_0 [0, 0]]
          ++ rest := by
  unfold bhy_load_ram_patch
  dsimp only
  rw [if_neg (by omega), if_neg (by omega)]
  by_cases h3 : env.upload_addr_write < 0
  · rw [if_pos h3]
    exact ⟨[], by simp⟩
  · rw [if_neg h3]
    by_cases h4 : env.chip_ctrl_upload_write < 0
    · rw [if_pos h4]
      exact ⟨[bus_op.write BHY_REG_CHIP_CTRL [2]], by simp⟩
    · rw [if_neg h4]
      obtain ⟨rest, h⟩ := ram_patch_upload_ops sync_sensor env
        (if (reset_wait env.reset_ready P.BHY_RESET_WAIT_RETRY 0).2 = true then
          { ({ cd with reset_flag := RESET_FLAG_TODO } : bhy_client_data) with
            reset_flag := RESET_FLAG_READY }
        else { cd with reset_flag := RESET_FLAG_TODO })
        ([bus_op.write BHY_REG_RESET_REQ [1]] ++ [bus_op.write BHY_REG_UPLOAD_ADDR_0 [0, 0]]
          ++ [bus_op.write BHY_REG_CHIP_CTRL [2]])
      exact ⟨[bus_op.write BHY_REG_CHIP_CTRL [2]] ++ rest, by rw [h]; simp⟩

/-- Claim C27: the wait loop of bhy_load_ram_patch depends on the flag as read at the first
BHY_RESET_WAIT_RETRY (= R) polls only, and it is passed exactly when one of the first R - 1 polls
reads RESET_FLAG_READY.  When none of them does, the reset write having succeeded, the function
returns -EIO with the flag RESET_FLAG_ERROR after the reset write alone: so it does when
RESET_FLAG_READY is first read at the R-th poll, and when it is never read.  When one of them
does, the function goes on to the write of the upload address. -/
theorem reset_wait_needs_early_ready (P : bhy_host_consts)
    (sync_sensor : bhy_client_data → bhy_client_data) (env : ram_patch_env)
    (cd : bhy_client_data) :
    (0 < (reset_wait env.reset_ready P.BHY_RESET_WAIT_RETRY 0).1 ↔
        ∃ k, k + 1 < P.BHY_RESET_WAIT_RETRY ∧ env.reset_ready k = true)
      ∧ (∀ other : Nat → Bool,
          (∀ k, k < P.BHY_RESET_WAIT_RETRY → env.reset_ready k = other k) →
          reset_wait env.reset_ready P.BHY_RESET_WAIT_RETRY 0
            = reset_wait other P.BHY_RESET_WAIT_RETRY 0)
      ∧ (0 ≤ env.reset_write →
          (∀ k, k + 1 < P.BHY_RESET_WAIT_RETRY → env.reset_ready k = false) →
          bhy_load_ram_patch P sync_sensor env cd
            = ⟨- EIO, { cd with reset_flag := RESET_FLAG_ERROR },
                [bus_op.write BHY_REG_RESET_REQ [1]]⟩)
      ∧ (0 ≤ env.reset_write →
          (∃ k, k + 1 < P.BHY_RESET_WAIT_RETRY ∧ env.reset_ready k = true) →
          ∃ rest, (bhy_load_ram_patch P sync_sensor env cd).ops
            = [bus_op.write BHY_REG_RESET_REQ [1], bus_op.write BHY_REG_UPLOAD_ADDR_0 [0, 0]]
                ++ rest) := by
  have hpass := reset_wait_passed env.reset_ready P.BHY_RESET_WAIT_RETRY 0
  simp only [Nat.zero_add] at hpass
  refine ⟨hpass, ?_, ?_, ?_⟩
  · intro other h
    apply reset_wait_congr
    intro k hk
    rw [Nat.zero_add]
    exact h k hk
  · intro hw hnone
    have hfail : (reset_wait env.reset_ready P.BHY_RESET_WAIT_RETRY 0).1 ≤ 0 := by
      by_contra hc
      obtain ⟨k, hk, hr⟩ := hpass.mp (by omega)
      rw [hnone k hk] at hr
      exact absurd hr (by decide)
    unfold bhy_load_ram_patch
    dsimp only
    rw [if_neg (by omega), if_pos hfail]
    split_ifs <;> rfl
  · intro hw hsome
    exact bhy_load_ram_patch_ops P sync_sensor env cd hw (hpass.mpr hsome)

theorem reset_wait_needs_early_ready_witness :
    late_ready_env.reset_ready 2 = true
      ∧ bhy_load_ram_patch sample_host_consts id late_ready_env sample_state
          = ⟨- EIO, { sample_state with reset_flag := RESET_FLAG_ERROR },
              [bus_op.write BHY_REG_RESET_REQ [1]]⟩
      ∧ ∃ rest, (bhy_load_ram_patch sample_host_consts id sample_patch_env sample_state).ops
          = [bus_op.write BHY_REG_RESET_REQ [1], bus_op.write BHY_REG_UPLOAD_ADDR_0 [0, 0]]
              ++ rest :=
  ⟨by decide,
    (reset_wait_needs_early_ready sample_host_consts id late_ready_env sample_state).2.2.1
      (by decide) (fun k hk => by
        have h2 : k < 2 := by
          have : sample_host_consts.BHY_RESET_WAIT_RETRY = 3 := rfl
          omega
        show decide (2 ≤ k) = false
        exact decide_eq_false (by omega)),
    (reset_wait_needs_early_ready sample_host_consts id sample_patch_env sample_state).2.2.2
      (by decide) ⟨0, by decide, rfl⟩⟩

/-! ## The state after process_pedometer -/

theorem pedometer_mask_keeps (H : bhy_consts) (F : Nat) (c : bhy_client_data)
    (h1 : H.LOGGING_DONE &&& F = 0) (h2 : H.NEW_STEP &&& F = 0) :
    (pedometer_new_step H (pedometer_logging_done H c)).interrupt_mask &&& F
      = c.interrupt_mask &&& F := by
  have a : (pedometer_logging_done H c).interrupt_mask &&& F = c.interrupt_mask &&& F := by
    unfold pedometer_logging_done
    split_ifs
    · simp [Nat.and_distrib_right, h1]
    · rfl
  have b : ∀ c : bhy_client_data,
      (pedometer_new_step H c).interrupt_mask &&& F = c.interrupt_mask &&& F := by
    intro c
    unfold pedometer_new_step
    split_ifs
    · simp [Nat.and_distrib_right, h2]
    · rfl
  rw [b, a]

theorem pedometer_walk_sync (H : bhy_consts) (c : bhy_client_data) :
    (pedometer_stop_walk H (pedometer_start_walk H c)).last_walk_mode
        = (pedometer_stop_walk H (pedometer_start_walk H c)).walk_mode
      ∧ (pedometer_stop_walk H (pedometer_start_walk H c)).walk_mode = c.walk_mode
      ∧ (pedometer_stop_walk H (pedometer_start_walk H c)).total_step = c.total_step
      ∧ (pedometer_stop_walk H (pedometer_start_walk H c)).last_total_step
          = c.last_total_step := by
  unfold pedometer_stop_walk pedometer_start_walk
  cases hl : c.last_walk_mode <;> cases hw : c.walk_mode <;> simp [hl, hw]

theorem pedometer_walk_masks (H : bhy_consts) (c : bhy_client_data)
    (h3 : H.STOP_WALK &&& H.START_WALK = 0) (hs : c.interrupt_mask &&& H.START_WALK = 0)
    (ht : c.interrupt_mask &&& H.STOP_WALK = 0) :
    (pedometer_stop_walk H (pedometer_start_walk H c)).interrupt_mask &&& H.START_WALK = 0
      ∨ (pedometer_stop_walk H (pedometer_start_walk H c)).interrupt_mask &&& H.STOP_WALK
          = 0 := by
  have h3' : H.START_WALK &&& H.STOP_WALK = 0 := by rw [Nat.and_comm]; exact h3
  unfold pedometer_stop_walk pedometer_start_walk
  cases hl : c.last_walk_mode <;> cases hw : c.walk_mode <;>
    simp [hl, hw, Nat.and_distrib_right, hs, ht, h3, h3']

theorem pedometer_total_sync (H : bhy_consts) (c : bhy_client_data) :
    (pedometer_new_step H c).last_total_step = (pedometer_new_step H c).total_step
      ∧ (pedometer_new_step H c).total_step = c.total_step := by
  unfold pedometer_new_step
  split_ifs with h
  · exact ⟨rfl, rfl⟩
  · exact ⟨not_not.mp h, rfl⟩

/-- Claim C28: after process_pedometer, for every prior state and every record,
last_walk_mode equals walk_mode and last_total_step equals total_step; and, START_WALK and
STOP_WALK being bits of their own, the interrupt mask does not have both set. -/
theorem process_pedometer_syncs_last (H : bhy_consts) (cd : bhy_client_data)
    (data : List Nat) :
    (process_pedometer H cd data).last_walk_mode = (process_pedometer H cd data).walk_mode
      ∧ (process_pedometer H cd data).last_total_step
          = (process_pedometer H cd data).total_step
      ∧ (walk_bits_apart H →
          ¬ (flag_set (process_pedometer H cd data).interrupt_mask H.START_WALK
            ∧ flag_set (process_pedometer H cd data).interrupt_mask H.STOP_WALK)) := by
  unfold process_pedometer
  dsimp only
  generalize hc0 : ({ pedometer_record cd (H.pedometer_of_bytes data) with
    interrupt_mask := 0 } : bhy_client_data) = c0
  have hm : c0.interrupt_mask = 0 := by rw [← hc0]
  obtain ⟨w1, _, w3, w4⟩ := pedometer_walk_sync H
    (pedometer_new_step H (pedometer_logging_done H c0))
  obtain ⟨t1, _⟩ := pedometer_total_sync H (pedometer_logging_done H c0)
  refine ⟨w1, ?_, ?_⟩
  · rw [w3, w4]; exact t1
  · rintro ⟨b1, b2, b3, b4, b5⟩ ⟨f1, f2⟩
    have ks := pedometer_mask_keeps H H.START_WALK c0 b1 b2
    have kt := pedometer_mask_keeps H H.STOP_WALK c0 b4 b5
    rw [hm, Nat.zero_and] at ks kt
    rcases pedometer_walk_masks H _ b3 ks kt with z | z
    · exact f1 z
    · exact f2 z

theorem process_pedometer_syncs_last_witness :
    walk_bits_apart sample_consts
      ∧ ¬ (flag_set (process_pedometer sample_consts sample_state [0, 5, 0, 1, 0, 0]).interrupt_mask
            sample_consts.START_WALK
          ∧ flag_set (process_pedometer sample_consts sample_state [0, 5, 0, 1, 0, 0]).interrupt_mask
            sample_consts.STOP_WALK) :=
  ⟨by decide,
    (process_pedometer_syncs_last sample_consts sample_state [0, 5, 0, 1, 0, 0]).2.2
      (by decide)⟩

/-! ## Synthetic step frames -/

theorem generate_step_det_cases (H : bhy_consts) (c : bhy_client_data) :
    ((c.step_det_enabled = true ∧ c.step_det = true ∧ c.step_det_reported = false) →
        ∀ q, q = queue_advance H.BHY_FRAME_SIZE (set_head_slot c.data_queue
            { head_slot c.data_queue with handle := H.BHY_SENSOR_HANDLE_STEP_DETECTOR }) →
          generate_step_det H c
            = { c with data_queue := q, step_det := false, step_det_reported := true })
      ∧ (¬ (c.step_det_enabled = true ∧ c.step_det = true ∧ c.step_det_reported = false) →
        generate_step_det H c = c) := by
  unfold generate_step_det
  cases he : c.step_det_enabled <;> cases hd : c.step_det <;> cases hr : c.step_det_reported <;>
    simp [he, hd, hr]

theorem generate_step_cnt_cases (H : bhy_consts) (c : bhy_client_data) :
    ((c.step_cnt_enabled = true ∧ c.step_count ≠ c.last_step_count) →
        ∀ q, q = queue_push H.BHY_FRAME_SIZE c.data_queue H.BHY_SENSOR_HANDLE_STEP_COUNTER
            (le_bytes c.step_count H.BHY_SENSOR_DATA_LEN_STEP_COUNTER) →
          generate_step_cnt H c = { c with data_queue := q, last_step_count := c.step_count })
      ∧ (¬ (c.step_cnt_enabled = true ∧ c.step_count ≠ c.last_step_count) →
        generate_step_cnt H c = c) := by
  unfold generate_step_cnt
  constructor
  · rintro ⟨h1, h2⟩ q hq
    rw [if_pos h1, if_neg (fun e => h2 e.symm), hq]
  · intro h
    by_cases h1 : c.step_cnt_enabled = true
    · have h2 : c.last_step_count = c.step_count := by
        by_contra hne
        exact h ⟨h1, fun e => hne e.symm⟩
      rw [if_pos h1, if_pos h2]
    · rw [if_neg h1]

theorem generate_step_cnt_keeps (H : bhy_consts) (c : bhy_client_data) :
    (generate_step_cnt H c).step_det_enabled = c.step_det_enabled
      ∧ (generate_step_cnt H c).step_det = c.step_det
      ∧ (generate_step_cnt H c).step_det_reported = c.step_det_reported
      ∧ (generate_step_cnt H c).step_cnt_enabled = c.step_cnt_enabled
      ∧ (generate_step_cnt H c).step_count = c.step_count
      ∧ (generate_step_cnt H c).fifo_buf = c.fifo_buf := by
  unfold generate_step_cnt
  split_ifs <;> exact ⟨rfl, rfl, rfl, rfl, rfl, rfl⟩

theorem generate_step_det_pushed (H : bhy_consts) (c : bhy_client_data)
    (h : c.step_det_enabled = true ∧ c.step_det = true ∧ c.step_det_reported = false) :
    (generate_step_det H c).step_det = false
      ∧ (generate_step_det H c).step_det_reported = true := by
  rw [(generate_step_det_cases H c).1 h _ rfl]
  exact ⟨rfl, rfl⟩

theorem generate_step_cnt_pushed (H : bhy_consts) (c : bhy_client_data)
    (h : c.step_cnt_enabled = true ∧ c.step_count ≠ c.last_step_count) :
    (generate_step_cnt H c).last_step_count = (generate_step_cnt H c).step_count := by
  rw [(generate_step_cnt_cases H c).1 h _ rfl]

theorem generate_step_data_twice (H : bhy_consts) (c : bhy_client_data) :
    generate_step_data H (generate_step_data H c) = generate_step_data H c := by
  obtain ⟨k1, k2, k3, _, _, _⟩ := generate_step_cnt_keeps H (generate_step_det H c)
  have hdet : generate_step_det H (generate_step_cnt H (generate_step_det H c))
      = generate_step_cnt H (generate_step_det H c) := by
    apply (generate_step_det_cases H _).2
    rw [k1, k2, k3]
    rintro ⟨a1, a2, a3⟩
    by_cases hp : c.step_det_enabled = true ∧ c.step_det = true ∧ c.step_det_reported = false
    · rw [(generate_step_det_pushed H c hp).1] at a2
      exact absurd a2 (by decide)
    · rw [(generate_step_det_cases H c).2 hp] at a1 a2 a3
      exact hp ⟨a1, a2, a3⟩
  unfold generate_step_data
  rw [hdet]
  apply (generate_step_cnt_cases H _).2
  rintro ⟨a1, a2⟩
  by_cases hq : (generate_step_det H c).step_cnt_enabled = true
      ∧ (generate_step_det H c).step_count ≠ (generate_step_det H c).last_step_count
  · exact a2 (generate_step_cnt_pushed H _ hq).symm
  · rw [(generate_step_cnt_cases H _).2 hq] at a1 a2
    exact hq ⟨a1, a2⟩

theorem process_data_reported (H : bhy_consts) (cd : bhy_client_data) (data : List Nat)
    (handle : Nat) :
    (process_data H cd data handle).1.step_det_reported = cd.step_det_reported := by
  have p : (process_pedometer H cd data).step_det_reported = cd.step_det_reported := by
    have a : ∀ (c : bhy_client_data) (d : pedometer_data),
        (pedometer_record c d).step_det_reported = c.step_det_reported := by
      intro c d; unfold pedometer_record; split_ifs <;> rfl
    have b : ∀ c : bhy_client_data,
        (pedometer_logging_done H c).step_det_reported = c.step_det_reported := by
      intro c; unfold pedometer_logging_done; split_ifs <;> rfl
    have c1 : ∀ c : bhy_client_data,
        (pedometer_new_step H c).step_det_reported = c.step_det_reported := by
      intro c; unfold pedometer_new_step; split_ifs <;> rfl
    have d1 : ∀ c : bhy_client_data,
        (pedometer_start_walk H c).step_det_reported = c.step_det_reported := by
      intro c; unfold pedometer_start_walk; split_ifs <;> rfl
    have e1 : ∀ c : bhy_client_data,
        (pedometer_stop_walk H c).step_det_reported = c.step_det_reported := by
      intro c; unfold pedometer_stop_walk; split_ifs <;> rfl
    unfold process_pedometer
    simp only [e1, d1, c1, b, a]
  have s : ∀ c : bhy_client_data,
      (process_step H c data).step_det_reported = c.step_det_reported := by
    intro c
    unfold process_step
    dsimp only
    split_ifs <;> rfl
  unfold process_data
  split_ifs
  · rfl
  · exact (s _).trans p
  · rfl

theorem bhy_read_fifo_store_reported (H : bhy_consts) (j L : Nat) (cd : bhy_client_data) :
    (bhy_read_fifo_store H j L cd).step_det_reported = cd.step_det_reported := by
  unfold bhy_read_fifo_store
  exact process_data_reported H _ _ _

theorem bhy_read_fifo_body_reported (H : bhy_consts) (j L ar : Nat) (cd : bhy_client_data)
    (h : cd.step_det_reported = true
      ∨ (byte_at cd.fifo_buf j = H.PEDOMETER_SENSOR
        ∧ (bhy_read_fifo_store H j L cd).step_det_enabled = true
        ∧ (bhy_read_fifo_store H j L cd).step_det = true
        ∧ (bhy_read_fifo_store H j L cd).step_det_reported = false)) :
    (bhy_read_fifo_body H j L ar cd).step_det_reported = true := by
  have ha : ∀ c : bhy_client_data,
      (bhy_read_fifo_ar H j L ar c).step_det_reported = c.step_det_reported := by
    intro c; unfold bhy_read_fifo_ar; split_ifs <;> rfl
  have hg : ∀ c : bhy_client_data, c.step_det_reported = true →
      (generate_step_data H c).step_det_reported = true := by
    intro c hc
    unfold generate_step_data
    rw [(generate_step_cnt_keeps H _).2.2.1, (generate_step_det_cases H c).2 (by simp [hc])]
    exact hc
  unfold bhy_read_fifo_body
  dsimp only
  rw [ha]
  rcases h with h | ⟨h1, h2⟩
  · have hs := bhy_read_fifo_store_reported H j L cd
    split_ifs
    · exact hg _ (by rw [hs]; exact h)
    · rw [hs]; exact h
  · rw [if_pos h1]
    unfold generate_step_data
    rw [(generate_step_cnt_keeps H _).2.2.1]
    exact (generate_step_det_pushed H _ h2).2

theorem step_det_frames_reported (H : bhy_consts) :
    ∀ (js : List Nat) (cd : bhy_client_data), cd.step_det_reported = true →
      step_det_frames H js cd = 0 := by
  intro js
  induction js with
  | nil => intro cd _; rfl
  | cons j js ih =>
    intro cd h
    unfold step_det_frames
    dsimp only
    have hs := bhy_read_fifo_store_reported H j (payload_len H cd.fifo_buf j) cd
    rw [if_neg (by rw [hs, h]; simp), ih _ (bhy_read_fifo_body_reported H j _ _ cd (Or.inl h))]

theorem step_det_frames_le_one (H : bhy_consts) :
    ∀ (js : List Nat) (cd : bhy_client_data), step_det_frames H js cd ≤ 1 := by
  intro js
  induction js with
  | nil => intro cd; exact Nat.zero_le _
  | cons j js ih =>
    intro cd
    unfold step_det_frames
    dsimp only
    split_ifs with h
    · rw [step_det_frames_reported H js _ (bhy_read_fifo_body_reported H j _ _ cd (Or.inr h))]
    · have := ih (bhy_read_fifo_body H j (payload_len H cd.fifo_buf j)
        (bhy_get_sensor_type_data_len H (byte_at cd.fifo_buf j)).2 cd)
      omega

/-- Claim C29: generate_step_data run twice in a row gives the state of the first run: the
second run pushes no frame and changes nothing.  Its second half pushes a step-counter frame,
carrying the bytes of step_count, exactly when step_cnt_enabled is set and step_count differs
from last_step_count, and then sets last_step_count to step_count; its first half pushes a
step-detector frame exactly when step_det_enabled and step_det are set and step_det_reported is
clear, and then clears step_det and sets step_det_reported; in both cases nothing else changes,
and otherwise the half changes nothing.  While the loop of bhy_read_fifo_data handles any
records, at most one step-detector frame is pushed. -/
theorem generate_step_data_idempotent (H : bhy_consts) (c : bhy_client_data) :
    generate_step_data H (generate_step_data H c) = generate_step_data H c
      ∧ generate_step_data H c = generate_step_cnt H (generate_step_det H c)
      ∧ ((c.step_cnt_enabled = true ∧ c.step_count ≠ c.last_step_count) →
          ∀ q, q = queue_push H.BHY_FRAME_SIZE c.data_queue H.BHY_SENSOR_HANDLE_STEP_COUNTER
              (le_bytes c.step_count H.BHY_SENSOR_DATA_LEN_STEP_COUNTER) →
            generate_step_cnt H c = { c with data_queue := q, last_step_count := c.step_count })
      ∧ (¬ (c.step_cnt_enabled = true ∧ c.step_count ≠ c.last_step_count) →
          generate_step_cnt H c = c)
      ∧ ((c.step_det_enabled = true ∧ c.step_det = true ∧ c.step_det_reported = false) →
          ∀ q, q = queue_advance H.BHY_FRAME_SIZE (set_head_slot c.data_queue
              { head_slot c.data_queue with handle := H.BHY_SENSOR_HANDLE_STEP_DETECTOR }) →
            generate_step_det H c
              = { c with data_queue := q, step_det := false, step_det_reported := true })
      ∧ (¬ (c.step_det_enabled = true ∧ c.step_det = true ∧ c.step_det_reported = false) →
          generate_step_det H c = c)
      ∧ ∀ js, step_det_frames H js c ≤ 1 :=
  ⟨generate_step_data_twice H c, rfl, (generate_step_cnt_cases H c).1,
    (generate_step_cnt_cases H c).2, (generate_step_det_cases H c).1,
    (generate_step_det_cases H c).2, fun js => step_det_frames_le_one H js c⟩

theorem generate_step_data_idempotent_witness :
    (step_scenario_state.step_cnt_enabled = true
        ∧ step_scenario_state.step_count ≠ step_scenario_state.last_step_count)
      ∧ generate_step_cnt sample_consts step_scenario_state
          = { step_scenario_state with
              data_queue := queue_push sample_consts.BHY_FRAME_SIZE step_scenario_state.data_queue
                sample_consts.BHY_SENSOR_HANDLE_STEP_COUNTER
                (le_bytes step_scenario_state.step_count
                  sample_consts.BHY_SENSOR_DATA_LEN_STEP_COUNTER),
              last_step_count := step_scenario_state.step_count }
      ∧ generate_step_data sample_consts (generate_step_data sample_consts step_scenario_state)
          = generate_step_data sample_consts step_scenario_state :=
  ⟨by decide,
    (generate_step_data_idempotent sample_consts step_scenario_state).2.2.1 (by decide) _ rfl,
    (generate_step_data_idempotent sample_consts step_scenario_state).1⟩

theorem step_scenario_run :
    queue_contents (generate_step_data sample_consts step_scenario_state).data_queue
        = [{ handle := 18, data := List.replicate 16 0 },
           { handle := 19, data := [5, 0] ++ List.replicate 14 0 }] := by
  decide

/-! ## The indices of the queues stay inside the arrays -/

theorem queue_ok_set (N : Nat) (q : frame_queue) (f : fifo_frame) (hok : queue_ok N q) :
    queue_ok N (set_head_slot q f) := by
  obtain ⟨hl, hh, ht⟩ := hok
  exact ⟨by simp [set_head_slot, hl], hh, ht⟩

theorem queue_ok_queue_push (N : Nat) (q : frame_queue) (handle : Nat) (bytes : List Nat)
    (hok : queue_ok N q) : queue_ok N (queue_push N q handle bytes) :=
  queue_ok_push N q _ hok

theorem queue_ok_show (N sz : Nat) (q : frame_queue) (hok : queue_ok N q) :
    queue_ok N (show_frame N sz q).q := by
  by_cases e : q.tail = q.head
  · have : (show_frame N sz q).q = q := by simp [show_frame, e]
    rw [this]; exact hok
  · exact ((contents_show N sz q hok).2 e).2

theorem generate_step_data_queue_ok (H : bhy_consts) (c : bhy_client_data)
    (hok : queue_ok H.BHY_FRAME_SIZE c.data_queue) :
    queue_ok H.BHY_FRAME_SIZE (generate_step_data H c).data_queue := by
  have hd : queue_ok H.BHY_FRAME_SIZE (generate_step_det H c).data_queue := by
    by_cases hp : c.step_det_enabled = true ∧ c.step_det = true ∧ c.step_det_reported = false
    · rw [(generate_step_det_cases H c).1 hp _ rfl]
      exact queue_ok_push _ _ _ hok
    · rw [(generate_step_det_cases H c).2 hp]
      exact hok
  unfold generate_step_data
  by_cases hq : (generate_step_det H c).step_cnt_enabled = true
      ∧ (generate_step_det H c).step_count ≠ (generate_step_det H c).last_step_count
  · rw [(generate_step_cnt_cases H _).1 hq _ rfl]
    exact queue_ok_queue_push _ _ _ _ hd
  · rw [(generate_step_cnt_cases H _).2 hq]
    exact hd

theorem bhy_read_fifo_store_queue_ok (H : bhy_consts) (j L : Nat) (c : bhy_client_data)
    (hok : queue_ok H.BHY_FRAME_SIZE c.data_queue) :
    queue_ok H.BHY_FRAME_SIZE (bhy_read_fifo_store H j L c).data_queue := by
  unfold bhy_read_fifo_store
  dsimp only
  rw [(process_data_frame H _ _ _).2.1]
  exact queue_ok_push _ _ _ (queue_ok_set _ _ _ hok)

theorem bhy_read_fifo_body_queues_ok (H : bhy_consts) (j L ar : Nat) (c : bhy_client_data)
    (hok : queues_ok H c) : queues_ok H (bhy_read_fifo_body H j L ar c) := by
  constructor
  · have hs := bhy_read_fifo_store_queue_ok H j L c hok.1
    unfold bhy_read_fifo_body
    dsimp only
    rw [(bhy_read_fifo_ar_frame H j L ar _).2]
    split_ifs
    · exact generate_step_data_queue_ok H _ hs
    · exact hs
  · rw [bhy_read_fifo_body_ar]
    split_ifs
    · exact queue_ok_queue_push _ _ _ _ hok.2
    · exact hok.2

theorem detect_init_body_queues_ok (H : bhy_consts) (data : List Nat) (j L : Nat)
    (c : bhy_client_data) (hok : queues_ok H c) : queues_ok H (detect_init_body H data j L c) := by
  constructor
  · rw [detect_init_body_queue]
    exact queue_ok_queue_push _ _ _ _ hok.1
  · have e : (detect_init_body H data j L c).data_queue_ar = c.data_queue_ar := by
      unfold detect_init_body
      dsimp only
      split_ifs <;> rfl
    rw [e]; exact hok.2

theorem detect_self_test_body_queues_ok (H : bhy_consts) (data : List Nat) (j L : Nat)
    (st : bhy_client_data × Nat) (hok : queues_ok H st.1) :
    queues_ok H (detect_self_test_body H data j L st).1 := by
  obtain ⟨h1, h2⟩ := hok
  unfold detect_self_test_body
  dsimp only
  split_ifs <;> exact ⟨queue_ok_queue_push _ _ _ _ h1, h2⟩

theorem report_timestamp_sync_queues_ok (H : bhy_consts) (P : bhy_host_consts) (bus : irq_bus)
    (c : bhy_client_data) (hok : queues_ok H c) :
    queues_ok H (report_timestamp_sync H P bus c) := by
  obtain ⟨h1, h2⟩ := hok
  unfold report_timestamp_sync
  dsimp only
  split_ifs <;>
    exact ⟨queue_ok_queue_push _ _ _ _ h1, queue_ok_queue_push _ _ _ _ h2⟩

theorem bhy_store_activate_ar_hal_queues_ok (H : bhy_consts) (P : bhy_host_consts)
    (kstrtol : List Nat → Nat → Option Int) (c : bhy_client_data) (buf : List Nat)
    (count : Nat) (hok : queues_ok H c) :
    queues_ok H (bhy_store_activate_ar_hal H P kstrtol c buf count).cd := by
  unfold bhy_store_activate_ar_hal
  cases kstrtol buf 10 with
  | none => exact hok
  | some req =>
    dsimp only
    split_ifs
    · exact hok
    · exact ⟨hok.1, queue_ok_push _ _ _ hok.2⟩

/-- Claim C23: with capacities of at least one slot, both queues have head and tail below the
capacity, and the capacity's worth of slots, after the set-up of bhy_probe (both indices 0); and
from any state where that holds it holds again after a frame stored by the steady-state decoder
(with its step frames and its activity-recognition copy), by the init scan, by the self-test scan,
by the timestamp-sync producer, by generate_step_data, by bhy_store_activate_ar_hal, and after a
read by bhy_show_fifo_frame or bhy_show_fifo_frame_ar. -/
theorem queue_indices_stay_in_range (H : bhy_consts) (P : bhy_host_consts)
    (hN : 1 ≤ H.BHY_FRAME_SIZE) (hNA : 1 ≤ H.BHY_FRAME_SIZE_AR) :
    (∀ (c : bhy_client_data) (frames frames_ar : List fifo_frame),
        frames.length = H.BHY_FRAME_SIZE → frames_ar.length = H.BHY_FRAME_SIZE_AR →
        queues_ok H (bhy_probe_queues c frames frames_ar)
          ∧ (bhy_probe_queues c frames frames_ar).data_queue.head = 0
          ∧ (bhy_probe_queues c frames frames_ar).data_queue.tail = 0
          ∧ (bhy_probe_queues c frames frames_ar).data_queue_ar.head = 0
          ∧ (bhy_probe_queues c frames frames_ar).data_queue_ar.tail = 0)
    ∧ (∀ c : bhy_client_data, queues_ok H c →
        (∀ j L ar : Nat, queues_ok H (bhy_read_fifo_body H j L ar c))
        ∧ (∀ (data : List Nat) (j L : Nat), queues_ok H (detect_init_body H data j L c))
        ∧ (∀ (data : List Nat) (j L r : Nat),
            queues_ok H (detect_self_test_body H data j L (c, r)).1)
        ∧ (∀ bus : irq_bus, queues_ok H (report_timestamp_sync H P bus c))
        ∧ queues_ok H (generate_step_data H c)
        ∧ (∀ (kstrtol : List Nat → Nat → Option Int) (buf : List Nat) (count : Nat),
            queues_ok H (bhy_store_activate_ar_hal H P kstrtol c buf count).cd)
        ∧ queues_ok H (bhy_show_fifo_frame H c).2
        ∧ queues_ok H (bhy_show_fifo_frame_ar H c).2) := by
  refine ⟨?_, ?_⟩
  · intro c frames frames_ar hf hfa
    exact ⟨⟨⟨hf, hN, hN⟩, ⟨hfa, hNA, hNA⟩⟩, rfl, rfl, rfl, rfl⟩
  · intro c hok
    refine ⟨fun j L ar => bhy_read_fifo_body_queues_ok H j L ar c hok,
      fun data j L => detect_init_body_queues_ok H data j L c hok,
      fun data j L r => detect_self_test_body_queues_ok H data j L (c, r) hok,
      fun bus => report_timestamp_sync_queues_ok H P bus c hok,
      ⟨generate_step_data_queue_ok H c hok.1, ?_⟩,
      fun kstrtol buf count => bhy_store_activate_ar_hal_queues_ok H P kstrtol c buf count hok,
      ⟨queue_ok_show _ _ _ hok.1, hok.2⟩, ⟨hok.1, queue_ok_show _ _ _ hok.2⟩⟩
    rw [(generate_step_data_frame H c).2]
    exact hok.2

theorem queue_indices_stay_in_range_witness :
    queues_ok sample_consts (bhy_probe_queues sample_state sample_state.data_queue.frames
        sample_state.data_queue_ar.frames)
      ∧ queues_ok sample_consts (generate_step_data sample_consts step_scenario_state)
      ∧ queues_ok sample_consts
          (bhy_store_activate_ar_hal sample_consts sample_host_consts sample_kstrtol
            sample_state [49] 1).cd :=
  ⟨((queue_indices_stay_in_range sample_consts sample_host_consts (by decide) (by decide)).1
      sample_state _ _ (by decide) (by decide)).1,
    ((queue_indices_stay_in_range sample_consts sample_host_consts (by decide) (by decide)).2
      step_scenario_state (by decide)).2.2.2.2.1,
    ((queue_indices_stay_in_range sample_consts sample_host_consts (by decide) (by decide)).2
      sample_state (by decide)).2.2.2.2.2.1 sample_kstrtol [49] 1⟩

/-! ## The calibration offsets of the accelerometer -/

theorem acc_axis_value (cal : List Int) (data : List Nat) (i : Nat) :
    ∃ v : Nat, acc_axis cal data i = [v % 256, v / 256]
      ∧ (v : Int) = (axis_value data i - cal.getD i 0) % 65536 := by
  refine ⟨((axis_value data i - cal.getD i 0) % 65536).toNat, rfl, ?_⟩
  exact Int.toNat_of_nonneg (Int.emod_nonneg _ (by decide))

theorem acc_rewrite_axis (cal : List Int) (data : List Nat) (i : Nat) (hi : i < 3) :
    axis_value (memcpy data (acc_axis cal data 0 ++ acc_axis cal data 1 ++ acc_axis cal data 2)) i
      = (axis_value data i - cal.getD i 0) % 65536 := by
  obtain ⟨v0, e0, h0⟩ := acc_axis_value cal data 0
  obtain ⟨v1, e1, h1⟩ := acc_axis_value cal data 1
  obtain ⟨v2, e2, h2⟩ := acc_axis_value cal data 2
  rw [e0, e1, e2]
  have hv : ∀ v : Nat, ((v % 256 : Nat) : Int) + 256 * ((v / 256 : Nat) : Int) = (v : Int) := by
    intro v; omega
  match i, hi with
  | 0, _ => rw [← h0, ← hv v0]; simp [axis_value, memcpy, byte_at]
  | 1, _ => rw [← h1, ← hv v1]; simp [axis_value, memcpy, byte_at]
  | 2, _ => rw [← h2, ← hv v2]; simp [axis_value, memcpy, byte_at]

theorem acc_rewrite_rest (cal : List Int) (data : List Nat) :
    (memcpy data (acc_axis cal data 0 ++ acc_axis cal data 1 ++ acc_axis cal data 2)).drop 6
      = data.drop 6 := by
  simp [memcpy, acc_axis]

theorem axis_value_payload (data rest : List Nat) (j L i : Nat) (hL : 6 ≤ L) (hi : i < 3) :
    axis_value (memcpy rest (bytes_from data (j + 1) L)) i
      = axis_value (bytes_from data (j + 1) L) i := by
  have hb : ∀ k, k < 6 → byte_at (memcpy rest (bytes_from data (j + 1) L)) k
      = byte_at (bytes_from data (j + 1) L) k := by
    intro k hk
    have hlen : k < (bytes_from data (j + 1) L).length := by rw [bytes_from_length]; omega
    unfold memcpy
    rw [byte_at_append_left _ _ _ hlen]
    simp [byte_at, List.getD_eq_getElem?_getD, hlen]
  unfold axis_value
  rw [hb _ (by omega), hb _ (by omega)]

theorem bhy_read_fifo_store_acc (H : bhy_consts) (j L : Nat) (cd : bhy_client_data)
    (hhead : cd.data_queue.head < cd.data_queue.frames.length)
    (hacc : byte_at cd.fifo_buf j = H.BHY_SENSOR_HANDLE_ACCELEROMETER) :
    ∀ data0 data1 : List Nat,
      data0 = memcpy (head_slot cd.data_queue).data (bytes_from cd.fifo_buf (j + 1) L) →
      data1 = memcpy data0 (acc_axis cd.acc_cal data0 0 ++ acc_axis cd.acc_cal data0 1
        ++ acc_axis cd.acc_cal data0 2) →
      (bhy_read_fifo_store H j L cd).data_queue = queue_advance H.BHY_FRAME_SIZE
          (set_head_slot cd.data_queue (fifo_frame.mk H.BHY_SENSOR_HANDLE_ACCELEROMETER data1))
        ∧ (bhy_read_fifo_store H j L cd).acc_buffer = bytes_from data1 0 H.SIZEOF_ACC_BUFFER := by
  intro data0 data1 h0 h1
  unfold bhy_read_fifo_store
  dsimp only
  rw [← h0, hacc]
  have hs : head_slot (set_head_slot cd.data_queue
      (fifo_frame.mk H.BHY_SENSOR_HANDLE_ACCELEROMETER data0))
      = fifo_frame.mk H.BHY_SENSOR_HANDLE_ACCELEROMETER data0 := head_slot_set _ _ hhead
  rw [hs]
  unfold process_data
  dsimp only
  rw [if_pos rfl]
  dsimp only
  rw [hs, set_head_slot_twice, ← h1]
  exact ⟨rfl, rfl⟩

theorem byte_at_bytes_from (data : List Nat) (i len k : Nat) (hk : k < len) :
    byte_at (bytes_from data i len) k = byte_at data (i + k) := by
  simp [bytes_from, byte_at, List.getD_eq_getElem?_getD, hk]

theorem axis_value_bytes_from (data : List Nat) (n i : Nat) (hn : 2 * i + 1 < n) :
    axis_value (bytes_from data 0 n) i = axis_value data i := by
  unfold axis_value
  rw [byte_at_bytes_from _ _ _ _ (by omega), byte_at_bytes_from _ _ _ _ hn]
  simp

theorem bhy_read_fifo_body_acc (H : bhy_consts) (j L ar : Nat) (cd : bhy_client_data)
    (hnp : byte_at cd.fifo_buf j ≠ H.PEDOMETER_SENSOR) :
    (bhy_read_fifo_body H j L ar cd).data_queue = (bhy_read_fifo_store H j L cd).data_queue
      ∧ (bhy_read_fifo_body H j L ar cd).acc_buffer
          = (bhy_read_fifo_store H j L cd).acc_buffer := by
  unfold bhy_read_fifo_body
  dsimp only
  rw [if_neg hnp]
  unfold bhy_read_fifo_ar
  split_ifs <;> exact ⟨rfl, rfl⟩

/-- Claim C24: a pass of the loop body of bhy_read_fifo_data on a record at offset j of the FIFO
buffer, with the head of the main queue inside the array.  For an accelerometer record (whose tag
is not the pedometer tag) with at least the six bytes of the three axes, the slot at the old head
gets the accelerometer handle and data whose three 16-bit axis values are the FIFO axis values
minus acc_cal[0..2] modulo 2^16, the data after the sixth byte being what the copy of the payload
left there; acc_buffer is the first sizeof(acc_buffer) bytes of that data, so it has the same
axis values when it holds six bytes or more.  With all three offsets zero the frame pushed is the
tag and the payload unchanged, and for a tag other than accelerometer and pedometer the frame
pushed is the tag and the payload unchanged. -/
theorem accelerometer_offsets_subtracted (H : bhy_consts) (j L ar : Nat) (cd : bhy_client_data)
    (hhead : cd.data_queue.head < cd.data_queue.frames.length) :
    (byte_at cd.fifo_buf j = H.BHY_SENSOR_HANDLE_ACCELEROMETER →
      H.BHY_SENSOR_HANDLE_ACCELEROMETER ≠ H.PEDOMETER_SENSOR → 6 ≤ L →
      ∃ f : fifo_frame,
        (bhy_read_fifo_body H j L ar cd).data_queue
            = queue_advance H.BHY_FRAME_SIZE (set_head_slot cd.data_queue f)
          ∧ (bhy_read_fifo_body H j L ar cd).data_queue.frames.getD cd.data_queue.head default = f
          ∧ f.handle = H.BHY_SENSOR_HANDLE_ACCELEROMETER
          ∧ (∀ i, i < 3 → axis_value f.data i
              = (axis_value (bytes_from cd.fifo_buf (j + 1) L) i - cd.acc_cal.getD i 0) % 65536)
          ∧ f.data.drop 6
              = (memcpy (head_slot cd.data_queue).data (bytes_from cd.fifo_buf (j + 1) L)).drop 6
          ∧ (bhy_read_fifo_body H j L ar cd).acc_buffer
              = bytes_from f.data 0 H.SIZEOF_ACC_BUFFER
          ∧ (6 ≤ H.SIZEOF_ACC_BUFFER → ∀ i, i < 3 →
              axis_value (bhy_read_fifo_body H j L ar cd).acc_buffer i = axis_value f.data i))
    ∧ (byte_at cd.fifo_buf j = H.BHY_SENSOR_HANDLE_ACCELEROMETER →
        H.BHY_SENSOR_HANDLE_ACCELEROMETER ≠ H.PEDOMETER_SENSOR →
        acc_unchanged cd.acc_cal (bytes_from cd.fifo_buf (j + 1) L) →
        (bhy_read_fifo_body H j L ar cd).data_queue
          = queue_push H.BHY_FRAME_SIZE cd.data_queue (byte_at cd.fifo_buf j)
              (bytes_from cd.fifo_buf (j + 1) L))
    ∧ (byte_at cd.fifo_buf j ≠ H.BHY_SENSOR_HANDLE_ACCELEROMETER →
        byte_at cd.fifo_buf j ≠ H.PEDOMETER_SENSOR →
        (bhy_read_fifo_body H j L ar cd).data_queue
          = queue_push H.BHY_FRAME_SIZE cd.data_queue (byte_at cd.fifo_buf j)
              (bytes_from cd.fifo_buf (j + 1) L)) := by
  refine ⟨?_, ?_, ?_⟩
  · intro hacc hne hL
    have hnp : byte_at cd.fifo_buf j ≠ H.PEDOMETER_SENSOR := by rw [hacc]; exact hne
    obtain ⟨hq, hb⟩ := bhy_read_fifo_body_acc H j L ar cd hnp
    obtain ⟨sq, sb⟩ := bhy_read_fifo_store_acc H j L cd hhead hacc _ _ rfl rfl
    rw [sq] at hq
    rw [sb] at hb
    refine ⟨_, hq, ?_, rfl, ?_, ?_, hb, ?_⟩
    · rw [hq, queue_advance_frames]
      exact head_slot_set _ _ hhead
    · intro i hi
      rw [acc_rewrite_axis _ _ _ hi, axis_value_payload _ _ _ _ _ hL hi]
    · exact acc_rewrite_rest _ _
    · intro hs i hi
      rw [hb]
      exact axis_value_bytes_from _ _ _ (by omega)
  · intro hacc hne hun
    exact (bhy_read_fifo_body_plain H j L ar cd hhead (by rw [hacc]; exact hne)
      (fun _ => hun)).1
  · intro hacc hnp
    exact (bhy_read_fifo_body_plain H j L ar cd hhead hnp (fun h => absurd h hacc)).1

theorem accelerometer_offsets_subtracted_witness :
    (∃ f : fifo_frame,
        (bhy_read_fifo_body sample_consts 0 6 0 cal_scenario_state).data_queue.frames.getD 0 default
            = f
          ∧ axis_value f.data 0 = 4 ∧ axis_value f.data 1 = 2 ∧ axis_value f.data 2 = 65492
          ∧ axis_value (bhy_read_fifo_body sample_consts 0 6 0 cal_scenario_state).acc_buffer 2
              = 65492)
      ∧ (bhy_read_fifo_body sample_consts 0 6 0 acc_scenario_state).data_queue
          = queue_push 4 sample_state.data_queue 1 [5, 0, 0, 0, 0, 0] := by
  obtain ⟨f, -, h2, -, h4, -, -, h7⟩ :=
    (accelerometer_offsets_subtracted sample_consts 0 6 0 cal_scenario_state (by decide)).1
      (by decide) (by decide) (by decide)
  refine ⟨⟨f, h2, ?_, ?_, ?_, ?_⟩, ?_⟩
  · rw [h4 0 (by decide)]; decide
  · rw [h4 1 (by decide)]; decide
  · rw [h4 2 (by decide)]; decide
  · rw [h7 (by decide) 2 (by decide), h4 2 (by decide)]; decide
  · exact (accelerometer_offsets_subtracted sample_consts 0 6 0 acc_scenario_state
      (by decide)).2.1 (by decide) (by decide) (by decide)

/-! ## A FIFO length above the maximum -/

theorem oversized_fifo_rejected_by_scans (H : bhy_consts)
    (bhy_load_ram_patch : bhy_client_data → bhy_client_data) (rd : fifo_read)
    (cd : bhy_client_data) (n : Nat) (hn : rd.bytes_remain = some n)
    (hbig : H.BHY_FIFO_LEN_MAX < n) :
    detect_init_event H rd cd = some cd
      ∧ detect_self_test_event H bhy_load_ram_patch rd cd = some cd := by
  constructor
  · unfold detect_init_event
    rw [hn]
    dsimp only
    rw [if_pos hbig]
  · unfold detect_self_test_event
    rw [hn]
    dsimp only
    rw [if_pos hbig]

/-- Claim C22: detect_init_event and detect_self_test_event turn down a bytes_remain above
BHY_FIFO_LEN_MAX, but bhy_read_fifo_data has no such check.  In the sample, whose
FIFO buffer has the BHY_FIFO_LEN_MAX = 64 bytes that bhy_probe allocates, a drain that declares 65
bytes is turned down by detect_init_event and by detect_self_test_event, while bhy_read_fifo_data
reads all 65 bytes into the FIFO buffer, decodes them and pushes the accelerometer record. -/
theorem oversized_fifo_read_in_steady_state :
    sample_consts.BHY_FIFO_LEN_MAX = 64
      ∧ sample_state.fifo_buf.length = 64
      ∧ oversized_read.bytes_remain = some 65
      ∧ detect_init_event sample_consts oversized_read sample_state = some sample_state
      ∧ detect_self_test_event sample_consts id oversized_read sample_state = some sample_state
      ∧ ∃ cd1, bhy_read_fifo_data sample_consts oversized_read sample_state = some cd1
          ∧ cd1.fifo_buf.length = 65
          ∧ cd1.fifo_buf = [1, 5, 0, 0, 0, 0, 0] ++ List.replicate 58 200
          ∧ cd1.data_queue
              = queue_push 4 sample_state.data_queue 1 [5, 0, 0, 0, 0, 0] := by
  refine ⟨rfl, rfl, rfl, by decide, by decide, _, rfl, rfl, rfl, rfl⟩

/-! ## The length of the upload -/

theorem uploaded_bytes_append (a b : List bus_op) :
    uploaded_bytes (a ++ b) = uploaded_bytes a ++ uploaded_bytes b := by
  induction a with
  | nil => rfl
  | cons x a ih =>
    cases x with
    | read r n => simpa [uploaded_bytes] using ih
    | write r d =>
      by_cases h : r = BHY_REG_UPLOAD_DATA
      · simp [uploaded_bytes, h, ih]
      · simp [uploaded_bytes, h, ih]

theorem upload_loop_wraps (w : Nat → Int) (hw : ∀ k, 0 ≤ w k) (c64 c4 : List Nat)
    (h64 : c64.length = 64) (h4 : c4.length = 4) :
    ∀ (m remain k : Nat) (buf : List Nat), remain = (4 + 64 * m) % 65536 →
      (upload_loop w (List.replicate m (some c64) ++ [some c4]) remain k buf).1 = 0
        ∧ (uploaded_bytes
            (upload_loop w (List.replicate m (some c64) ++ [some c4]) remain k buf).2).length
            = 64 * m + 4 := by
  have l64 : (c64.take 64).length = 64 := by simp [h64]
  have l4 : (c4.take 64).length = 4 := by simp [h4]
  intro m
  induction m with
  | zero =>
    intro remain k buf hr
    have hr4 : remain = 4 := by rw [hr]
    subst hr4
    simp only [List.replicate, List.nil_append]
    unfold upload_loop
    rw [if_pos (by decide)]
    dsimp only
    rw [l4, if_neg (by decide), if_neg (by have := hw k; omega)]
    unfold upload_loop
    dsimp only
    constructor
    · rfl
    · simp [uploaded_bytes, bytes_from_length]
  | succ m ih =>
    intro remain k buf hr
    simp only [List.replicate, List.cons_append]
    unfold upload_loop
    rw [if_pos (by omega)]
    dsimp only
    rw [l64, if_neg (by decide), if_neg (by have := hw k; omega)]
    obtain ⟨i1, i2⟩ := ih ((remain + 65536 - 64) % 65536) (k + 1)
      (swab32_buf (memcpy buf (List.take 64 c64)) 64) (by omega)
    dsimp only
    constructor
    · exact i1
    · simp only [uploaded_bytes, if_true, List.length_append, bytes_from_length, i2]
      omega

theorem bhy_load_ram_patch_uploaded (P : bhy_host_consts)
    (sync_sensor : bhy_client_data → bhy_client_data) (env : ram_patch_env)
    (cd : bhy_client_data) (f : ram_patch_file) (header : ram_patch_header)
    (hf : env.file = some f) (hh : f.header = some header)
    (hret : (bhy_load_ram_patch P sync_sensor env cd).ret = 0) :
    uploaded_bytes (bhy_load_ram_patch P sync_sensor env cd).ops
      = uploaded_bytes
          (upload_loop env.upload_data_write f.reads (header.data_length % 65536) 0
            env.data_buf).2 := by
  obtain ⟨h1, h2, h3, h4, f1, header1, e1, e2, h5, h6, h7, h8, h9, h10⟩ :=
    ((bhy_load_ram_patch_spec P sync_sensor env cd).2.1).mp hret
  rw [hf] at e1
  cases e1
  rw [hh] at e2
  cases e2
  have hu := ((upload_loop_ret env.upload_data_write f.reads (header.data_length % 65536) 0
    env.data_buf).2).mpr h6
  unfold bhy_load_ram_patch
  dsimp only
  rw [if_neg (by omega), if_neg (by omega), if_neg (by omega), if_neg (by omega)]
  unfold ram_patch_upload
  rw [hf]
  dsimp only
  rw [hh]
  dsimp only
  rw [if_neg (by omega), if_neg (by rw [hu]; decide)]
  unfold ram_patch_finish
  dsimp only
  rw [if_neg (by omega), if_neg (by rw [h8]; exact fun h => h rfl), if_neg (by omega),
    if_neg (by omega)]
  simp [uploaded_bytes_append, uploaded_bytes]

/-- Claim C21: the payload loop of bhy_load_ram_patch reads 64 bytes at a time whatever is left of
the declared length, and counts what is left in 16 bits.  On a file whose header declares 4 bytes
and that holds 65540 bytes after the header, with every write accepted and the CRC register
giving the CRC of the header, the loop completes, the function returns 0, and 65540 bytes have
been written to the upload register. -/
theorem upload_wraps_past_declared_length :
    wrap_patch_file.header = some { data_length := 4, crc := 305419896 }
      ∧ (upload_loop wrap_patch_env.upload_data_write wrap_patch_file.reads 4 0
          wrap_patch_env.data_buf).1 = 0
      ∧ (bhy_load_ram_patch sample_host_consts id wrap_patch_env sample_state).ret = 0
      ∧ (uploaded_bytes
          (bhy_load_ram_patch sample_host_consts id wrap_patch_env sample_state).ops).length
          = 65540 := by
  have hloop := upload_loop_wraps wrap_patch_env.upload_data_write (fun _ => Int.le_refl 0)
    (List.replicate 64 7) [1, 2, 3, 4] rfl rfl 1024 4 0 wrap_patch_env.data_buf (by decide)
  have hok := ((upload_loop_ret wrap_patch_env.upload_data_write wrap_patch_file.reads 4 0
    wrap_patch_env.data_buf).2).mp hloop.1
  have hret : (bhy_load_ram_patch sample_host_consts id wrap_patch_env sample_state).ret = 0 :=
    ((bhy_load_ram_patch_spec sample_host_consts id wrap_patch_env sample_state).2.1).mpr
      ⟨by decide, by decide, by decide, by decide, wrap_patch_file, _, rfl, rfl, by decide, hok,
        by decide, rfl, by decide, by decide⟩
  refine ⟨rfl, hloop.1, hret, ?_⟩
  rw [bhy_load_ram_patch_uploaded sample_host_consts id wrap_patch_env sample_state
    wrap_patch_file _ rfl rfl hret]
  exact hloop.2

/-! ## The count of enable_pedometer after a failed write -/

/-- Claim C30: enable_pedometer raises its count before the hardware write and does not take the
raise back when the write fails.  In the sample, from count 0, a first enabling call whose only
hardware write fails returns the negative code of the write and leaves the count at 1; a second
enabling call then raises the count to 2, issues no write and returns 0, although no write that
enables the pedometer has succeeded.  Through bhy_store_sensor_conf the same two calls leave the
step counter marked enabled. -/
theorem enable_pedometer_success_without_write :
    sample_state.pedometer_count = 0
      ∧ enable_pedometer sample_consts sample_host_consts id no_nested_call failing_param_bus
          sample_state true
        = ⟨-5, { sample_state with pedometer_count := 1, sensor_sel := 26 },
            [bus_op.write BHY_REG_LOAD_PARAM_0 [100, 0, 0, 0, 0, 0, 0, 0]]⟩
      ∧ enable_pedometer sample_consts sample_host_consts id no_nested_call (acking_bus 218)
          { sample_state with pedometer_count := 1, sensor_sel := 26 } true
        = ⟨0, { sample_state with pedometer_count := 2, sensor_sel := 26 }, []⟩
      ∧ (bhy_store_sensor_conf sample_consts sample_host_consts id
          (enable_pedometer sample_consts sample_host_consts id no_nested_call failing_param_bus)
          (acking_bus 210) { sample_state with sensor_sel := 18 } [1, 0, 0, 0, 0, 0, 0, 0] 8).ret
          = -5
      ∧ (bhy_store_sensor_conf sample_consts sample_host_consts id
          (enable_pedometer sample_consts sample_host_consts id no_nested_call failing_param_bus)
          (acking_bus 210) { sample_state with sensor_sel := 18 } [1, 0, 0, 0, 0, 0, 0, 0] 8).cd
          = { sample_state with pedometer_count := 1, sensor_sel := 26 }
      ∧ bhy_store_sensor_conf sample_consts sample_host_consts id
          (enable_pedometer sample_consts sample_host_consts id no_nested_call (acking_bus 218))
          (acking_bus 211) { sample_state with pedometer_count := 1, sensor_sel := 19 }
          [1, 0, 0, 0, 0, 0, 0, 0] 8
        = ⟨8, { sample_state with pedometer_count := 2, sensor_sel := 19,
                                  step_cnt_enabled := true },
            [bus_op.write BHY_REG_LOAD_PARAM_0 [1, 0, 0, 0, 0, 0, 0, 0],
              bus_op.write BHY_REG_PARAM_PAGE_SEL [3],
              bus_op.write BHY_REG_PARAM_REQ [211],
              bus_op.read BHY_REG_PARAM_ACK 1,
              bus_op.write BHY_REG_PARAM_PAGE_SEL [0],
              bus_op.write BHY_REG_PARAM_REQ [0]]⟩ := by
  refine ⟨rfl, by decide, by decide, by decide, by decide, by decide⟩

/-! ## The steady-state decoder on accelerometer and pedometer records -/

theorem process_pedometer_enabled (H : bhy_consts) (cd : bhy_client_data) (data : List Nat) :
    (process_pedometer H cd data).acc_cal = cd.acc_cal
      ∧ (process_pedometer H cd data).step_det_enabled = cd.step_det_enabled
      ∧ (process_pedometer H cd data).step_cnt_enabled = cd.step_cnt_enabled := by
  have a : ∀ (c : bhy_client_data) (d : pedometer_data),
      (pedometer_record c d).acc_cal = c.acc_cal
        ∧ (pedometer_record c d).step_det_enabled = c.step_det_enabled
        ∧ (pedometer_record c d).step_cnt_enabled = c.step_cnt_enabled := by
    intro c d; unfold pedometer_record; split_ifs <;> exact ⟨rfl, rfl, rfl⟩
  have b : ∀ c : bhy_client_data,
      (pedometer_logging_done H c).acc_cal = c.acc_cal
        ∧ (pedometer_logging_done H c).step_det_enabled = c.step_det_enabled
        ∧ (pedometer_logging_done H c).step_cnt_enabled = c.step_cnt_enabled := by
    intro c; unfold pedometer_logging_done; split_ifs <;> exact ⟨rfl, rfl, rfl⟩
  have c1 : ∀ c : bhy_client_data,
      (pedometer_new_step H c).acc_cal = c.acc_cal
        ∧ (pedometer_new_step H c).step_det_enabled = c.step_det_enabled
        ∧ (pedometer_new_step H c).step_cnt_enabled = c.step_cnt_enabled := by
    intro c; unfold pedometer_new_step; split_ifs <;> exact ⟨rfl, rfl, rfl⟩
  have d1 : ∀ c : bhy_client_data,
      (pedometer_start_walk H c).acc_cal = c.acc_cal
        ∧ (pedometer_start_walk H c).step_det_enabled = c.step_det_enabled
        ∧ (pedometer_start_walk H c).step_cnt_enabled = c.step_cnt_enabled := by
    intro c; unfold pedometer_start_walk; split_ifs <;> exact ⟨rfl, rfl, rfl⟩
  have e1 : ∀ c : bhy_client_data,
      (pedometer_stop_walk H c).acc_cal = c.acc_cal
        ∧ (pedometer_stop_walk H c).step_det_enabled = c.step_det_enabled
        ∧ (pedometer_stop_walk H c).step_cnt_enabled = c.step_cnt_enabled := by
    intro c; unfold pedometer_stop_walk; split_ifs <;> exact ⟨rfl, rfl, rfl⟩
  unfold process_pedometer
  simp only [e1, d1, c1, b, a, and_self]

theorem process_step_enabled (H : bhy_consts) (cd : bhy_client_data) (data : List Nat) :
    (process_step H cd data).acc_cal = cd.acc_cal
      ∧ (process_step H cd data).step_det_enabled = cd.step_det_enabled
      ∧ (process_step H cd data).step_cnt_enabled = cd.step_cnt_enabled := by
  unfold process_step process_step_finish
  dsimp only
  split_ifs <;> exact ⟨rfl, rfl, rfl⟩

theorem process_data_enabled (H : bhy_consts) (cd : bhy_client_data) (data : List Nat)
    (handle : Nat) :
    (process_data H cd data handle).1.acc_cal = cd.acc_cal
      ∧ (process_data H cd data handle).1.step_det_enabled = cd.step_det_enabled
      ∧ (process_data H cd data handle).1.step_cnt_enabled = cd.step_cnt_enabled := by
  unfold process_data
  split_ifs
  · exact ⟨rfl, rfl, rfl⟩
  · have h1 := process_step_enabled H (process_pedometer H cd data) data
    have h2 := process_pedometer_enabled H cd data
    exact ⟨h1.1.trans h2.1, h1.2.1.trans h2.2.1, h1.2.2.trans h2.2.2⟩
  · exact ⟨rfl, rfl, rfl⟩

theorem bhy_read_fifo_store_enabled (H : bhy_consts) (j L : Nat) (cd : bhy_client_data) :
    (bhy_read_fifo_store H j L cd).acc_cal = cd.acc_cal
      ∧ (bhy_read_fifo_store H j L cd).step_det_enabled = cd.step_det_enabled
      ∧ (bhy_read_fifo_store H j L cd).step_cnt_enabled = cd.step_cnt_enabled := by
  unfold bhy_read_fifo_store
  dsimp only
  exact process_data_enabled H _ _ _

theorem bhy_read_fifo_store_push (H : bhy_consts) (j L : Nat) (cd : bhy_client_data)
    (hhead : cd.data_queue.head < cd.data_queue.frames.length)
    (hacc : byte_at cd.fifo_buf j = H.BHY_SENSOR_HANDLE_ACCELEROMETER →
      acc_unchanged cd.acc_cal (bytes_from cd.fifo_buf (j + 1) L)) :
    (bhy_read_fifo_store H j L cd).data_queue =
      queue_push H.BHY_FRAME_SIZE cd.data_queue (byte_at cd.fifo_buf j)
        (bytes_from cd.fifo_buf (j + 1) L) := by
  by_cases hA : byte_at cd.fifo_buf j = H.BHY_SENSOR_HANDLE_ACCELEROMETER
  · obtain ⟨hc, hl, hb⟩ := hacc hA
    rw [(bhy_read_fifo_store_acc H j L cd hhead hA _ _ rfl rfl).1, hA]
    have hsame : memcpy (memcpy (head_slot cd.data_queue).data (bytes_from cd.fifo_buf (j + 1) L))
        (acc_axis cd.acc_cal
            (memcpy (head_slot cd.data_queue).data (bytes_from cd.fifo_buf (j + 1) L)) 0
          ++ acc_axis cd.acc_cal
            (memcpy (head_slot cd.data_queue).data (bytes_from cd.fifo_buf (j + 1) L)) 1
          ++ acc_axis cd.acc_cal
            (memcpy (head_slot cd.data_queue).data (bytes_from cd.fifo_buf (j + 1) L)) 2)
        = memcpy (head_slot cd.data_queue).data (bytes_from cd.fifo_buf (j + 1) L) := by
      apply acc_rewrite_zero _ _ hc
      · unfold memcpy
        rw [List.length_append]
        omega
      · intro k hk
        unfold memcpy
        rw [byte_at_append_left _ _ _ (by omega)]
        exact hb _ (List.getElem_mem _)
    rw [hsame]
    rfl
  · exact bhy_read_fifo_store_main H j L cd hhead hA

theorem generate_step_data_disabled (H : bhy_consts) (c : bhy_client_data)
    (hdet : c.step_det_enabled = false) (hcnt : c.step_cnt_enabled = false) :
    generate_step_data H c = c := by
  unfold generate_step_data generate_step_det
  rw [hdet]
  unfold generate_step_cnt
  simp [hcnt]

theorem bhy_read_fifo_body_push (H : bhy_consts) (j L ar : Nat) (cd : bhy_client_data)
    (hhead : cd.data_queue.head < cd.data_queue.frames.length)
    (hacc : byte_at cd.fifo_buf j = H.BHY_SENSOR_HANDLE_ACCELEROMETER →
      acc_unchanged cd.acc_cal (bytes_from cd.fifo_buf (j + 1) L))
    (hped : byte_at cd.fifo_buf j = H.PEDOMETER_SENSOR →
      cd.step_det_enabled = false ∧ cd.step_cnt_enabled = false) :
    (bhy_read_fifo_body H j L ar cd).data_queue =
        queue_push H.BHY_FRAME_SIZE cd.data_queue (byte_at cd.fifo_buf j)
          (bytes_from cd.fifo_buf (j + 1) L)
      ∧ (bhy_read_fifo_body H j L ar cd).acc_cal = cd.acc_cal
      ∧ (bhy_read_fifo_body H j L ar cd).step_det_enabled = cd.step_det_enabled
      ∧ (bhy_read_fifo_body H j L ar cd).step_cnt_enabled = cd.step_cnt_enabled := by
  have hq := bhy_read_fifo_store_push H j L cd hhead hacc
  obtain ⟨e1, e2, e3⟩ := bhy_read_fifo_store_enabled H j L cd
  have hstep : (if byte_at cd.fifo_buf j = H.PEDOMETER_SENSOR then
        generate_step_data H (bhy_read_fifo_store H j L cd)
      else bhy_read_fifo_store H j L cd) = bhy_read_fifo_store H j L cd := by
    split_ifs with hp
    · exact generate_step_data_disabled H _ (by rw [e2]; exact (hped hp).1)
        (by rw [e3]; exact (hped hp).2)
    · rfl
  unfold bhy_read_fifo_body
  dsimp only
  rw [hstep]
  unfold bhy_read_fifo_ar
  split_ifs <;> exact ⟨hq, e1, e2, e3⟩

theorem steady_fold_push (H : bhy_consts) (data : List Nat) (cal : List Int) (det cnt : Bool) :
    ∀ (js : List Nat) (cd : bhy_client_data), cd.fifo_buf = data → cd.acc_cal = cal →
      cd.step_det_enabled = det → cd.step_cnt_enabled = cnt →
      queue_ok H.BHY_FRAME_SIZE cd.data_queue →
      (∀ j ∈ js,
        (byte_at data j = H.BHY_SENSOR_HANDLE_ACCELEROMETER →
            acc_unchanged cal (bytes_from data (j + 1) (payload_len H data j)))
        ∧ (byte_at data j = H.PEDOMETER_SENSOR → det = false ∧ cnt = false)) →
      (js.foldl (fun cd j => bhy_read_fifo_body H j (payload_len H data j)
          (bhy_get_sensor_type_data_len H (byte_at data j)).2 cd) cd).data_queue
        = push_all H.BHY_FRAME_SIZE cd.data_queue (js.map (record_at H data)) := by
  intro js
  induction js with
  | nil => intro cd _ _ _ _ _ _; rfl
  | cons j js ih =>
    intro cd hbuf hcal hdet hcnt hok hplain
    have hj := hplain j (List.mem_cons_self _ _)
    obtain ⟨h1, h2, h3, h4⟩ := bhy_read_fifo_body_push H j (payload_len H data j)
      (bhy_get_sensor_type_data_len H (byte_at data j)).2 cd (by rw [hok.1]; exact hok.2.1)
      (by rw [hbuf, hcal]; exact hj.1) (by rw [hbuf, hdet, hcnt]; exact hj.2)
    simp only [List.foldl_cons, List.map_cons, push_all]
    rw [ih _ (by rw [bhy_read_fifo_body_fifo_buf]; exact hbuf) (by rw [h2]; exact hcal)
      (by rw [h3]; exact hdet) (by rw [h4]; exact hcnt)
      (by rw [h1]; exact queue_ok_push _ _ _ hok)
      (fun k hk => hplain k (List.mem_cons_of_mem _ hk)), h1, hbuf]
    rfl

/-- Claim C4, as the code has it: for every buffer and every declared length the loop of
detect_init_event ends and has pushed to the main queue, in order, exactly the records of the
maximal prefix of well-formed records, each with its tag as handle and its L payload bytes as
data.  The loop of bhy_read_fifo_data does the same on a buffer whose well-formed prefix has no
step-detector or step-counter record, whose accelerometer records, if any, meet zero calibration
offsets, and whose pedometer records, if any, meet a step detector and a step counter that are
both disabled. -/
theorem decode_emits_prefix_records (H : bhy_consts) (data : List Nat) (bytes_remain : Nat)
    (cd : bhy_client_data) :
    (∃ cd1, detect_init_loop H data bytes_remain (bytes_remain + 1) 0 cd = some cd1
        ∧ cd1.data_queue = push_all H.BHY_FRAME_SIZE cd.data_queue
            (well_formed_records H data bytes_remain))
      ∧ (distinct_case_labels H → queue_ok H.BHY_FRAME_SIZE cd.data_queue →
          (∀ r ∈ well_formed_records H cd.fifo_buf bytes_remain,
            r.handle ≠ H.BHY_SENSOR_HANDLE_STEP_DETECTOR
              ∧ r.handle ≠ H.BHY_SENSOR_HANDLE_STEP_COUNTER
              ∧ (r.handle = H.BHY_SENSOR_HANDLE_ACCELEROMETER →
                  acc_unchanged cd.acc_cal r.data)
              ∧ (r.handle = H.PEDOMETER_SENSOR →
                  cd.step_det_enabled = false ∧ cd.step_cnt_enabled = false)) →
          ∃ cd1, bhy_read_fifo_loop H bytes_remain (bytes_remain + 1) 0 cd = some cd1
            ∧ cd1.data_queue = push_all H.BHY_FRAME_SIZE cd.data_queue
                (well_formed_records H cd.fifo_buf bytes_remain)) := by
  constructor
  · refine ⟨_, detect_init_loop_fold H data bytes_remain _ 0 cd (by omega), ?_⟩
    exact detect_init_fold_queue H data _ cd
  · intro hd hok hplain
    have hdet : 0 ≤ (bhy_get_sensor_type_data_len H H.BHY_SENSOR_HANDLE_STEP_DETECTOR).1 := by
      rw [data_len_step_detector H hd]; exact Int.natCast_nonneg _
    have hcnt : 0 ≤ (bhy_get_sensor_type_data_len H H.BHY_SENSOR_HANDLE_STEP_COUNTER).1 := by
      rw [data_len_step_counter H hd]; exact Int.natCast_nonneg _
    have hrec : ∀ j ∈ well_formed_offsets H cd.fifo_buf bytes_remain,
        record_at H cd.fifo_buf j ∈ well_formed_records H cd.fifo_buf bytes_remain :=
      fun j hj => List.mem_map_of_mem _ hj
    have hoff : steady_offsets H cd.fifo_buf bytes_remain (bytes_remain + 1) 0
        = well_formed_offsets H cd.fifo_buf bytes_remain :=
      steady_offsets_eq_record_offsets H cd.fifo_buf bytes_remain hdet hcnt _ 0 (by omega)
        (fun j hj => ⟨(hplain _ (hrec j hj)).1, (hplain _ (hrec j hj)).2.1⟩)
    refine ⟨_, bhy_read_fifo_loop_fold H cd.fifo_buf bytes_remain hdet hcnt _ 0 cd (by omega) rfl,
      ?_⟩
    rw [hoff]
    exact steady_fold_push H cd.fifo_buf cd.acc_cal cd.step_det_enabled cd.step_cnt_enabled _ cd
      rfl rfl rfl rfl hok
      (fun j hj => ⟨(hplain _ (hrec j hj)).2.2.1, (hplain _ (hrec j hj)).2.2.2⟩)

/-- Claim C4, counterexample: three runs of the loop of bhy_read_fifo_data on buffers that have
no step-detector or step-counter tag.  With the calibration offset 1 on the first axis, the
buffer [accelerometer tag, 5, 0, 0, 0, 0, 0, unknown tag] stores the data 4, 0, 0, 0, 0, 0 and not
the payload.  With the step counter enabled, the buffer of one pedometer record and an unknown
tag stores the pedometer frame and then a step-counter frame that is no record of the buffer;
with the step detector enabled it stores the pedometer frame and then a step-detector frame. -/
theorem steady_decoder_stores_other_frames :
    ((∀ r ∈ well_formed_records sample_consts [1, 5, 0, 0, 0, 0, 0, 200] 8,
        r.handle ≠ sample_consts.BHY_SENSOR_HANDLE_STEP_DETECTOR
          ∧ r.handle ≠ sample_consts.BHY_SENSOR_HANDLE_STEP_COUNTER)
      ∧ ∃ cd1, bhy_read_fifo_loop sample_consts 8 9 0
            { sample_state with acc_cal := [1, 0, 0], fifo_buf := [1, 5, 0, 0, 0, 0, 0, 200] }
            = some cd1
          ∧ (cd1.data_queue.frames.getD 0 default).data.take 6 = [4, 0, 0, 0, 0, 0]
          ∧ cd1.data_queue ≠ push_all sample_consts.BHY_FRAME_SIZE sample_state.data_queue
              (well_formed_records sample_consts [1, 5, 0, 0, 0, 0, 0, 200] 8))
      ∧ well_formed_records sample_consts pedometer_scenario_buf 14
          = [{ handle := 26, data := [0, 5, 0, 1, 0, 0, 0, 0, 0, 0, 0, 0] }]
      ∧ (∃ cd1, bhy_read_fifo_loop sample_consts 14 15 0
            { pedometer_scenario_state with step_cnt_enabled := true } = some cd1
          ∧ queue_contents cd1.data_queue
              = [{ handle := 26, data := [0, 5, 0, 1, 0, 0, 0, 0, 0, 0, 0, 0, 0, 0, 0, 0] },
                 { handle := 19, data := [1, 0, 0, 0, 0, 0, 0, 0, 0, 0, 0, 0, 0, 0, 0, 0] }]
          ∧ cd1.data_queue ≠ push_all sample_consts.BHY_FRAME_SIZE sample_state.data_queue
              (well_formed_records sample_consts pedometer_scenario_buf 14))
      ∧ ∃ cd1, bhy_read_fifo_loop sample_consts 14 15 0
            { pedometer_scenario_state with step_det_enabled := true } = some cd1
          ∧ queue_contents cd1.data_queue
              = [{ handle := 26, data := [0, 5, 0, 1, 0, 0, 0, 0, 0, 0, 0, 0, 0, 0, 0, 0] },
                 { handle := 18, data := [0, 0, 0, 0, 0, 0, 0, 0, 0, 0, 0, 0, 0, 0, 0, 0] }]
          ∧ cd1.data_queue ≠ push_all sample_consts.BHY_FRAME_SIZE sample_state.data_queue
              (well_formed_records sample_consts pedometer_scenario_buf 14) := by
  refine ⟨⟨by decide, _, rfl, by decide, by decide⟩, by decide, ⟨_, rfl, by decide, by decide⟩,
    ⟨_, rfl, by decide, by decide⟩⟩

theorem decode_emits_prefix_records_witness :
    (∃ cd1, detect_init_loop sample_consts acc_scenario_buf 8 9 0 acc_scenario_state = some cd1
        ∧ cd1.data_queue = push_all sample_consts.BHY_FRAME_SIZE sample_state.data_queue
            [{ handle := 1, data := [5, 0, 0, 0, 0, 0] }])
      ∧ (∃ cd1, bhy_read_fifo_loop sample_consts 8 9 0 acc_scenario_state = some cd1
        ∧ cd1.data_queue = push_all sample_consts.BHY_FRAME_SIZE sample_state.data_queue
            [{ handle := 1, data := [5, 0, 0, 0, 0, 0] }])
      ∧ ∃ cd1, bhy_read_fifo_loop sample_consts 14 15 0 pedometer_scenario_state = some cd1
        ∧ cd1.data_queue = push_all sample_consts.BHY_FRAME_SIZE sample_state.data_queue
            [{ handle := 26, data := [0, 5, 0, 1, 0, 0, 0, 0, 0, 0, 0, 0] }] :=
  ⟨(decode_emits_prefix_records sample_consts acc_scenario_buf 8 acc_scenario_state).1,
    (decode_emits_prefix_records sample_consts acc_scenario_buf 8 acc_scenario_state).2
      sample_consts_distinct (by decide) (by decide),
    (decode_emits_prefix_records sample_consts pedometer_scenario_buf 14
      pedometer_scenario_state).2 sample_consts_distinct (by decide) (by decide)⟩

end Bhy
